import Mathlib

/-!
# Device selection, initialisation, swapchain rebuild and frame loop of the Vulkan renderer

A shallow embedding of `src/RenderDeviceManager.cpp` (the `RenderDevice` queries,
`RateDevice`, `GuessBestDevice`, `InitDevices`), of `src/Renderer.cpp` (the initialisation
steps, `Init`, `DestroySwapChain`, `ResetSwapChain`, `DrawFrame`, the destructor) and of
`src/Window.cpp`, `src/Game.cpp` and `src/Main.cpp`.

Conventions of the embedding.

* `unsigned` and `uint32_t` values are natural numbers, arithmetic on them is reduced
  modulo `2 ^ 32` where the source does arithmetic.
* `int` results are integers; the conversion `unsigned -> int` is `unsignedToInt`.
* A pointer into `_devices` is the position of the device in the list, `nullptr` is `none`.
* A read outside a `std::vector` has no defined result: functions that can perform one
  return `Option`, and `none` stands for that read.
* The object behind `_device_properties` is part of the value of a `RenderDevice`. Its
  lifetime is followed in the manager: `_devices_capacity` is the capacity of the vector
  `_devices`, and `_devices_dangling` counts the leading elements whose
  `_device_properties` points to a deleted object, left behind by a reallocation of the
  vector. `InitDevices` has no defined result when such an object is read or deleted again.
* A member function of `Renderer` or `Window` is a function of the world (members and
  platform) that returns its value, the world afterwards and the calls it issued. The
  platform answers every fallible call from a list of results fixed in the world; when the
  list is used up it answers `VK_SUCCESS`.
* Inside such a function an access outside a vector, or another operation without defined
  behaviour, sets the flag `undefinedAccess` of the world and the function goes on with a
  stand-in value (`0` for a handle).
-/

set_option autoImplicit false

namespace VulkanRenderer

/-! ## Constants of the Vulkan headers -/

/-- Value of `VK_QUEUE_GRAPHICS_BIT` (`0x00000001`) in the Vulkan headers. -/
def VK_QUEUE_GRAPHICS_BIT : Nat := 1

/-- Value of `VK_PHYSICAL_DEVICE_TYPE_DISCRETE_GPU` in the Vulkan headers. -/
def VK_PHYSICAL_DEVICE_TYPE_DISCRETE_GPU : Nat := 2

/-- Value of `VK_PHYSICAL_DEVICE_TYPE_INTEGRATED_GPU` in the Vulkan headers. -/
def VK_PHYSICAL_DEVICE_TYPE_INTEGRATED_GPU : Nat := 1

/-- Name behind `VK_KHR_SWAPCHAIN_EXTENSION_NAME`, the only entry of
`Renderer::_vk_required_extenstions`. -/
def VK_KHR_SWAPCHAIN_EXTENSION_NAME : String := "VK_KHR_swapchain"

/-! ## Machine integers -/

/-- The conversion `unsigned -> int` for 32-bit two's complement integers. -/
def unsignedToInt (u : Nat) : Int :=
  if u % 2 ^ 32 < 2 ^ 31 then ((u % 2 ^ 32 : Nat) : Int)
  else ((u % 2 ^ 32 : Nat) : Int) - 2 ^ 32

/-! ## Data model (`RenderDeviceManager.hpp`) -/

/-- The struct `QueueProperties`. -/
structure QueueProperties where
  id : Nat
  flags : Nat
  presentation_support : Bool
deriving DecidableEq, Repr

/-- The members of `RenderDevice` that the selection logic reads: `deviceType` and
`maxImageDimension2D` stand for `_device_properties->deviceType` and
`_device_properties->limits.maxImageDimension2D`, an extension is represented by its
`extensionName`. -/
structure RenderDevice where
  deviceType : Nat
  maxImageDimension2D : Nat
  _queue_proprties : List QueueProperties
  _device_extensions : List String
deriving DecidableEq, Repr

/-- What the platform reports for one adapter: per queue family its `queueFlags` and the
answer of `vkGetPhysicalDeviceSurfaceSupportKHR`, the device type, the limit
`maxImageDimension2D` and the advertised extension names. -/
structure PhysicalDevice where
  queueFamilies : List (Nat × Bool)
  deviceType : Nat
  maxImageDimension2D : Nat
  extensions : List String
deriving DecidableEq, Repr

/-- The members of `RenderDeviceManager`; `requiredExtensions` is what
`_parent->GetRequiredExtensions()` returns. The vector `_devices` comes with its capacity
`_devices_capacity` and with `_devices_dangling`, the number of its leading elements whose
pointer `_device_properties` dangles: `RenderDevice` deletes the object in its destructor and
has no copy constructor of its own, so the copy that a reallocation of the vector makes of
an element shares the pointer with the original, which is destroyed. -/
structure RenderDeviceManager where
  _current_device : Option Nat
  _devices : List RenderDevice
  requiredExtensions : List String
  _devices_capacity : Nat
  _devices_dangling : Nat
deriving DecidableEq, Repr

/-! ## `RenderDevice` -/

/-- The loop of the constructor that fills `_queue_proprties`: family number `i` gets
id `i`, counting from `i`. -/
def enumerateQueues : List (Nat × Bool) → Nat → List QueueProperties
  | [], _ => []
  | (queueFlags, presentSupport) :: rest, i =>
      { id := i, flags := queueFlags, presentation_support := presentSupport }
        :: enumerateQueues rest (i + 1)

/-- The constructor `RenderDevice::RenderDevice`. -/
def RenderDevice.construct (pd : PhysicalDevice) : RenderDevice :=
  { deviceType := pd.deviceType
    maxImageDimension2D := pd.maxImageDimension2D
    _queue_proprties := enumerateQueues pd.queueFamilies 0
    _device_extensions := pd.extensions }

/-- The loop of `RenderDevice::SupportsOperation`. -/
def supportsOperationLoop (operation : Nat) : List QueueProperties → Bool
  | [] => false
  | p :: rest => if p.flags &&& operation ≠ 0 then true else supportsOperationLoop operation rest

/-- The method `RenderDevice::SupportsOperation`. -/
def RenderDevice.SupportsOperation (d : RenderDevice) (operation : Nat) : Bool :=
  supportsOperationLoop operation d._queue_proprties

/-- The loop of `RenderDevice::GetOperationQueueIndex`, `-1` when it runs off the end. -/
def operationQueueLoop (operation : Nat) : List QueueProperties → Int
  | [] => -1
  | p :: rest =>
      if p.flags &&& operation ≠ 0 then unsignedToInt p.id else operationQueueLoop operation rest

/-- The method `RenderDevice::GetOperationQueueIndex`. -/
def RenderDevice.GetOperationQueueIndex (d : RenderDevice) (operation : Nat) : Int :=
  operationQueueLoop operation d._queue_proprties

/-- The second loop of `RenderDevice::GetPresentQueueIndex`, `-1` when it runs off the end. -/
def presentQueueLoop : List QueueProperties → Int
  | [] => -1
  | p :: rest => if p.presentation_support then unsignedToInt p.id else presentQueueLoop rest

/-- The read `_queue_proprties[q]` for an `int q`: `none` outside the vector. -/
def vectorAt (qs : List QueueProperties) (q : Int) : Option QueueProperties :=
  if 0 ≤ q then qs.get? q.toNat else none

/-- The method `RenderDevice::GetPresentQueueIndex`. -/
def RenderDevice.GetPresentQueueIndex (d : RenderDevice) : Option Int :=
  let q := d.GetOperationQueueIndex VK_QUEUE_GRAPHICS_BIT
  if q ≠ -1 then
    match vectorAt d._queue_proprties q with
    | none => none
    | some p => if p.presentation_support then some q else some (presentQueueLoop d._queue_proprties)
  else some (presentQueueLoop d._queue_proprties)

/-- The method `RenderDevice::DiscreteGPU`. -/
def RenderDevice.DiscreteGPU (d : RenderDevice) : Bool :=
  d.deviceType == VK_PHYSICAL_DEVICE_TYPE_DISCRETE_GPU

/-- The method `RenderDevice::MaxTextureSize`. -/
def RenderDevice.MaxTextureSize (d : RenderDevice) : Nat :=
  d.maxImageDimension2D % 2 ^ 32

/-- The inner loop of `RenderDevice::SupportsRequiredExtensions` for one required name:
`true` when the loop is left by `break` or by running off the end, `false` when it
executes `return false` (the name differs and the element is the last one). -/
def requiredExtensionLoop (re : String) : List String → Bool
  | [] => true
  | ext :: rest =>
      if re = ext then true
      else if rest.isEmpty then false
      else requiredExtensionLoop re rest

/-- The outer loop of `RenderDevice::SupportsRequiredExtensions`. -/
def supportsRequiredExtensionsLoop (device_extensions : List String) : List String → Bool
  | [] => true
  | re :: rest =>
      if requiredExtensionLoop re device_extensions then
        supportsRequiredExtensionsLoop device_extensions rest
      else false

/-- The method `RenderDevice::SupportsRequiredExtensions`. -/
def RenderDevice.SupportsRequiredExtensions (d : RenderDevice)
    (required_extensions : List String) : Bool :=
  supportsRequiredExtensionsLoop d._device_extensions required_extensions

/-! ## `RenderDeviceManager` -/

/-- The method `RenderDeviceManager::RateDevice`, for the required extensions of the parent
renderer. -/
def RateDevice (requiredExtensions : List String) (device : RenderDevice) : Option Nat :=
  if !device.SupportsOperation VK_QUEUE_GRAPHICS_BIT then some 0
  else
    match device.GetPresentQueueIndex with
    | none => none
    | some presentIndex =>
        if presentIndex = -1 then some 0
        else if !device.SupportsRequiredExtensions requiredExtensions then some 0
        else
          let score := 0
          let score := if device.DiscreteGPU then (score + 1000) % 2 ^ 32 else score
          let score := (score + device.MaxTextureSize) % 2 ^ 32
          some score

/-- The loop of `RenderDeviceManager::GuessBestDevice` from position `i` on, with the
current `maxscore` and `bestDevice`. The initialiser `RateDevice(device) > maxscore` is a
`bool` converted to `unsigned`, so `currentscore` is `1` or `0`. -/
def guessBestDeviceLoop (requiredExtensions : List String) :
    List RenderDevice → Nat → Nat → Option Nat → Option (Option Nat)
  | [], _, _, bestDevice => some bestDevice
  | device :: rest, i, maxscore, bestDevice =>
      match RateDevice requiredExtensions device with
      | none => none
      | some rate =>
          let currentscore : Nat := if rate > maxscore then 1 else 0
          if currentscore ≠ 0 then
            guessBestDeviceLoop requiredExtensions rest (i + 1) currentscore (some i)
          else
            guessBestDeviceLoop requiredExtensions rest (i + 1) maxscore bestDevice

/-- The method `RenderDeviceManager::GuessBestDevice`. -/
def GuessBestDevice (requiredExtensions : List String) (devices : List RenderDevice) :
    Option (Option Nat) :=
  guessBestDeviceLoop requiredExtensions devices 0 0 none

/-- The capacity of a `std::vector` after a reallocation that makes room for one more
element: from 0 to 1 and then doubled, as libstdc++ and libc++ do. The C++ standard leaves
the amount to the library; a vector that holds one element in storage for one element, as
here after the first `emplace_back`, has to reallocate for the second. -/
def vectorGrowth (capacity : Nat) : Nat :=
  if capacity = 0 then 1 else 2 * capacity

/-- One `_devices.emplace_back(physicalDevices[i], this)`. With room left, the device is
constructed at the end. Without, the vector reallocates: the elements are copied into the
new storage by the implicit copy constructor of `RenderDevice`, which copies the pointer
`_device_properties`, and the originals are destroyed, which deletes the objects pointed to;
all elements that were in the vector are left with a dangling pointer. When one of them was
such a copy already, its object is deleted a second time, which has no defined behaviour
(`none`). -/
def RenderDeviceManager.emplace_back (m : RenderDeviceManager) (pd : PhysicalDevice) :
    Option RenderDeviceManager :=
  if m._devices.length < m._devices_capacity then
    some { m with _devices := m._devices ++ [RenderDevice.construct pd] }
  else if m._devices_dangling ≠ 0 then none
  else
    some { m with
      _devices := m._devices ++ [RenderDevice.construct pd]
      _devices_capacity := vectorGrowth m._devices_capacity
      _devices_dangling := m._devices.length }

/-- The loop of `RenderDeviceManager::InitDevices` over the enumerated adapters. -/
def emplaceBackLoop (m : RenderDeviceManager) : List PhysicalDevice → Option RenderDeviceManager
  | [] => some m
  | pd :: rest =>
      match m.emplace_back pd with
      | none => none
      | some m1 => emplaceBackLoop m1 rest

/-- `RateDevice(device)` gets as far as `device.DiscreteGPU()` and
`device.MaxTextureSize()`, which read the object behind `_device_properties`: it does not
return at one of the two `return 0` before them. -/
def readsDeviceProperties (requiredExtensions : List String) (device : RenderDevice) : Bool :=
  if !device.SupportsOperation VK_QUEUE_GRAPHICS_BIT then false
  else
    match device.GetPresentQueueIndex with
    | none => false
    | some presentIndex =>
        if presentIndex = -1 then false
        else device.SupportsRequiredExtensions requiredExtensions

/-- The method `RenderDeviceManager::InitDevices`; `platform` is what
`vkEnumeratePhysicalDevices` reports. The result is the returned `bool` and the manager
afterwards; there is none when an `emplace_back` deletes an object twice, when
`GuessBestDevice` rates a device whose `_device_properties` dangles and `RateDevice` reads
through that pointer, or when `GuessBestDevice` reads outside a vector. -/
def RenderDeviceManager.InitDevices (m : RenderDeviceManager) (platform : List PhysicalDevice) :
    Option (Bool × RenderDeviceManager) :=
  if platform.length = 0 then some (false, m)
  else
    match emplaceBackLoop m platform with
    | none => none
    | some m0 =>
        if (m0._devices.take m0._devices_dangling).any
            (readsDeviceProperties m0.requiredExtensions) then none
        else
          match GuessBestDevice m0.requiredExtensions m0._devices with
          | none => none
          | some best =>
              let m1 := { m0 with _current_device := best }
              if best = none then some (false, m1) else some (true, m1)

/-- The manager as its constructor leaves it: no device selected, an empty vector without
storage. -/
def RenderDeviceManager.fresh (requiredExtensions : List String) : RenderDeviceManager :=
  { _current_device := none, _devices := [], requiredExtensions := requiredExtensions
    _devices_capacity := 0, _devices_dangling := 0 }

/-! ## Memory types and swapchain image count -/

/-- The loop of `RenderDevice::GetMemoryTypeIndex` from index `i` on, over the
`propertyFlags` of the memory types `i, i + 1, ...` below `memoryTypeCount`. The array
`memoryTypes` has 32 entries and `1 << i` is a shift of a 32-bit `int`: an iteration with
`32 ≤ i` has no defined result. For `i ≤ 31` the operand `1 << i`, converted to `uint32_t`
by the `&` with `typeFilter`, is `2 ^ i`. -/
def memoryTypeLoop (typeFilter properties : Nat) : List Nat → Nat → Option Int
  | [], _ => some (-1)
  | propertyFlags :: rest, i =>
      if 32 ≤ i then none
      else if typeFilter &&& (1 <<< i) ≠ 0 ∧ propertyFlags &&& properties = properties then
        some (unsignedToInt i)
      else memoryTypeLoop typeFilter properties rest (i + 1)

/-- The method `RenderDevice::GetMemoryTypeIndex`; `memoryTypes` is the answer of
`vkGetPhysicalDeviceMemoryProperties`, one `propertyFlags` per memory type. -/
def GetMemoryTypeIndex (memoryTypes : List Nat) (typeFilter properties : Nat) : Option Int :=
  memoryTypeLoop typeFilter properties memoryTypes 0

/-- The `imageCount` that `Renderer::InitSwapChain` computes from the surface limits and
puts into `createInfo.minImageCount`. -/
def InitSwapChain_imageCount (minImageCount maxImageCount : Nat) : Nat :=
  if maxImageCount > 0 then min ((minImageCount + 1) % 2 ^ 32) maxImageCount
  else (minImageCount + 1) % 2 ^ 32

/-! ## Well-formed queue lists and the vocabulary of the specification -/

/-- The family advertises `operation`: the test `p.flags & operation` of the source. -/
def hasFlag (operation : Nat) (p : QueueProperties) : Bool :=
  decide (p.flags &&& operation ≠ 0)

/-- The family can present to the surface. -/
def canPresent (p : QueueProperties) : Bool :=
  p.presentation_support

/-- The ids of the list are the positions `k, k + 1, ...`. -/
def idsFrom : Nat → List QueueProperties → Bool
  | _, [] => true
  | k, p :: rest => p.id == k && idsFrom (k + 1) rest

/-- The queue list is one the constructor builds: ids equal positions, and the `int`
counter of the constructor has not left its range. -/
def IdsArePositions (qs : List QueueProperties) : Prop :=
  idsFrom 0 qs = true ∧ qs.length < 2 ^ 31

instance (qs : List QueueProperties) : Decidable (IdsArePositions qs) := by
  unfold IdsArePositions; infer_instance


/-- Some queue family of the device advertises graphics. -/
def RenderDevice.hasGraphicsFamily (d : RenderDevice) : Bool :=
  d._queue_proprties.any (hasFlag VK_QUEUE_GRAPHICS_BIT)

/-- Some queue family of the device can present to the surface. -/
def RenderDevice.hasPresentFamily (d : RenderDevice) : Bool :=
  d._queue_proprties.any canPresent

/-- The device as its constructor builds it: `IdsArePositions` for its queue list. -/
def RenderDevice.WellFormed (d : RenderDevice) : Prop :=
  IdsArePositions d._queue_proprties

instance (d : RenderDevice) : Decidable d.WellFormed := by
  unfold RenderDevice.WellFormed; infer_instance

/-- Memory type `i` with flags `propertyFlags` satisfies the request: bit `i` of the
filter is set and every required property bit is among the flags of the type. -/
def MemoryTypeFits (typeFilter properties i propertyFlags : Nat) : Prop :=
  typeFilter.testBit i = true ∧
    ∀ b, properties.testBit b = true → propertyFlags.testBit b = true

/-- The function `clamp(v, lo, hi)` of the specification: `v` limited to the interval from
`lo` to `hi`. -/
def specClamp (v lo hi : Nat) : Nat :=
  if v < lo then lo else if hi < v then hi else v

/-! ## Devices of the end-to-end scenario -/

/-- The required extensions of the renderer (`Renderer::_vk_required_extenstions`). -/
def rendererRequiredExtensions : List String := [VK_KHR_SWAPCHAIN_EXTENSION_NAME]

/-- A discrete adapter: one queue family with graphics and presentation, maximum 2D
texture dimension 16384, the swapchain extension. -/
def discreteAdapter : PhysicalDevice :=
  { queueFamilies := [(VK_QUEUE_GRAPHICS_BIT, true)]
    deviceType := VK_PHYSICAL_DEVICE_TYPE_DISCRETE_GPU
    maxImageDimension2D := 16384
    extensions := [VK_KHR_SWAPCHAIN_EXTENSION_NAME] }

/-- An integrated adapter: as `discreteAdapter`, with maximum 2D texture dimension 8192. -/
def integratedAdapter : PhysicalDevice :=
  { queueFamilies := [(VK_QUEUE_GRAPHICS_BIT, true)]
    deviceType := VK_PHYSICAL_DEVICE_TYPE_INTEGRATED_GPU
    maxImageDimension2D := 8192
    extensions := [VK_KHR_SWAPCHAIN_EXTENSION_NAME] }

/-- The device built from `discreteAdapter`. -/
def discreteDevice : RenderDevice := RenderDevice.construct discreteAdapter

/-- The device built from `integratedAdapter`. -/
def integratedDevice : RenderDevice := RenderDevice.construct integratedAdapter

/-- An adapter that advertises no extension at all. -/
def bareAdapter : PhysicalDevice :=
  { queueFamilies := [(VK_QUEUE_GRAPHICS_BIT, true)]
    deviceType := VK_PHYSICAL_DEVICE_TYPE_DISCRETE_GPU
    maxImageDimension2D := 16384
    extensions := [] }

/-- The device built from `bareAdapter`. -/
def bareDevice : RenderDevice := RenderDevice.construct bareAdapter

/-- A discrete adapter with a large texture limit whose only queue family cannot present. -/
def headlessAdapter : PhysicalDevice :=
  { queueFamilies := [(VK_QUEUE_GRAPHICS_BIT, false)]
    deviceType := VK_PHYSICAL_DEVICE_TYPE_DISCRETE_GPU
    maxImageDimension2D := 32768
    extensions := [VK_KHR_SWAPCHAIN_EXTENSION_NAME] }

/-- The device built from `headlessAdapter`. -/
def headlessDevice : RenderDevice := RenderDevice.construct headlessAdapter

/-- A discrete adapter whose texture limit is the largest 32-bit value. -/
def hugeTextureAdapter : PhysicalDevice :=
  { queueFamilies := [(VK_QUEUE_GRAPHICS_BIT, true)]
    deviceType := VK_PHYSICAL_DEVICE_TYPE_DISCRETE_GPU
    maxImageDimension2D := 4294967295
    extensions := [VK_KHR_SWAPCHAIN_EXTENSION_NAME] }

/-- The device built from `hugeTextureAdapter`. -/
def hugeTextureDevice : RenderDevice := RenderDevice.construct hugeTextureAdapter

/-- An adapter with two graphics families, of which only the second can present. -/
def splitAdapter : PhysicalDevice :=
  { queueFamilies := [(VK_QUEUE_GRAPHICS_BIT, false), (VK_QUEUE_GRAPHICS_BIT, true)]
    deviceType := VK_PHYSICAL_DEVICE_TYPE_DISCRETE_GPU
    maxImageDimension2D := 16384
    extensions := [VK_KHR_SWAPCHAIN_EXTENSION_NAME] }

/-- The device built from `splitAdapter`. -/
def splitDevice : RenderDevice := RenderDevice.construct splitAdapter

/-- An adapter with a compute family that presents, followed by a graphics family that
does not: no family does both. -/
def disjointAdapter : PhysicalDevice :=
  { queueFamilies := [(2, true), (VK_QUEUE_GRAPHICS_BIT, false)]
    deviceType := VK_PHYSICAL_DEVICE_TYPE_DISCRETE_GPU
    maxImageDimension2D := 16384
    extensions := [VK_KHR_SWAPCHAIN_EXTENSION_NAME] }

/-- The device built from `disjointAdapter`. -/
def disjointDevice : RenderDevice := RenderDevice.construct disjointAdapter

/-! ## Swapchain properties of a device (`RenderDeviceManager.hpp`, `RenderDeviceManager.cpp`) -/

/-- Value of `VK_PRESENT_MODE_MAILBOX_KHR` in the Vulkan headers. -/
def VK_PRESENT_MODE_MAILBOX_KHR : Nat := 1

/-- Value of `VK_PRESENT_MODE_FIFO_KHR` in the Vulkan headers. -/
def VK_PRESENT_MODE_FIFO_KHR : Nat := 2

/-- Value of `VK_FORMAT_B8G8R8A8_UNORM` in the Vulkan headers. -/
def VK_FORMAT_B8G8R8A8_UNORM : Nat := 44

/-- Value of `VK_FORMAT_R8G8B8A8_UNORM` in the Vulkan headers. -/
def VK_FORMAT_R8G8B8A8_UNORM : Nat := 37

/-- Value of `VK_COLOR_SPACE_SRGB_NONLINEAR_KHR` in the Vulkan headers. -/
def VK_COLOR_SPACE_SRGB_NONLINEAR_KHR : Nat := 0

/-- The Vulkan struct `VkSurfaceFormatKHR`. -/
structure VkSurfaceFormatKHR where
  format : Nat
  colorSpace : Nat
deriving DecidableEq, Repr

/-- The struct `SwapChainProperties`; of `capabilities` it keeps `minImageCount` and
`maxImageCount`. -/
structure SwapChainProperties where
  minImageCount : Nat
  maxImageCount : Nat
  formats : List VkSurfaceFormatKHR
  present_modes : List Nat
deriving DecidableEq, Repr

/-- The predicate of the `std::find_if` in `RenderDevice::GetPreferredSwapFormat`. -/
def swapFormatMatches (format color_space : Nat) (p : VkSurfaceFormatKHR) : Bool :=
  p.format == format && p.colorSpace == color_space

/-- The method `RenderDevice::GetPreferredSwapFormat` on the `_swapchain_properties` of the
device. The result is the referenced element; `none` is `formats.front()` on an empty
vector, which has no defined result. -/
def GetPreferredSwapFormat (_swapchain_properties : SwapChainProperties)
    (format color_space : Nat) : Option VkSurfaceFormatKHR :=
  match _swapchain_properties.formats.find? (swapFormatMatches format color_space) with
  | some p => some p
  | none => _swapchain_properties.formats.head?

/-- The method `RenderDevice::GetPrefferedSwapMode` on the `_swapchain_properties` of the
device. -/
def GetPrefferedSwapMode (_swapchain_properties : SwapChainProperties) (mode : Nat) : Nat :=
  match _swapchain_properties.present_modes.find? (fun m => m == mode) with
  | some m => m
  | none => VK_PRESENT_MODE_FIFO_KHR

/-! ## The renderer: calls, state and platform (`Renderer.hpp`, `Window.hpp`)

The member functions of `Renderer` are functions of a `World`: the members of the
renderer and of its window, and the answers the platform (Vulkan, GLFW, stb_image) is
going to give. A function returns its value, the world afterwards and the list of calls it
issued, in order. Contents of create-info structures, the swapchain extent and the
enumeration of instance extensions and layers are not part of the model. -/

/-- Value of `VK_SUCCESS`. -/
def VK_SUCCESS : Int := 0

/-- Value of `VK_SUBOPTIMAL_KHR`. -/
def VK_SUBOPTIMAL_KHR : Int := 1000001003

/-- Value of `VK_ERROR_OUT_OF_DATE_KHR`. -/
def VK_ERROR_OUT_OF_DATE_KHR : Int := -1000001004

/-- Value of `VK_ERROR_DEVICE_LOST`. -/
def VK_ERROR_DEVICE_LOST : Int := -4

/-- Value of `VK_MEMORY_PROPERTY_DEVICE_LOCAL_BIT`. -/
def VK_MEMORY_PROPERTY_DEVICE_LOCAL_BIT : Nat := 1

/-- Value of `VK_MEMORY_PROPERTY_HOST_VISIBLE_BIT`. -/
def VK_MEMORY_PROPERTY_HOST_VISIBLE_BIT : Nat := 2

/-- Value of `VK_MEMORY_PROPERTY_HOST_COHERENT_BIT`. -/
def VK_MEMORY_PROPERTY_HOST_COHERENT_BIT : Nat := 4

/-- Value of `VK_IMAGE_LAYOUT_UNDEFINED`. -/
def VK_IMAGE_LAYOUT_UNDEFINED : Nat := 0

/-- Value of `VK_IMAGE_LAYOUT_SHADER_READ_ONLY_OPTIMAL`. -/
def VK_IMAGE_LAYOUT_SHADER_READ_ONLY_OPTIMAL : Nat := 5

/-- Value of `VK_IMAGE_LAYOUT_TRANSFER_DST_OPTIMAL`. -/
def VK_IMAGE_LAYOUT_TRANSFER_DST_OPTIMAL : Nat := 7

/-- The constant `MAX_FRAMES_IN_FLIGHT` of `Renderer.cpp`. -/
def MAX_FRAMES_IN_FLIGHT : Nat := 2

/-- Value of `EXIT_SUCCESS`. -/
def EXIT_SUCCESS : Nat := 0

/-- Value of `EXIT_FAILURE`. -/
def EXIT_FAILURE : Nat := 1

/-- A Vulkan or GLFW handle; `0` is `VK_NULL_HANDLE` and the content of a member that was
never written. -/
abbrev Handle := Nat

/-- The calls to Vulkan, GLFW, stb_image and the error stream that the model records. A
`result` is the `VkResult` the platform answered. `recordDrawCommands` stands for the
`vkCmd...` calls between `vkBeginCommandBuffer` and `vkEndCommandBuffer` in
`InitCommandBuffers`. The fence of `vkQueueSubmit` is the frame slot whose fence is passed,
`none` for `VK_NULL_HANDLE`. -/
inductive Call
  | vkCreateInstance (result : Int)
  | CreateDebugUtilsMessengerEXT (result : Int)
  | glfwCreateWindowSurface (result : Int)
  | vkEnumeratePhysicalDevices (deviceCount : Nat)
  | vkCreateDevice (queueCount : Nat) (result : Int)
  | vkGetDeviceQueue (queueFamilyIndex : Int)
  | vkDeviceWaitIdle
  | vkCreateSwapchainKHR (minImageCount imageFormat presentMode : Nat) (concurrent : Bool)
      (result : Int)
  | vkGetSwapchainImagesKHR (imageCount : Nat)
  | vkCreateImageView (image : Handle) (result : Int)
  | vkCreateRenderPass (result : Int)
  | vkCreateDescriptorSetLayout (result : Int)
  | vkCreateShaderModule (result : Int)
  | vkDestroyShaderModule
  | vkCreatePipelineLayout (result : Int)
  | vkCreateGraphicsPipelines (result : Int)
  | vkCreateFramebuffer (imageView : Handle) (result : Int)
  | vkCreateCommandPool (queueFamilyIndex : Int) (result : Int)
  | stbi_load (loaded : Bool)
  | stbi_image_free
  | vkCreateImage (result : Int)
  | vkCreateBuffer (result : Int)
  | vkAllocateMemory (memoryTypeIndex : Int) (result : Int)
  | vkBindBufferMemory
  | vkBindImageMemory
  | vkMapMemory (memory : Handle)
  | memcpy
  | vkUnmapMemory (memory : Handle)
  | vkCreateSampler (result : Int)
  | vkAllocateCommandBuffers (count : Nat) (result : Int)
  | vkBeginCommandBuffer (result : Int)
  | vkEndCommandBuffer (result : Int)
  | vkCmdPipelineBarrier
  | vkCmdCopyBuffer
  | vkCmdCopyBufferToImage
  | recordDrawCommands (i : Nat)
  | vkQueueSubmit (fence : Option Nat) (result : Int)
  | vkQueueWaitIdle
  | vkFreeCommandBuffers
  | vkCreateDescriptorPool (maxSets : Nat) (result : Int)
  | vkAllocateDescriptorSets (count : Nat) (result : Int)
  | vkUpdateDescriptorSets (i : Nat)
  | vkCreateSemaphore (result : Int)
  | vkCreateFence (result : Int)
  | vkDestroyFramebuffer (h : Handle)
  | vkDestroyPipeline (h : Handle)
  | vkDestroyPipelineLayout (h : Handle)
  | vkDestroyRenderPass (h : Handle)
  | vkDestroyImageView (h : Handle)
  | vkDestroySwapchainKHR (h : Handle)
  | vkDestroyBuffer (h : Handle)
  | vkFreeMemory (h : Handle)
  | vkDestroyDescriptorPool (h : Handle)
  | vkDestroySampler
  | vkDestroyImage
  | vkDestroyDescriptorSetLayout
  | vkDestroySemaphore
  | vkDestroyFence
  | vkDestroyCommandPool
  | vkDestroyDevice
  | DestroyDebugUtilsMessengerEXT
  | vkDestroySurfaceKHR
  | vkDestroyInstance
  | vkWaitForFences (frame : Nat)
  | vkAcquireNextImageKHR (frame : Nat) (result : Int) (imageIndex : Nat)
  | vkResetFences (frame : Nat)
  | vkQueuePresentKHR (imageIndex : Nat) (result : Int)
  | glfwInit
  | glfwCreateWindow (created : Bool)
  | glfwSetFramebufferSizeCallback
  | glfwPollEvents
  | glfwDestroyWindow
  | glfwTerminate
  | cerr (msg : String)
deriving Repr

/-- The data members of `Renderer` (handles, per-image vectors, the frame slot, the resize
flag and the device manager). -/
structure Renderer where
  framebuffer_resized : Bool
  _window : Handle
  _vk_instance : Handle
  _vk_logical_device : Handle
  _vk_graphics_queue : Handle
  _vk_present_queue : Handle
  _vk_surface : Handle
  _vk_swapchain : Handle
  _vk_swapchain_image_format : Nat
  _vk_swapchain_images : List Handle
  _vk_swapchain_image_views : List Handle
  _vk_render_pass : Handle
  _vk_descriptor_set_layout : Handle
  _vk_swapchain_framebuffers : List Handle
  _vk_pipeline_layout : Handle
  _vk_graphics_pipeline : Handle
  _vk_command_pool : Handle
  _vk_texture_image : Handle
  _vk_texture_image_memory : Handle
  _vk_texture_image_view : Handle
  _vk_texture_sampler : Handle
  _vk_vertex_buffer : Handle
  _vk_vertex_buffer_memory : Handle
  _vk_index_buffer : Handle
  _vk_index_buffer_memory : Handle
  _vk_uniform_buffers : List Handle
  _vk_uniform_buffers_memory : List Handle
  _vk_descriptor_pool : Handle
  _vk_descriptor_sets : List Handle
  _vk_command_buffers : List Handle
  _vk_image_available_semaphores : List Handle
  _vk_render_finished_semaphores : List Handle
  _vk_in_flight_fences : List Handle
  _current_frame : Nat
  _vk_debug_messenger : Handle
  _device_manager : RenderDeviceManager
  _enable_validation_layers : Bool
deriving DecidableEq, Repr

/-- The data members of `Window` other than `_renderer`. -/
structure Window where
  game_ending : Bool
  _window : Handle
deriving DecidableEq, Repr

/-- The answers of the platform that are still to come. `results` are the `VkResult`s of
the fallible calls in call order (`VK_SUCCESS` once the list is used up), `imageCounts`
the counts `vkGetSwapchainImagesKHR` reports, `imageIndices` the content of `imageIndex`
after each `vkAcquireNextImageKHR` (indeterminate when the call wrote nothing),
`memoryTypeBits` the `memoryTypeBits` of each memory-requirements query, `polls` one entry
per `glfwPollEvents` before the window closes, telling whether the resize callback fired.
`swapchain_props` and `memoryTypes` are the `_swapchain_properties` and the memory types
of the selected device. -/
structure Platform where
  adapters : List PhysicalDevice
  swapchain_props : SwapChainProperties
  memoryTypes : List Nat
  windowCreated : Bool
  pixelsLoaded : Bool
  results : List Int
  imageCounts : List Nat
  imageIndices : List Nat
  memoryTypeBits : List Nat
  polls : List Bool
  nextHandle : Nat
deriving DecidableEq, Repr

/-- The state a member function runs in. `undefinedAccess` is set by a read outside a
vector, a call through a null device pointer or another operation without a defined
result; what a function does after that is not meaningful. -/
structure World where
  platform : Platform
  window : Window
  renderer : Renderer
  undefinedAccess : Bool
deriving DecidableEq, Repr

/-- What a function leaves: its value, the world and the calls it issued. -/
structure Outcome (α : Type) where
  value : α
  world : World
  calls : List Call

/-- A member function with result type `α`. -/
def M (α : Type) : Type := World → Outcome α

/-- The function that returns `a` and does nothing. -/
def M.pure {α : Type} (a : α) : M α := fun w => { value := a, world := w, calls := [] }

/-- Sequencing: `m`, then `f` on its value, the calls of both in order. -/
def M.bind {α β : Type} (m : M α) (f : α → M β) : M β := fun w =>
  { value := (f (m w).value (m w).world).value
    world := (f (m w).value (m w).world).world
    calls := (m w).calls ++ (f (m w).value (m w).world).calls }

instance : Monad M where
  pure := M.pure
  bind := M.bind

/-- Record a call. -/
def emit (c : Call) : M Unit := fun w => { value := (), world := w, calls := [c] }

/-- Write a line to `std::cerr`. -/
def cerr (msg : String) : M Unit := emit (Call.cerr msg)

/-- The current members of the renderer. -/
def getR : M Renderer := fun w => { value := w.renderer, world := w, calls := [] }

/-- The platform as it is now. -/
def getPlatform : M Platform := fun w => { value := w.platform, world := w, calls := [] }

/-- The current members of the window. -/
def getWindow : M Window := fun w => { value := w.window, world := w, calls := [] }

/-- Assign members of the renderer. -/
def modifyR (f : Renderer → Renderer) : M Unit := fun w =>
  { value := (), world := { w with renderer := f w.renderer }, calls := [] }

/-- Assign members of the window. -/
def modifyWindow (f : Window → Window) : M Unit := fun w =>
  { value := (), world := { w with window := f w.window }, calls := [] }

/-- The next `VkResult` of the platform. -/
def answer : M Int := fun w =>
  { value := w.platform.results.headD VK_SUCCESS
    world := { w with platform := { w.platform with results := w.platform.results.tail } }
    calls := [] }

/-- A fallible platform call: take its result and record the call with it. -/
def vkCall (c : Int → Call) : M Int := do
  let result ← answer
  emit (c result)
  pure result

/-- A handle the platform has not handed out before. -/
def fresh : M Handle := fun w =>
  { value := w.platform.nextHandle + 1
    world := { w with platform := { w.platform with nextHandle := w.platform.nextHandle + 1 } }
    calls := [] }

/-- The handles `n` new objects get. -/
def freshList (n : Nat) : M (List Handle) := fun w =>
  { value := (List.range n).map fun i => w.platform.nextHandle + 1 + i
    world := { w with platform := { w.platform with nextHandle := w.platform.nextHandle + n } }
    calls := [] }

/-- The next image count the platform reports. -/
def nextImageCount : M Nat := fun w =>
  { value := w.platform.imageCounts.headD 0
    world := { w with platform := { w.platform with imageCounts := w.platform.imageCounts.tail } }
    calls := [] }

/-- The next content of `imageIndex` after an acquisition. -/
def nextImageIndex : M Nat := fun w =>
  { value := w.platform.imageIndices.headD 0
    world := { w with platform := { w.platform with imageIndices := w.platform.imageIndices.tail } }
    calls := [] }

/-- The `memoryTypeBits` of the next memory-requirements query. -/
def nextMemoryTypeBits : M Nat := fun w =>
  { value := w.platform.memoryTypeBits.headD 0
    world :=
      { w with platform := { w.platform with memoryTypeBits := w.platform.memoryTypeBits.tail } }
    calls := [] }

/-- An operation without a defined result has happened. -/
def undefinedBehaviour : M Unit := fun w =>
  { value := (), world := { w with undefinedAccess := true }, calls := [] }

/-- The access `v[i]` to a vector of length `len`. -/
def access (i len : Nat) : M Unit :=
  if i < len then pure () else undefinedBehaviour

/-- The value of an operation that may have no defined result; `fallback` stands in the
undefined case. -/
def defined {α : Type} (x : Option α) (fallback : α) : M α :=
  match x with
  | some a => pure a
  | none => do
      undefinedBehaviour
      pure fallback

/-- The result of `std::vector::resize(n)` on a vector of handles. -/
def vectorResize (v : List Handle) (n : Nat) : List Handle :=
  v.take n ++ List.replicate (n - v.length) 0

/-- A range-based `for` loop over a vector. -/
def forEach {α : Type} (body : α → M Unit) : List α → M Unit
  | [] => pure ()
  | a :: rest => do
      body a
      forEach body rest

/-- The loop `for (i = i0; i < i0 + n; i++) body(i)`. -/
def forIndex (body : Nat → M Unit) : Nat → Nat → M Unit
  | 0, _ => pure ()
  | n + 1, i => do
      body i
      forIndex body n (i + 1)

/-- The loop `for (i = i0; i < i0 + n; i++) if (!body(i)) return false;` followed by
`return true`. -/
def forReturnFalse (body : Nat → M Bool) : Nat → Nat → M Bool
  | 0, _ => pure true
  | n + 1, i => do
      let ok ← body i
      if ok then forReturnFalse body n (i + 1) else pure false

/-! ## `RenderDeviceManager` as the renderer calls it -/

/-- The device `_current_device` points to, `none` for `nullptr`. -/
def RenderDeviceManager.GetCurrentDevice (m : RenderDeviceManager) : Option RenderDevice :=
  match m._current_device with
  | some i => m._devices.get? i
  | none => none

/-- The method `RenderDeviceManager::GetOperationQueueIndex`: `none` when `_current_device`
cannot be dereferenced. -/
def RenderDeviceManager.GetOperationQueueIndex (m : RenderDeviceManager) (operation : Nat) :
    Option Int :=
  match m.GetCurrentDevice with
  | some d => some (d.GetOperationQueueIndex operation)
  | none => none

/-- The method `RenderDeviceManager::GetPresentQueueIndex`: `none` when `_current_device`
cannot be dereferenced or the device performs an undefined read. -/
def RenderDeviceManager.GetPresentQueueIndex (m : RenderDeviceManager) : Option Int :=
  match m.GetCurrentDevice with
  | some d => d.GetPresentQueueIndex
  | none => none

/-! ## `Renderer`: initialisation steps (`Renderer.cpp`) -/

/-- The method `Renderer::InitInstance`. -/
def Renderer.InitInstance : M Bool := do
  let result ← vkCall Call.vkCreateInstance
  if result ≠ VK_SUCCESS then
    cerr "Failed to initialize vulkan instance"
    pure false
  else
    let h ← fresh
    modifyR fun r => { r with _vk_instance := h }
    let r ← getR
    if r._enable_validation_layers then
      let result ← vkCall Call.CreateDebugUtilsMessengerEXT
      if result ≠ VK_SUCCESS then
        cerr "Failed to set up vulkan debug messenger"
        pure false
      else
        let h ← fresh
        modifyR fun r => { r with _vk_debug_messenger := h }
        pure true
    else
      pure true

/-- The method `Renderer::InitSurface`. -/
def Renderer.InitSurface : M Bool := do
  let result ← vkCall Call.glfwCreateWindowSurface
  if result ≠ VK_SUCCESS then
    cerr "Failed to create window surface for vulkan"
    pure false
  else
    let h ← fresh
    modifyR fun r => { r with _vk_surface := h }
    pure true

/-- The call `_device_manager.InitDevices()` of `Renderer::Init`, on the adapters of the
platform. -/
def Renderer.InitDevices : M Bool := do
  let p ← getPlatform
  let r ← getR
  emit (Call.vkEnumeratePhysicalDevices p.adapters.length)
  match r._device_manager.InitDevices p.adapters with
  | none => do
      undefinedBehaviour
      pure false
  | some (ok, m) => do
      modifyR fun r => { r with _device_manager := m }
      if ok then pure true
      else do
        cerr (if p.adapters.length = 0 then "Failed to find any GPUs with Vulkan support"
              else "Failed to find any compatible GPUs")
        pure false

/-- The method `Renderer::InitLogicalDevice`. -/
def Renderer.InitLogicalDevice : M Bool := do
  let r ← getR
  let graphicsQueueID ← defined (r._device_manager.GetOperationQueueIndex VK_QUEUE_GRAPHICS_BIT) (-1)
  let presentsQueueID ← defined r._device_manager.GetPresentQueueIndex (-1)
  if graphicsQueueID = -1 ∨ presentsQueueID = -1 then
    cerr "Failed to find suitable graphics queue(s)"
    pure false
  else
    let queueCount : Nat := (if graphicsQueueID ≠ presentsQueueID then 1 else 0) + 1
    let result ← vkCall (Call.vkCreateDevice queueCount)
    if result ≠ VK_SUCCESS then
      cerr "Failed to create logical vulkan device"
      pure false
    else
      let device ← fresh
      emit (Call.vkGetDeviceQueue graphicsQueueID)
      let graphicsQueue ← fresh
      modifyR fun r => { r with _vk_logical_device := device, _vk_graphics_queue := graphicsQueue }
      if queueCount = 1 then
        modifyR fun r => { r with _vk_present_queue := graphicsQueue }
        pure true
      else
        emit (Call.vkGetDeviceQueue presentsQueueID)
        let presentQueue ← fresh
        modifyR fun r => { r with _vk_present_queue := presentQueue }
        pure true

/-- The method `Renderer::InitSwapChain`. The swapchain properties are those of the selected
device, which the platform holds. The first `vkGetSwapchainImagesKHR` reports the image
count, the second one fills the resized vector. -/
def Renderer.InitSwapChain : M Bool := do
  let p ← getPlatform
  let r ← getR
  let swapchain_props := p.swapchain_props
  if (swapchain_props.formats.find?
      (swapFormatMatches VK_FORMAT_B8G8R8A8_UNORM VK_COLOR_SPACE_SRGB_NONLINEAR_KHR)).isNone then
    cerr "Requested swap format not supported"
  let surfaceFormat ← defined
    (GetPreferredSwapFormat swapchain_props VK_FORMAT_B8G8R8A8_UNORM
      VK_COLOR_SPACE_SRGB_NONLINEAR_KHR) { format := 0, colorSpace := 0 }
  if ¬ VK_PRESENT_MODE_MAILBOX_KHR ∈ swapchain_props.present_modes then
    cerr "Requested present mode not supported"
  let presentMode := GetPrefferedSwapMode swapchain_props VK_PRESENT_MODE_MAILBOX_KHR
  let imageCount :=
    InitSwapChain_imageCount swapchain_props.minImageCount swapchain_props.maxImageCount
  let graphicsQueueID ← defined (r._device_manager.GetOperationQueueIndex VK_QUEUE_GRAPHICS_BIT) (-1)
  let presentsQueueID ← defined r._device_manager.GetPresentQueueIndex (-1)
  let result ← vkCall (Call.vkCreateSwapchainKHR imageCount surfaceFormat.format presentMode
    (decide (graphicsQueueID ≠ presentsQueueID)))
  if result ≠ VK_SUCCESS then
    cerr "Failed to create swap chain"
    pure false
  else
    let swapchain ← fresh
    let imageCount ← nextImageCount
    emit (Call.vkGetSwapchainImagesKHR imageCount)
    let images ← freshList imageCount
    emit (Call.vkGetSwapchainImagesKHR imageCount)
    modifyR fun r =>
      { r with _vk_swapchain := swapchain, _vk_swapchain_images := images,
               _vk_swapchain_image_format := surfaceFormat.format }
    pure true

/-- The method `Renderer::InitImageView` for the view of swapchain image `i`. -/
def Renderer.InitImageView_swapchain (i : Nat) : M Bool := do
  let r ← getR
  access i r._vk_swapchain_image_views.length
  access i r._vk_swapchain_images.length
  let result ← vkCall (Call.vkCreateImageView (r._vk_swapchain_images.getD i 0))
  if result ≠ VK_SUCCESS then
    cerr "Failed to create texture image view"
    pure false
  else
    let h ← fresh
    modifyR fun r => { r with _vk_swapchain_image_views := r._vk_swapchain_image_views.set i h }
    pure true

/-- The method `Renderer::InitImageViews`. -/
def Renderer.InitImageViews : M Bool := do
  modifyR fun r =>
    { r with _vk_swapchain_image_views :=
        vectorResize r._vk_swapchain_image_views r._vk_swapchain_images.length }
  let r ← getR
  forReturnFalse Renderer.InitImageView_swapchain r._vk_swapchain_images.length 0

/-- The method `Renderer::InitRenderPass`. -/
def Renderer.InitRenderPass : M Bool := do
  let result ← vkCall Call.vkCreateRenderPass
  if result ≠ VK_SUCCESS then
    cerr "Failed to create render pass"
    pure false
  else
    let h ← fresh
    modifyR fun r => { r with _vk_render_pass := h }
    pure true

/-- The method `Renderer::InitDescriptorSetLayout`. -/
def Renderer.InitDescriptorSetLayout : M Bool := do
  let result ← vkCall Call.vkCreateDescriptorSetLayout
  if result ≠ VK_SUCCESS then
    cerr "Failed to create descriptor set layout"
    pure false
  else
    let h ← fresh
    modifyR fun r => { r with _vk_descriptor_set_layout := h }
    pure true

/-- The method `Renderer::InitShader`. -/
def Renderer.InitShader : M Bool := do
  let result ← vkCall Call.vkCreateShaderModule
  if result ≠ VK_SUCCESS then
    cerr "Failed to create shader module"
    pure false
  else
    pure true

/-- The method `Renderer::InitGraphicsPipeline`. -/
def Renderer.InitGraphicsPipeline : M Bool := do
  let vertOk ← Renderer.InitShader
  let fragOk ← if vertOk then Renderer.InitShader else pure false
  if !vertOk || !fragOk then
    emit Call.vkDestroyShaderModule
    emit Call.vkDestroyShaderModule
    pure false
  else
    let layoutResult ← vkCall Call.vkCreatePipelineLayout
    let ret ←
      if layoutResult ≠ VK_SUCCESS then do
        cerr "Failed to create pipeline layout"
        pure false
      else do
        let h ← fresh
        modifyR fun r => { r with _vk_pipeline_layout := h }
        let pipelineResult ← vkCall Call.vkCreateGraphicsPipelines
        if pipelineResult ≠ VK_SUCCESS then
          cerr "Failed to create graphics pipeline"
          pure false
        else
          let h ← fresh
          modifyR fun r => { r with _vk_graphics_pipeline := h }
          pure true
    emit Call.vkDestroyShaderModule
    emit Call.vkDestroyShaderModule
    pure ret

/-- The body of the loop of `Renderer::InitFramebuffers`. -/
def Renderer.InitFramebuffers_body (i : Nat) : M Bool := do
  let r ← getR
  access i r._vk_swapchain_image_views.length
  access i r._vk_swapchain_framebuffers.length
  let result ← vkCall (Call.vkCreateFramebuffer (r._vk_swapchain_image_views.getD i 0))
  if result ≠ VK_SUCCESS then
    cerr "Failed to create framebuffer"
    pure false
  else
    let h ← fresh
    modifyR fun r => { r with _vk_swapchain_framebuffers := r._vk_swapchain_framebuffers.set i h }
    pure true

/-- The method `Renderer::InitFramebuffers`. -/
def Renderer.InitFramebuffers : M Bool := do
  modifyR fun r =>
    { r with _vk_swapchain_framebuffers :=
        vectorResize r._vk_swapchain_framebuffers r._vk_swapchain_image_views.length }
  let r ← getR
  forReturnFalse Renderer.InitFramebuffers_body r._vk_swapchain_image_views.length 0

/-- The method `Renderer::InitCommandPool`. -/
def Renderer.InitCommandPool : M Bool := do
  let r ← getR
  let queueFamilyIndex ← defined
    (r._device_manager.GetOperationQueueIndex VK_QUEUE_GRAPHICS_BIT) (-1)
  let result ← vkCall (Call.vkCreateCommandPool queueFamilyIndex)
  if result ≠ VK_SUCCESS then
    cerr "Failed to create vulkan command pool"
    pure false
  else
    let h ← fresh
    modifyR fun r => { r with _vk_command_pool := h }
    pure true

/-- The methods `Renderer::BeginSingleTimeCommands`. -/
def Renderer.BeginSingleTimeCommands : M Unit := do
  let _ ← vkCall (Call.vkAllocateCommandBuffers 1)
  let _ ← vkCall Call.vkBeginCommandBuffer
  pure ()

/-- The method `Renderer::EndSingleTimeCommands`. -/
def Renderer.EndSingleTimeCommands : M Unit := do
  let _ ← vkCall Call.vkEndCommandBuffer
  let _ ← vkCall (Call.vkQueueSubmit none)
  emit Call.vkQueueWaitIdle
  emit Call.vkFreeCommandBuffers

/-- The statement `int idx = ...->GetMemoryTypeIndex(memoryTypeBits, properties) >= 0` of
`InitBuffer` and `InitImage`: `idx` is initialised with the comparison. -/
def Renderer.memoryTypeIdx (properties : Nat) : M Int := do
  let p ← getPlatform
  let memoryTypeBits ← nextMemoryTypeBits
  let index ← defined (GetMemoryTypeIndex p.memoryTypes memoryTypeBits properties) (-1)
  pure (if index ≥ 0 then 1 else 0)

/-- The method `Renderer::InitBuffer`; `storeBuffer` and `storeMemory` write the reference
parameters `buffer` and `bufferMemory`. The value is the returned `bool` and the two
handles written (`0` where nothing was written). -/
def Renderer.InitBuffer (properties : Nat) (storeBuffer storeMemory : Handle → M Unit) :
    M (Bool × Handle × Handle) := do
  let result ← vkCall Call.vkCreateBuffer
  if result ≠ VK_SUCCESS then
    cerr "Failed to create buffer"
    pure (false, 0, 0)
  else
    let buffer ← fresh
    storeBuffer buffer
    let idx ← Renderer.memoryTypeIdx properties
    if idx ≠ 0 then
      let result ← vkCall (Call.vkAllocateMemory idx)
      if result ≠ VK_SUCCESS then
        cerr "Failed to allocate buffer memory"
        pure (false, buffer, 0)
      else
        let bufferMemory ← fresh
        storeMemory bufferMemory
        emit Call.vkBindBufferMemory
        pure (true, buffer, bufferMemory)
    else
      cerr "Failed to find suitable memory type"
      pure (false, buffer, 0)

/-- The method `Renderer::InitImage`, called for `_vk_texture_image` and
`_vk_texture_image_memory`. -/
def Renderer.InitImage (properties : Nat) : M Bool := do
  let result ← vkCall Call.vkCreateImage
  if result ≠ VK_SUCCESS then
    cerr "Failed to create image"
    pure false
  else
    let image ← fresh
    modifyR fun r => { r with _vk_texture_image := image }
    let idx ← Renderer.memoryTypeIdx properties
    if idx ≠ 0 then
      let result ← vkCall (Call.vkAllocateMemory idx)
      if result ≠ VK_SUCCESS then
        cerr "Failed to allocate image memory"
        pure false
      else
        let imageMemory ← fresh
        modifyR fun r => { r with _vk_texture_image_memory := imageMemory }
        emit Call.vkBindImageMemory
        pure true
    else
      cerr "Failed to find suitable memory type"
      pure false

/-- The method `Renderer::TransitionImageLayout`. -/
def Renderer.TransitionImageLayout (oldLayout newLayout : Nat) : M Bool := do
  Renderer.BeginSingleTimeCommands
  if (oldLayout = VK_IMAGE_LAYOUT_UNDEFINED ∧ newLayout = VK_IMAGE_LAYOUT_TRANSFER_DST_OPTIMAL) ∨
      (oldLayout = VK_IMAGE_LAYOUT_TRANSFER_DST_OPTIMAL ∧
        newLayout = VK_IMAGE_LAYOUT_SHADER_READ_ONLY_OPTIMAL) then
    emit Call.vkCmdPipelineBarrier
    Renderer.EndSingleTimeCommands
    pure true
  else
    cerr "Unsupported layout transition"
    pure false

/-- The method `Renderer::CopyBuffer`. -/
def Renderer.CopyBuffer : M Unit := do
  Renderer.BeginSingleTimeCommands
  emit Call.vkCmdCopyBuffer
  Renderer.EndSingleTimeCommands

/-- The method `Renderer::CopyBufferToImage`. -/
def Renderer.CopyBufferToImage : M Unit := do
  Renderer.BeginSingleTimeCommands
  emit Call.vkCmdCopyBufferToImage
  Renderer.EndSingleTimeCommands

/-- The lines `vkMapMemory`, `memcpy`, `vkUnmapMemory` of an upload. -/
def Renderer.copyToMemory (memory : Handle) : M Unit := do
  emit (Call.vkMapMemory memory)
  emit Call.memcpy
  emit (Call.vkUnmapMemory memory)

/-- The method `Renderer::InitTextureImage`. -/
def Renderer.InitTextureImage : M Bool := do
  let p ← getPlatform
  emit (Call.stbi_load p.pixelsLoaded)
  if !p.pixelsLoaded then
    cerr "Failed to load texture image"
    pure false
  else
    let staging ← Renderer.InitBuffer
      (VK_MEMORY_PROPERTY_HOST_VISIBLE_BIT ||| VK_MEMORY_PROPERTY_HOST_COHERENT_BIT)
      (fun _ => pure ()) (fun _ => pure ())
    Renderer.copyToMemory staging.2.2
    emit Call.stbi_image_free
    let imageOk ← Renderer.InitImage VK_MEMORY_PROPERTY_DEVICE_LOCAL_BIT
    if !imageOk then pure false
    else
      let t1 ← Renderer.TransitionImageLayout VK_IMAGE_LAYOUT_UNDEFINED
        VK_IMAGE_LAYOUT_TRANSFER_DST_OPTIMAL
      if !t1 then pure false
      else
        Renderer.CopyBufferToImage
        let t2 ← Renderer.TransitionImageLayout VK_IMAGE_LAYOUT_TRANSFER_DST_OPTIMAL
          VK_IMAGE_LAYOUT_SHADER_READ_ONLY_OPTIMAL
        if !t2 then pure false
        else
          emit (Call.vkDestroyBuffer staging.2.1)
          emit (Call.vkFreeMemory staging.2.2)
          pure true

/-- The method `Renderer::InitTextureImageView`, through `Renderer::InitImageView`. -/
def Renderer.InitTextureImageView : M Bool := do
  let r ← getR
  let result ← vkCall (Call.vkCreateImageView r._vk_texture_image)
  if result ≠ VK_SUCCESS then
    cerr "Failed to create texture image view"
    pure false
  else
    let h ← fresh
    modifyR fun r => { r with _vk_texture_image_view := h }
    pure true

/-- The method `Renderer::InitTextureSampler`. -/
def Renderer.InitTextureSampler : M Bool := do
  let result ← vkCall Call.vkCreateSampler
  if result ≠ VK_SUCCESS then
    cerr "Failed to create texture sampler"
    pure false
  else
    let h ← fresh
    modifyR fun r => { r with _vk_texture_sampler := h }
    pure true

/-- The method `Renderer::InitVertexBuffer`. -/
def Renderer.InitVertexBuffer : M Bool := do
  let staging ← Renderer.InitBuffer
    (VK_MEMORY_PROPERTY_HOST_VISIBLE_BIT ||| VK_MEMORY_PROPERTY_HOST_COHERENT_BIT)
    (fun _ => pure ()) (fun _ => pure ())
  if !staging.1 then pure false
  else
    Renderer.copyToMemory staging.2.2
    let vertex ← Renderer.InitBuffer VK_MEMORY_PROPERTY_DEVICE_LOCAL_BIT
      (fun h => modifyR fun r => { r with _vk_vertex_buffer := h })
      (fun h => modifyR fun r => { r with _vk_vertex_buffer_memory := h })
    if !vertex.1 then pure false
    else
      Renderer.CopyBuffer
      emit (Call.vkDestroyBuffer staging.2.1)
      emit (Call.vkFreeMemory staging.2.2)
      pure true

/-- The method `Renderer::InitIndexBuffer`. -/
def Renderer.InitIndexBuffer : M Bool := do
  let staging ← Renderer.InitBuffer
    (VK_MEMORY_PROPERTY_HOST_VISIBLE_BIT ||| VK_MEMORY_PROPERTY_HOST_COHERENT_BIT)
    (fun _ => pure ()) (fun _ => pure ())
  Renderer.copyToMemory staging.2.2
  let _ ← Renderer.InitBuffer VK_MEMORY_PROPERTY_DEVICE_LOCAL_BIT
    (fun h => modifyR fun r => { r with _vk_index_buffer := h })
    (fun h => modifyR fun r => { r with _vk_index_buffer_memory := h })
  Renderer.CopyBuffer
  emit (Call.vkDestroyBuffer staging.2.1)
  emit (Call.vkFreeMemory staging.2.2)
  pure true

/-- The body of the loop of `Renderer::InitUniformBuffers`. -/
def Renderer.InitUniformBuffers_body (i : Nat) : M Bool := do
  let r ← getR
  access i r._vk_uniform_buffers.length
  access i r._vk_uniform_buffers_memory.length
  let res ← Renderer.InitBuffer
    (VK_MEMORY_PROPERTY_HOST_VISIBLE_BIT ||| VK_MEMORY_PROPERTY_HOST_COHERENT_BIT)
    (fun h => modifyR fun r => { r with _vk_uniform_buffers := r._vk_uniform_buffers.set i h })
    (fun h => modifyR fun r =>
      { r with _vk_uniform_buffers_memory := r._vk_uniform_buffers_memory.set i h })
  pure res.1

/-- The method `Renderer::InitUniformBuffers`. -/
def Renderer.InitUniformBuffers : M Bool := do
  modifyR fun r =>
    { r with
      _vk_uniform_buffers := vectorResize r._vk_uniform_buffers r._vk_swapchain_images.length
      _vk_uniform_buffers_memory :=
        vectorResize r._vk_uniform_buffers_memory r._vk_swapchain_images.length }
  let r ← getR
  forReturnFalse Renderer.InitUniformBuffers_body r._vk_swapchain_images.length 0

/-- The method `Renderer::InitDescriptorPool`. -/
def Renderer.InitDescriptorPool : M Bool := do
  let r ← getR
  let result ← vkCall (Call.vkCreateDescriptorPool r._vk_swapchain_images.length)
  if result ≠ VK_SUCCESS then
    cerr "Failed to create descriptor pool"
    pure false
  else
    let h ← fresh
    modifyR fun r => { r with _vk_descriptor_pool := h }
    pure true

/-- The body of the loop of `Renderer::InitDescriptorSets`. -/
def Renderer.InitDescriptorSets_body (i : Nat) : M Unit := do
  let r ← getR
  access i r._vk_uniform_buffers.length
  access i r._vk_descriptor_sets.length
  emit (Call.vkUpdateDescriptorSets i)

/-- The method `Renderer::InitDescriptorSets`. -/
def Renderer.InitDescriptorSets : M Bool := do
  modifyR fun r =>
    { r with _vk_descriptor_sets :=
        vectorResize r._vk_descriptor_sets r._vk_swapchain_images.length }
  let r ← getR
  let result ← vkCall (Call.vkAllocateDescriptorSets r._vk_swapchain_images.length)
  if result ≠ VK_SUCCESS then
    cerr "Failed to allocate descriptor sets"
    pure false
  else
    let sets ← freshList r._vk_swapchain_images.length
    modifyR fun r => { r with _vk_descriptor_sets := sets }
    forIndex Renderer.InitDescriptorSets_body r._vk_swapchain_images.length 0
    pure true

/-- The body of the loop of `Renderer::InitCommandBuffers`. -/
def Renderer.InitCommandBuffers_body (i : Nat) : M Bool := do
  let r ← getR
  access i r._vk_command_buffers.length
  let beginResult ← vkCall Call.vkBeginCommandBuffer
  if beginResult ≠ VK_SUCCESS then
    cerr "Failed to begin recording vulkan command buffer"
  access i r._vk_swapchain_framebuffers.length
  access i r._vk_descriptor_sets.length
  emit (Call.recordDrawCommands i)
  let endResult ← vkCall Call.vkEndCommandBuffer
  if endResult ≠ VK_SUCCESS then
    cerr "Failed to record vulkan command buffer"
    pure false
  else
    pure true

/-- The method `Renderer::InitCommandBuffers`. -/
def Renderer.InitCommandBuffers : M Bool := do
  modifyR fun r =>
    { r with _vk_command_buffers :=
        vectorResize r._vk_command_buffers r._vk_swapchain_framebuffers.length }
  let r ← getR
  let result ← vkCall (Call.vkAllocateCommandBuffers r._vk_command_buffers.length)
  if result ≠ VK_SUCCESS then
    cerr "Failed to allocate vulkan command buffers"
    pure false
  else
    let buffers ← freshList r._vk_command_buffers.length
    modifyR fun r => { r with _vk_command_buffers := buffers }
    forReturnFalse Renderer.InitCommandBuffers_body r._vk_command_buffers.length 0

/-- The body of the loop of `Renderer::InitSyncObjects`. -/
def Renderer.InitSyncObjects_body (i : Nat) : M Bool := do
  let r1 ← vkCall Call.vkCreateSemaphore
  if r1 ≠ VK_SUCCESS then
    cerr "Failed to create synchronization objects for a frame"
    pure false
  else
    let h1 ← fresh
    modifyR fun r =>
      { r with _vk_image_available_semaphores := r._vk_image_available_semaphores.set i h1 }
    let r2 ← vkCall Call.vkCreateSemaphore
    if r2 ≠ VK_SUCCESS then
      cerr "Failed to create synchronization objects for a frame"
      pure false
    else
      let h2 ← fresh
      modifyR fun r =>
        { r with _vk_render_finished_semaphores := r._vk_render_finished_semaphores.set i h2 }
      let r3 ← vkCall Call.vkCreateFence
      if r3 ≠ VK_SUCCESS then
        cerr "Failed to create synchronization objects for a frame"
        pure false
      else
        let h3 ← fresh
        modifyR fun r => { r with _vk_in_flight_fences := r._vk_in_flight_fences.set i h3 }
        pure true

/-- The method `Renderer::InitSyncObjects`. -/
def Renderer.InitSyncObjects : M Bool := do
  modifyR fun r =>
    { r with
      _vk_image_available_semaphores :=
        vectorResize r._vk_image_available_semaphores MAX_FRAMES_IN_FLIGHT
      _vk_render_finished_semaphores :=
        vectorResize r._vk_render_finished_semaphores MAX_FRAMES_IN_FLIGHT
      _vk_in_flight_fences := vectorResize r._vk_in_flight_fences MAX_FRAMES_IN_FLIGHT }
  forReturnFalse Renderer.InitSyncObjects_body MAX_FRAMES_IN_FLIGHT 0

/-! ## `Renderer`: swapchain teardown and rebuild, `Init`, `DrawFrame` -/

/-- The body of the third loop of `Renderer::DestroySwapChain`, which runs over the indices
of `_vk_swapchain_images`. -/
def Renderer.DestroySwapChain_body (i : Nat) : M Unit := do
  let r ← getR
  access i r._vk_uniform_buffers.length
  emit (Call.vkDestroyBuffer (r._vk_uniform_buffers.getD i 0))
  access i r._vk_uniform_buffers_memory.length
  emit (Call.vkFreeMemory (r._vk_uniform_buffers_memory.getD i 0))

/-- The method `Renderer::DestroySwapChain`. -/
def Renderer.DestroySwapChain : M Unit := do
  emit Call.vkDeviceWaitIdle
  let r ← getR
  forEach (fun framebuffer => emit (Call.vkDestroyFramebuffer framebuffer))
    r._vk_swapchain_framebuffers
  emit (Call.vkDestroyPipeline r._vk_graphics_pipeline)
  emit (Call.vkDestroyPipelineLayout r._vk_pipeline_layout)
  emit (Call.vkDestroyRenderPass r._vk_render_pass)
  forEach (fun imageView => emit (Call.vkDestroyImageView imageView))
    r._vk_swapchain_image_views
  emit (Call.vkDestroySwapchainKHR r._vk_swapchain)
  forIndex Renderer.DestroySwapChain_body r._vk_swapchain_images.length 0
  emit (Call.vkDestroyDescriptorPool r._vk_descriptor_pool)

/-- The initialisation steps that `Renderer::Init` and `Renderer::ResetSwapChain` chain
with `||`. -/
inductive Step
  | InitInstance
  | InitSurface
  | InitDevices
  | InitLogicalDevice
  | InitSwapChain
  | InitImageViews
  | InitRenderPass
  | InitDescriptorSetLayout
  | InitGraphicsPipeline
  | InitFramebuffers
  | InitCommandPool
  | InitTextureImage
  | InitTextureImageView
  | InitTextureSampler
  | InitVertexBuffer
  | InitIndexBuffer
  | InitUniformBuffers
  | InitDescriptorPool
  | InitDescriptorSets
  | InitCommandBuffers
  | InitSyncObjects
deriving DecidableEq, Repr

/-- The member function a step calls. -/
def Step.run : Step → M Bool
  | Step.InitInstance => Renderer.InitInstance
  | Step.InitSurface => Renderer.InitSurface
  | Step.InitDevices => Renderer.InitDevices
  | Step.InitLogicalDevice => Renderer.InitLogicalDevice
  | Step.InitSwapChain => Renderer.InitSwapChain
  | Step.InitImageViews => Renderer.InitImageViews
  | Step.InitRenderPass => Renderer.InitRenderPass
  | Step.InitDescriptorSetLayout => Renderer.InitDescriptorSetLayout
  | Step.InitGraphicsPipeline => Renderer.InitGraphicsPipeline
  | Step.InitFramebuffers => Renderer.InitFramebuffers
  | Step.InitCommandPool => Renderer.InitCommandPool
  | Step.InitTextureImage => Renderer.InitTextureImage
  | Step.InitTextureImageView => Renderer.InitTextureImageView
  | Step.InitTextureSampler => Renderer.InitTextureSampler
  | Step.InitVertexBuffer => Renderer.InitVertexBuffer
  | Step.InitIndexBuffer => Renderer.InitIndexBuffer
  | Step.InitUniformBuffers => Renderer.InitUniformBuffers
  | Step.InitDescriptorPool => Renderer.InitDescriptorPool
  | Step.InitDescriptorSets => Renderer.InitDescriptorSets
  | Step.InitCommandBuffers => Renderer.InitCommandBuffers
  | Step.InitSyncObjects => Renderer.InitSyncObjects

/-- The condition `!s1() || !s2() || ...` over a list of steps, evaluated left to right
until an operand is true. The value is the condition, together with the steps that were
called and what each returned. -/
def firstFailure : List Step → M (Bool × List (Step × Bool))
  | [] => pure (false, [])
  | s :: rest => do
      let ok ← s.run
      if ok then
        let later ← firstFailure rest
        pure (later.1, (s, true) :: later.2)
      else
        pure (true, [(s, false)])

/-- The operands of the condition in `Renderer::Init`, in order. -/
def Renderer.initSteps : List Step :=
  [Step.InitInstance, Step.InitSurface, Step.InitDevices, Step.InitLogicalDevice,
   Step.InitSwapChain, Step.InitImageViews, Step.InitRenderPass, Step.InitDescriptorSetLayout,
   Step.InitGraphicsPipeline, Step.InitFramebuffers, Step.InitCommandPool,
   Step.InitTextureImage, Step.InitTextureImageView, Step.InitTextureSampler,
   Step.InitVertexBuffer, Step.InitIndexBuffer, Step.InitUniformBuffers,
   Step.InitDescriptorPool, Step.InitDescriptorSets, Step.InitCommandBuffers,
   Step.InitSyncObjects]

/-- The operands of the condition in `Renderer::ResetSwapChain`, in order. -/
def Renderer.resetSteps : List Step :=
  [Step.InitSwapChain, Step.InitImageViews, Step.InitRenderPass, Step.InitGraphicsPipeline,
   Step.InitFramebuffers, Step.InitUniformBuffers, Step.InitDescriptorPool,
   Step.InitDescriptorSets, Step.InitCommandBuffers]

/-- The method `Renderer::Init`, with the steps it called and their results next to the
returned `bool`. -/
def Renderer.InitTraced (window : Handle) : M (Bool × List (Step × Bool)) := do
  modifyR fun r => { r with _window := window }
  let chain ← firstFailure Renderer.initSteps
  if chain.1 then
    cerr "Failed to initialize vulkan"
    pure (false, chain.2)
  else
    pure (true, chain.2)

/-- The method `Renderer::Init`. -/
def Renderer.Init (window : Handle) : M Bool := do
  let res ← Renderer.InitTraced window
  pure res.1

/-- The method `Renderer::ResetSwapChain`, with the steps it called and their results next
to the returned `bool`. -/
def Renderer.ResetSwapChainTraced : M (Bool × List (Step × Bool)) := do
  emit Call.vkDeviceWaitIdle
  Renderer.DestroySwapChain
  let chain ← firstFailure Renderer.resetSteps
  if chain.1 then pure (false, chain.2) else pure (true, chain.2)

/-- The method `Renderer::ResetSwapChain`. -/
def Renderer.ResetSwapChain : M Bool := do
  let res ← Renderer.ResetSwapChainTraced
  pure res.1

/-- The method `Renderer::UpdateUniformBuffer`. -/
def Renderer.UpdateUniformBuffer (currentImage : Nat) : M Unit := do
  let r ← getR
  access currentImage r._vk_uniform_buffers_memory.length
  Renderer.copyToMemory (r._vk_uniform_buffers_memory.getD currentImage 0)

/-- The part of `Renderer::DrawFrame` after the acquisition branch: uniform update,
submission, presentation and the advance of `_current_frame`. -/
def Renderer.DrawFrame_submitAndPresent (imageIndex : Nat) : M Unit := do
  Renderer.UpdateUniformBuffer imageIndex
  let r ← getR
  access r._current_frame r._vk_image_available_semaphores.length
  access imageIndex r._vk_command_buffers.length
  access r._current_frame r._vk_render_finished_semaphores.length
  access r._current_frame r._vk_in_flight_fences.length
  emit (Call.vkResetFences r._current_frame)
  let submitResult ← vkCall (Call.vkQueueSubmit (some r._current_frame))
  if submitResult ≠ VK_SUCCESS then
    cerr "Failed to submit draw command buffer"
  let presentResult ← vkCall (Call.vkQueuePresentKHR imageIndex)
  if presentResult = VK_ERROR_OUT_OF_DATE_KHR ∨ presentResult = VK_SUBOPTIMAL_KHR ∨
      r.framebuffer_resized = true then
    modifyR fun r => { r with framebuffer_resized := false }
    let _ ← Renderer.ResetSwapChain
    pure ()
  else if presentResult ≠ VK_SUCCESS then
    cerr "Failed to present swap chain image"
  modifyR fun r => { r with _current_frame := (r._current_frame + 1) % MAX_FRAMES_IN_FLIGHT }

/-- The first statements of `Renderer::DrawFrame`: the wait for the fence of the slot and
the acquisition of an image. The value is the `VkResult` of the acquisition and the content
of `imageIndex` after it. -/
def Renderer.DrawFrame_acquire : M (Int × Nat) := do
  let r ← getR
  access r._current_frame r._vk_in_flight_fences.length
  emit (Call.vkWaitForFences r._current_frame)
  access r._current_frame r._vk_image_available_semaphores.length
  let result ← answer
  let imageIndex ← nextImageIndex
  emit (Call.vkAcquireNextImageKHR r._current_frame result imageIndex)
  pure (result, imageIndex)

/-- The method `Renderer::DrawFrame`. -/
def Renderer.DrawFrame : M Unit := do
  let acquired ← Renderer.DrawFrame_acquire
  let result := acquired.1
  let imageIndex := acquired.2
  if result = VK_ERROR_OUT_OF_DATE_KHR then
    let _ ← Renderer.ResetSwapChain
    pure ()
  else
    if result ≠ VK_SUCCESS ∧ result ≠ VK_SUBOPTIMAL_KHR then
      cerr "Failed to acquire swap chain image"
    Renderer.DrawFrame_submitAndPresent imageIndex

/-- The body of the loop of the destructor `Renderer::~Renderer`. -/
def Renderer.destructor_body (i : Nat) : M Unit := do
  let r ← getR
  access i r._vk_render_finished_semaphores.length
  emit Call.vkDestroySemaphore
  access i r._vk_image_available_semaphores.length
  emit Call.vkDestroySemaphore
  access i r._vk_in_flight_fences.length
  emit Call.vkDestroyFence

/-- The destructor `Renderer::~Renderer`, followed by the destruction of the member
`_device_manager`: its vector `_devices` destroys every device, and the destructor of a
device whose `_device_properties` dangles deletes the object a second time, which has no
defined behaviour. -/
def Renderer.destructor : M Unit := do
  emit Call.vkDeviceWaitIdle
  Renderer.DestroySwapChain
  emit Call.vkDestroySampler
  let r ← getR
  emit (Call.vkDestroyImageView r._vk_texture_image_view)
  emit Call.vkDestroyImage
  emit (Call.vkFreeMemory r._vk_texture_image_memory)
  emit Call.vkDestroyDescriptorSetLayout
  emit (Call.vkDestroyBuffer r._vk_index_buffer)
  emit (Call.vkFreeMemory r._vk_index_buffer_memory)
  emit (Call.vkDestroyBuffer r._vk_vertex_buffer)
  emit (Call.vkFreeMemory r._vk_vertex_buffer_memory)
  forIndex Renderer.destructor_body MAX_FRAMES_IN_FLIGHT 0
  emit Call.vkDestroyCommandPool
  emit Call.vkDestroyDevice
  if r._enable_validation_layers then
    emit Call.DestroyDebugUtilsMessengerEXT
  emit Call.vkDestroySurfaceKHR
  emit Call.vkDestroyInstance
  if r._device_manager._devices_dangling ≠ 0 then
    undefinedBehaviour

/-! ## `Window`, `Game` and `main` (`Window.cpp`, `Game.cpp`, `Main.cpp`) -/

/-- The method `Window::Init`. -/
def Window.Init : M Bool := do
  emit Call.glfwInit
  let p ← getPlatform
  emit (Call.glfwCreateWindow p.windowCreated)
  if !p.windowCreated then
    cerr "Failed to initialize window"
    pure false
  else
    let window ← fresh
    modifyWindow fun x => { x with _window := window }
    let ok ← Renderer.Init window
    if !ok then
      cerr "Failed to initialize renderer"
      pure false
    else
      emit Call.glfwSetFramebufferSizeCallback
      pure true

/-- The loop of `Window::Poll`, one iteration per entry of `polls`: `glfwPollEvents`, during
which the resize callback may set `framebuffer_resized`, then `DrawFrame`. The window
should close once the entries are used up. -/
def Window.Poll_loop : List Bool → M Unit
  | [] => pure ()
  | resized :: rest => do
      emit Call.glfwPollEvents
      if resized then
        modifyR fun r => { r with framebuffer_resized := true }
      Renderer.DrawFrame
      Window.Poll_loop rest

/-- The method `Window::Poll`. -/
def Window.Poll : M Unit := do
  let x ← getWindow
  let p ← getPlatform
  if !x.game_ending then
    Window.Poll_loop p.polls
  modifyWindow fun x => { x with game_ending := true }

/-- The destructor `Window::~Window`, followed by the destructor of its member
`_renderer`. -/
def Window.destructor : M Unit := do
  emit Call.glfwDestroyWindow
  emit Call.glfwTerminate
  Renderer.destructor

/-- The method `Game::Init`. -/
def Game.Init : M Bool := do
  let ok ← Window.Init
  if !ok then pure false else pure true

/-- The method `Game::Update`. -/
def Game.Update : M Unit := Window.Poll

/-- The method `Game::GameEnding`. -/
def Game.GameEnding : M Bool := do
  let x ← getWindow
  pure x.game_ending

/-- The function `main`, for a window that closes after finitely many polls. The loop
`while(!game.GameEnding()) game.Update();` runs `Update` at most once, because
`Window::Poll` sets `game_ending` before it returns. The value is the exit status. -/
def main : M Nat := do
  let ok ← Game.Init
  if !ok then
    Window.destructor
    pure EXIT_FAILURE
  else
    let ending ← Game.GameEnding
    if !ending then
      Game.Update
    Window.destructor
    pure EXIT_SUCCESS

/-- The steps of a list called one after the other, whatever they return. -/
def runSteps : List Step → M Unit
  | [] => pure ()
  | s :: rest => do
      let _ ← s.run
      runSteps rest

/-- What step `k` of a chain returns when it is called after the steps before it have been
called in order. -/
def stepResult (steps : List Step) (k : Nat) (w : World) : Bool :=
  ((steps.getD k Step.InitInstance).run (runSteps (steps.take k) w).world).value

/-- The world in which `Renderer::Init` evaluates its chain: `_window` has been assigned. -/
def World.withWindowHandle (w : World) (window : Handle) : World :=
  { w with renderer := { w.renderer with _window := window } }

/-- The lengths of the swapchain images and of the per-image vectors of the renderer. -/
structure Sizes where
  images : Nat
  imageViews : Nat
  framebuffers : Nat
  uniformBuffers : Nat
  uniformBuffersMemory : Nat
  descriptorSets : Nat
  commandBuffers : Nat
deriving DecidableEq, Repr

/-- The lengths of the vectors of a renderer. -/
def Renderer.sizes (r : Renderer) : Sizes :=
  { images := r._vk_swapchain_images.length
    imageViews := r._vk_swapchain_image_views.length
    framebuffers := r._vk_swapchain_framebuffers.length
    uniformBuffers := r._vk_uniform_buffers.length
    uniformBuffersMemory := r._vk_uniform_buffers_memory.length
    descriptorSets := r._vk_descriptor_sets.length
    commandBuffers := r._vk_command_buffers.length }

/-- Every per-image vector has as many entries as there are swapchain images. -/
def Sizes.Agree (s : Sizes) : Prop :=
  s.imageViews = s.images ∧ s.framebuffers = s.images ∧ s.uniformBuffers = s.images ∧
    s.uniformBuffersMemory = s.images ∧ s.descriptorSets = s.images ∧
    s.commandBuffers = s.images

instance (s : Sizes) : Decidable s.Agree := by
  unfold Sizes.Agree; infer_instance

/-- The function `m` leaves the quantity `g` of the renderer as it found it. -/
def PreservesR {α β : Type} (g : Renderer → β) (m : M α) : Prop :=
  ∀ w, g (m w).world.renderer = g w.renderer

/-- Every call that the function `m` issues satisfies `P`. -/
def Emits {α : Type} (P : Call → Prop) (m : M α) : Prop :=
  ∀ w, ∀ c ∈ (m w).calls, P c

/-- The renderer with its swapchain-bound members blanked: what is left is the state that
a rebuild of the swapchain has no business with. -/
def Renderer.withoutSwapchainState (r : Renderer) : Renderer :=
  { r with
    _vk_swapchain := 0
    _vk_swapchain_image_format := 0
    _vk_swapchain_images := []
    _vk_swapchain_image_views := []
    _vk_render_pass := 0
    _vk_swapchain_framebuffers := []
    _vk_pipeline_layout := 0
    _vk_graphics_pipeline := 0
    _vk_uniform_buffers := []
    _vk_uniform_buffers_memory := []
    _vk_descriptor_pool := 0
    _vk_descriptor_sets := []
    _vk_command_buffers := [] }

/-- The world after `n` calls of `ResetSwapChain` in a row. -/
def worldAfterResets : Nat → World → World
  | 0, w => w
  | n + 1, w => (Renderer.ResetSwapChain (worldAfterResets n w)).world

/-- Each of the first `n` calls of `ResetSwapChain` in a row returns true. -/
def resetsSucceed : Nat → World → Bool
  | 0, _ => true
  | n + 1, w => resetsSucceed n w && (Renderer.ResetSwapChain (worldAfterResets n w)).value

/-- The kinds of object bound to the swapchain: what `DestroySwapChain` destroys and the
steps of `ResetSwapChain` create. -/
inductive SwapchainObject
  | swapchain
  | imageView
  | renderPass
  | pipelineLayout
  | pipeline
  | framebuffer
  | uniformBuffer
  | descriptorPool
deriving DecidableEq, Repr

/-- The swapchain-bound object that a call of the steps of `ResetSwapChain` creates. In
these steps every image view is the view of a swapchain image, and every buffer and every
memory allocation belongs to a uniform buffer. -/
def Call.creates : Call → Option SwapchainObject
  | Call.vkCreateSwapchainKHR _ _ _ _ _ => some SwapchainObject.swapchain
  | Call.vkCreateImageView _ _ => some SwapchainObject.imageView
  | Call.vkCreateRenderPass _ => some SwapchainObject.renderPass
  | Call.vkCreatePipelineLayout _ => some SwapchainObject.pipelineLayout
  | Call.vkCreateGraphicsPipelines _ => some SwapchainObject.pipeline
  | Call.vkCreateFramebuffer _ _ => some SwapchainObject.framebuffer
  | Call.vkCreateBuffer _ => some SwapchainObject.uniformBuffer
  | Call.vkAllocateMemory _ _ => some SwapchainObject.uniformBuffer
  | Call.vkCreateDescriptorPool _ _ => some SwapchainObject.descriptorPool
  | _ => none

/-- The swapchain-bound object that a call of `DestroySwapChain` destroys. -/
def Call.destroys : Call → Option SwapchainObject
  | Call.vkDestroyFramebuffer _ => some SwapchainObject.framebuffer
  | Call.vkDestroyPipeline _ => some SwapchainObject.pipeline
  | Call.vkDestroyPipelineLayout _ => some SwapchainObject.pipelineLayout
  | Call.vkDestroyRenderPass _ => some SwapchainObject.renderPass
  | Call.vkDestroyImageView _ => some SwapchainObject.imageView
  | Call.vkDestroySwapchainKHR _ => some SwapchainObject.swapchain
  | Call.vkDestroyBuffer _ => some SwapchainObject.uniformBuffer
  | Call.vkFreeMemory _ => some SwapchainObject.uniformBuffer
  | Call.vkDestroyDescriptorPool _ => some SwapchainObject.descriptorPool
  | _ => none

/-- The kinds of the objects created by a sequence of calls, in order. -/
def createdKinds (calls : List Call) : List SwapchainObject := calls.filterMap Call.creates

/-- The kinds of the objects destroyed by a sequence of calls, in order. -/
def destroyedKinds (calls : List Call) : List SwapchainObject := calls.filterMap Call.destroys

/-- The place of a kind in the order swapchain, image views, render pass, pipeline layout,
pipeline, framebuffers, uniform buffers, descriptor pool. -/
def SwapchainObject.creationRank : SwapchainObject → Nat
  | SwapchainObject.swapchain => 0
  | SwapchainObject.imageView => 1
  | SwapchainObject.renderPass => 2
  | SwapchainObject.pipelineLayout => 3
  | SwapchainObject.pipeline => 4
  | SwapchainObject.framebuffer => 5
  | SwapchainObject.uniformBuffer => 6
  | SwapchainObject.descriptorPool => 7

/-- A sequence of kinds never goes back in the order of `creationRank`: no object of a
later kind comes before an object of an earlier kind. -/
def InCreationOrder (kinds : List SwapchainObject) : Prop :=
  kinds.Pairwise fun a b => a.creationRank ≤ b.creationRank

/-- The call creates nothing, or an object whose place in the creation order is between
`lo` and `hi`. -/
def Call.createsWithin (lo hi : Nat) (c : Call) : Bool :=
  match c.creates with
  | none => true
  | some k => decide (lo ≤ k.creationRank) && decide (k.creationRank ≤ hi)

/-- The function creates its objects in creation order, all of them at places between `lo`
and `hi`. -/
def CreatesInOrder {α : Type} (lo hi : Nat) (m : M α) : Prop :=
  ∀ w, InCreationOrder (createdKinds (m w).calls) ∧
    ∀ k ∈ createdKinds (m w).calls, lo ≤ k.creationRank ∧ k.creationRank ≤ hi

/-- The calls that are the work of a frame after the acquisition: the update of the uniform
buffer (`vkMapMemory`, `memcpy`, `vkUnmapMemory`), the fence reset, the queue submission
and the presentation. -/
def Call.isFrameWork : Call → Bool
  | Call.vkMapMemory _ => true
  | Call.memcpy => true
  | Call.vkUnmapMemory _ => true
  | Call.vkResetFences _ => true
  | Call.vkQueueSubmit _ _ => true
  | Call.vkQueuePresentKHR _ _ => true
  | _ => false

/-- The function leaves `_current_frame` one slot further, modulo `MAX_FRAMES_IN_FLIGHT`. -/
def AdvancesSlot {α : Type} (m : M α) : Prop :=
  ∀ w, (m w).world.renderer._current_frame
    = (w.renderer._current_frame + 1) % MAX_FRAMES_IN_FLIGHT

/-! ## Worlds to run the renderer in -/

/-- The members of a `Renderer` after its constructor: handles unset, vectors empty,
frame slot 0, resize flag clear. -/
def Renderer.constructed (enable_validation_layers : Bool) : Renderer :=
  { framebuffer_resized := false
    _window := 0
    _vk_instance := 0
    _vk_logical_device := 0
    _vk_graphics_queue := 0
    _vk_present_queue := 0
    _vk_surface := 0
    _vk_swapchain := 0
    _vk_swapchain_image_format := 0
    _vk_swapchain_images := []
    _vk_swapchain_image_views := []
    _vk_render_pass := 0
    _vk_descriptor_set_layout := 0
    _vk_swapchain_framebuffers := []
    _vk_pipeline_layout := 0
    _vk_graphics_pipeline := 0
    _vk_command_pool := 0
    _vk_texture_image := 0
    _vk_texture_image_memory := 0
    _vk_texture_image_view := 0
    _vk_texture_sampler := 0
    _vk_vertex_buffer := 0
    _vk_vertex_buffer_memory := 0
    _vk_index_buffer := 0
    _vk_index_buffer_memory := 0
    _vk_uniform_buffers := []
    _vk_uniform_buffers_memory := []
    _vk_descriptor_pool := 0
    _vk_descriptor_sets := []
    _vk_command_buffers := []
    _vk_image_available_semaphores := []
    _vk_render_finished_semaphores := []
    _vk_in_flight_fences := []
    _current_frame := 0
    _vk_debug_messenger := 0
    _device_manager := RenderDeviceManager.fresh rendererRequiredExtensions
    _enable_validation_layers := enable_validation_layers }

/-- The world at program start on a given platform. -/
def World.start (platform : Platform) (enable_validation_layers : Bool) : World :=
  { platform := platform
    window := { game_ending := false, _window := 0 }
    renderer := Renderer.constructed enable_validation_layers
    undefinedAccess := false }

/-- A platform with the discrete adapter of the scenario, one suitable memory type, the
preferred surface format and present mode, on which every call succeeds; each swapchain
has three images and every acquisition yields image 0. -/
def friendlyPlatform : Platform :=
  { adapters := [discreteAdapter]
    swapchain_props :=
      { minImageCount := 2, maxImageCount := 3
        formats := [{ format := VK_FORMAT_B8G8R8A8_UNORM,
                      colorSpace := VK_COLOR_SPACE_SRGB_NONLINEAR_KHR }]
        present_modes := [VK_PRESENT_MODE_FIFO_KHR, VK_PRESENT_MODE_MAILBOX_KHR] }
    memoryTypes := [7]
    windowCreated := true
    pixelsLoaded := true
    results := []
    imageCounts := [3, 3, 3, 3]
    imageIndices := []
    memoryTypeBits := [1, 1, 1, 1, 1, 1, 1, 1, 1, 1, 1, 1, 1, 1, 1, 1]
    polls := []
    nextHandle := 0 }

/-- The friendly platform without any adapter. -/
def noAdapterPlatform : Platform :=
  { friendlyPlatform with adapters := [] }

/-- The friendly platform with swapchains of three, two and four images in turn. -/
def varyingPlatform : Platform :=
  { friendlyPlatform with imageCounts := [3, 2, 4] }

/-- The world after a successful `Init` on the friendly platform, in which the platform
will answer the next call with `result`. -/
def worldWithNextResult (result : Int) : World :=
  { (Renderer.Init 1 (World.start friendlyPlatform false)).world with
    platform :=
      { (Renderer.Init 1 (World.start friendlyPlatform false)).world.platform with
        results := [result] } }

/-- The world after a successful `Init` on the friendly platform. -/
def initialisedWorld : World := (Renderer.Init 1 (World.start friendlyPlatform false)).world

/-- An integrated adapter whose maximum 2D texture dimension is 1, so that its device is
rated 1. -/
def tinyTextureAdapter : PhysicalDevice :=
  { queueFamilies := [(VK_QUEUE_GRAPHICS_BIT, true)]
    deviceType := VK_PHYSICAL_DEVICE_TYPE_INTEGRATED_GPU
    maxImageDimension2D := 1
    extensions := [VK_KHR_SWAPCHAIN_EXTENSION_NAME] }

/-- The device built from `tinyTextureAdapter`. -/
def tinyTextureDevice : RenderDevice := RenderDevice.construct tinyTextureAdapter

/-- The device at position `i` of the list is rated `r`. -/
def RatedAt (requiredExtensions : List String) (ds : List RenderDevice) (i r : Nat) : Prop :=
  ∃ d, ds.get? i = some d ∧ RateDevice requiredExtensions d = some r

/-- The call is the line `msg` on `std::cerr`. -/
def Call.isLine (msg : String) : Call → Bool
  | Call.cerr m => m == msg
  | _ => false

/-- An integrated adapter with everything the renderer needs whose maximum 2D texture
dimension is reported as 0. -/
def zeroTextureAdapter : PhysicalDevice :=
  { queueFamilies := [(VK_QUEUE_GRAPHICS_BIT, true)]
    deviceType := VK_PHYSICAL_DEVICE_TYPE_INTEGRATED_GPU
    maxImageDimension2D := 0
    extensions := [VK_KHR_SWAPCHAIN_EXTENSION_NAME] }

/-- The device built from `zeroTextureAdapter`. -/
def zeroTextureDevice : RenderDevice := RenderDevice.construct zeroTextureAdapter

/-- A discrete adapter with everything the renderer needs whose maximum 2D texture
dimension is `2 ^ 32 - 1000`. -/
def wrappingTextureAdapter : PhysicalDevice :=
  { queueFamilies := [(VK_QUEUE_GRAPHICS_BIT, true)]
    deviceType := VK_PHYSICAL_DEVICE_TYPE_DISCRETE_GPU
    maxImageDimension2D := 4294966296
    extensions := [VK_KHR_SWAPCHAIN_EXTENSION_NAME] }

/-- The device built from `wrappingTextureAdapter`. -/
def wrappingTextureDevice : RenderDevice := RenderDevice.construct wrappingTextureAdapter

/-- Value of `VK_ERROR_OUT_OF_DEVICE_MEMORY`. -/
def VK_ERROR_OUT_OF_DEVICE_MEMORY : Int := -2

/-- The calls that create, query or destroy what is not bound to the swapchain: instance,
surface, physical and logical device, queues, command pool, descriptor-set layout, texture
image and sampler, semaphores and fences. -/
def Call.isOutsideSwapchainState : Call → Bool
  | Call.vkCreateInstance _ => true
  | Call.CreateDebugUtilsMessengerEXT _ => true
  | Call.glfwCreateWindowSurface _ => true
  | Call.vkEnumeratePhysicalDevices _ => true
  | Call.vkCreateDevice _ _ => true
  | Call.vkGetDeviceQueue _ => true
  | Call.vkCreateDescriptorSetLayout _ => true
  | Call.vkCreateCommandPool _ _ => true
  | Call.vkCreateImage _ => true
  | Call.vkBindImageMemory => true
  | Call.vkCreateSampler _ => true
  | Call.vkCreateSemaphore _ => true
  | Call.vkCreateFence _ => true
  | Call.vkDestroySampler => true
  | Call.vkDestroyImage => true
  | Call.vkDestroyDescriptorSetLayout => true
  | Call.vkDestroySemaphore => true
  | Call.vkDestroyFence => true
  | Call.vkDestroyCommandPool => true
  | Call.vkDestroyDevice => true
  | Call.DestroyDebugUtilsMessengerEXT => true
  | Call.vkDestroySurfaceKHR => true
  | Call.vkDestroyInstance => true
  | _ => false

/-- The world after a successful `Init` on the platform `p`, in which the platform will
answer the next calls with `results`. -/
def initialisedWorldOn (p : Platform) (results : List Int) : World :=
  { (Renderer.Init 1 (World.start p false)).world with
    platform :=
      { (Renderer.Init 1 (World.start p false)).world.platform with results := results } }

/-- The friendly platform with three memory types, of which only the last is host visible
and host coherent; every resource accepts all three. -/
def threeMemoryTypesPlatform : Platform :=
  { friendlyPlatform with
    memoryTypes := [VK_MEMORY_PROPERTY_DEVICE_LOCAL_BIT, VK_MEMORY_PROPERTY_DEVICE_LOCAL_BIT, 7]
    memoryTypeBits := [7, 7] }

/-- The friendly platform on which the answers number `k + 1` is
`VK_ERROR_OUT_OF_DEVICE_MEMORY`, the answers before it `VK_SUCCESS`. -/
def failingPlatform (k : Nat) : Platform :=
  { friendlyPlatform with
    results := List.replicate k VK_SUCCESS ++ [VK_ERROR_OUT_OF_DEVICE_MEMORY] }

/-- The friendly platform whose swapchain has three images at first and four images when
it is rebuilt. -/
def growingPlatform : Platform :=
  { friendlyPlatform with imageCounts := [3, 4] }

/-- The world in which step `k` of `Renderer::Init` is called: the steps before it have
been called in order. -/
def worldBeforeStep (k : Nat) (w : World) : World :=
  (runSteps (Renderer.initSteps.take k) (w.withWindowHandle 1)).world

/-- The statements of `Renderer::DrawFrame` from the update of the uniform buffer to the
return of `vkQueuePresentKHR`; the value is the `VkResult` of the presentation. -/
def Renderer.DrawFrame_upToPresent (imageIndex : Nat) : M Int := do
  Renderer.UpdateUniformBuffer imageIndex
  let r ← getR
  access r._current_frame r._vk_image_available_semaphores.length
  access imageIndex r._vk_command_buffers.length
  access r._current_frame r._vk_render_finished_semaphores.length
  access r._current_frame r._vk_in_flight_fences.length
  emit (Call.vkResetFences r._current_frame)
  let submitResult ← vkCall (Call.vkQueueSubmit (some r._current_frame))
  if submitResult ≠ VK_SUCCESS then
    cerr "Failed to submit draw command buffer"
  vkCall (Call.vkQueuePresentKHR imageIndex)

/-- The world with the flag `framebuffer_resized` of the renderer cleared. -/
def World.withResizeFlagCleared (w : World) : World :=
  { w with renderer := { w.renderer with framebuffer_resized := false } }

/-- The world after a successful `Init` on the friendly platform and a resize of the window:
the resize callback of `Window::Init` has set `framebuffer_resized`. -/
def resizedWorld : World :=
  (modifyR (fun r => { r with framebuffer_resized := true }) initialisedWorld).world

/-! ## The fences of the frame slots -/

/-- The state of the fence of a frame slot: signaled; pending, which is reset and handed to
a submission that will signal it; or stuck, which is reset with no submission that will
signal it. -/
inductive FenceState
  | signaled
  | pending
  | stuck
  deriving DecidableEq, Repr

/-- The fences after `InitSyncObjects`, which creates each of them with
`VK_FENCE_CREATE_SIGNALED_BIT`. -/
def fencesAfterInit : List FenceState :=
  List.replicate MAX_FRAMES_IN_FLIGHT FenceState.signaled

/-- The effect of one call on the fences: `vkResetFences` unsignals the fence of the slot,
a successful `vkQueueSubmit` that was handed the fence will signal it, a failed one will
not, and `vkWaitForFences` returns once a pending fence has been signaled. -/
def fenceStep (fences : List FenceState) : Call → List FenceState
  | Call.vkResetFences f => fences.set f FenceState.stuck
  | Call.vkQueueSubmit (some f) result =>
      if result = VK_SUCCESS then fences.set f FenceState.pending else fences
  | Call.vkWaitForFences f =>
      if fences.get? f = some FenceState.pending then fences.set f FenceState.signaled
      else fences
  | _ => fences

/-- The fences after a sequence of calls. -/
def fenceStates (fences : List FenceState) (calls : List Call) : List FenceState :=
  calls.foldl fenceStep fences

/-- Some `vkWaitForFences` of the sequence waits on a fence that is stuck at that
moment. -/
def waitsOnStuck : List FenceState → List Call → Bool
  | _, [] => false
  | fences, c :: rest =>
      (match c with
        | Call.vkWaitForFences f => decide (fences.get? f = some FenceState.stuck)
        | _ => false)
      || waitsOnStuck (fenceStep fences c) rest

/-- The friendly platform with a single memory type, which is device local only. -/
def deviceLocalOnlyPlatform : Platform :=
  { friendlyPlatform with
    memoryTypes := [VK_MEMORY_PROPERTY_DEVICE_LOCAL_BIT]
    memoryTypeBits := [1, 1] }

/-! ## Lemmas on the queue queries -/

theorem unsignedToInt_of_lt {u : Nat} (h : u < 2 ^ 31) : unsignedToInt u = (u : Int) := by
  have h1 : u % 2 ^ 32 = u := Nat.mod_eq_of_lt (by omega)
  unfold unsignedToInt
  rw [h1, if_pos h]

theorem supportsOperationLoop_eq_any (operation : Nat) (qs : List QueueProperties) :
    supportsOperationLoop operation qs = qs.any (hasFlag operation) := by
  induction qs with
  | nil => rfl
  | cons p rest ih =>
      by_cases hp : p.flags &&& operation ≠ 0
      · simp [supportsOperationLoop, hasFlag, hp]
      · simp [supportsOperationLoop, hasFlag, hp, ih]

theorem operationQueueLoop_findIdx (operation : Nat) :
    ∀ (qs : List QueueProperties) (k : Nat), idsFrom k qs = true → k + qs.length ≤ 2 ^ 31 →
      operationQueueLoop operation qs =
        if qs.findIdx (hasFlag operation) < qs.length then
          ((k + qs.findIdx (hasFlag operation) : Nat) : Int)
        else -1
  | [], _, _, _ => by simp [operationQueueLoop]
  | p :: rest, k, hid, hlen => by
      simp only [idsFrom, Bool.and_eq_true, beq_iff_eq] at hid
      simp only [List.length_cons] at hlen
      have ih := operationQueueLoop_findIdx operation rest (k + 1) hid.2 (by omega)
      by_cases hp : p.flags &&& operation ≠ 0
      · have hf : hasFlag operation p = true := by simp [hasFlag, hp]
        have hk : unsignedToInt p.id = (k : Int) := by
          rw [hid.1]; exact unsignedToInt_of_lt (by omega)
        simp [operationQueueLoop, hp, List.findIdx_cons, hf, hk]
      · have hf : hasFlag operation p = false := by simp [hasFlag, hp]
        simp only [operationQueueLoop, hp, if_false, List.findIdx_cons, hf, cond_false,
          List.length_cons, ih]
        by_cases hlt : rest.findIdx (hasFlag operation) < rest.length
        · simp [hlt]; omega
        · simp [hlt]

theorem presentQueueLoop_findIdx :
    ∀ (qs : List QueueProperties) (k : Nat), idsFrom k qs = true → k + qs.length ≤ 2 ^ 31 →
      presentQueueLoop qs =
        if qs.findIdx canPresent < qs.length then ((k + qs.findIdx canPresent : Nat) : Int)
        else -1
  | [], _, _, _ => by simp [presentQueueLoop]
  | p :: rest, k, hid, hlen => by
      simp only [idsFrom, Bool.and_eq_true, beq_iff_eq] at hid
      simp only [List.length_cons] at hlen
      have ih := presentQueueLoop_findIdx rest (k + 1) hid.2 (by omega)
      by_cases hp : p.presentation_support = true
      · have hf : canPresent p = true := by simp [canPresent, hp]
        have hk : unsignedToInt p.id = (k : Int) := by
          rw [hid.1]; exact unsignedToInt_of_lt (by omega)
        simp [presentQueueLoop, hp, List.findIdx_cons, hf, hk]
      · have hf : canPresent p = false := by simpa [canPresent] using hp
        simp only [presentQueueLoop, hp, if_false, List.findIdx_cons, hf, cond_false,
          List.length_cons, ih]
        by_cases hlt : rest.findIdx canPresent < rest.length
        · simp [hlt]; omega
        · simp [hlt]

theorem vectorAt_natCast (qs : List QueueProperties) (j : Nat) :
    vectorAt qs (j : Int) = qs.get? j := by
  simp [vectorAt]

theorem find?_eq_get?_findIdx {α : Type} (p : α → Bool) (l : List α) :
    l.find? p = l.get? (l.findIdx p) := by
  induction l with
  | nil => rfl
  | cons a l ih =>
      by_cases h : p a = true
      · simp [List.find?_cons, List.findIdx_cons, h]
      · have h2 : p a = false := by simpa using h
        simp [List.find?_cons, List.findIdx_cons, h2, ih]

/-- On a well-formed queue list `GetOperationQueueIndex` is the position of the first
family that advertises the operation, or `-1`. -/
theorem getOperationQueueIndex_eq (d : RenderDevice) (operation : Nat)
    (h : IdsArePositions d._queue_proprties) :
    d.GetOperationQueueIndex operation =
      if d._queue_proprties.findIdx (hasFlag operation) < d._queue_proprties.length then
        ((d._queue_proprties.findIdx (hasFlag operation) : Nat) : Int)
      else -1 := by
  have := operationQueueLoop_findIdx operation d._queue_proprties 0 h.1 (by have := h.2; omega)
  simpa [RenderDevice.GetOperationQueueIndex] using this

/-- On a well-formed queue list `GetPresentQueueIndex` performs no read outside the vector:
it is the graphics index when the first graphics-capable family can present, and the
result of the second loop otherwise. -/
theorem getPresentQueueIndex_eq (d : RenderDevice) (h : IdsArePositions d._queue_proprties) :
    d.GetPresentQueueIndex =
      some (match d._queue_proprties.find? (hasFlag VK_QUEUE_GRAPHICS_BIT) with
            | some p =>
                if p.presentation_support then d.GetOperationQueueIndex VK_QUEUE_GRAPHICS_BIT
                else presentQueueLoop d._queue_proprties
            | none => presentQueueLoop d._queue_proprties) := by
  have hq := getOperationQueueIndex_eq d VK_QUEUE_GRAPHICS_BIT h
  have hf := find?_eq_get?_findIdx (hasFlag VK_QUEUE_GRAPHICS_BIT) d._queue_proprties
  unfold RenderDevice.GetPresentQueueIndex
  by_cases hlt : d._queue_proprties.findIdx (hasFlag VK_QUEUE_GRAPHICS_BIT)
      < d._queue_proprties.length
  · rw [if_pos hlt] at hq
    have hne : d.GetOperationQueueIndex VK_QUEUE_GRAPHICS_BIT ≠ -1 := by
      rw [hq]; omega
    have hv : vectorAt d._queue_proprties (d.GetOperationQueueIndex VK_QUEUE_GRAPHICS_BIT)
        = d._queue_proprties.find? (hasFlag VK_QUEUE_GRAPHICS_BIT) := by
      rw [hq, vectorAt_natCast, hf]
    simp only [hne, ne_eq, not_false_eq_true, if_true, hv]
    cases hfind : d._queue_proprties.find? (hasFlag VK_QUEUE_GRAPHICS_BIT) with
    | none =>
        rw [hf, List.get?_eq_none] at hfind
        omega
    | some p =>
        by_cases hp : p.presentation_support = true
        · simp [hp]
        · simp [hp]
  · rw [if_neg hlt] at hq
    have hnone : d._queue_proprties.find? (hasFlag VK_QUEUE_GRAPHICS_BIT) = none := by
      rw [hf, List.get?_eq_none]; omega
    simp [hq, hnone]

/-- On a well-formed device `RateDevice` performs no read outside a vector. -/
theorem rateDevice_defined (requiredExtensions : List String) (d : RenderDevice)
    (h : IdsArePositions d._queue_proprties) : ∃ r, RateDevice requiredExtensions d = some r := by
  unfold RateDevice
  rw [getPresentQueueIndex_eq d h]
  by_cases h1 : (!d.SupportsOperation VK_QUEUE_GRAPHICS_BIT) = true
  · exact ⟨0, by simp [h1]⟩
  · simp only [h1, if_false]
    split_ifs <;> exact ⟨_, rfl⟩

/-- The constructor builds well-formed queue lists. -/
theorem idsFrom_enumerateQueues : ∀ (fs : List (Nat × Bool)) (k : Nat),
    idsFrom k (enumerateQueues fs k) = true ∧ (enumerateQueues fs k).length = fs.length
  | [], _ => by simp [enumerateQueues, idsFrom]
  | (f, ps) :: rest, k => by
      have ih := idsFrom_enumerateQueues rest (k + 1)
      simp [enumerateQueues, idsFrom, ih.1, ih.2]

theorem construct_idsArePositions (pd : PhysicalDevice) (h : pd.queueFamilies.length < 2 ^ 31) :
    IdsArePositions (RenderDevice.construct pd)._queue_proprties := by
  have := idsFrom_enumerateQueues pd.queueFamilies 0
  exact ⟨this.1, by simpa [RenderDevice.construct, this.2] using h⟩

/-! ## Lemmas on device selection -/

theorem presentQueueLoop_of_none (qs : List QueueProperties)
    (h : qs.any canPresent = false) : presentQueueLoop qs = -1 := by
  induction qs with
  | nil => rfl
  | cons p rest ih =>
      simp only [List.any_cons, Bool.or_eq_false_iff] at h
      have hp : p.presentation_support = false := h.1
      simp [presentQueueLoop, hp, ih h.2]

theorem getPresentQueueIndex_of_no_present (d : RenderDevice) (h : d.WellFormed)
    (hp : d.hasPresentFamily = false) : d.GetPresentQueueIndex = some (-1) := by
  rw [getPresentQueueIndex_eq d h, presentQueueLoop_of_none _ hp]
  cases hfind : d._queue_proprties.find? (hasFlag VK_QUEUE_GRAPHICS_BIT) with
  | none => rfl
  | some p =>
      have hmem : p ∈ d._queue_proprties := List.mem_of_find?_eq_some hfind
      have hall : ∀ x ∈ d._queue_proprties, canPresent x = false := by
        simpa [RenderDevice.hasPresentFamily] using hp
      have : p.presentation_support = false := hall p hmem
      simp [this]

theorem supportsOperation_eq_hasGraphicsFamily (d : RenderDevice) :
    d.SupportsOperation VK_QUEUE_GRAPHICS_BIT = d.hasGraphicsFamily :=
  supportsOperationLoop_eq_any _ _

/-- A disqualified well-formed device is rated `0`. -/
theorem rateDevice_disqualified (requiredExtensions : List String) (d : RenderDevice)
    (h : d.WellFormed)
    (hdis : d.hasPresentFamily = false ∨ d.GetPresentQueueIndex = some (-1) ∨
      d.hasGraphicsFamily = false ∨ d.SupportsRequiredExtensions requiredExtensions = false) :
    RateDevice requiredExtensions d = some 0 := by
  have hdis2 : d.GetPresentQueueIndex = some (-1) ∨ d.hasGraphicsFamily = false ∨
      d.SupportsRequiredExtensions requiredExtensions = false := by
    rcases hdis with h1 | h2 | h3 | h4
    · exact Or.inl (getPresentQueueIndex_of_no_present d h h1)
    · exact Or.inl h2
    · exact Or.inr (Or.inl h3)
    · exact Or.inr (Or.inr h4)
  obtain ⟨v, hv⟩ : ∃ v, d.GetPresentQueueIndex = some v := ⟨_, getPresentQueueIndex_eq d h⟩
  unfold RateDevice
  rw [supportsOperation_eq_hasGraphicsFamily]
  rcases hdis2 with h1 | h2 | h3
  · rw [h1]; cases d.hasGraphicsFamily <;> simp
  · simp [h2]
  · rw [hv, h3]; cases d.hasGraphicsFamily <;> simp

/-- What the loop of `GuessBestDevice` returns when every device can be rated: either the
`bestDevice` it started with, and then no device is rated above `maxscore`, or the
position of a device rated above `0`. -/
theorem guessBestDeviceLoop_spec (requiredExtensions : List String) :
    ∀ (ds : List RenderDevice) (i maxscore : Nat) (best : Option Nat),
      (∀ d ∈ ds, ∃ r, RateDevice requiredExtensions d = some r) →
      ∃ res, guessBestDeviceLoop requiredExtensions ds i maxscore best = some res ∧
        ((res = best ∧ ∀ d ∈ ds, ∃ r, RateDevice requiredExtensions d = some r ∧ r ≤ maxscore) ∨
         (∃ j d r, res = some (i + j) ∧ ds.get? j = some d ∧
            RateDevice requiredExtensions d = some r ∧ 0 < r))
  | [], _, _, best, _ => ⟨best, rfl, Or.inl ⟨rfl, by simp⟩⟩
  | d :: rest, i, maxscore, best, hall => by
      obtain ⟨r, hr⟩ := hall d (List.mem_cons_self _ _)
      have hrest : ∀ x ∈ rest, ∃ r, RateDevice requiredExtensions x = some r :=
        fun x hx => hall x (List.mem_cons_of_mem _ hx)
      by_cases hgt : r > maxscore
      · obtain ⟨res, hres, hcase⟩ :=
          guessBestDeviceLoop_spec requiredExtensions rest (i + 1) 1 (some i) hrest
        refine ⟨res, by simp [guessBestDeviceLoop, hr, hgt, hres], Or.inr ?_⟩
        rcases hcase with ⟨hb, _⟩ | ⟨j, x, rx, hj, hx, hrx, hpos⟩
        · exact ⟨0, d, r, by simpa using hb, by simp, hr, by omega⟩
        · exact ⟨j + 1, x, rx, by rw [hj]; congr 1; omega, by simpa using hx, hrx, hpos⟩
      · obtain ⟨res, hres, hcase⟩ :=
          guessBestDeviceLoop_spec requiredExtensions rest (i + 1) maxscore best hrest
        refine ⟨res, by simp [guessBestDeviceLoop, hr, hgt, hres], ?_⟩
        rcases hcase with ⟨hb, hle⟩ | ⟨j, x, rx, hj, hx, hrx, hpos⟩
        · refine Or.inl ⟨hb, ?_⟩
          intro x hx
          rcases List.mem_cons.mp hx with rfl | hx
          · exact ⟨r, hr, by omega⟩
          · exact hle x hx
        · exact Or.inr ⟨j + 1, x, rx, by rw [hj]; congr 1; omega, by simpa using hx, hrx, hpos⟩

/-! ## Device selection: the claims -/

/-- C1: `GuessBestDevice` is claimed to return a device of maximal `RateDevice` score, the
first one among equals. On the list of a discrete device rated 17384 followed by an
integrated device rated 8192 the loop returns position 1, the device with the lower score;
on two devices of equal score it returns the second one. -/
theorem C1_guessBestDevice_returns_lower_rated_device :
    RateDevice rendererRequiredExtensions discreteDevice = some 17384 ∧
    RateDevice rendererRequiredExtensions integratedDevice = some 8192 ∧
    GuessBestDevice rendererRequiredExtensions [discreteDevice, integratedDevice]
      = some (some 1) ∧
    GuessBestDevice rendererRequiredExtensions [integratedDevice, integratedDevice]
      = some (some 1) := by
  decide

/-- C2: in the end-to-end scenario (discrete device with texture limit 16384, integrated
device with limit 8192, each with the required extension and one combined queue family)
the discrete device is claimed to be selected in either order. Enumerated second it is
selected and its graphics and present indices are both 0; enumerated first, position 1 is
returned, which is the integrated device. -/
theorem C2_scenario_selects_integrated_device_when_enumerated_last :
    GuessBestDevice rendererRequiredExtensions [integratedDevice, discreteDevice]
      = some (some 1) ∧
    GuessBestDevice rendererRequiredExtensions [discreteDevice, integratedDevice]
      = some (some 1) ∧
    [discreteDevice, integratedDevice].get? 1 = some integratedDevice ∧
    integratedDevice.DiscreteGPU = false ∧
    discreteDevice.DiscreteGPU = true ∧
    discreteDevice.GetPresentQueueIndex
      = some (discreteDevice.GetOperationQueueIndex VK_QUEUE_GRAPHICS_BIT) := by
  decide

/-- C3: a device of the list that has no present-capable queue family
(`GetPresentQueueIndex` is `-1`), no graphics-capable queue family, or fails
`SupportsRequiredExtensions`, is rated `0` by `RateDevice`, and `GuessBestDevice` returns
a result that is not the position of that device, whatever its type and texture limit. -/
theorem C3_disqualified_device_rated_zero_and_never_selected
    (requiredExtensions : List String) (ds : List RenderDevice) (i : Nat) (d : RenderDevice)
    (hwf : ∀ x ∈ ds, x.WellFormed) (hd : ds.get? i = some d)
    (hdis : d.hasPresentFamily = false ∨ d.GetPresentQueueIndex = some (-1) ∨
      d.hasGraphicsFamily = false ∨ d.SupportsRequiredExtensions requiredExtensions = false) :
    RateDevice requiredExtensions d = some 0 ∧
      ∃ res, GuessBestDevice requiredExtensions ds = some res ∧ res ≠ some i := by
  have hmem : d ∈ ds := List.get?_mem hd
  have hzero := rateDevice_disqualified requiredExtensions d (hwf d hmem) hdis
  refine ⟨hzero, ?_⟩
  obtain ⟨res, hres, hcase⟩ := guessBestDeviceLoop_spec requiredExtensions ds 0 0 none
    (fun x hx => rateDevice_defined requiredExtensions x (hwf x hx))
  refine ⟨res, hres, ?_⟩
  rcases hcase with ⟨hb, _⟩ | ⟨j, x, r, hj, hx, hr, hpos⟩
  · simp [hb]
  · intro hi
    rw [hj] at hi
    have hji : j = i := by simpa using hi
    subst hji
    rw [hd] at hx
    cases hx
    rw [hzero] at hr
    cases hr
    omega

/-- C3, on a list whose first device is discrete with texture limit 32768 but cannot
present. -/
theorem C3_disqualified_device_witness :
    RateDevice rendererRequiredExtensions headlessDevice = some 0 ∧
      ∃ res, GuessBestDevice rendererRequiredExtensions [headlessDevice, integratedDevice]
        = some res ∧ res ≠ some 0 :=
  C3_disqualified_device_rated_zero_and_never_selected rendererRequiredExtensions
    [headlessDevice, integratedDevice] 0 headlessDevice (by decide) (by decide)
    (Or.inl (by decide))

/-- C4: `SupportsRequiredExtensions` is claimed to hold exactly when every required name is
advertised, the empty list of advertised extensions included. For a device that advertises
no extension the inner loop is never entered, and the method returns `true` although the
required swapchain extension is missing. -/
theorem C4_supportsRequiredExtensions_true_without_any_extension :
    bareDevice._device_extensions = [] ∧
    bareDevice.SupportsRequiredExtensions rendererRequiredExtensions = true ∧
    ¬ (∀ re ∈ rendererRequiredExtensions, re ∈ bareDevice._device_extensions) := by
  decide

/-! ## `InitDevices`: the vector of devices and the outcome of the selection -/

theorem emplace_back_spec (m m1 : RenderDeviceManager) (pd : PhysicalDevice)
    (h : m.emplace_back pd = some m1) :
    m1._devices = m._devices ++ [RenderDevice.construct pd] ∧
      m1.requiredExtensions = m.requiredExtensions := by
  unfold RenderDeviceManager.emplace_back at h
  split_ifs at h
  · cases h
    exact ⟨rfl, rfl⟩
  · cases h
    exact ⟨rfl, rfl⟩

/-- When the loop of `InitDevices` has a defined result, the devices built from the adapters
stand at the end of `_devices` in the order of the enumeration. -/
theorem emplaceBackLoop_spec : ∀ (platform : List PhysicalDevice) (m m0 : RenderDeviceManager),
    emplaceBackLoop m platform = some m0 →
      m0._devices = m._devices ++ platform.map RenderDevice.construct ∧
        m0.requiredExtensions = m.requiredExtensions
  | [], m, m0, h => by
      simp only [emplaceBackLoop, Option.some.injEq] at h
      subst h
      simp
  | pd :: rest, m, m0, h => by
      unfold emplaceBackLoop at h
      cases h1 : m.emplace_back pd with
      | none => simp [h1] at h
      | some m1 =>
          simp only [h1] at h
          obtain ⟨hd, hr⟩ := emplace_back_spec m m1 pd h1
          obtain ⟨hd0, hr0⟩ := emplaceBackLoop_spec rest m1 m0 h
          exact ⟨by rw [hd0, hd]; simp, by rw [hr0, hr]⟩

/-- What a defined result of `InitDevices` on a non-empty enumeration is: `GuessBestDevice`
on the old devices followed by the new ones has a defined result, which becomes
`_current_device`, and `true` is returned when it is not `nullptr`. -/
theorem initDevices_some_spec (m m1 : RenderDeviceManager) (platform : List PhysicalDevice)
    (ok : Bool) (hne : platform ≠ []) (h : m.InitDevices platform = some (ok, m1)) :
    ∃ best, GuessBestDevice m.requiredExtensions
        (m._devices ++ platform.map RenderDevice.construct) = some best ∧
      m1._devices = m._devices ++ platform.map RenderDevice.construct ∧
      m1._current_device = best ∧
      (ok = true ↔ best ≠ none) := by
  have hlen : ¬ platform.length = 0 := by simpa using hne
  unfold RenderDeviceManager.InitDevices at h
  rw [if_neg hlen] at h
  cases h0 : emplaceBackLoop m platform with
  | none => simp [h0] at h
  | some m0 =>
      obtain ⟨hd, hr⟩ := emplaceBackLoop_spec platform m m0 h0
      simp only [h0] at h
      split_ifs at h with hread
      rw [hr, hd] at h
      cases hg : GuessBestDevice m.requiredExtensions
          (m._devices ++ platform.map RenderDevice.construct) with
      | none => simp [hg] at h
      | some best =>
          simp only [hg] at h
          refine ⟨best, rfl, ?_⟩
          split_ifs at h with hb
          · simp only [Option.some.injEq, Prod.mk.injEq] at h
            obtain ⟨h1, h2⟩ := h
            subst h1 h2
            exact ⟨rfl, rfl, by simp [hb]⟩
          · simp only [Option.some.injEq, Prod.mk.injEq] at h
            obtain ⟨h1, h2⟩ := h
            subst h1 h2
            exact ⟨rfl, rfl, by simp [hb]⟩

/-- On a fresh manager a single adapter is stored without any reallocation that moves a
device, and `InitDevices` has a defined result. -/
theorem initDevices_single_defined (requiredExtensions : List String) (pd : PhysicalDevice)
    (hpd : pd.queueFamilies.length < 2 ^ 31) :
    ∃ ok m1, (RenderDeviceManager.fresh requiredExtensions).InitDevices [pd] = some (ok, m1) := by
  obtain ⟨r, hr⟩ := rateDevice_defined requiredExtensions (RenderDevice.construct pd)
    (construct_idsArePositions pd hpd)
  have hg : ∃ best, GuessBestDevice requiredExtensions [RenderDevice.construct pd]
      = some best := by
    simp only [GuessBestDevice, guessBestDeviceLoop, hr]
    split_ifs <;> exact ⟨_, rfl⟩
  obtain ⟨best, hbest⟩ := hg
  simp only [RenderDeviceManager.InitDevices, RenderDeviceManager.fresh, emplaceBackLoop,
    RenderDeviceManager.emplace_back, vectorGrowth, List.length_cons, List.length_nil,
    List.nil_append]
  simp only [lt_self_iff_false, if_false, ne_eq, not_true_eq_false, List.take_zero,
    List.any_nil, Bool.false_eq_true, hbest, Nat.zero_ne_one, Nat.lt_irrefl]
  by_cases hb : best = none
  · exact ⟨false, _, by rw [if_pos hb, if_neg (Nat.succ_ne_zero 0)]⟩
  · exact ⟨true, _, by rw [if_neg hb, if_neg (Nat.succ_ne_zero 0)]⟩

/-- On a fresh manager the third `emplace_back` reallocates a vector whose first element
has been moved before: three or more adapters leave `InitDevices` without a defined
result. -/
theorem initDevices_three_undefined (requiredExtensions : List String)
    (a b c : PhysicalDevice) (rest : List PhysicalDevice) :
    (RenderDeviceManager.fresh requiredExtensions).InitDevices (a :: b :: c :: rest) = none := by
  simp [RenderDeviceManager.InitDevices, RenderDeviceManager.fresh, emplaceBackLoop,
    RenderDeviceManager.emplace_back, vectorGrowth]
/-- On a fresh manager and two adapters the second `emplace_back` moves the first device,
whose `_device_properties` then dangles: `InitDevices` has no defined result exactly when
`RateDevice` reads the properties of the first device. -/
theorem initDevices_two_undefined_iff (requiredExtensions : List String)
    (a b : PhysicalDevice) (ha : a.queueFamilies.length < 2 ^ 31)
    (hb : b.queueFamilies.length < 2 ^ 31) :
    (RenderDeviceManager.fresh requiredExtensions).InitDevices [a, b] = none ↔
      readsDeviceProperties requiredExtensions (RenderDevice.construct a) = true := by
  have hwf : ∀ d ∈ [RenderDevice.construct a, RenderDevice.construct b], d.WellFormed := by
    intro d hd
    simp only [List.mem_cons, List.mem_singleton, List.not_mem_nil, or_false] at hd
    rcases hd with rfl | rfl
    · exact construct_idsArePositions a ha
    · exact construct_idsArePositions b hb
  obtain ⟨res, hres, -⟩ := guessBestDeviceLoop_spec requiredExtensions
    [RenderDevice.construct a, RenderDevice.construct b] 0 0 none
    (fun x hx => rateDevice_defined requiredExtensions x (hwf x hx))
  have hguess : GuessBestDevice requiredExtensions
      [RenderDevice.construct a, RenderDevice.construct b] = some res := hres
  simp only [RenderDeviceManager.InitDevices, RenderDeviceManager.fresh, emplaceBackLoop,
    RenderDeviceManager.emplace_back, vectorGrowth, List.length_cons, List.length_nil,
    List.nil_append, List.cons_append, lt_self_iff_false, if_false, ne_eq,
    not_true_eq_false, hguess]
  simp only [Nat.zero_add, Nat.succ_ne_zero, Nat.lt_irrefl, if_false, if_true,
    not_false_eq_true, List.take_succ_cons, List.take_zero, List.any_cons, List.any_nil,
    Bool.or_false, Nat.one_ne_zero, OfNat.ofNat_ne_zero, reduceCtorEq]
  by_cases hr : readsDeviceProperties requiredExtensions (RenderDevice.construct a) = true
  · simp [hr]
  · simp only [hr, Bool.false_eq_true, if_false, iff_false]
    rw [hguess]
    by_cases hn : res = none <;> simp [hn]

/-- Every defined result of `InitDevices`: false is returned exactly when no adapter is
enumerated or no device is rated above 0, and with true `_current_device` is the position
of a device rated above 0. -/
theorem initDevices_defined_spec (m m1 : RenderDeviceManager)
    (platform : List PhysicalDevice) (ok : Bool)
    (hm : ∀ d ∈ m._devices, d.WellFormed)
    (hp : ∀ pd ∈ platform, pd.queueFamilies.length < 2 ^ 31)
    (h : m.InitDevices platform = some (ok, m1)) :
    (ok = false ↔
      (platform = [] ∨
        ¬ ∃ d ∈ m._devices ++ platform.map RenderDevice.construct,
            ∃ r, RateDevice m.requiredExtensions d = some r ∧ 0 < r)) ∧
    (ok = true →
      m1._devices = m._devices ++ platform.map RenderDevice.construct ∧
      ∃ i d r, m1._current_device = some i ∧ m1._devices.get? i = some d ∧
        RateDevice m.requiredExtensions d = some r ∧ 0 < r) := by
  by_cases hnil : platform = []
  · subst hnil
    simp only [RenderDeviceManager.InitDevices, List.length_nil, if_true, Option.some.injEq,
      Prod.mk.injEq] at h
    obtain ⟨h1, -⟩ := h
    subst h1
    simp
  · obtain ⟨best, hguess, hdev, hcur, hok⟩ := initDevices_some_spec m m1 platform ok hnil h
    have hwf : ∀ d ∈ m._devices ++ platform.map RenderDevice.construct, d.WellFormed := by
      intro d hd
      rcases List.mem_append.mp hd with h1 | h2
      · exact hm d h1
      · obtain ⟨pd, hpd, rfl⟩ := List.mem_map.mp h2
        exact construct_idsArePositions pd (hp pd hpd)
    obtain ⟨res, hres, hcase⟩ := guessBestDeviceLoop_spec m.requiredExtensions
      (m._devices ++ platform.map RenderDevice.construct) 0 0 none
      (fun x hx => rateDevice_defined m.requiredExtensions x (hwf x hx))
    have hres2 : GuessBestDevice m.requiredExtensions
        (m._devices ++ platform.map RenderDevice.construct) = some res := hres
    rw [hguess] at hres2
    cases hres2
    rcases hcase with ⟨hb, hle⟩ | ⟨j, x, r, hj, hx, hr, hpos⟩
    · subst hb
      have hokf : ok = false := by
        cases ok
        · rfl
        · exact absurd rfl (hok.1 rfl)
      refine ⟨?_, by simp [hokf]⟩
      simp only [hokf, true_iff]
      refine Or.inr ?_
      rintro ⟨d, hd, r, hr, hpos⟩
      obtain ⟨r2, hr2, hle2⟩ := hle d hd
      rw [hr] at hr2
      cases hr2
      omega
    · subst hj
      have hokt : ok = true := hok.2 (by simp)
      refine ⟨?_, ?_⟩
      · simp only [hokt, Bool.true_eq_false, false_iff, not_or, not_not]
        exact ⟨hnil, x, List.get?_mem hx, r, hr, hpos⟩
      · intro _
        refine ⟨hdev, 0 + j, x, r, hcur, ?_, hr, hpos⟩
        rw [hdev]
        simpa using hx

/-- C5, as the code has it. A platform reports the integrated and the discrete adapter,
which are rated 8192 and 17384. The second `emplace_back` of `InitDevices` reallocates the
vector: the first device is copied, the original is destroyed and its properties object is
deleted, so that one device of the two is left with a dangling `_device_properties`.
`GuessBestDevice` then rates that device, and `RateDevice` reads through the pointer:
`InitDevices` has no defined result, where the claim has it return true with a device
selected. With three or more adapters the third `emplace_back` deletes an object twice.
With a single adapter `InitDevices` has a defined result, and every defined result is as
the claim says. -/
theorem C5_initDevices_reads_deleted_properties_with_two_adapters :
    RateDevice rendererRequiredExtensions integratedDevice = some 8192 ∧
    RateDevice rendererRequiredExtensions discreteDevice = some 17384 ∧
    emplaceBackLoop (RenderDeviceManager.fresh rendererRequiredExtensions)
        [integratedAdapter, discreteAdapter]
      = some { _current_device := none
               _devices := [integratedDevice, discreteDevice]
               requiredExtensions := rendererRequiredExtensions
               _devices_capacity := 2
               _devices_dangling := 1 } ∧
    readsDeviceProperties rendererRequiredExtensions integratedDevice = true ∧
    (RenderDeviceManager.fresh rendererRequiredExtensions).InitDevices
        [integratedAdapter, discreteAdapter] = none ∧
    (RenderDeviceManager.fresh rendererRequiredExtensions).InitDevices
        [headlessAdapter, discreteAdapter]
      = some (true,
          { _current_device := some 1
            _devices := [headlessDevice, discreteDevice]
            requiredExtensions := rendererRequiredExtensions
            _devices_capacity := 2
            _devices_dangling := 1 }) ∧
    (∀ (requiredExtensions : List String) (a b c : PhysicalDevice)
        (rest : List PhysicalDevice),
      (RenderDeviceManager.fresh requiredExtensions).InitDevices (a :: b :: c :: rest)
        = none) ∧
    (∀ (requiredExtensions : List String) (a b : PhysicalDevice),
      a.queueFamilies.length < 2 ^ 31 → b.queueFamilies.length < 2 ^ 31 →
      ((RenderDeviceManager.fresh requiredExtensions).InitDevices [a, b] = none ↔
        readsDeviceProperties requiredExtensions (RenderDevice.construct a) = true)) ∧
    (∀ (requiredExtensions : List String) (pd : PhysicalDevice),
      pd.queueFamilies.length < 2 ^ 31 →
      ∃ ok m1, (RenderDeviceManager.fresh requiredExtensions).InitDevices [pd]
        = some (ok, m1)) ∧
    (∀ (m m1 : RenderDeviceManager) (platform : List PhysicalDevice) (ok : Bool),
      (∀ d ∈ m._devices, d.WellFormed) →
      (∀ pd ∈ platform, pd.queueFamilies.length < 2 ^ 31) →
      m.InitDevices platform = some (ok, m1) →
      (ok = false ↔
        (platform = [] ∨
          ¬ ∃ d ∈ m._devices ++ platform.map RenderDevice.construct,
              ∃ r, RateDevice m.requiredExtensions d = some r ∧ 0 < r)) ∧
      (ok = true →
        m1._devices = m._devices ++ platform.map RenderDevice.construct ∧
        ∃ i d r, m1._current_device = some i ∧ m1._devices.get? i = some d ∧
          RateDevice m.requiredExtensions d = some r ∧ 0 < r)) := by
  refine ⟨by decide, by decide, by decide, by decide, by decide, by decide,
    initDevices_three_undefined, initDevices_two_undefined_iff, initDevices_single_defined,
    initDevices_defined_spec⟩

/-! ## Scores and queue resolution: lemmas -/

theorem requiredExtensionLoop_of_mem (re : String) :
    ∀ (exts : List String), re ∈ exts → requiredExtensionLoop re exts = true
  | [], h => by simp at h
  | ext :: rest, h => by
      by_cases he : re = ext
      · simp [requiredExtensionLoop, he]
      · have hrest : re ∈ rest := by
          rcases List.mem_cons.mp h with h1 | h1
          · exact absurd h1 he
          · exact h1
        have hne : rest.isEmpty = false := by
          cases rest with
          | nil => simp at hrest
          | cons _ _ => rfl
        simp [requiredExtensionLoop, he, hne, requiredExtensionLoop_of_mem re rest hrest]

/-- With at least one advertised extension the inner loop succeeds exactly for the
advertised names. -/
theorem requiredExtensionLoop_iff_mem (re : String) :
    ∀ (exts : List String), exts ≠ [] → (requiredExtensionLoop re exts = true ↔ re ∈ exts)
  | [], h => absurd rfl h
  | ext :: rest, _ => by
      by_cases he : re = ext
      · simp [requiredExtensionLoop, he]
      · cases rest with
        | nil => simp [requiredExtensionLoop, he]
        | cons ext2 rest2 =>
            have ih := requiredExtensionLoop_iff_mem re (ext2 :: rest2) (by simp)
            rw [requiredExtensionLoop, if_neg he]
            simp only [List.isEmpty_cons, Bool.false_eq_true, if_false, ih, List.mem_cons, he,
              false_or]

/-- For a device that advertises at least one extension `SupportsRequiredExtensions` holds
exactly when every required name is advertised. -/
theorem supportsRequiredExtensions_iff_of_nonempty (d : RenderDevice)
    (hne : d._device_extensions ≠ []) :
    ∀ (required : List String),
      d.SupportsRequiredExtensions required = true ↔ ∀ re ∈ required, re ∈ d._device_extensions
  | [] => by simp [RenderDevice.SupportsRequiredExtensions, supportsRequiredExtensionsLoop]
  | re :: rest => by
      have h1 := requiredExtensionLoop_iff_mem re d._device_extensions hne
      have h2 := supportsRequiredExtensions_iff_of_nonempty d hne rest
      simp only [RenderDevice.SupportsRequiredExtensions] at h2 ⊢
      by_cases hmem : re ∈ d._device_extensions
      · simp [supportsRequiredExtensionsLoop, h1.mpr hmem, h2, hmem]
      · have hf : requiredExtensionLoop re d._device_extensions = false := by
          cases hb : requiredExtensionLoop re d._device_extensions with
          | false => rfl
          | true => exact absurd (h1.mp hb) hmem
        simp [supportsRequiredExtensionsLoop, hf, hmem]

theorem supportsRequiredExtensions_of_all_mem (d : RenderDevice) :
    ∀ (required : List String), (∀ re ∈ required, re ∈ d._device_extensions) →
      d.SupportsRequiredExtensions required = true
  | [], _ => rfl
  | re :: rest, h => by
      have h1 := requiredExtensionLoop_of_mem re d._device_extensions
        (h re (List.mem_cons_self _ _))
      have h2 := supportsRequiredExtensions_of_all_mem d rest
        (fun x hx => h x (List.mem_cons_of_mem _ hx))
      simp only [RenderDevice.SupportsRequiredExtensions] at h2 ⊢
      simp [supportsRequiredExtensionsLoop, h1, h2]

/-- The second loop of `GetPresentQueueIndex` on a well-formed list with a present-capable
family returns the position of the first such family. -/
theorem presentQueueLoop_of_hasPresentFamily (d : RenderDevice) (h : d.WellFormed)
    (hp : d.hasPresentFamily = true) :
    presentQueueLoop d._queue_proprties = ((d._queue_proprties.findIdx canPresent : Nat) : Int) ∧
      d._queue_proprties.findIdx canPresent < d._queue_proprties.length := by
  have hlt : d._queue_proprties.findIdx canPresent < d._queue_proprties.length := by
    rw [List.findIdx_lt_length]
    simpa [RenderDevice.hasPresentFamily] using hp
  have := presentQueueLoop_findIdx d._queue_proprties 0 h.1 (by have := h.2; omega)
  rw [if_pos hlt] at this
  exact ⟨by simpa using this, hlt⟩

/-- On a well-formed list with a graphics-capable family `GetOperationQueueIndex` returns
the position of the first such family. -/
theorem getOperationQueueIndex_of_hasGraphicsFamily (d : RenderDevice) (h : d.WellFormed)
    (hg : d.hasGraphicsFamily = true) :
    d.GetOperationQueueIndex VK_QUEUE_GRAPHICS_BIT
        = ((d._queue_proprties.findIdx (hasFlag VK_QUEUE_GRAPHICS_BIT) : Nat) : Int) ∧
      d._queue_proprties.findIdx (hasFlag VK_QUEUE_GRAPHICS_BIT) < d._queue_proprties.length := by
  have hlt : d._queue_proprties.findIdx (hasFlag VK_QUEUE_GRAPHICS_BIT)
      < d._queue_proprties.length := by
    rw [List.findIdx_lt_length]
    simpa [RenderDevice.hasGraphicsFamily] using hg
  have := getOperationQueueIndex_eq d VK_QUEUE_GRAPHICS_BIT h
  rw [if_pos hlt] at this
  exact ⟨this, hlt⟩

theorem hasGraphicsFamily_of_find? (d : RenderDevice) (p : QueueProperties)
    (hfirst : d._queue_proprties.find? (hasFlag VK_QUEUE_GRAPHICS_BIT) = some p) :
    d.hasGraphicsFamily = true := by
  simp only [RenderDevice.hasGraphicsFamily, List.any_eq_true]
  exact ⟨p, List.mem_of_find?_eq_some hfirst, List.find?_some hfirst⟩

/-- A well-formed device with a present-capable family has a present index other than
`-1`. -/
theorem getPresentQueueIndex_ne_neg_one (d : RenderDevice) (h : d.WellFormed)
    (hp : d.hasPresentFamily = true) :
    ∃ v, d.GetPresentQueueIndex = some v ∧ v ≠ -1 := by
  refine ⟨_, getPresentQueueIndex_eq d h, ?_⟩
  obtain ⟨hloop, _⟩ := presentQueueLoop_of_hasPresentFamily d h hp
  cases hfind : d._queue_proprties.find? (hasFlag VK_QUEUE_GRAPHICS_BIT) with
  | none => simp only [hloop]; omega
  | some p =>
      obtain ⟨hq, _⟩ := getOperationQueueIndex_of_hasGraphicsFamily d h
        (hasGraphicsFamily_of_find? d p hfind)
      by_cases hpp : p.presentation_support = true
      · simp only [hpp, if_true, hq]; omega
      · simp only [hpp, hloop]; simp only [Bool.false_eq_true, if_false]; omega

theorem getPresentQueueIndex_of_first_graphics_presents (d : RenderDevice) (h : d.WellFormed)
    (p : QueueProperties)
    (hfirst : d._queue_proprties.find? (hasFlag VK_QUEUE_GRAPHICS_BIT) = some p)
    (hpp : p.presentation_support = true) :
    d.GetPresentQueueIndex = some (d.GetOperationQueueIndex VK_QUEUE_GRAPHICS_BIT) := by
  rw [getPresentQueueIndex_eq d h, hfirst]
  simp [hpp]

theorem getPresentQueueIndex_of_first_graphics_not_presents (d : RenderDevice)
    (h : d.WellFormed) (p : QueueProperties)
    (hfirst : d._queue_proprties.find? (hasFlag VK_QUEUE_GRAPHICS_BIT) = some p)
    (hpp : p.presentation_support = false) :
    d.GetPresentQueueIndex = some (presentQueueLoop d._queue_proprties) := by
  rw [getPresentQueueIndex_eq d h, hfirst]
  simp [hpp]

/-- When the first graphics-capable family cannot present, the first present-capable
family sits at another position. -/
theorem findIdx_canPresent_ne_findIdx_graphics (qs : List QueueProperties)
    (p : QueueProperties) (hfirst : qs.find? (hasFlag VK_QUEUE_GRAPHICS_BIT) = some p)
    (hpp : p.presentation_support = false) :
    qs.findIdx canPresent ≠ qs.findIdx (hasFlag VK_QUEUE_GRAPHICS_BIT) := by
  intro heq
  have h1 := find?_eq_get?_findIdx (hasFlag VK_QUEUE_GRAPHICS_BIT) qs
  have h2 := find?_eq_get?_findIdx canPresent qs
  rw [heq, ← h1, hfirst] at h2
  have := List.find?_some h2
  simp [canPresent, hpp] at this

/-! ## Scores and queue resolution: the claims -/

/-- C6 as stated fails where the score wraps: a qualified discrete device whose maximum 2D
texture dimension is `4294967295`, a 32-bit value, is rated `999`, not `1000 + 4294967295`. -/
theorem C6_rateDevice_wraps_at_largest_dimension :
    hugeTextureDevice.hasGraphicsFamily = true ∧
    hugeTextureDevice.hasPresentFamily = true ∧
    (∀ re ∈ rendererRequiredExtensions, re ∈ hugeTextureDevice._device_extensions) ∧
    hugeTextureDevice.DiscreteGPU = true ∧
    hugeTextureDevice.maxImageDimension2D < 2 ^ 32 ∧
    RateDevice rendererRequiredExtensions hugeTextureDevice = some 999 ∧
    RateDevice rendererRequiredExtensions hugeTextureDevice
      ≠ some (1000 + hugeTextureDevice.maxImageDimension2D) := by
  decide

/-- C6, amended: for a device with a graphics-capable family, a present-capable family and
all required extensions, and a 32-bit maximum 2D texture dimension, `RateDevice` returns
`(1000 + dimension) mod 2 ^ 32` when the device is discrete, which is `1000 + dimension`
as long as that sum is below `2 ^ 32`, and exactly the dimension when it is not discrete. -/
theorem C6_rateDevice_score_of_qualified_device
    (requiredExtensions : List String) (d : RenderDevice) (hwf : d.WellFormed)
    (hg : d.hasGraphicsFamily = true) (hp : d.hasPresentFamily = true)
    (hext : ∀ re ∈ requiredExtensions, re ∈ d._device_extensions)
    (hdim : d.maxImageDimension2D < 2 ^ 32) :
    RateDevice requiredExtensions d
        = some (if d.DiscreteGPU then (1000 + d.maxImageDimension2D) % 2 ^ 32
                else d.maxImageDimension2D) ∧
      (d.DiscreteGPU = true → 1000 + d.maxImageDimension2D < 2 ^ 32 →
        RateDevice requiredExtensions d = some (1000 + d.maxImageDimension2D)) := by
  obtain ⟨v, hv, hne⟩ := getPresentQueueIndex_ne_neg_one d hwf hp
  have hsup := supportsRequiredExtensions_of_all_mem d requiredExtensions hext
  have hmod : d.maxImageDimension2D % 2 ^ 32 = d.maxImageDimension2D := Nat.mod_eq_of_lt hdim
  have hrate : RateDevice requiredExtensions d
      = some (if d.DiscreteGPU then (1000 + d.maxImageDimension2D) % 2 ^ 32
              else d.maxImageDimension2D) := by
    unfold RateDevice
    rw [supportsOperation_eq_hasGraphicsFamily, hg, hv, hsup]
    simp only [Bool.not_true, Bool.false_eq_true, if_false, hne, RenderDevice.MaxTextureSize,
      hmod]
    cases d.DiscreteGPU
    · simpa using hdim
    · simp
  refine ⟨hrate, ?_⟩
  intro hdisc hsum
  rw [hrate, hdisc, if_pos rfl, Nat.mod_eq_of_lt hsum]

/-- C6, amended, on the discrete device of the end-to-end scenario. -/
theorem C6_rateDevice_score_witness :
    RateDevice rendererRequiredExtensions discreteDevice
        = some (if discreteDevice.DiscreteGPU
                then (1000 + discreteDevice.maxImageDimension2D) % 2 ^ 32
                else discreteDevice.maxImageDimension2D) ∧
      (discreteDevice.DiscreteGPU = true → 1000 + discreteDevice.maxImageDimension2D < 2 ^ 32 →
        RateDevice rendererRequiredExtensions discreteDevice
          = some (1000 + discreteDevice.maxImageDimension2D)) :=
  C6_rateDevice_score_of_qualified_device rendererRequiredExtensions discreteDevice
    (by decide) (by decide) (by decide) (by decide) (by decide)

/-- C7 as stated fails: the device with two graphics families of which only the second can
present has a family that supports both, yet the graphics index is `0` and the present
index is `1`. -/
theorem C7_later_combined_family_is_not_used :
    (∃ p ∈ splitDevice._queue_proprties,
      hasFlag VK_QUEUE_GRAPHICS_BIT p = true ∧ canPresent p = true) ∧
    splitDevice.GetOperationQueueIndex VK_QUEUE_GRAPHICS_BIT = 0 ∧
    splitDevice.GetPresentQueueIndex = some 1 := by
  decide

/-- C7, amended: for a device whose first graphics-capable queue family is `p`, the
resolved present index equals the resolved graphics index exactly when `p` supports
presentation; two different indices are resolved exactly when it does not. -/
theorem C7_same_index_iff_first_graphics_family_presents (d : RenderDevice)
    (hwf : d.WellFormed) (p : QueueProperties)
    (hfirst : d._queue_proprties.find? (hasFlag VK_QUEUE_GRAPHICS_BIT) = some p) :
    d.GetPresentQueueIndex = some (d.GetOperationQueueIndex VK_QUEUE_GRAPHICS_BIT)
      ↔ p.presentation_support = true := by
  constructor
  · intro heq
    by_contra hpp
    have hpp2 : p.presentation_support = false := by simpa using hpp
    rw [getPresentQueueIndex_of_first_graphics_not_presents d hwf p hfirst hpp2] at heq
    obtain ⟨hq, _⟩ := getOperationQueueIndex_of_hasGraphicsFamily d hwf
      (hasGraphicsFamily_of_find? d p hfirst)
    have hloop := presentQueueLoop_findIdx d._queue_proprties 0 hwf.1 (by have := hwf.2; omega)
    have hne := findIdx_canPresent_ne_findIdx_graphics d._queue_proprties p hfirst hpp2
    rw [hq, hloop] at heq
    simp only [Option.some.injEq] at heq
    split_ifs at heq
    omega
  · exact getPresentQueueIndex_of_first_graphics_presents d hwf p hfirst

/-- C7, amended, on the device whose first graphics family cannot present. -/
theorem C7_same_index_iff_witness :
    splitDevice.GetPresentQueueIndex
        = some (splitDevice.GetOperationQueueIndex VK_QUEUE_GRAPHICS_BIT)
      ↔ (QueueProperties.mk 0 VK_QUEUE_GRAPHICS_BIT false).presentation_support = true :=
  C7_same_index_iff_first_graphics_family_presents splitDevice (by decide)
    (QueueProperties.mk 0 VK_QUEUE_GRAPHICS_BIT false) (by decide)

/-- C8: for a queue list whose ids equal their positions, if the first graphics-capable
family also supports presentation then `GetPresentQueueIndex` returns what
`GetOperationQueueIndex(VK_QUEUE_GRAPHICS_BIT)` returns; if no family supports both, some
family supports graphics and some family supports presentation, the two calls return the
position of the first graphics-capable family and the position of the first
present-capable family, which differ and are both below the length of the list. -/
theorem C8_queue_indices_on_constructed_list (d : RenderDevice) (hwf : d.WellFormed) :
    (∀ p, d._queue_proprties.find? (hasFlag VK_QUEUE_GRAPHICS_BIT) = some p →
        canPresent p = true →
        d.GetPresentQueueIndex = some (d.GetOperationQueueIndex VK_QUEUE_GRAPHICS_BIT)) ∧
    ((∀ p ∈ d._queue_proprties,
          ¬ (hasFlag VK_QUEUE_GRAPHICS_BIT p = true ∧ canPresent p = true)) →
      d.hasGraphicsFamily = true → d.hasPresentFamily = true →
        d.GetOperationQueueIndex VK_QUEUE_GRAPHICS_BIT
          = ((d._queue_proprties.findIdx (hasFlag VK_QUEUE_GRAPHICS_BIT) : Nat) : Int) ∧
        d.GetPresentQueueIndex
          = some ((d._queue_proprties.findIdx canPresent : Nat) : Int) ∧
        d._queue_proprties.findIdx (hasFlag VK_QUEUE_GRAPHICS_BIT)
          ≠ d._queue_proprties.findIdx canPresent ∧
        d._queue_proprties.findIdx (hasFlag VK_QUEUE_GRAPHICS_BIT) < d._queue_proprties.length ∧
        d._queue_proprties.findIdx canPresent < d._queue_proprties.length) := by
  refine ⟨fun p hfirst hpp =>
    getPresentQueueIndex_of_first_graphics_presents d hwf p hfirst hpp, ?_⟩
  intro hnone hg hp
  obtain ⟨hq, hqlt⟩ := getOperationQueueIndex_of_hasGraphicsFamily d hwf hg
  obtain ⟨hloop, hplt⟩ := presentQueueLoop_of_hasPresentFamily d hwf hp
  have hsome : ∃ p, d._queue_proprties.find? (hasFlag VK_QUEUE_GRAPHICS_BIT) = some p := by
    rw [find?_eq_get?_findIdx]
    exact ⟨_, List.get?_eq_get hqlt⟩
  obtain ⟨p, hfirst⟩ := hsome
  have hpp : p.presentation_support = false := by
    have hmem := List.mem_of_find?_eq_some hfirst
    have hflag := List.find?_some hfirst
    have := hnone p hmem
    simp only [hflag, canPresent, true_and] at this
    simpa using this
  refine ⟨hq, ?_, ?_, hqlt, hplt⟩
  · rw [getPresentQueueIndex_of_first_graphics_not_presents d hwf p hfirst hpp, hloop]
  · exact fun h => findIdx_canPresent_ne_findIdx_graphics d._queue_proprties p hfirst hpp h.symm

/-- C8, on the device with a presenting compute family at position 0 and a graphics family
at position 1: the graphics index is the position 1, the present index the position 0. -/
theorem C8_queue_indices_witness :
    disjointDevice.GetOperationQueueIndex VK_QUEUE_GRAPHICS_BIT
        = ((disjointDevice._queue_proprties.findIdx (hasFlag VK_QUEUE_GRAPHICS_BIT) : Nat) : Int) ∧
      disjointDevice.GetPresentQueueIndex
        = some ((disjointDevice._queue_proprties.findIdx canPresent : Nat) : Int) ∧
      disjointDevice._queue_proprties.findIdx (hasFlag VK_QUEUE_GRAPHICS_BIT)
        ≠ disjointDevice._queue_proprties.findIdx canPresent ∧
      disjointDevice._queue_proprties.findIdx (hasFlag VK_QUEUE_GRAPHICS_BIT)
        < disjointDevice._queue_proprties.length ∧
      disjointDevice._queue_proprties.findIdx canPresent
        < disjointDevice._queue_proprties.length :=
  (C8_queue_indices_on_constructed_list disjointDevice (by decide)).2
    (by decide) (by decide) (by decide)

/-! ## Memory types and image count: lemmas and claims -/

theorem and_one_shiftLeft_ne_zero_iff (x i : Nat) :
    x &&& (1 <<< i) ≠ 0 ↔ x.testBit i = true := by
  rw [Nat.one_shiftLeft]
  constructor
  · intro h
    by_contra hb
    apply h
    apply Nat.eq_of_testBit_eq
    intro j
    rw [Nat.testBit_and, Nat.testBit_two_pow, Nat.zero_testBit]
    by_cases hij : i = j
    · subst hij; simp [hb]
    · simp [hij]
  · intro hb h0
    have : (x &&& 2 ^ i).testBit i = true := by
      rw [Nat.testBit_and, Nat.testBit_two_pow_self, hb]; rfl
    rw [h0, Nat.zero_testBit] at this
    exact absurd this (by simp)

theorem and_eq_right_iff_testBit (flags properties : Nat) :
    flags &&& properties = properties
      ↔ ∀ b, properties.testBit b = true → flags.testBit b = true := by
  constructor
  · intro h b hb
    have : (flags &&& properties).testBit b = true := by rw [h]; exact hb
    rw [Nat.testBit_and] at this
    simp only [Bool.and_eq_true] at this
    exact this.1
  · intro h
    apply Nat.eq_of_testBit_eq
    intro b
    rw [Nat.testBit_and]
    by_cases hb : properties.testBit b = true
    · simp [hb, h b hb]
    · simp [hb]

/-- The test of the loop body is `MemoryTypeFits`. -/
theorem memoryTypeFits_iff (typeFilter properties i propertyFlags : Nat) :
    (typeFilter &&& (1 <<< i) ≠ 0 ∧ propertyFlags &&& properties = properties)
      ↔ MemoryTypeFits typeFilter properties i propertyFlags := by
  unfold MemoryTypeFits
  rw [and_one_shiftLeft_ne_zero_iff, and_eq_right_iff_testBit]

/-- The loop of `GetMemoryTypeIndex` within the 32 entries of the array: it ends with `-1`
and no type fits, or with the first position whose type fits. -/
theorem memoryTypeLoop_spec (typeFilter properties : Nat) :
    ∀ (types : List Nat) (i : Nat), i + types.length ≤ 32 →
      ∃ r, memoryTypeLoop typeFilter properties types i = some r ∧
        ((r = -1 ∧ ∀ j flags, types.get? j = some flags →
            ¬ MemoryTypeFits typeFilter properties (i + j) flags) ∨
         (∃ j flags, r = ((i + j : Nat) : Int) ∧ types.get? j = some flags ∧
            MemoryTypeFits typeFilter properties (i + j) flags ∧
            ∀ k, k < j → ∀ fl, types.get? k = some fl →
              ¬ MemoryTypeFits typeFilter properties (i + k) fl))
  | [], _, _ => ⟨-1, rfl, Or.inl ⟨rfl, by simp⟩⟩
  | propertyFlags :: rest, i, hlen => by
      simp only [List.length_cons] at hlen
      have hi : ¬ 32 ≤ i := by omega
      by_cases hfit : typeFilter &&& (1 <<< i) ≠ 0 ∧ propertyFlags &&& properties = properties
      · refine ⟨unsignedToInt i, by rw [memoryTypeLoop, if_neg hi, if_pos hfit], ?_⟩
        refine Or.inr ⟨0, propertyFlags, ?_, by simp, ?_, ?_⟩
        · rw [unsignedToInt_of_lt (by omega)]; simp
        · exact (memoryTypeFits_iff _ _ _ _).mp hfit
        · intro k hk; omega
      · obtain ⟨r, hr, hcase⟩ := memoryTypeLoop_spec typeFilter properties rest (i + 1) (by omega)
        refine ⟨r, by rw [memoryTypeLoop, if_neg hi, if_neg hfit, hr], ?_⟩
        have hnot : ¬ MemoryTypeFits typeFilter properties i propertyFlags :=
          fun h => hfit ((memoryTypeFits_iff _ _ _ _).mpr h)
        rcases hcase with ⟨hneg, hall⟩ | ⟨j, flags, hj, hget, hfits, hmin⟩
        · refine Or.inl ⟨hneg, ?_⟩
          intro j flags hget
          cases j with
          | zero =>
              simp only [List.get?_cons_zero, Option.some.injEq] at hget
              subst hget
              simpa using hnot
          | succ j =>
              have := hall j flags (by simpa using hget)
              rwa [show i + (j + 1) = i + 1 + j by omega]
        · refine Or.inr ⟨j + 1, flags, ?_, by simpa using hget, ?_, ?_⟩
          · rw [hj]; congr 1; omega
          · rwa [show i + (j + 1) = i + 1 + j by omega]
          · intro k hk fl hgetk
            cases k with
            | zero =>
                simp only [List.get?_cons_zero, Option.some.injEq] at hgetk
                subst hgetk
                simpa using hnot
            | succ k =>
                have := hmin k (by omega) fl (by simpa using hgetk)
                rwa [show i + (k + 1) = i + 1 + k by omega]

/-- C9: for the memory types of a device (at most 32, the size of the `memoryTypes` array),
a type filter and required property flags, `GetMemoryTypeIndex` returns `-1` exactly when
no index `j` has bit `j` of the filter set and flags containing every required flag, and
otherwise returns the smallest such index. -/
theorem C9_getMemoryTypeIndex_first_fitting_index
    (memoryTypes : List Nat) (typeFilter properties : Nat) (hlen : memoryTypes.length ≤ 32) :
    ∃ r, GetMemoryTypeIndex memoryTypes typeFilter properties = some r ∧
      (r = -1 ↔ ∀ j flags, memoryTypes.get? j = some flags →
          ¬ MemoryTypeFits typeFilter properties j flags) ∧
      (r ≠ -1 → ∃ j flags, r = ((j : Nat) : Int) ∧ memoryTypes.get? j = some flags ∧
          MemoryTypeFits typeFilter properties j flags ∧
          ∀ k, k < j → ∀ fl, memoryTypes.get? k = some fl →
            ¬ MemoryTypeFits typeFilter properties k fl) := by
  obtain ⟨r, hr, hcase⟩ := memoryTypeLoop_spec typeFilter properties memoryTypes 0 (by omega)
  refine ⟨r, hr, ?_, ?_⟩
  · rcases hcase with ⟨hneg, hall⟩ | ⟨j, flags, hj, hget, hfits, _⟩
    · refine ⟨fun _ => ?_, fun _ => hneg⟩
      intro j flags hget
      simpa using hall j flags hget
    · constructor
      · intro hneg
        rw [hj] at hneg
        omega
      · intro hall
        exact absurd hfits (by simpa using hall j flags hget)
  · intro hne
    rcases hcase with ⟨hneg, _⟩ | ⟨j, flags, hj, hget, hfits, hmin⟩
    · exact absurd hneg hne
    · refine ⟨j, flags, by simpa using hj, hget, by simpa using hfits, ?_⟩
      intro k hk fl hgetk
      simpa using hmin k hk fl hgetk

/-- C9, on three memory types of which the second and the third fit the request. -/
theorem C9_getMemoryTypeIndex_witness :
    ∃ r, GetMemoryTypeIndex [1, 6, 7] 6 6 = some r ∧
      (r = -1 ↔ ∀ j flags, [1, 6, 7].get? j = some flags → ¬ MemoryTypeFits 6 6 j flags) ∧
      (r ≠ -1 → ∃ j flags, r = ((j : Nat) : Int) ∧ [1, 6, 7].get? j = some flags ∧
          MemoryTypeFits 6 6 j flags ∧
          ∀ k, k < j → ∀ fl, [1, 6, 7].get? k = some fl → ¬ MemoryTypeFits 6 6 k fl) :=
  C9_getMemoryTypeIndex_first_fitting_index [1, 6, 7] 6 6 (by decide)

/-- C10 as stated fails where `minImageCount + 1` wraps: for the 32-bit limits
`minImageCount = 4294967295`, `maxImageCount = 0` the requested image count is `0`, which
is neither `minImageCount + 1` nor at least `minImageCount`; and for
`minImageCount = maxImageCount = 4294967295` it is `0` as well, not the clamped value. -/
theorem C10_imageCount_wraps_at_largest_minImageCount :
    InitSwapChain_imageCount 4294967295 0 = 0 ∧
    InitSwapChain_imageCount 4294967295 0 ≠ 4294967295 + 1 ∧
    InitSwapChain_imageCount 4294967295 0 < 4294967295 ∧
    InitSwapChain_imageCount 4294967295 4294967295 = 0 ∧
    specClamp (4294967295 + 1) 4294967295 4294967295 = 4294967295 := by
  decide

/-- C10, amended: for 32-bit surface limits with `minImageCount` below `2 ^ 32 - 1` and
`maxImageCount = 0` or `minImageCount ≤ maxImageCount`, the requested image count is
`clamp(minImageCount + 1, minImageCount, maxImageCount)` and at most `maxImageCount` when
`maxImageCount > 0`, is `minImageCount + 1` when `maxImageCount = 0`, and is never below
`minImageCount`. -/
theorem C10_imageCount_is_clamped_below_wrap (minImageCount maxImageCount : Nat)
    (hmin : minImageCount < 2 ^ 32 - 1) (hmax : maxImageCount < 2 ^ 32)
    (hle : maxImageCount = 0 ∨ minImageCount ≤ maxImageCount) :
    (0 < maxImageCount →
      InitSwapChain_imageCount minImageCount maxImageCount
          = specClamp (minImageCount + 1) minImageCount maxImageCount ∧
        InitSwapChain_imageCount minImageCount maxImageCount ≤ maxImageCount) ∧
    (maxImageCount = 0 →
      InitSwapChain_imageCount minImageCount maxImageCount = minImageCount + 1) ∧
    minImageCount ≤ InitSwapChain_imageCount minImageCount maxImageCount := by
  have hmod : (minImageCount + 1) % 2 ^ 32 = minImageCount + 1 := Nat.mod_eq_of_lt (by omega)
  unfold InitSwapChain_imageCount specClamp
  rw [hmod]
  refine ⟨?_, ?_, ?_⟩
  · intro hpos
    rw [if_pos hpos, Nat.min_def]
    split_ifs <;> omega
  · intro h0
    rw [if_neg (by omega)]
  · split_ifs with h
    · rw [Nat.min_def]; split_ifs <;> omega
    · omega

/-- C10, amended, on the limits `minImageCount = 2`, `maxImageCount = 3`. -/
theorem C10_imageCount_witness :
    (0 < 3 → InitSwapChain_imageCount 2 3 = specClamp (2 + 1) 2 3 ∧
        InitSwapChain_imageCount 2 3 ≤ 3) ∧
    (3 = 0 → InitSwapChain_imageCount 2 3 = 2 + 1) ∧
    2 ≤ InitSwapChain_imageCount 2 3 :=
  C10_imageCount_is_clamped_below_wrap 2 3 (by decide) (by decide) (by decide)

/-! ## Surface format and present mode: the claims -/

theorem find?_swapFormatMatches_eq (formats : List VkSurfaceFormatKHR)
    (format color_space : Nat) (p : VkSurfaceFormatKHR)
    (h : formats.find? (swapFormatMatches format color_space) = some p) :
    p = { format := format, colorSpace := color_space } ∧ p ∈ formats := by
  have hp := List.find?_some h
  simp only [swapFormatMatches, Bool.and_eq_true, beq_iff_eq] at hp
  refine ⟨?_, List.mem_of_find?_eq_some h⟩
  cases p
  simp_all

/-- C11 as stated fails on the empty list: with no surface format reported the method
reaches `formats.front()` on an empty vector, which has no defined result. -/
theorem C11_getPreferredSwapFormat_undefined_on_empty_list :
    GetPreferredSwapFormat
        { minImageCount := 2, maxImageCount := 3, formats := [], present_modes := [] }
        VK_FORMAT_B8G8R8A8_UNORM VK_COLOR_SPACE_SRGB_NONLINEAR_KHR = none := by
  decide

/-- C11, amended: for every non-empty list of surface formats `GetPreferredSwapFormat`
returns a defined result, an entry of the list: the entry with the requested format and
colour space when the list contains one, and the first entry of the list otherwise. -/
theorem C11_getPreferredSwapFormat_on_nonempty_list (props : SwapChainProperties)
    (format color_space : Nat) (hne : props.formats ≠ []) :
    ∃ r, GetPreferredSwapFormat props format color_space = some r ∧ r ∈ props.formats ∧
      ((∃ x ∈ props.formats, x.format = format ∧ x.colorSpace = color_space) →
        r = { format := format, colorSpace := color_space }) ∧
      ((¬ ∃ x ∈ props.formats, x.format = format ∧ x.colorSpace = color_space) →
        some r = props.formats.head?) := by
  unfold GetPreferredSwapFormat
  cases hfind : props.formats.find? (swapFormatMatches format color_space) with
  | some p =>
      obtain ⟨hp, hmem⟩ := find?_swapFormatMatches_eq _ _ _ _ hfind
      refine ⟨p, rfl, hmem, fun _ => hp, ?_⟩
      intro hnot
      exact absurd ⟨p, hmem, by rw [hp], by rw [hp]⟩ hnot
  | none =>
      obtain ⟨x, rest, hx⟩ := List.exists_cons_of_ne_nil hne
      refine ⟨x, by simp [hx], by simp [hx], ?_, fun _ => by simp [hx]⟩
      rintro ⟨y, hy, hf, hc⟩
      rw [List.find?_eq_none] at hfind
      exact absurd (by simp [swapFormatMatches, hf, hc]) (hfind y hy)

/-- C11, amended, on a list whose second entry is the requested combination. -/
theorem C11_getPreferredSwapFormat_witness :
    ∃ r, GetPreferredSwapFormat
        { minImageCount := 2, maxImageCount := 3,
          formats := [{ format := 37, colorSpace := 0 }, { format := 44, colorSpace := 0 }],
          present_modes := [2] } 44 0 = some r ∧
      r ∈ [({ format := 37, colorSpace := 0 } : VkSurfaceFormatKHR),
            { format := 44, colorSpace := 0 }] ∧
      ((∃ x ∈ [({ format := 37, colorSpace := 0 } : VkSurfaceFormatKHR),
            { format := 44, colorSpace := 0 }], x.format = 44 ∧ x.colorSpace = 0) →
        r = { format := 44, colorSpace := 0 }) ∧
      ((¬ ∃ x ∈ [({ format := 37, colorSpace := 0 } : VkSurfaceFormatKHR),
            { format := 44, colorSpace := 0 }], x.format = 44 ∧ x.colorSpace = 0) →
        some r = [({ format := 37, colorSpace := 0 } : VkSurfaceFormatKHR),
            { format := 44, colorSpace := 0 }].head?) :=
  C11_getPreferredSwapFormat_on_nonempty_list
    { minImageCount := 2, maxImageCount := 3,
      formats := [{ format := 37, colorSpace := 0 }, { format := 44, colorSpace := 0 }],
      present_modes := [2] } 44 0 (by decide)

/-- C12: for every list of supported present modes and every requested mode,
`GetPrefferedSwapMode` returns the requested mode when the list contains it and
`VK_PRESENT_MODE_FIFO_KHR` otherwise. -/
theorem C12_getPrefferedSwapMode_requested_or_fifo (props : SwapChainProperties) (mode : Nat) :
    GetPrefferedSwapMode props mode
      = if mode ∈ props.present_modes then mode else VK_PRESENT_MODE_FIFO_KHR := by
  unfold GetPrefferedSwapMode
  cases hfind : props.present_modes.find? (fun m => m == mode) with
  | some m =>
      have hm : m = mode := by simpa using List.find?_some hfind
      have hmem : mode ∈ props.present_modes := hm ▸ List.mem_of_find?_eq_some hfind
      simp [hm, hmem]
  | none =>
      rw [List.find?_eq_none] at hfind
      have hnot : mode ∉ props.present_modes := fun hmem => by simpa using hfind mode hmem
      simp [hnot]

/-! ## The renderer: basic lemmas -/

@[simp] theorem bind_apply {α β : Type} (m : M α) (f : α → M β) (w : World) :
    (m >>= f) w =
      { value := (f (m w).value (m w).world).value
        world := (f (m w).value (m w).world).world
        calls := (m w).calls ++ (f (m w).value (m w).world).calls } := rfl

@[simp] theorem pure_apply {α : Type} (a : α) (w : World) :
    (pure a : M α) w = { value := a, world := w, calls := [] } := rfl

@[simp] theorem ite_apply_world {α : Type} (c : Prop) [Decidable c] (m1 m2 : M α) (w : World) :
    (if c then m1 else m2) w = if c then m1 w else m2 w := by
  split_ifs <;> rfl

@[simp] theorem emit_apply (c : Call) (w : World) :
    emit c w = { value := (), world := w, calls := [c] } := rfl

@[simp] theorem cerr_apply (msg : String) (w : World) :
    cerr msg w = { value := (), world := w, calls := [Call.cerr msg] } := rfl

@[simp] theorem getR_apply (w : World) :
    getR w = { value := w.renderer, world := w, calls := [] } := rfl

@[simp] theorem getPlatform_apply (w : World) :
    getPlatform w = { value := w.platform, world := w, calls := [] } := rfl

@[simp] theorem getWindow_apply (w : World) :
    getWindow w = { value := w.window, world := w, calls := [] } := rfl

@[simp] theorem modifyR_apply (f : Renderer → Renderer) (w : World) :
    modifyR f w = { value := (), world := { w with renderer := f w.renderer }, calls := [] } :=
  rfl

@[simp] theorem modifyWindow_apply (f : Window → Window) (w : World) :
    modifyWindow f w
      = { value := (), world := { w with window := f w.window }, calls := [] } := rfl

@[simp] theorem answer_apply (w : World) :
    answer w =
      { value := w.platform.results.headD VK_SUCCESS
        world := { w with platform := { w.platform with results := w.platform.results.tail } }
        calls := [] } := rfl

@[simp] theorem vkCall_apply (c : Int → Call) (w : World) :
    vkCall c w =
      { value := w.platform.results.headD VK_SUCCESS
        world := { w with platform := { w.platform with results := w.platform.results.tail } }
        calls := [c (w.platform.results.headD VK_SUCCESS)] } := rfl

@[simp] theorem fresh_apply (w : World) :
    fresh w =
      { value := w.platform.nextHandle + 1
        world :=
          { w with platform := { w.platform with nextHandle := w.platform.nextHandle + 1 } }
        calls := [] } := rfl

@[simp] theorem freshList_apply (n : Nat) (w : World) :
    freshList n w =
      { value := (List.range n).map fun i => w.platform.nextHandle + 1 + i
        world :=
          { w with platform := { w.platform with nextHandle := w.platform.nextHandle + n } }
        calls := [] } := rfl

@[simp] theorem nextImageCount_apply (w : World) :
    nextImageCount w =
      { value := w.platform.imageCounts.headD 0
        world :=
          { w with platform := { w.platform with imageCounts := w.platform.imageCounts.tail } }
        calls := [] } := rfl

@[simp] theorem nextImageIndex_apply (w : World) :
    nextImageIndex w =
      { value := w.platform.imageIndices.headD 0
        world :=
          { w with platform := { w.platform with imageIndices := w.platform.imageIndices.tail } }
        calls := [] } := rfl

@[simp] theorem nextMemoryTypeBits_apply (w : World) :
    nextMemoryTypeBits w =
      { value := w.platform.memoryTypeBits.headD 0
        world :=
          { w with
            platform := { w.platform with memoryTypeBits := w.platform.memoryTypeBits.tail } }
        calls := [] } := rfl

@[simp] theorem undefinedBehaviour_apply (w : World) :
    undefinedBehaviour w
      = { value := (), world := { w with undefinedAccess := true }, calls := [] } := rfl

@[simp] theorem access_apply (i len : Nat) (w : World) :
    access i len w =
      { value := ()
        world := if i < len then w else { w with undefinedAccess := true }
        calls := [] } := by
  unfold access
  split_ifs <;> rfl

theorem defined_apply {α : Type} (x : Option α) (fallback : α) (w : World) :
    defined x fallback w =
      { value := x.getD fallback
        world := if x.isSome then w else { w with undefinedAccess := true }
        calls := [] } := by
  cases x <;> rfl

theorem vectorResize_length (v : List Handle) (n : Nat) : (vectorResize v n).length = n := by
  simp [vectorResize]
  omega

/-! ## `Init`: the chain of steps -/

/-- What the chain `!s1() || !s2() || ...` reports: when it is false every step was called
and returned true; when it is true the steps before some step `s` returned true, `s`
returned false and no later step was called. In both cases the world and the calls are
those of calling exactly the reported steps in order. -/
theorem firstFailure_spec : ∀ (steps : List Step) (w : World),
    ((firstFailure steps w).value.1 = false →
        (firstFailure steps w).value.2 = steps.map fun s => (s, true)) ∧
    ((firstFailure steps w).value.1 = true →
        ∃ pre s post, steps = pre ++ s :: post ∧
          (firstFailure steps w).value.2 = (pre.map fun x => (x, true)) ++ [(s, false)]) ∧
    (firstFailure steps w).world
      = (runSteps ((firstFailure steps w).value.2.map Prod.fst) w).world ∧
    (firstFailure steps w).calls
      = (runSteps ((firstFailure steps w).value.2.map Prod.fst) w).calls
  | [], w => by simp [firstFailure, runSteps]
  | s :: rest, w => by
      obtain ⟨h1, h2, h3, h4⟩ := firstFailure_spec rest (s.run w).world
      by_cases hok : (s.run w).value = true
      · simp only [firstFailure, bind_apply, hok, if_true, pure_apply, List.map_cons, runSteps,
          List.append_nil]
        refine ⟨fun h => by rw [h1 h], ?_, h3, by rw [h4]⟩
        intro h
        obtain ⟨pre, x, post, hsteps, hlog⟩ := h2 h
        exact ⟨s :: pre, x, post, by rw [hsteps]; rfl, by rw [hlog]; rfl⟩
      · simp only [firstFailure, bind_apply, hok, pure_apply, List.map_cons, runSteps,
          List.append_nil, List.map_nil]
        refine ⟨by simp, fun _ => ⟨[], s, rest, rfl, rfl⟩, by simp, by simp⟩

/-! ## Quantities of the renderer that a function leaves unchanged -/

section Preserves

variable {α β γ : Type} (g : Renderer → γ)

theorem preservesR_pure (a : α) : PreservesR g (pure a : M α) := fun _ => rfl

theorem preservesR_bind {m : M α} {f : α → M β} (hm : PreservesR g m)
    (hf : ∀ a, PreservesR g (f a)) : PreservesR g (m >>= f) := fun w => by
  simp only [bind_apply]
  rw [hf, hm]

theorem preservesR_ite (c : Prop) [Decidable c] {m1 m2 : M α} (h1 : PreservesR g m1)
    (h2 : PreservesR g m2) : PreservesR g (if c then m1 else m2) := by
  split_ifs
  · exact h1
  · exact h2

theorem preservesR_emit (c : Call) : PreservesR g (emit c) := fun _ => rfl

theorem preservesR_cerr (msg : String) : PreservesR g (cerr msg) := fun _ => rfl

theorem preservesR_getR : PreservesR g getR := fun _ => rfl

theorem preservesR_getPlatform : PreservesR g getPlatform := fun _ => rfl

theorem preservesR_getWindow : PreservesR g getWindow := fun _ => rfl

theorem preservesR_answer : PreservesR g answer := fun _ => rfl

theorem preservesR_vkCall (c : Int → Call) : PreservesR g (vkCall c) := fun _ => rfl

theorem preservesR_fresh : PreservesR g fresh := fun _ => rfl

theorem preservesR_freshList (n : Nat) : PreservesR g (freshList n) := fun _ => rfl

theorem preservesR_nextImageCount : PreservesR g nextImageCount := fun _ => rfl

theorem preservesR_nextImageIndex : PreservesR g nextImageIndex := fun _ => rfl

theorem preservesR_nextMemoryTypeBits : PreservesR g nextMemoryTypeBits := fun _ => rfl

theorem preservesR_undefinedBehaviour : PreservesR g undefinedBehaviour := fun _ => rfl

theorem preservesR_modifyWindow (f : Window → Window) : PreservesR g (modifyWindow f) :=
  fun _ => rfl

theorem preservesR_access (i len : Nat) : PreservesR g (access i len) := fun w => by
  simp only [access_apply]
  split_ifs <;> rfl

theorem preservesR_defined (x : Option α) (fallback : α) :
    PreservesR g (defined x fallback) := fun w => by
  simp only [defined_apply]
  split_ifs <;> rfl

theorem preservesR_modifyR {f : Renderer → Renderer} (h : ∀ r, g (f r) = g r) :
    PreservesR g (modifyR f) := fun w => h w.renderer

theorem preservesR_forEach {body : α → M Unit} (h : ∀ a, PreservesR g (body a)) :
    ∀ l : List α, PreservesR g (forEach body l)
  | [] => preservesR_pure g ()
  | a :: rest => preservesR_bind g (h a) fun _ => preservesR_forEach h rest

theorem preservesR_forIndex {body : Nat → M Unit} (h : ∀ i, PreservesR g (body i)) :
    ∀ n i : Nat, PreservesR g (forIndex body n i)
  | 0, _ => preservesR_pure g ()
  | n + 1, i => preservesR_bind g (h i) fun _ => preservesR_forIndex h n (i + 1)

theorem preservesR_forReturnFalse {body : Nat → M Bool} (h : ∀ i, PreservesR g (body i)) :
    ∀ n i : Nat, PreservesR g (forReturnFalse body n i)
  | 0, _ => preservesR_pure g true
  | n + 1, i => preservesR_bind g (h i) fun ok => by
      cases ok
      · exact preservesR_pure g false
      · exact preservesR_forReturnFalse h n (i + 1)

end Preserves

/-! ## What the member functions leave unchanged -/

set_option linter.unusedTactic false
set_option linter.unreachableTactic false

theorem BeginSingleTimeCommands_preserves {γ : Type} (g : Renderer → γ) :
    PreservesR g (Renderer.BeginSingleTimeCommands) := by
  unfold Renderer.BeginSingleTimeCommands
  repeat' first
    | with_reducible apply preservesR_bind
    | with_reducible apply preservesR_ite
    | with_reducible apply preservesR_pure
    | with_reducible apply preservesR_vkCall
    | with_reducible apply preservesR_cerr
    | with_reducible apply preservesR_emit
    | with_reducible apply preservesR_fresh
    | with_reducible apply preservesR_freshList
    | with_reducible apply preservesR_getR
    | with_reducible apply preservesR_getPlatform
    | with_reducible apply preservesR_access
    | with_reducible apply preservesR_defined
    | with_reducible apply preservesR_nextImageCount
    | with_reducible apply preservesR_nextMemoryTypeBits
    | with_reducible apply preservesR_forReturnFalse
    | with_reducible apply preservesR_forIndex
    | with_reducible apply preservesR_forEach
    | ((with_reducible apply preservesR_modifyR); intro r; first | rfl)
    | intro _

theorem EndSingleTimeCommands_preserves {γ : Type} (g : Renderer → γ) :
    PreservesR g (Renderer.EndSingleTimeCommands) := by
  unfold Renderer.EndSingleTimeCommands
  repeat' first
    | with_reducible apply preservesR_bind
    | with_reducible apply preservesR_ite
    | with_reducible apply preservesR_pure
    | with_reducible apply preservesR_vkCall
    | with_reducible apply preservesR_cerr
    | with_reducible apply preservesR_emit
    | with_reducible apply preservesR_fresh
    | with_reducible apply preservesR_freshList
    | with_reducible apply preservesR_getR
    | with_reducible apply preservesR_getPlatform
    | with_reducible apply preservesR_access
    | with_reducible apply preservesR_defined
    | with_reducible apply preservesR_nextImageCount
    | with_reducible apply preservesR_nextMemoryTypeBits
    | with_reducible apply preservesR_forReturnFalse
    | with_reducible apply preservesR_forIndex
    | with_reducible apply preservesR_forEach
    | ((with_reducible apply preservesR_modifyR); intro r; first | rfl)
    | intro _

theorem memoryTypeIdx_preserves {γ : Type} (g : Renderer → γ) (properties : Nat) :
    PreservesR g (Renderer.memoryTypeIdx properties) := by
  unfold Renderer.memoryTypeIdx
  repeat' first
    | with_reducible apply preservesR_bind
    | with_reducible apply preservesR_ite
    | with_reducible apply preservesR_pure
    | with_reducible apply preservesR_vkCall
    | with_reducible apply preservesR_cerr
    | with_reducible apply preservesR_emit
    | with_reducible apply preservesR_fresh
    | with_reducible apply preservesR_freshList
    | with_reducible apply preservesR_getR
    | with_reducible apply preservesR_getPlatform
    | with_reducible apply preservesR_access
    | with_reducible apply preservesR_defined
    | with_reducible apply preservesR_nextImageCount
    | with_reducible apply preservesR_nextMemoryTypeBits
    | with_reducible apply preservesR_forReturnFalse
    | with_reducible apply preservesR_forIndex
    | with_reducible apply preservesR_forEach
    | ((with_reducible apply preservesR_modifyR); intro r; first | rfl)
    | intro _

theorem InitBuffer_preserves {γ : Type} (g : Renderer → γ) (properties : Nat) (storeBuffer storeMemory : Handle → M Unit)
    (hb : ∀ h, PreservesR g (storeBuffer h))
    (hm : ∀ h, PreservesR g (storeMemory h)) :
    PreservesR g (Renderer.InitBuffer properties storeBuffer storeMemory) := by
  unfold Renderer.InitBuffer
  repeat' first
    | with_reducible apply preservesR_bind
    | with_reducible apply preservesR_ite
    | with_reducible apply preservesR_pure
    | with_reducible apply preservesR_vkCall
    | with_reducible apply preservesR_cerr
    | with_reducible apply preservesR_emit
    | with_reducible apply preservesR_fresh
    | with_reducible apply preservesR_freshList
    | with_reducible apply preservesR_getR
    | with_reducible apply preservesR_getPlatform
    | with_reducible apply preservesR_access
    | with_reducible apply preservesR_defined
    | with_reducible apply preservesR_nextImageCount
    | with_reducible apply preservesR_nextMemoryTypeBits
    | with_reducible apply preservesR_forReturnFalse
    | with_reducible apply preservesR_forIndex
    | with_reducible apply preservesR_forEach
    | with_reducible apply memoryTypeIdx_preserves
    | ((with_reducible apply preservesR_modifyR); intro r; first | rfl | apply hb | apply hm)
    | with_reducible apply hb
    | with_reducible apply hm
    | intro _

theorem InitImage_preserves {γ : Type} (g : Renderer → γ) (properties : Nat)
    (hg1 : ∀ r h, g { r with _vk_texture_image := h } = g r)
    (hg2 : ∀ r h, g { r with _vk_texture_image_memory := h } = g r) :
    PreservesR g (Renderer.InitImage properties) := by
  unfold Renderer.InitImage
  repeat' first
    | with_reducible apply preservesR_bind
    | with_reducible apply preservesR_ite
    | with_reducible apply preservesR_pure
    | with_reducible apply preservesR_vkCall
    | with_reducible apply preservesR_cerr
    | with_reducible apply preservesR_emit
    | with_reducible apply preservesR_fresh
    | with_reducible apply preservesR_freshList
    | with_reducible apply preservesR_getR
    | with_reducible apply preservesR_getPlatform
    | with_reducible apply preservesR_access
    | with_reducible apply preservesR_defined
    | with_reducible apply preservesR_nextImageCount
    | with_reducible apply preservesR_nextMemoryTypeBits
    | with_reducible apply preservesR_forReturnFalse
    | with_reducible apply preservesR_forIndex
    | with_reducible apply preservesR_forEach
    | with_reducible apply memoryTypeIdx_preserves
    | ((with_reducible apply preservesR_modifyR); intro r; first | rfl | apply hg1 | apply hg2)
    | with_reducible apply hg1
    | with_reducible apply hg2
    | intro _

theorem TransitionImageLayout_preserves {γ : Type} (g : Renderer → γ) (oldLayout newLayout : Nat) :
    PreservesR g (Renderer.TransitionImageLayout oldLayout newLayout) := by
  unfold Renderer.TransitionImageLayout
  repeat' first
    | with_reducible apply preservesR_bind
    | with_reducible apply preservesR_ite
    | with_reducible apply preservesR_pure
    | with_reducible apply preservesR_vkCall
    | with_reducible apply preservesR_cerr
    | with_reducible apply preservesR_emit
    | with_reducible apply preservesR_fresh
    | with_reducible apply preservesR_freshList
    | with_reducible apply preservesR_getR
    | with_reducible apply preservesR_getPlatform
    | with_reducible apply preservesR_access
    | with_reducible apply preservesR_defined
    | with_reducible apply preservesR_nextImageCount
    | with_reducible apply preservesR_nextMemoryTypeBits
    | with_reducible apply preservesR_forReturnFalse
    | with_reducible apply preservesR_forIndex
    | with_reducible apply preservesR_forEach
    | with_reducible apply BeginSingleTimeCommands_preserves
    | with_reducible apply EndSingleTimeCommands_preserves
    | ((with_reducible apply preservesR_modifyR); intro r; first | rfl)
    | intro _

theorem CopyBuffer_preserves {γ : Type} (g : Renderer → γ) :
    PreservesR g (Renderer.CopyBuffer) := by
  unfold Renderer.CopyBuffer
  repeat' first
    | with_reducible apply preservesR_bind
    | with_reducible apply preservesR_ite
    | with_reducible apply preservesR_pure
    | with_reducible apply preservesR_vkCall
    | with_reducible apply preservesR_cerr
    | with_reducible apply preservesR_emit
    | with_reducible apply preservesR_fresh
    | with_reducible apply preservesR_freshList
    | with_reducible apply preservesR_getR
    | with_reducible apply preservesR_getPlatform
    | with_reducible apply preservesR_access
    | with_reducible apply preservesR_defined
    | with_reducible apply preservesR_nextImageCount
    | with_reducible apply preservesR_nextMemoryTypeBits
    | with_reducible apply preservesR_forReturnFalse
    | with_reducible apply preservesR_forIndex
    | with_reducible apply preservesR_forEach
    | with_reducible apply BeginSingleTimeCommands_preserves
    | with_reducible apply EndSingleTimeCommands_preserves
    | ((with_reducible apply preservesR_modifyR); intro r; first | rfl)
    | intro _

theorem CopyBufferToImage_preserves {γ : Type} (g : Renderer → γ) :
    PreservesR g (Renderer.CopyBufferToImage) := by
  unfold Renderer.CopyBufferToImage
  repeat' first
    | with_reducible apply preservesR_bind
    | with_reducible apply preservesR_ite
    | with_reducible apply preservesR_pure
    | with_reducible apply preservesR_vkCall
    | with_reducible apply preservesR_cerr
    | with_reducible apply preservesR_emit
    | with_reducible apply preservesR_fresh
    | with_reducible apply preservesR_freshList
    | with_reducible apply preservesR_getR
    | with_reducible apply preservesR_getPlatform
    | with_reducible apply preservesR_access
    | with_reducible apply preservesR_defined
    | with_reducible apply preservesR_nextImageCount
    | with_reducible apply preservesR_nextMemoryTypeBits
    | with_reducible apply preservesR_forReturnFalse
    | with_reducible apply preservesR_forIndex
    | with_reducible apply preservesR_forEach
    | with_reducible apply BeginSingleTimeCommands_preserves
    | with_reducible apply EndSingleTimeCommands_preserves
    | ((with_reducible apply preservesR_modifyR); intro r; first | rfl)
    | intro _

theorem copyToMemory_preserves {γ : Type} (g : Renderer → γ) (memory : Handle) :
    PreservesR g (Renderer.copyToMemory memory) := by
  unfold Renderer.copyToMemory
  repeat' first
    | with_reducible apply preservesR_bind
    | with_reducible apply preservesR_ite
    | with_reducible apply preservesR_pure
    | with_reducible apply preservesR_vkCall
    | with_reducible apply preservesR_cerr
    | with_reducible apply preservesR_emit
    | with_reducible apply preservesR_fresh
    | with_reducible apply preservesR_freshList
    | with_reducible apply preservesR_getR
    | with_reducible apply preservesR_getPlatform
    | with_reducible apply preservesR_access
    | with_reducible apply preservesR_defined
    | with_reducible apply preservesR_nextImageCount
    | with_reducible apply preservesR_nextMemoryTypeBits
    | with_reducible apply preservesR_forReturnFalse
    | with_reducible apply preservesR_forIndex
    | with_reducible apply preservesR_forEach
    | ((with_reducible apply preservesR_modifyR); intro r; first | rfl)
    | intro _

theorem InitShader_preserves {γ : Type} (g : Renderer → γ) :
    PreservesR g (Renderer.InitShader) := by
  unfold Renderer.InitShader
  repeat' first
    | with_reducible apply preservesR_bind
    | with_reducible apply preservesR_ite
    | with_reducible apply preservesR_pure
    | with_reducible apply preservesR_vkCall
    | with_reducible apply preservesR_cerr
    | with_reducible apply preservesR_emit
    | with_reducible apply preservesR_fresh
    | with_reducible apply preservesR_freshList
    | with_reducible apply preservesR_getR
    | with_reducible apply preservesR_getPlatform
    | with_reducible apply preservesR_access
    | with_reducible apply preservesR_defined
    | with_reducible apply preservesR_nextImageCount
    | with_reducible apply preservesR_nextMemoryTypeBits
    | with_reducible apply preservesR_forReturnFalse
    | with_reducible apply preservesR_forIndex
    | with_reducible apply preservesR_forEach
    | ((with_reducible apply preservesR_modifyR); intro r; first | rfl)
    | intro _

theorem InitInstance_preserves {γ : Type} (g : Renderer → γ)
    (hg1 : ∀ r h, g { r with _vk_instance := h } = g r)
    (hg2 : ∀ r h, g { r with _vk_debug_messenger := h } = g r) :
    PreservesR g (Renderer.InitInstance) := by
  unfold Renderer.InitInstance
  repeat' first
    | with_reducible apply preservesR_bind
    | with_reducible apply preservesR_ite
    | with_reducible apply preservesR_pure
    | with_reducible apply preservesR_vkCall
    | with_reducible apply preservesR_cerr
    | with_reducible apply preservesR_emit
    | with_reducible apply preservesR_fresh
    | with_reducible apply preservesR_freshList
    | with_reducible apply preservesR_getR
    | with_reducible apply preservesR_getPlatform
    | with_reducible apply preservesR_access
    | with_reducible apply preservesR_defined
    | with_reducible apply preservesR_nextImageCount
    | with_reducible apply preservesR_nextMemoryTypeBits
    | with_reducible apply preservesR_forReturnFalse
    | with_reducible apply preservesR_forIndex
    | with_reducible apply preservesR_forEach
    | ((with_reducible apply preservesR_modifyR); intro r; first | rfl | apply hg1 | apply hg2)
    | with_reducible apply hg1
    | with_reducible apply hg2
    | intro _

theorem InitSurface_preserves {γ : Type} (g : Renderer → γ)
    (hg1 : ∀ r h, g { r with _vk_surface := h } = g r) :
    PreservesR g (Renderer.InitSurface) := by
  unfold Renderer.InitSurface
  repeat' first
    | with_reducible apply preservesR_bind
    | with_reducible apply preservesR_ite
    | with_reducible apply preservesR_pure
    | with_reducible apply preservesR_vkCall
    | with_reducible apply preservesR_cerr
    | with_reducible apply preservesR_emit
    | with_reducible apply preservesR_fresh
    | with_reducible apply preservesR_freshList
    | with_reducible apply preservesR_getR
    | with_reducible apply preservesR_getPlatform
    | with_reducible apply preservesR_access
    | with_reducible apply preservesR_defined
    | with_reducible apply preservesR_nextImageCount
    | with_reducible apply preservesR_nextMemoryTypeBits
    | with_reducible apply preservesR_forReturnFalse
    | with_reducible apply preservesR_forIndex
    | with_reducible apply preservesR_forEach
    | ((with_reducible apply preservesR_modifyR); intro r; first | rfl | apply hg1)
    | with_reducible apply hg1
    | intro _

theorem InitLogicalDevice_preserves {γ : Type} (g : Renderer → γ)
    (hg1 : ∀ r d q, g { r with _vk_logical_device := d, _vk_graphics_queue := q } = g r)
    (hg2 : ∀ r h, g { r with _vk_present_queue := h } = g r) :
    PreservesR g (Renderer.InitLogicalDevice) := by
  unfold Renderer.InitLogicalDevice
  repeat' first
    | with_reducible apply preservesR_bind
    | with_reducible apply preservesR_ite
    | with_reducible apply preservesR_pure
    | with_reducible apply preservesR_vkCall
    | with_reducible apply preservesR_cerr
    | with_reducible apply preservesR_emit
    | with_reducible apply preservesR_fresh
    | with_reducible apply preservesR_freshList
    | with_reducible apply preservesR_getR
    | with_reducible apply preservesR_getPlatform
    | with_reducible apply preservesR_access
    | with_reducible apply preservesR_defined
    | with_reducible apply preservesR_nextImageCount
    | with_reducible apply preservesR_nextMemoryTypeBits
    | with_reducible apply preservesR_forReturnFalse
    | with_reducible apply preservesR_forIndex
    | with_reducible apply preservesR_forEach
    | ((with_reducible apply preservesR_modifyR); intro r; first | rfl | apply hg1 | apply hg2)
    | with_reducible apply hg1
    | with_reducible apply hg2
    | intro _

theorem InitSwapChain_preserves {γ : Type} (g : Renderer → γ)
    (hg1 : ∀ r s v f, g { r with
        _vk_swapchain := s, _vk_swapchain_images := v, _vk_swapchain_image_format := f } = g r) :
    PreservesR g (Renderer.InitSwapChain) := by
  unfold Renderer.InitSwapChain
  repeat' first
    | with_reducible apply preservesR_bind
    | with_reducible apply preservesR_ite
    | with_reducible apply preservesR_pure
    | with_reducible apply preservesR_vkCall
    | with_reducible apply preservesR_cerr
    | with_reducible apply preservesR_emit
    | with_reducible apply preservesR_fresh
    | with_reducible apply preservesR_freshList
    | with_reducible apply preservesR_getR
    | with_reducible apply preservesR_getPlatform
    | with_reducible apply preservesR_access
    | with_reducible apply preservesR_defined
    | with_reducible apply preservesR_nextImageCount
    | with_reducible apply preservesR_nextMemoryTypeBits
    | with_reducible apply preservesR_forReturnFalse
    | with_reducible apply preservesR_forIndex
    | with_reducible apply preservesR_forEach
    | ((with_reducible apply preservesR_modifyR); intro r; first | rfl | apply hg1)
    | with_reducible apply hg1
    | intro _

theorem InitImageView_swapchain_preserves {γ : Type} (g : Renderer → γ) (i : Nat)
    (hg1 : ∀ r h, g { r with
        _vk_swapchain_image_views := r._vk_swapchain_image_views.set i h } = g r) :
    PreservesR g (Renderer.InitImageView_swapchain i) := by
  unfold Renderer.InitImageView_swapchain
  repeat' first
    | with_reducible apply preservesR_bind
    | with_reducible apply preservesR_ite
    | with_reducible apply preservesR_pure
    | with_reducible apply preservesR_vkCall
    | with_reducible apply preservesR_cerr
    | with_reducible apply preservesR_emit
    | with_reducible apply preservesR_fresh
    | with_reducible apply preservesR_freshList
    | with_reducible apply preservesR_getR
    | with_reducible apply preservesR_getPlatform
    | with_reducible apply preservesR_access
    | with_reducible apply preservesR_defined
    | with_reducible apply preservesR_nextImageCount
    | with_reducible apply preservesR_nextMemoryTypeBits
    | with_reducible apply preservesR_forReturnFalse
    | with_reducible apply preservesR_forIndex
    | with_reducible apply preservesR_forEach
    | ((with_reducible apply preservesR_modifyR); intro r; first | rfl | apply hg1)
    | with_reducible apply hg1
    | intro _

theorem InitImageViews_preserves {γ : Type} (g : Renderer → γ)
    (hg1 : ∀ r v, g { r with _vk_swapchain_image_views := v } = g r) :
    PreservesR g (Renderer.InitImageViews) := by
  unfold Renderer.InitImageViews
  repeat' first
    | with_reducible apply preservesR_bind
    | with_reducible apply preservesR_ite
    | with_reducible apply preservesR_pure
    | with_reducible apply preservesR_vkCall
    | with_reducible apply preservesR_cerr
    | with_reducible apply preservesR_emit
    | with_reducible apply preservesR_fresh
    | with_reducible apply preservesR_freshList
    | with_reducible apply preservesR_getR
    | with_reducible apply preservesR_getPlatform
    | with_reducible apply preservesR_access
    | with_reducible apply preservesR_defined
    | with_reducible apply preservesR_nextImageCount
    | with_reducible apply preservesR_nextMemoryTypeBits
    | with_reducible apply preservesR_forReturnFalse
    | with_reducible apply preservesR_forIndex
    | with_reducible apply preservesR_forEach
    | with_reducible apply InitImageView_swapchain_preserves
    | ((with_reducible apply preservesR_modifyR); intro r; first | rfl | apply hg1)
    | with_reducible apply hg1
    | intro _

theorem InitRenderPass_preserves {γ : Type} (g : Renderer → γ)
    (hg1 : ∀ r h, g { r with _vk_render_pass := h } = g r) :
    PreservesR g (Renderer.InitRenderPass) := by
  unfold Renderer.InitRenderPass
  repeat' first
    | with_reducible apply preservesR_bind
    | with_reducible apply preservesR_ite
    | with_reducible apply preservesR_pure
    | with_reducible apply preservesR_vkCall
    | with_reducible apply preservesR_cerr
    | with_reducible apply preservesR_emit
    | with_reducible apply preservesR_fresh
    | with_reducible apply preservesR_freshList
    | with_reducible apply preservesR_getR
    | with_reducible apply preservesR_getPlatform
    | with_reducible apply preservesR_access
    | with_reducible apply preservesR_defined
    | with_reducible apply preservesR_nextImageCount
    | with_reducible apply preservesR_nextMemoryTypeBits
    | with_reducible apply preservesR_forReturnFalse
    | with_reducible apply preservesR_forIndex
    | with_reducible apply preservesR_forEach
    | ((with_reducible apply preservesR_modifyR); intro r; first | rfl | apply hg1)
    | with_reducible apply hg1
    | intro _

theorem InitDescriptorSetLayout_preserves {γ : Type} (g : Renderer → γ)
    (hg1 : ∀ r h, g { r with _vk_descriptor_set_layout := h } = g r) :
    PreservesR g (Renderer.InitDescriptorSetLayout) := by
  unfold Renderer.InitDescriptorSetLayout
  repeat' first
    | with_reducible apply preservesR_bind
    | with_reducible apply preservesR_ite
    | with_reducible apply preservesR_pure
    | with_reducible apply preservesR_vkCall
    | with_reducible apply preservesR_cerr
    | with_reducible apply preservesR_emit
    | with_reducible apply preservesR_fresh
    | with_reducible apply preservesR_freshList
    | with_reducible apply preservesR_getR
    | with_reducible apply preservesR_getPlatform
    | with_reducible apply preservesR_access
    | with_reducible apply preservesR_defined
    | with_reducible apply preservesR_nextImageCount
    | with_reducible apply preservesR_nextMemoryTypeBits
    | with_reducible apply preservesR_forReturnFalse
    | with_reducible apply preservesR_forIndex
    | with_reducible apply preservesR_forEach
    | ((with_reducible apply preservesR_modifyR); intro r; first | rfl | apply hg1)
    | with_reducible apply hg1
    | intro _

theorem InitGraphicsPipeline_preserves {γ : Type} (g : Renderer → γ)
    (hg1 : ∀ r h, g { r with _vk_pipeline_layout := h } = g r)
    (hg2 : ∀ r h, g { r with _vk_graphics_pipeline := h } = g r) :
    PreservesR g (Renderer.InitGraphicsPipeline) := by
  unfold Renderer.InitGraphicsPipeline
  repeat' first
    | with_reducible apply preservesR_bind
    | with_reducible apply preservesR_ite
    | with_reducible apply preservesR_pure
    | with_reducible apply preservesR_vkCall
    | with_reducible apply preservesR_cerr
    | with_reducible apply preservesR_emit
    | with_reducible apply preservesR_fresh
    | with_reducible apply preservesR_freshList
    | with_reducible apply preservesR_getR
    | with_reducible apply preservesR_getPlatform
    | with_reducible apply preservesR_access
    | with_reducible apply preservesR_defined
    | with_reducible apply preservesR_nextImageCount
    | with_reducible apply preservesR_nextMemoryTypeBits
    | with_reducible apply preservesR_forReturnFalse
    | with_reducible apply preservesR_forIndex
    | with_reducible apply preservesR_forEach
    | with_reducible apply InitShader_preserves
    | ((with_reducible apply preservesR_modifyR); intro r; first | rfl | apply hg1 | apply hg2)
    | with_reducible apply hg1
    | with_reducible apply hg2
    | intro _

theorem InitFramebuffers_body_preserves {γ : Type} (g : Renderer → γ) (i : Nat)
    (hg1 : ∀ r h, g { r with
        _vk_swapchain_framebuffers := r._vk_swapchain_framebuffers.set i h } = g r) :
    PreservesR g (Renderer.InitFramebuffers_body i) := by
  unfold Renderer.InitFramebuffers_body
  repeat' first
    | with_reducible apply preservesR_bind
    | with_reducible apply preservesR_ite
    | with_reducible apply preservesR_pure
    | with_reducible apply preservesR_vkCall
    | with_reducible apply preservesR_cerr
    | with_reducible apply preservesR_emit
    | with_reducible apply preservesR_fresh
    | with_reducible apply preservesR_freshList
    | with_reducible apply preservesR_getR
    | with_reducible apply preservesR_getPlatform
    | with_reducible apply preservesR_access
    | with_reducible apply preservesR_defined
    | with_reducible apply preservesR_nextImageCount
    | with_reducible apply preservesR_nextMemoryTypeBits
    | with_reducible apply preservesR_forReturnFalse
    | with_reducible apply preservesR_forIndex
    | with_reducible apply preservesR_forEach
    | ((with_reducible apply preservesR_modifyR); intro r; first | rfl | apply hg1)
    | with_reducible apply hg1
    | intro _

theorem InitFramebuffers_preserves {γ : Type} (g : Renderer → γ)
    (hg1 : ∀ r v, g { r with _vk_swapchain_framebuffers := v } = g r) :
    PreservesR g (Renderer.InitFramebuffers) := by
  unfold Renderer.InitFramebuffers
  repeat' first
    | with_reducible apply preservesR_bind
    | with_reducible apply preservesR_ite
    | with_reducible apply preservesR_pure
    | with_reducible apply preservesR_vkCall
    | with_reducible apply preservesR_cerr
    | with_reducible apply preservesR_emit
    | with_reducible apply preservesR_fresh
    | with_reducible apply preservesR_freshList
    | with_reducible apply preservesR_getR
    | with_reducible apply preservesR_getPlatform
    | with_reducible apply preservesR_access
    | with_reducible apply preservesR_defined
    | with_reducible apply preservesR_nextImageCount
    | with_reducible apply preservesR_nextMemoryTypeBits
    | with_reducible apply preservesR_forReturnFalse
    | with_reducible apply preservesR_forIndex
    | with_reducible apply preservesR_forEach
    | with_reducible apply InitFramebuffers_body_preserves
    | ((with_reducible apply preservesR_modifyR); intro r; first | rfl | apply hg1)
    | with_reducible apply hg1
    | intro _

theorem InitCommandPool_preserves {γ : Type} (g : Renderer → γ)
    (hg1 : ∀ r h, g { r with _vk_command_pool := h } = g r) :
    PreservesR g (Renderer.InitCommandPool) := by
  unfold Renderer.InitCommandPool
  repeat' first
    | with_reducible apply preservesR_bind
    | with_reducible apply preservesR_ite
    | with_reducible apply preservesR_pure
    | with_reducible apply preservesR_vkCall
    | with_reducible apply preservesR_cerr
    | with_reducible apply preservesR_emit
    | with_reducible apply preservesR_fresh
    | with_reducible apply preservesR_freshList
    | with_reducible apply preservesR_getR
    | with_reducible apply preservesR_getPlatform
    | with_reducible apply preservesR_access
    | with_reducible apply preservesR_defined
    | with_reducible apply preservesR_nextImageCount
    | with_reducible apply preservesR_nextMemoryTypeBits
    | with_reducible apply preservesR_forReturnFalse
    | with_reducible apply preservesR_forIndex
    | with_reducible apply preservesR_forEach
    | ((with_reducible apply preservesR_modifyR); intro r; first | rfl | apply hg1)
    | with_reducible apply hg1
    | intro _

theorem InitTextureImage_preserves {γ : Type} (g : Renderer → γ)
    (hg1 : ∀ r h, g { r with _vk_texture_image := h } = g r)
    (hg2 : ∀ r h, g { r with _vk_texture_image_memory := h } = g r) :
    PreservesR g (Renderer.InitTextureImage) := by
  unfold Renderer.InitTextureImage
  repeat' first
    | with_reducible apply preservesR_bind
    | with_reducible apply preservesR_ite
    | with_reducible apply preservesR_pure
    | with_reducible apply preservesR_vkCall
    | with_reducible apply preservesR_cerr
    | with_reducible apply preservesR_emit
    | with_reducible apply preservesR_fresh
    | with_reducible apply preservesR_freshList
    | with_reducible apply preservesR_getR
    | with_reducible apply preservesR_getPlatform
    | with_reducible apply preservesR_access
    | with_reducible apply preservesR_defined
    | with_reducible apply preservesR_nextImageCount
    | with_reducible apply preservesR_nextMemoryTypeBits
    | with_reducible apply preservesR_forReturnFalse
    | with_reducible apply preservesR_forIndex
    | with_reducible apply preservesR_forEach
    | with_reducible apply InitBuffer_preserves
    | with_reducible apply InitImage_preserves
    | with_reducible apply TransitionImageLayout_preserves
    | with_reducible apply CopyBufferToImage_preserves
    | with_reducible apply copyToMemory_preserves
    | ((with_reducible apply preservesR_modifyR); intro r; first | rfl | apply hg1 | apply hg2)
    | with_reducible apply hg1
    | with_reducible apply hg2
    | intro _

theorem InitTextureImageView_preserves {γ : Type} (g : Renderer → γ)
    (hg1 : ∀ r h, g { r with _vk_texture_image_view := h } = g r) :
    PreservesR g (Renderer.InitTextureImageView) := by
  unfold Renderer.InitTextureImageView
  repeat' first
    | with_reducible apply preservesR_bind
    | with_reducible apply preservesR_ite
    | with_reducible apply preservesR_pure
    | with_reducible apply preservesR_vkCall
    | with_reducible apply preservesR_cerr
    | with_reducible apply preservesR_emit
    | with_reducible apply preservesR_fresh
    | with_reducible apply preservesR_freshList
    | with_reducible apply preservesR_getR
    | with_reducible apply preservesR_getPlatform
    | with_reducible apply preservesR_access
    | with_reducible apply preservesR_defined
    | with_reducible apply preservesR_nextImageCount
    | with_reducible apply preservesR_nextMemoryTypeBits
    | with_reducible apply preservesR_forReturnFalse
    | with_reducible apply preservesR_forIndex
    | with_reducible apply preservesR_forEach
    | ((with_reducible apply preservesR_modifyR); intro r; first | rfl | apply hg1)
    | with_reducible apply hg1
    | intro _

theorem InitTextureSampler_preserves {γ : Type} (g : Renderer → γ)
    (hg1 : ∀ r h, g { r with _vk_texture_sampler := h } = g r) :
    PreservesR g (Renderer.InitTextureSampler) := by
  unfold Renderer.InitTextureSampler
  repeat' first
    | with_reducible apply preservesR_bind
    | with_reducible apply preservesR_ite
    | with_reducible apply preservesR_pure
    | with_reducible apply preservesR_vkCall
    | with_reducible apply preservesR_cerr
    | with_reducible apply preservesR_emit
    | with_reducible apply preservesR_fresh
    | with_reducible apply preservesR_freshList
    | with_reducible apply preservesR_getR
    | with_reducible apply preservesR_getPlatform
    | with_reducible apply preservesR_access
    | with_reducible apply preservesR_defined
    | with_reducible apply preservesR_nextImageCount
    | with_reducible apply preservesR_nextMemoryTypeBits
    | with_reducible apply preservesR_forReturnFalse
    | with_reducible apply preservesR_forIndex
    | with_reducible apply preservesR_forEach
    | ((with_reducible apply preservesR_modifyR); intro r; first | rfl | apply hg1)
    | with_reducible apply hg1
    | intro _

theorem InitVertexBuffer_preserves {γ : Type} (g : Renderer → γ)
    (hg1 : ∀ r h, g { r with _vk_vertex_buffer := h } = g r)
    (hg2 : ∀ r h, g { r with _vk_vertex_buffer_memory := h } = g r) :
    PreservesR g (Renderer.InitVertexBuffer) := by
  unfold Renderer.InitVertexBuffer
  repeat' first
    | with_reducible apply preservesR_bind
    | with_reducible apply preservesR_ite
    | with_reducible apply preservesR_pure
    | with_reducible apply preservesR_vkCall
    | with_reducible apply preservesR_cerr
    | with_reducible apply preservesR_emit
    | with_reducible apply preservesR_fresh
    | with_reducible apply preservesR_freshList
    | with_reducible apply preservesR_getR
    | with_reducible apply preservesR_getPlatform
    | with_reducible apply preservesR_access
    | with_reducible apply preservesR_defined
    | with_reducible apply preservesR_nextImageCount
    | with_reducible apply preservesR_nextMemoryTypeBits
    | with_reducible apply preservesR_forReturnFalse
    | with_reducible apply preservesR_forIndex
    | with_reducible apply preservesR_forEach
    | with_reducible apply InitBuffer_preserves
    | with_reducible apply CopyBuffer_preserves
    | with_reducible apply copyToMemory_preserves
    | ((with_reducible apply preservesR_modifyR); intro r; first | rfl | apply hg1 | apply hg2)
    | with_reducible apply hg1
    | with_reducible apply hg2
    | intro _

theorem InitIndexBuffer_preserves {γ : Type} (g : Renderer → γ)
    (hg1 : ∀ r h, g { r with _vk_index_buffer := h } = g r)
    (hg2 : ∀ r h, g { r with _vk_index_buffer_memory := h } = g r) :
    PreservesR g (Renderer.InitIndexBuffer) := by
  unfold Renderer.InitIndexBuffer
  repeat' first
    | with_reducible apply preservesR_bind
    | with_reducible apply preservesR_ite
    | with_reducible apply preservesR_pure
    | with_reducible apply preservesR_vkCall
    | with_reducible apply preservesR_cerr
    | with_reducible apply preservesR_emit
    | with_reducible apply preservesR_fresh
    | with_reducible apply preservesR_freshList
    | with_reducible apply preservesR_getR
    | with_reducible apply preservesR_getPlatform
    | with_reducible apply preservesR_access
    | with_reducible apply preservesR_defined
    | with_reducible apply preservesR_nextImageCount
    | with_reducible apply preservesR_nextMemoryTypeBits
    | with_reducible apply preservesR_forReturnFalse
    | with_reducible apply preservesR_forIndex
    | with_reducible apply preservesR_forEach
    | with_reducible apply InitBuffer_preserves
    | with_reducible apply CopyBuffer_preserves
    | with_reducible apply copyToMemory_preserves
    | ((with_reducible apply preservesR_modifyR); intro r; first | rfl | apply hg1 | apply hg2)
    | with_reducible apply hg1
    | with_reducible apply hg2
    | intro _

theorem InitUniformBuffers_body_preserves {γ : Type} (g : Renderer → γ) (i : Nat)
    (hg1 : ∀ r h, g { r with _vk_uniform_buffers := r._vk_uniform_buffers.set i h } = g r)
    (hg2 : ∀ r h, g { r with
        _vk_uniform_buffers_memory := r._vk_uniform_buffers_memory.set i h } = g r) :
    PreservesR g (Renderer.InitUniformBuffers_body i) := by
  unfold Renderer.InitUniformBuffers_body
  repeat' first
    | with_reducible apply preservesR_bind
    | with_reducible apply preservesR_ite
    | with_reducible apply preservesR_pure
    | with_reducible apply preservesR_vkCall
    | with_reducible apply preservesR_cerr
    | with_reducible apply preservesR_emit
    | with_reducible apply preservesR_fresh
    | with_reducible apply preservesR_freshList
    | with_reducible apply preservesR_getR
    | with_reducible apply preservesR_getPlatform
    | with_reducible apply preservesR_access
    | with_reducible apply preservesR_defined
    | with_reducible apply preservesR_nextImageCount
    | with_reducible apply preservesR_nextMemoryTypeBits
    | with_reducible apply preservesR_forReturnFalse
    | with_reducible apply preservesR_forIndex
    | with_reducible apply preservesR_forEach
    | with_reducible apply InitBuffer_preserves
    | ((with_reducible apply preservesR_modifyR); intro r; first | rfl | apply hg1 | apply hg2)
    | with_reducible apply hg1
    | with_reducible apply hg2
    | intro _

theorem InitUniformBuffers_preserves {γ : Type} (g : Renderer → γ)
    (hg1 : ∀ r v, g { r with _vk_uniform_buffers := v } = g r)
    (hg2 : ∀ r v, g { r with _vk_uniform_buffers_memory := v } = g r)
    (hg3 : ∀ r u v, g { r with _vk_uniform_buffers := u, _vk_uniform_buffers_memory := v } = g r) :
    PreservesR g (Renderer.InitUniformBuffers) := by
  unfold Renderer.InitUniformBuffers
  repeat' first
    | with_reducible apply preservesR_bind
    | with_reducible apply preservesR_ite
    | with_reducible apply preservesR_pure
    | with_reducible apply preservesR_vkCall
    | with_reducible apply preservesR_cerr
    | with_reducible apply preservesR_emit
    | with_reducible apply preservesR_fresh
    | with_reducible apply preservesR_freshList
    | with_reducible apply preservesR_getR
    | with_reducible apply preservesR_getPlatform
    | with_reducible apply preservesR_access
    | with_reducible apply preservesR_defined
    | with_reducible apply preservesR_nextImageCount
    | with_reducible apply preservesR_nextMemoryTypeBits
    | with_reducible apply preservesR_forReturnFalse
    | with_reducible apply preservesR_forIndex
    | with_reducible apply preservesR_forEach
    | with_reducible apply InitUniformBuffers_body_preserves
    | ((with_reducible apply preservesR_modifyR); intro r; first | rfl | apply hg1 | apply hg2 | apply hg3)
    | with_reducible apply hg1
    | with_reducible apply hg2
    | with_reducible apply hg3
    | intro _

theorem InitDescriptorPool_preserves {γ : Type} (g : Renderer → γ)
    (hg1 : ∀ r h, g { r with _vk_descriptor_pool := h } = g r) :
    PreservesR g (Renderer.InitDescriptorPool) := by
  unfold Renderer.InitDescriptorPool
  repeat' first
    | with_reducible apply preservesR_bind
    | with_reducible apply preservesR_ite
    | with_reducible apply preservesR_pure
    | with_reducible apply preservesR_vkCall
    | with_reducible apply preservesR_cerr
    | with_reducible apply preservesR_emit
    | with_reducible apply preservesR_fresh
    | with_reducible apply preservesR_freshList
    | with_reducible apply preservesR_getR
    | with_reducible apply preservesR_getPlatform
    | with_reducible apply preservesR_access
    | with_reducible apply preservesR_defined
    | with_reducible apply preservesR_nextImageCount
    | with_reducible apply preservesR_nextMemoryTypeBits
    | with_reducible apply preservesR_forReturnFalse
    | with_reducible apply preservesR_forIndex
    | with_reducible apply preservesR_forEach
    | ((with_reducible apply preservesR_modifyR); intro r; first | rfl | apply hg1)
    | with_reducible apply hg1
    | intro _

theorem InitDescriptorSets_body_preserves {γ : Type} (g : Renderer → γ) (i : Nat) :
    PreservesR g (Renderer.InitDescriptorSets_body i) := by
  unfold Renderer.InitDescriptorSets_body
  repeat' first
    | with_reducible apply preservesR_bind
    | with_reducible apply preservesR_ite
    | with_reducible apply preservesR_pure
    | with_reducible apply preservesR_vkCall
    | with_reducible apply preservesR_cerr
    | with_reducible apply preservesR_emit
    | with_reducible apply preservesR_fresh
    | with_reducible apply preservesR_freshList
    | with_reducible apply preservesR_getR
    | with_reducible apply preservesR_getPlatform
    | with_reducible apply preservesR_access
    | with_reducible apply preservesR_defined
    | with_reducible apply preservesR_nextImageCount
    | with_reducible apply preservesR_nextMemoryTypeBits
    | with_reducible apply preservesR_forReturnFalse
    | with_reducible apply preservesR_forIndex
    | with_reducible apply preservesR_forEach
    | ((with_reducible apply preservesR_modifyR); intro r; first | rfl)
    | intro _

theorem InitDescriptorSets_preserves {γ : Type} (g : Renderer → γ)
    (hg1 : ∀ r v, g { r with _vk_descriptor_sets := v } = g r) :
    PreservesR g (Renderer.InitDescriptorSets) := by
  unfold Renderer.InitDescriptorSets
  repeat' first
    | with_reducible apply preservesR_bind
    | with_reducible apply preservesR_ite
    | with_reducible apply preservesR_pure
    | with_reducible apply preservesR_vkCall
    | with_reducible apply preservesR_cerr
    | with_reducible apply preservesR_emit
    | with_reducible apply preservesR_fresh
    | with_reducible apply preservesR_freshList
    | with_reducible apply preservesR_getR
    | with_reducible apply preservesR_getPlatform
    | with_reducible apply preservesR_access
    | with_reducible apply preservesR_defined
    | with_reducible apply preservesR_nextImageCount
    | with_reducible apply preservesR_nextMemoryTypeBits
    | with_reducible apply preservesR_forReturnFalse
    | with_reducible apply preservesR_forIndex
    | with_reducible apply preservesR_forEach
    | with_reducible apply InitDescriptorSets_body_preserves
    | ((with_reducible apply preservesR_modifyR); intro r; first | rfl | apply hg1)
    | with_reducible apply hg1
    | intro _

theorem InitCommandBuffers_body_preserves {γ : Type} (g : Renderer → γ) (i : Nat) :
    PreservesR g (Renderer.InitCommandBuffers_body i) := by
  unfold Renderer.InitCommandBuffers_body
  repeat' first
    | with_reducible apply preservesR_bind
    | with_reducible apply preservesR_ite
    | with_reducible apply preservesR_pure
    | with_reducible apply preservesR_vkCall
    | with_reducible apply preservesR_cerr
    | with_reducible apply preservesR_emit
    | with_reducible apply preservesR_fresh
    | with_reducible apply preservesR_freshList
    | with_reducible apply preservesR_getR
    | with_reducible apply preservesR_getPlatform
    | with_reducible apply preservesR_access
    | with_reducible apply preservesR_defined
    | with_reducible apply preservesR_nextImageCount
    | with_reducible apply preservesR_nextMemoryTypeBits
    | with_reducible apply preservesR_forReturnFalse
    | with_reducible apply preservesR_forIndex
    | with_reducible apply preservesR_forEach
    | ((with_reducible apply preservesR_modifyR); intro r; first | rfl)
    | intro _

theorem InitCommandBuffers_preserves {γ : Type} (g : Renderer → γ)
    (hg1 : ∀ r v, g { r with _vk_command_buffers := v } = g r) :
    PreservesR g (Renderer.InitCommandBuffers) := by
  unfold Renderer.InitCommandBuffers
  repeat' first
    | with_reducible apply preservesR_bind
    | with_reducible apply preservesR_ite
    | with_reducible apply preservesR_pure
    | with_reducible apply preservesR_vkCall
    | with_reducible apply preservesR_cerr
    | with_reducible apply preservesR_emit
    | with_reducible apply preservesR_fresh
    | with_reducible apply preservesR_freshList
    | with_reducible apply preservesR_getR
    | with_reducible apply preservesR_getPlatform
    | with_reducible apply preservesR_access
    | with_reducible apply preservesR_defined
    | with_reducible apply preservesR_nextImageCount
    | with_reducible apply preservesR_nextMemoryTypeBits
    | with_reducible apply preservesR_forReturnFalse
    | with_reducible apply preservesR_forIndex
    | with_reducible apply preservesR_forEach
    | with_reducible apply InitCommandBuffers_body_preserves
    | ((with_reducible apply preservesR_modifyR); intro r; first | rfl | apply hg1)
    | with_reducible apply hg1
    | intro _

theorem InitSyncObjects_body_preserves {γ : Type} (g : Renderer → γ) (i : Nat)
    (hg1 : ∀ r h, g { r with
        _vk_image_available_semaphores := r._vk_image_available_semaphores.set i h } = g r)
    (hg2 : ∀ r h, g { r with
        _vk_render_finished_semaphores := r._vk_render_finished_semaphores.set i h } = g r)
    (hg3 : ∀ r h, g { r with _vk_in_flight_fences := r._vk_in_flight_fences.set i h } = g r) :
    PreservesR g (Renderer.InitSyncObjects_body i) := by
  unfold Renderer.InitSyncObjects_body
  repeat' first
    | with_reducible apply preservesR_bind
    | with_reducible apply preservesR_ite
    | with_reducible apply preservesR_pure
    | with_reducible apply preservesR_vkCall
    | with_reducible apply preservesR_cerr
    | with_reducible apply preservesR_emit
    | with_reducible apply preservesR_fresh
    | with_reducible apply preservesR_freshList
    | with_reducible apply preservesR_getR
    | with_reducible apply preservesR_getPlatform
    | with_reducible apply preservesR_access
    | with_reducible apply preservesR_defined
    | with_reducible apply preservesR_nextImageCount
    | with_reducible apply preservesR_nextMemoryTypeBits
    | with_reducible apply preservesR_forReturnFalse
    | with_reducible apply preservesR_forIndex
    | with_reducible apply preservesR_forEach
    | ((with_reducible apply preservesR_modifyR); intro r; first | rfl | apply hg1 | apply hg2 | apply hg3)
    | with_reducible apply hg1
    | with_reducible apply hg2
    | with_reducible apply hg3
    | intro _

theorem InitSyncObjects_preserves {γ : Type} (g : Renderer → γ)
    (hg1 : ∀ r v, g { r with _vk_image_available_semaphores := v } = g r)
    (hg2 : ∀ r v, g { r with _vk_render_finished_semaphores := v } = g r)
    (hg3 : ∀ r v, g { r with _vk_in_flight_fences := v } = g r)
    (hg4 : ∀ r a b c, g { r with
        _vk_image_available_semaphores := a, _vk_render_finished_semaphores := b,
        _vk_in_flight_fences := c } = g r) :
    PreservesR g (Renderer.InitSyncObjects) := by
  unfold Renderer.InitSyncObjects
  repeat' first
    | with_reducible apply preservesR_bind
    | with_reducible apply preservesR_ite
    | with_reducible apply preservesR_pure
    | with_reducible apply preservesR_vkCall
    | with_reducible apply preservesR_cerr
    | with_reducible apply preservesR_emit
    | with_reducible apply preservesR_fresh
    | with_reducible apply preservesR_freshList
    | with_reducible apply preservesR_getR
    | with_reducible apply preservesR_getPlatform
    | with_reducible apply preservesR_access
    | with_reducible apply preservesR_defined
    | with_reducible apply preservesR_nextImageCount
    | with_reducible apply preservesR_nextMemoryTypeBits
    | with_reducible apply preservesR_forReturnFalse
    | with_reducible apply preservesR_forIndex
    | with_reducible apply preservesR_forEach
    | with_reducible apply InitSyncObjects_body_preserves
    | ((with_reducible apply preservesR_modifyR); intro r; first | rfl | apply hg1 | apply hg2 | apply hg3 | apply hg4)
    | with_reducible apply hg1
    | with_reducible apply hg2
    | with_reducible apply hg3
    | with_reducible apply hg4
    | intro _

theorem DestroySwapChain_body_preserves {γ : Type} (g : Renderer → γ) (i : Nat) :
    PreservesR g (Renderer.DestroySwapChain_body i) := by
  unfold Renderer.DestroySwapChain_body
  repeat' first
    | with_reducible apply preservesR_bind
    | with_reducible apply preservesR_ite
    | with_reducible apply preservesR_pure
    | with_reducible apply preservesR_vkCall
    | with_reducible apply preservesR_cerr
    | with_reducible apply preservesR_emit
    | with_reducible apply preservesR_fresh
    | with_reducible apply preservesR_freshList
    | with_reducible apply preservesR_getR
    | with_reducible apply preservesR_getPlatform
    | with_reducible apply preservesR_access
    | with_reducible apply preservesR_defined
    | with_reducible apply preservesR_nextImageCount
    | with_reducible apply preservesR_nextMemoryTypeBits
    | with_reducible apply preservesR_forReturnFalse
    | with_reducible apply preservesR_forIndex
    | with_reducible apply preservesR_forEach
    | ((with_reducible apply preservesR_modifyR); intro r; first | rfl)
    | intro _

theorem DestroySwapChain_preserves {γ : Type} (g : Renderer → γ) :
    PreservesR g (Renderer.DestroySwapChain) := by
  unfold Renderer.DestroySwapChain
  repeat' first
    | with_reducible apply preservesR_bind
    | with_reducible apply preservesR_ite
    | with_reducible apply preservesR_pure
    | with_reducible apply preservesR_vkCall
    | with_reducible apply preservesR_cerr
    | with_reducible apply preservesR_emit
    | with_reducible apply preservesR_fresh
    | with_reducible apply preservesR_freshList
    | with_reducible apply preservesR_getR
    | with_reducible apply preservesR_getPlatform
    | with_reducible apply preservesR_access
    | with_reducible apply preservesR_defined
    | with_reducible apply preservesR_nextImageCount
    | with_reducible apply preservesR_nextMemoryTypeBits
    | with_reducible apply preservesR_forReturnFalse
    | with_reducible apply preservesR_forIndex
    | with_reducible apply preservesR_forEach
    | with_reducible apply DestroySwapChain_body_preserves
    | ((with_reducible apply preservesR_modifyR); intro r; first | rfl)
    | intro _

theorem UpdateUniformBuffer_preserves {γ : Type} (g : Renderer → γ) (currentImage : Nat) :
    PreservesR g (Renderer.UpdateUniformBuffer currentImage) := by
  unfold Renderer.UpdateUniformBuffer
  repeat' first
    | with_reducible apply preservesR_bind
    | with_reducible apply preservesR_ite
    | with_reducible apply preservesR_pure
    | with_reducible apply preservesR_vkCall
    | with_reducible apply preservesR_cerr
    | with_reducible apply preservesR_emit
    | with_reducible apply preservesR_fresh
    | with_reducible apply preservesR_freshList
    | with_reducible apply preservesR_getR
    | with_reducible apply preservesR_getPlatform
    | with_reducible apply preservesR_access
    | with_reducible apply preservesR_defined
    | with_reducible apply preservesR_nextImageCount
    | with_reducible apply preservesR_nextMemoryTypeBits
    | with_reducible apply preservesR_forReturnFalse
    | with_reducible apply preservesR_forIndex
    | with_reducible apply preservesR_forEach
    | with_reducible apply copyToMemory_preserves
    | ((with_reducible apply preservesR_modifyR); intro r; first | rfl)
    | intro _

theorem InitDevices_preserves {γ : Type} (g : Renderer → γ)
    (hg1 : ∀ r m, g { r with _device_manager := m } = g r) :
    PreservesR g Renderer.InitDevices := by
  intro w
  simp only [Renderer.InitDevices, bind_apply, getPlatform_apply, getR_apply, emit_apply]
  cases h : w.renderer._device_manager.InitDevices w.platform.adapters with
  | none => rfl
  | some res =>
      obtain ⟨ok, m⟩ := res
      cases ok <;> simp [hg1]

/-- A chain of steps leaves unchanged what each of its steps leaves unchanged. -/
theorem firstFailure_preserves {γ : Type} (g : Renderer → γ) :
    ∀ steps : List Step, (∀ s ∈ steps, PreservesR g s.run) → PreservesR g (firstFailure steps)
  | [], _ => preservesR_pure g _
  | s :: rest, h => by
      unfold firstFailure
      refine preservesR_bind g (h s (List.mem_cons_self _ _)) fun ok => ?_
      cases ok
      · exact preservesR_pure g _
      · exact preservesR_bind g
          (firstFailure_preserves g rest fun x hx => h x (List.mem_cons_of_mem _ hx))
          fun _ => preservesR_pure g _

/-- The steps of a rebuild write swapchain-bound members only. -/
theorem resetSteps_preserve_withoutSwapchainState :
    ∀ s ∈ Renderer.resetSteps, PreservesR Renderer.withoutSwapchainState s.run := by
  intro s hs
  simp only [Renderer.resetSteps, List.mem_cons, List.mem_singleton, List.not_mem_nil,
    or_false] at hs
  rcases hs with rfl | rfl | rfl | rfl | rfl | rfl | rfl | rfl | rfl
  · exact InitSwapChain_preserves _ (fun _ _ _ _ => rfl)
  · exact InitImageViews_preserves _ (fun _ _ => rfl)
  · exact InitRenderPass_preserves _ (fun _ _ => rfl)
  · exact InitGraphicsPipeline_preserves _ (fun _ _ => rfl) (fun _ _ => rfl)
  · exact InitFramebuffers_preserves _ (fun _ _ => rfl)
  · exact InitUniformBuffers_preserves _ (fun _ _ => rfl) (fun _ _ => rfl) (fun _ _ _ => rfl)
  · exact InitDescriptorPool_preserves _ (fun _ _ => rfl)
  · exact InitDescriptorSets_preserves _ (fun _ _ => rfl)
  · exact InitCommandBuffers_preserves _ (fun _ _ => rfl)

/-- `ResetSwapChain` writes swapchain-bound members only. -/
theorem ResetSwapChain_preserves_withoutSwapchainState :
    PreservesR Renderer.withoutSwapchainState Renderer.ResetSwapChain := by
  unfold Renderer.ResetSwapChain Renderer.ResetSwapChainTraced
  refine preservesR_bind _ ?_ fun _ => preservesR_pure _ _
  refine preservesR_bind _ (preservesR_emit _ _) fun _ => ?_
  refine preservesR_bind _ (DestroySwapChain_preserves _) fun _ => ?_
  refine preservesR_bind _
    (firstFailure_preserves _ _ resetSteps_preserve_withoutSwapchainState) fun chain => ?_
  exact preservesR_ite _ _ (preservesR_pure _ _) (preservesR_pure _ _)

theorem ResetSwapChain_current_frame (w : World) :
    (Renderer.ResetSwapChain w).world.renderer._current_frame = w.renderer._current_frame := by
  have h := congrArg Renderer._current_frame (ResetSwapChain_preserves_withoutSwapchainState w)
  exact h

theorem ResetSwapChain_framebuffer_resized (w : World) :
    (Renderer.ResetSwapChain w).world.renderer.framebuffer_resized
      = w.renderer.framebuffer_resized := by
  have h := congrArg Renderer.framebuffer_resized
    (ResetSwapChain_preserves_withoutSwapchainState w)
  exact h

/-! ## The sizes of the vectors through the initialisation steps -/

@[simp] theorem InitInstance_sizes (w : World) :
    (Renderer.InitInstance w).world.renderer.sizes = w.renderer.sizes :=
  InitInstance_preserves Renderer.sizes (fun _ _ => rfl) (fun _ _ => rfl) w

@[simp] theorem InitSurface_sizes (w : World) :
    (Renderer.InitSurface w).world.renderer.sizes = w.renderer.sizes :=
  InitSurface_preserves Renderer.sizes (fun _ _ => rfl) w

@[simp] theorem InitDevices_sizes (w : World) :
    (Renderer.InitDevices w).world.renderer.sizes = w.renderer.sizes :=
  InitDevices_preserves Renderer.sizes (fun _ _ => rfl) w

@[simp] theorem InitLogicalDevice_sizes (w : World) :
    (Renderer.InitLogicalDevice w).world.renderer.sizes = w.renderer.sizes :=
  InitLogicalDevice_preserves Renderer.sizes (fun _ _ _ => rfl) (fun _ _ => rfl) w

@[simp] theorem InitRenderPass_sizes (w : World) :
    (Renderer.InitRenderPass w).world.renderer.sizes = w.renderer.sizes :=
  InitRenderPass_preserves Renderer.sizes (fun _ _ => rfl) w

@[simp] theorem InitDescriptorSetLayout_sizes (w : World) :
    (Renderer.InitDescriptorSetLayout w).world.renderer.sizes = w.renderer.sizes :=
  InitDescriptorSetLayout_preserves Renderer.sizes (fun _ _ => rfl) w

@[simp] theorem InitGraphicsPipeline_sizes (w : World) :
    (Renderer.InitGraphicsPipeline w).world.renderer.sizes = w.renderer.sizes :=
  InitGraphicsPipeline_preserves Renderer.sizes (fun _ _ => rfl) (fun _ _ => rfl) w

@[simp] theorem InitCommandPool_sizes (w : World) :
    (Renderer.InitCommandPool w).world.renderer.sizes = w.renderer.sizes :=
  InitCommandPool_preserves Renderer.sizes (fun _ _ => rfl) w

@[simp] theorem InitTextureImage_sizes (w : World) :
    (Renderer.InitTextureImage w).world.renderer.sizes = w.renderer.sizes :=
  InitTextureImage_preserves Renderer.sizes (fun _ _ => rfl) (fun _ _ => rfl) w

@[simp] theorem InitTextureImageView_sizes (w : World) :
    (Renderer.InitTextureImageView w).world.renderer.sizes = w.renderer.sizes :=
  InitTextureImageView_preserves Renderer.sizes (fun _ _ => rfl) w

@[simp] theorem InitTextureSampler_sizes (w : World) :
    (Renderer.InitTextureSampler w).world.renderer.sizes = w.renderer.sizes :=
  InitTextureSampler_preserves Renderer.sizes (fun _ _ => rfl) w

@[simp] theorem InitVertexBuffer_sizes (w : World) :
    (Renderer.InitVertexBuffer w).world.renderer.sizes = w.renderer.sizes :=
  InitVertexBuffer_preserves Renderer.sizes (fun _ _ => rfl) (fun _ _ => rfl) w

@[simp] theorem InitIndexBuffer_sizes (w : World) :
    (Renderer.InitIndexBuffer w).world.renderer.sizes = w.renderer.sizes :=
  InitIndexBuffer_preserves Renderer.sizes (fun _ _ => rfl) (fun _ _ => rfl) w

@[simp] theorem InitDescriptorPool_sizes (w : World) :
    (Renderer.InitDescriptorPool w).world.renderer.sizes = w.renderer.sizes :=
  InitDescriptorPool_preserves Renderer.sizes (fun _ _ => rfl) w

@[simp] theorem InitSyncObjects_sizes (w : World) :
    (Renderer.InitSyncObjects w).world.renderer.sizes = w.renderer.sizes :=
  InitSyncObjects_preserves Renderer.sizes (fun _ _ => rfl) (fun _ _ => rfl) (fun _ _ => rfl) (fun _ _ _ _ => rfl) w

theorem InitSwapChain_sizes (w : World) :
    (Renderer.InitSwapChain w).world.renderer.sizes =
      { w.renderer.sizes with
        images := (Renderer.InitSwapChain w).world.renderer._vk_swapchain_images.length } := by
  have h := InitSwapChain_preserves (fun r => ({ r.sizes with images := 0 } : Sizes))
    (fun _ _ _ _ => rfl) w
  simp only [Renderer.sizes, Sizes.mk.injEq, true_and] at h ⊢
  omega

theorem InitImageViews_length (w : World) :
    (Renderer.InitImageViews w).world.renderer._vk_swapchain_image_views.length
      = w.renderer._vk_swapchain_images.length := by
  simp only [Renderer.InitImageViews, bind_apply, modifyR_apply, getR_apply]
  refine (preservesR_forReturnFalse (fun r => r._vk_swapchain_image_views.length)
    (fun i => InitImageView_swapchain_preserves _ i (fun r h => List.length_set _ _ _)) _ _ _).trans ?_
  exact vectorResize_length _ _

theorem InitImageViews_sizes (w : World) :
    (Renderer.InitImageViews w).world.renderer.sizes =
      { w.renderer.sizes with imageViews := w.renderer.sizes.images } := by
  have h := InitImageViews_preserves (fun r => ({ r.sizes with imageViews := 0 } : Sizes))
    (fun _ _ => rfl) w
  have hl := InitImageViews_length w
  simp only [Renderer.sizes, Sizes.mk.injEq, true_and] at h ⊢
  omega

theorem InitFramebuffers_length (w : World) :
    (Renderer.InitFramebuffers w).world.renderer._vk_swapchain_framebuffers.length
      = w.renderer._vk_swapchain_image_views.length := by
  simp only [Renderer.InitFramebuffers, bind_apply, modifyR_apply, getR_apply]
  refine (preservesR_forReturnFalse (fun r => r._vk_swapchain_framebuffers.length)
    (fun i => InitFramebuffers_body_preserves _ i (fun r h => List.length_set _ _ _)) _ _ _).trans ?_
  exact vectorResize_length _ _

theorem InitFramebuffers_sizes (w : World) :
    (Renderer.InitFramebuffers w).world.renderer.sizes =
      { w.renderer.sizes with framebuffers := w.renderer.sizes.imageViews } := by
  have h := InitFramebuffers_preserves (fun r => ({ r.sizes with framebuffers := 0 } : Sizes))
    (fun _ _ => rfl) w
  have hl := InitFramebuffers_length w
  simp only [Renderer.sizes, Sizes.mk.injEq, true_and] at h ⊢
  omega

theorem InitUniformBuffers_length (w : World) :
    (Renderer.InitUniformBuffers w).world.renderer._vk_uniform_buffers.length
        = w.renderer._vk_swapchain_images.length ∧
      (Renderer.InitUniformBuffers w).world.renderer._vk_uniform_buffers_memory.length
        = w.renderer._vk_swapchain_images.length := by
  simp only [Renderer.InitUniformBuffers, bind_apply, modifyR_apply, getR_apply]
  constructor
  · refine (preservesR_forReturnFalse (fun r => r._vk_uniform_buffers.length)
      (fun i => InitUniformBuffers_body_preserves _ i (fun r h => List.length_set _ _ _)
        (fun _ _ => rfl)) _ _ _).trans ?_
    exact vectorResize_length _ _
  · refine (preservesR_forReturnFalse (fun r => r._vk_uniform_buffers_memory.length)
      (fun i => InitUniformBuffers_body_preserves _ i (fun _ _ => rfl)
        (fun r h => List.length_set _ _ _)) _ _ _).trans ?_
    exact vectorResize_length _ _

theorem InitUniformBuffers_sizes (w : World) :
    (Renderer.InitUniformBuffers w).world.renderer.sizes =
      { w.renderer.sizes with
        uniformBuffers := w.renderer.sizes.images
        uniformBuffersMemory := w.renderer.sizes.images } := by
  have h := InitUniformBuffers_preserves
    (fun r => ({ r.sizes with uniformBuffers := 0, uniformBuffersMemory := 0 } : Sizes))
    (fun _ _ => rfl) (fun _ _ => rfl) (fun _ _ _ => rfl) w
  have hl := InitUniformBuffers_length w
  simp only [Renderer.sizes, Sizes.mk.injEq, true_and] at h ⊢
  omega

theorem InitDescriptorSets_length (w : World) :
    (Renderer.InitDescriptorSets w).world.renderer._vk_descriptor_sets.length
      = w.renderer._vk_swapchain_images.length := by
  simp only [Renderer.InitDescriptorSets, bind_apply, modifyR_apply, getR_apply, vkCall_apply,
    ite_apply_world, cerr_apply, pure_apply, freshList_apply]
  split_ifs
  · exact vectorResize_length _ _
  · refine (preservesR_forIndex (fun r => r._vk_descriptor_sets.length)
      (fun i => InitDescriptorSets_body_preserves _ i) _ _ _).trans ?_
    simp

theorem InitDescriptorSets_sizes (w : World) :
    (Renderer.InitDescriptorSets w).world.renderer.sizes =
      { w.renderer.sizes with descriptorSets := w.renderer.sizes.images } := by
  have h := InitDescriptorSets_preserves (fun r => ({ r.sizes with descriptorSets := 0 } : Sizes))
    (fun _ _ => rfl) w
  have hl := InitDescriptorSets_length w
  simp only [Renderer.sizes, Sizes.mk.injEq, true_and] at h ⊢
  omega

theorem InitCommandBuffers_length (w : World) :
    (Renderer.InitCommandBuffers w).world.renderer._vk_command_buffers.length
      = w.renderer._vk_swapchain_framebuffers.length := by
  simp only [Renderer.InitCommandBuffers, bind_apply, modifyR_apply, getR_apply, vkCall_apply,
    ite_apply_world, cerr_apply, pure_apply, freshList_apply]
  split_ifs
  · exact vectorResize_length _ _
  · refine (preservesR_forReturnFalse (fun r => r._vk_command_buffers.length)
      (fun i => InitCommandBuffers_body_preserves _ i) _ _ _).trans ?_
    simp [vectorResize_length]

theorem InitCommandBuffers_sizes (w : World) :
    (Renderer.InitCommandBuffers w).world.renderer.sizes =
      { w.renderer.sizes with commandBuffers := w.renderer.sizes.framebuffers } := by
  have h := InitCommandBuffers_preserves (fun r => ({ r.sizes with commandBuffers := 0 } : Sizes))
    (fun _ _ => rfl) w
  have hl := InitCommandBuffers_length w
  simp only [Renderer.sizes, Sizes.mk.injEq, true_and] at h ⊢
  omega

/-! ## `Init`: which steps run -/

theorem runSteps_cons_world (s : Step) (rest : List Step) (w : World) :
    (runSteps (s :: rest) w).world = (runSteps rest (s.run w).world).world := rfl

theorem runSteps_cons_calls (s : Step) (rest : List Step) (w : World) :
    (runSteps (s :: rest) w).calls = (s.run w).calls ++ (runSteps rest (s.run w).world).calls :=
  rfl

theorem stepResult_zero (s : Step) (rest : List Step) (w : World) :
    stepResult (s :: rest) 0 w = (s.run w).value := rfl

theorem stepResult_succ (s : Step) (rest : List Step) (k : Nat) (w : World) :
    stepResult (s :: rest) (k + 1) w = stepResult rest k (s.run w).world := rfl

/-- The chain `!s1() || !s2() || ...` is false exactly when every step, called after the
steps before it, returns true. When it is true, some step `k` is the first to return false,
and the chain has called the steps up to and including `k` and nothing else. -/
theorem firstFailure_exec : ∀ (steps : List Step) (w : World),
    ((firstFailure steps w).value.1 = false ↔
        ∀ k < steps.length, stepResult steps k w = true) ∧
    ((firstFailure steps w).value.1 = false →
        (firstFailure steps w).world = (runSteps steps w).world ∧
        (firstFailure steps w).calls = (runSteps steps w).calls) ∧
    ((firstFailure steps w).value.1 = true →
        ∃ k < steps.length, (∀ j < k, stepResult steps j w = true) ∧
          stepResult steps k w = false ∧
          (firstFailure steps w).value.2.map Prod.fst = steps.take (k + 1) ∧
          (firstFailure steps w).world = (runSteps (steps.take (k + 1)) w).world ∧
          (firstFailure steps w).calls = (runSteps (steps.take (k + 1)) w).calls)
  | [], w => by simp [firstFailure, runSteps]
  | s :: rest, w => by
      obtain ⟨h1, h2, h3⟩ := firstFailure_exec rest (s.run w).world
      by_cases hok : (s.run w).value = true
      · simp only [firstFailure, bind_apply, hok, if_true, pure_apply, List.append_nil,
          List.length_cons, runSteps_cons_world, runSteps_cons_calls]
        refine ⟨?_, ?_, ?_⟩
        · rw [h1]
          constructor
          · intro h k hk
            cases k with
            | zero => exact hok
            | succ k => exact h k (by omega)
          · intro h k hk
            exact h (k + 1) (by omega)
        · intro h
          exact ⟨(h2 h).1, by rw [(h2 h).2]⟩
        · intro h
          obtain ⟨k, hk, hbefore, hat, hlog, hworld, hcalls⟩ := h3 h
          refine ⟨k + 1, by omega, ?_, hat, ?_, hworld, ?_⟩
          · intro j hj
            cases j with
            | zero => exact hok
            | succ j => exact hbefore j (by omega)
          · simp only [List.map_cons, List.take_succ_cons, hlog]
          · simp only [List.take_succ_cons, runSteps_cons_calls, hcalls]
      · simp only [firstFailure, bind_apply, hok, pure_apply, List.length_cons,
          Bool.false_eq_true, if_false]
        refine ⟨?_, by first | trivial | (intro h; simp at h), ?_⟩
        · simp only [Bool.true_eq_false, false_iff, not_forall]
          exact ⟨0, by omega, hok⟩
        · intro _
          refine ⟨0, by omega, fun j hj => absurd hj (by omega), ?_, ?_, ?_, ?_⟩
          · simpa [stepResult_zero] using hok
          · simp
          · simp [runSteps]
          · simp [runSteps]

/-- `Init` on a world is the chain over the 21 steps in the world with `_window` assigned:
the same verdict, and the calls of the chain followed by the error line on failure. -/
theorem init_eq_chain (window : Handle) (w : World) :
    (Renderer.Init window w).value
        = !(firstFailure Renderer.initSteps (w.withWindowHandle window)).value.1 ∧
      (Renderer.InitTraced window w).value.2
        = (firstFailure Renderer.initSteps (w.withWindowHandle window)).value.2 ∧
      (Renderer.Init window w).world
        = (firstFailure Renderer.initSteps (w.withWindowHandle window)).world ∧
      (Renderer.Init window w).calls
        = (firstFailure Renderer.initSteps (w.withWindowHandle window)).calls ++
            (if (firstFailure Renderer.initSteps (w.withWindowHandle window)).value.1
              then [Call.cerr "Failed to initialize vulkan"] else []) := by
  simp only [Renderer.Init, Renderer.InitTraced, bind_apply, modifyR_apply, pure_apply,
    ite_apply_world, cerr_apply, World.withWindowHandle, List.nil_append, List.append_nil]
  split_ifs with h <;> simp [h]

/-- C13: `Renderer::Init` chains 21 steps. It returns true exactly when every step, called
after the steps before it, returns true. When it returns false there is a first step `k`
that returned false: the steps before it returned true, and what `Init` did is the work
of the steps up to and including `k` followed by the error line, so no later step was
called. -/
theorem C13_init_true_iff_every_step_true_and_stops_at_first_failure
    (window : Handle) (w : World) :
    Renderer.initSteps.length = 21 ∧
    ((Renderer.Init window w).value = true ↔
        ∀ k < 21, stepResult Renderer.initSteps k (w.withWindowHandle window) = true) ∧
    ((Renderer.Init window w).value = true →
        (Renderer.InitTraced window w).value.2 = Renderer.initSteps.map (fun s => (s, true)) ∧
        (Renderer.Init window w).world
          = (runSteps Renderer.initSteps (w.withWindowHandle window)).world ∧
        (Renderer.Init window w).calls
          = (runSteps Renderer.initSteps (w.withWindowHandle window)).calls) ∧
    ((Renderer.Init window w).value = false →
        ∃ k < 21,
          (∀ j < k, stepResult Renderer.initSteps j (w.withWindowHandle window) = true) ∧
          stepResult Renderer.initSteps k (w.withWindowHandle window) = false ∧
          (Renderer.InitTraced window w).value.2.map Prod.fst
            = Renderer.initSteps.take (k + 1) ∧
          (Renderer.Init window w).world
            = (runSteps (Renderer.initSteps.take (k + 1)) (w.withWindowHandle window)).world ∧
          (Renderer.Init window w).calls
            = (runSteps (Renderer.initSteps.take (k + 1)) (w.withWindowHandle window)).calls
                ++ [Call.cerr "Failed to initialize vulkan"]) := by
  obtain ⟨hv, hlog, hw, hc⟩ := init_eq_chain window w
  obtain ⟨h1, h2, h3⟩ := firstFailure_exec Renderer.initSteps (w.withWindowHandle window)
  have hlen : Renderer.initSteps.length = 21 := rfl
  rw [hlen] at h1 h3
  refine ⟨hlen, ?_, ?_, ?_⟩
  · rw [hv, ← h1]
    cases (firstFailure Renderer.initSteps (w.withWindowHandle window)).value.1 <;> simp
  · intro h
    have hf : (firstFailure Renderer.initSteps (w.withWindowHandle window)).value.1 = false := by
      rw [hv] at h
      simpa using h
    refine ⟨?_, ?_, ?_⟩
    · rw [hlog]
      exact (firstFailure_spec _ _).1 hf
    · rw [hw, (h2 hf).1]
    · rw [hc, hf, (h2 hf).2]
      simp
  · intro h
    have hf : (firstFailure Renderer.initSteps (w.withWindowHandle window)).value.1 = true := by
      rw [hv] at h
      simpa using h
    obtain ⟨k, hk, hbefore, hat, hsteps, hworld, hcalls⟩ := h3 hf
    refine ⟨k, hk, hbefore, hat, ?_, ?_, ?_⟩
    · rw [hlog, hsteps]
    · rw [hw, hworld]
    · rw [hc, hf, hcalls]
      simp

/-! ## A platform without physical devices -/

theorem InitInstance_adapters (w : World) :
    (Renderer.InitInstance w).world.platform.adapters = w.platform.adapters := by
  simp only [Renderer.InitInstance, bind_apply, vkCall_apply, ite_apply_world, cerr_apply,
    pure_apply, fresh_apply, modifyR_apply, getR_apply]
  split_ifs <;> rfl

theorem InitSurface_adapters (w : World) :
    (Renderer.InitSurface w).world.platform.adapters = w.platform.adapters := by
  simp only [Renderer.InitSurface, bind_apply, vkCall_apply, ite_apply_world, cerr_apply,
    pure_apply, fresh_apply, modifyR_apply]
  split_ifs <;> rfl

/-- With no adapter `InitDevices` reports the failure and returns false; the device manager
is as before. -/
theorem InitDevices_of_no_adapter (w : World) (h : w.platform.adapters = []) :
    (Renderer.InitDevices w).value = false ∧
      (Renderer.InitDevices w).world.renderer._device_manager = w.renderer._device_manager ∧
      (Renderer.InitDevices w).calls
        = [Call.vkEnumeratePhysicalDevices 0,
           Call.cerr "Failed to find any GPUs with Vulkan support"] := by
  simp [Renderer.InitDevices, RenderDeviceManager.InitDevices, h]

/-- With no adapter the third step of `Init` returns false, whatever the first two did. -/
theorem stepResult_initDevices_of_no_adapter (window : Handle) (w : World)
    (h : w.platform.adapters = []) :
    stepResult Renderer.initSteps 2 (w.withWindowHandle window) = false := by
  have h2 : (Renderer.InitSurface
      (Renderer.InitInstance (w.withWindowHandle window)).world).world.platform.adapters
        = [] := by
    rw [InitSurface_adapters, InitInstance_adapters]
    exact h
  exact (InitDevices_of_no_adapter _ h2).1

/-- With no adapter `Init` returns false, and the step that failed is one of the first
three. -/
theorem init_of_no_adapter (window : Handle) (w : World) (h : w.platform.adapters = []) :
    (Renderer.Init window w).value = false ∧
    ∃ k ≤ 2,
      (Renderer.InitTraced window w).value.2.map Prod.fst = Renderer.initSteps.take (k + 1) ∧
      (Renderer.Init window w).world
        = (runSteps (Renderer.initSteps.take (k + 1)) (w.withWindowHandle window)).world ∧
      (Renderer.Init window w).calls
        = (runSteps (Renderer.initSteps.take (k + 1)) (w.withWindowHandle window)).calls
            ++ [Call.cerr "Failed to initialize vulkan"] := by
  obtain ⟨hv, hlog, hw, hc⟩ := init_eq_chain window w
  obtain ⟨h1, -, h3⟩ := firstFailure_exec Renderer.initSteps (w.withWindowHandle window)
  have h2 := stepResult_initDevices_of_no_adapter window w h
  have hf : (firstFailure Renderer.initSteps (w.withWindowHandle window)).value.1 = true := by
    by_contra hne
    have hall := h1.1 (by simpa using hne)
    have := hall 2 (by decide)
    rw [h2] at this
    exact Bool.false_ne_true this
  obtain ⟨k, -, hbefore, -, hsteps, hworld, hcalls⟩ := h3 hf
  refine ⟨by rw [hv, hf]; rfl, k, ?_, by rw [hlog, hsteps], by rw [hw, hworld], ?_⟩
  · by_contra hk
    have := hbefore 2 (by omega)
    rw [h2] at this
    exact Bool.false_ne_true this
  · rw [hc, hf, hcalls]
    simp

theorem window_init_of_no_adapter (w : World) (h : w.platform.adapters = []) :
    (Window.Init w).value = false := by
  simp only [Window.Init, bind_apply, emit_apply, getPlatform_apply, ite_apply_world,
    cerr_apply, pure_apply, fresh_apply, modifyWindow_apply]
  have hinit := (init_of_no_adapter (w.platform.nextHandle + 1)
    { w with
      platform := { w.platform with nextHandle := w.platform.nextHandle + 1 }
      window := { w.window with _window := w.platform.nextHandle + 1 } } h).1
  split_ifs with hwin hren
  · rfl
  · rfl
  · rw [hinit] at hren
    exact absurd rfl hren

/-- On a platform that enumerates no physical device, `InitDevices` returns false and
leaves the device manager as it was, so a manager that had no device selected still has
none; `Renderer::Init` returns false, the steps it called are among `InitInstance`,
`InitSurface` and `InitDevices` (logical-device creation and the later steps are not
called); `Window::Init` and `Game::Init` return false. -/
theorem init_fails_without_physical_device (window : Handle) (w : World)
    (h : w.platform.adapters = [])
    (hnone : w.renderer._device_manager._current_device = none) :
    (w.renderer._device_manager.InitDevices w.platform.adapters
        = some (false, w.renderer._device_manager)) ∧
    (Renderer.InitDevices w).value = false ∧
    (Renderer.InitDevices w).world.renderer._device_manager._current_device = none ∧
    (Renderer.Init window w).value = false ∧
    (∃ k ≤ 2,
      (Renderer.InitTraced window w).value.2.map Prod.fst = Renderer.initSteps.take (k + 1) ∧
      (Renderer.Init window w).calls
        = (runSteps (Renderer.initSteps.take (k + 1)) (w.withWindowHandle window)).calls
            ++ [Call.cerr "Failed to initialize vulkan"]) ∧
    (∀ s ∈ (Renderer.InitTraced window w).value.2.map Prod.fst,
      s = Step.InitInstance ∨ s = Step.InitSurface ∨ s = Step.InitDevices) ∧
    (Window.Init w).value = false ∧
    (Game.Init w).value = false := by
  obtain ⟨hd1, hd2, -⟩ := InitDevices_of_no_adapter w h
  obtain ⟨hi, k, hk, hsteps, -, hcalls⟩ := init_of_no_adapter window w h
  have hwin := window_init_of_no_adapter w h
  have hgame : (Game.Init w).value = false := by
    simp only [Game.Init, bind_apply, hwin, ite_apply_world, pure_apply]
    rfl
  refine ⟨by simp [RenderDeviceManager.InitDevices, h], hd1, by rw [hd2, hnone], hi,
    ⟨k, hk, hsteps, hcalls⟩, ?_, hwin, hgame⟩
  intro s hs
  rw [hsteps] at hs
  have hsub : s ∈ Renderer.initSteps.take 3 :=
    List.take_subset_take_left _ (by omega) hs
  simpa [Renderer.initSteps] using hsub

/-- C14, as the code has it. On every platform that enumerates no physical device,
`InitDevices` returns false with no device selected, `Renderer::Init` returns false after
steps among `InitInstance`, `InitSurface` and `InitDevices` only, and `Window::Init` and
`Game::Init` return false. At program start on such a platform `Game::Init` returns false
without any access outside a vector and leaves the three vectors of synchronisation
objects empty, since `InitSyncObjects` was never called. `main` then leaves through
`return EXIT_FAILURE`, which destroys `game`: the destructor of `Renderer` runs its loop
over `MAX_FRAMES_IN_FLIGHT` and reads `_vk_render_finished_semaphores[0]` in an empty
vector. The run of `main` performs an access outside a vector before the process can
deliver its exit status. -/
theorem C14_no_physical_device_destructor_reads_empty_vectors :
    (∀ (window : Handle) (w : World), w.platform.adapters = [] →
      w.renderer._device_manager._current_device = none →
      (w.renderer._device_manager.InitDevices w.platform.adapters
          = some (false, w.renderer._device_manager)) ∧
      (Renderer.InitDevices w).value = false ∧
      (Renderer.InitDevices w).world.renderer._device_manager._current_device = none ∧
      (Renderer.Init window w).value = false ∧
      (∀ s ∈ (Renderer.InitTraced window w).value.2.map Prod.fst,
        s = Step.InitInstance ∨ s = Step.InitSurface ∨ s = Step.InitDevices) ∧
      (Window.Init w).value = false ∧
      (Game.Init w).value = false) ∧
    (World.start noAdapterPlatform false).platform.adapters = [] ∧
    (Game.Init (World.start noAdapterPlatform false)).value = false ∧
    (Game.Init (World.start noAdapterPlatform false)).calls
      = [Call.glfwInit, Call.glfwCreateWindow true, Call.vkCreateInstance VK_SUCCESS,
         Call.glfwCreateWindowSurface VK_SUCCESS, Call.vkEnumeratePhysicalDevices 0,
         Call.cerr "Failed to find any GPUs with Vulkan support",
         Call.cerr "Failed to initialize vulkan",
         Call.cerr "Failed to initialize renderer"] ∧
    (Game.Init (World.start noAdapterPlatform false)).world.undefinedAccess = false ∧
    (Game.Init (World.start
      noAdapterPlatform false)).world.renderer._vk_render_finished_semaphores = [] ∧
    (Game.Init (World.start
      noAdapterPlatform false)).world.renderer._vk_image_available_semaphores = [] ∧
    (Game.Init (World.start noAdapterPlatform false)).world.renderer._vk_in_flight_fences
      = [] ∧
    (Renderer.destructor_body 0
      (Game.Init (World.start noAdapterPlatform false)).world).world.undefinedAccess = true ∧
    (Window.destructor
      (Game.Init (World.start noAdapterPlatform false)).world).world.undefinedAccess = true ∧
    (main (World.start noAdapterPlatform false)).calls
      = (Game.Init (World.start noAdapterPlatform false)).calls ++
        (Window.destructor (Game.Init (World.start noAdapterPlatform false)).world).calls ∧
    (main (World.start noAdapterPlatform false)).world.undefinedAccess = true := by
  refine ⟨?_, by decide, by decide, by rfl, by decide, by decide, by decide, by decide,
    by decide, by decide, by rfl, by decide⟩
  intro window w h hnone
  obtain ⟨h1, h2, h3, h4, -, h6, h7, h8⟩ := init_fails_without_physical_device window w h hnone
  exact ⟨h1, h2, h3, h4, h6, h7, h8⟩

/-! ## `ResetSwapChain`: the device-idle wait and the sizes of the vectors -/

theorem DestroySwapChain_calls_head (w : World) :
    ∃ rest, (Renderer.DestroySwapChain w).calls = Call.vkDeviceWaitIdle :: rest := by
  simp [Renderer.DestroySwapChain]

/-- What `ResetSwapChain` does: the wait, `DestroySwapChain`, then the chain of steps. -/
theorem resetSwapChain_eq_chain (w : World) :
    (Renderer.ResetSwapChain w).value
        = !(firstFailure Renderer.resetSteps (Renderer.DestroySwapChain w).world).value.1 ∧
      (Renderer.ResetSwapChain w).world
        = (firstFailure Renderer.resetSteps (Renderer.DestroySwapChain w).world).world ∧
      (Renderer.ResetSwapChain w).calls
        = Call.vkDeviceWaitIdle :: ((Renderer.DestroySwapChain w).calls ++
            (firstFailure Renderer.resetSteps (Renderer.DestroySwapChain w).world).calls) := by
  simp only [Renderer.ResetSwapChain, Renderer.ResetSwapChainTraced, bind_apply, emit_apply,
    pure_apply, ite_apply_world, List.append_nil, List.singleton_append]
  split_ifs with h <;> simp [h]

/-- C16: whatever the state, the first call `ResetSwapChain` issues is `vkDeviceWaitIdle`;
the calls of `DestroySwapChain` follow, which again start with `vkDeviceWaitIdle`, and the
calls of the rebuilding steps come last. So every destruction and every creation comes
after a device-idle wait. -/
theorem C16_resetSwapChain_begins_with_device_idle_wait (w : World) :
    (Renderer.ResetSwapChain w).calls.head? = some Call.vkDeviceWaitIdle ∧
    (∃ rest, (Renderer.DestroySwapChain w).calls = Call.vkDeviceWaitIdle :: rest) ∧
    (Renderer.ResetSwapChain w).calls
      = Call.vkDeviceWaitIdle :: ((Renderer.DestroySwapChain w).calls ++
          (firstFailure Renderer.resetSteps (Renderer.DestroySwapChain w).world).calls) := by
  have h := (resetSwapChain_eq_chain w).2.2
  exact ⟨by rw [h]; rfl, DestroySwapChain_calls_head w, h⟩

theorem DestroySwapChain_renderer (w : World) :
    (Renderer.DestroySwapChain w).world.renderer = w.renderer :=
  DestroySwapChain_preserves id w

/-- After the nine steps of a rebuild, called in order, every per-image vector has the
length of `_vk_swapchain_images`, whatever the lengths were before. -/
theorem runSteps_resetSteps_sizes_agree (w : World) :
    (runSteps Renderer.resetSteps w).world.renderer.sizes.Agree := by
  simp only [Renderer.resetSteps, runSteps, bind_apply, pure_apply, Step.run,
    InitCommandBuffers_sizes, InitDescriptorSets_sizes, InitDescriptorPool_sizes,
    InitUniformBuffers_sizes, InitFramebuffers_sizes, InitGraphicsPipeline_sizes,
    InitRenderPass_sizes, InitImageViews_sizes, InitSwapChain_sizes]
  simp [Sizes.Agree]

/-- After the 21 steps of `Init`, called in order, every per-image vector has the length of
`_vk_swapchain_images`. -/
theorem runSteps_initSteps_sizes_agree (w : World) :
    (runSteps Renderer.initSteps w).world.renderer.sizes.Agree := by
  simp only [Renderer.initSteps, runSteps, bind_apply, pure_apply, Step.run,
    InitSyncObjects_sizes, InitCommandBuffers_sizes, InitDescriptorSets_sizes,
    InitDescriptorPool_sizes, InitUniformBuffers_sizes, InitIndexBuffer_sizes,
    InitVertexBuffer_sizes, InitTextureSampler_sizes, InitTextureImageView_sizes,
    InitTextureImage_sizes, InitCommandPool_sizes, InitFramebuffers_sizes,
    InitGraphicsPipeline_sizes, InitDescriptorSetLayout_sizes, InitRenderPass_sizes,
    InitImageViews_sizes, InitSwapChain_sizes, InitLogicalDevice_sizes, InitDevices_sizes,
    InitSurface_sizes, InitInstance_sizes]
  simp [Sizes.Agree]

/-- A `ResetSwapChain` that returns true leaves every per-image vector with the length of
`_vk_swapchain_images`, from whatever state it was called in. -/
theorem resetSwapChain_sizes_agree (w : World) (h : (Renderer.ResetSwapChain w).value = true) :
    (Renderer.ResetSwapChain w).world.renderer.sizes.Agree := by
  obtain ⟨hv, hw, -⟩ := resetSwapChain_eq_chain w
  have hf : (firstFailure Renderer.resetSteps (Renderer.DestroySwapChain w).world).value.1
      = false := by
    rw [hv] at h
    simpa using h
  rw [hw, ((firstFailure_exec _ _).2.1 hf).1]
  exact runSteps_resetSteps_sizes_agree _

/-- An `Init` that returns true leaves every per-image vector with the length of
`_vk_swapchain_images`. -/
theorem init_sizes_agree (window : Handle) (w : World)
    (h : (Renderer.Init window w).value = true) :
    (Renderer.Init window w).world.renderer.sizes.Agree := by
  obtain ⟨hv, -, hw, -⟩ := init_eq_chain window w
  have hf : (firstFailure Renderer.initSteps (w.withWindowHandle window)).value.1 = false := by
    rw [hv] at h
    simpa using h
  rw [hw, ((firstFailure_exec _ _).2.1 hf).1]
  exact runSteps_initSteps_sizes_agree _

/-- C17: after an `Init` that returned true and after each of `n` calls of `ResetSwapChain`
in a row that all returned true, on any platform (so with any image count reported at each
rebuild), the numbers of image views, framebuffers, uniform buffers, uniform-buffer
memories, descriptor sets and command buffers all equal the number of swapchain images at
that moment. -/
theorem C17_per_image_vectors_match_image_count_after_each_reset
    (window : Handle) (w : World) (n : Nat)
    (hInit : (Renderer.Init window w).value = true)
    (hResets : resetsSucceed n (Renderer.Init window w).world = true) :
    ∀ k ≤ n,
      (worldAfterResets k (Renderer.Init window w).world).renderer.sizes.Agree ∧
      (worldAfterResets k (Renderer.Init window w).world).renderer.sizes.images
        = (worldAfterResets k
            (Renderer.Init window w).world).renderer._vk_swapchain_images.length := by
  intro k hk
  refine ⟨?_, rfl⟩
  induction n generalizing k with
  | zero =>
      obtain rfl : k = 0 := by omega
      exact init_sizes_agree window w hInit
  | succ n ih =>
      simp only [resetsSucceed, Bool.and_eq_true] at hResets
      by_cases hkn : k ≤ n
      · exact ih hResets.1 k hkn
      · obtain rfl : k = n + 1 := by omega
        exact resetSwapChain_sizes_agree _ hResets.2

/-- The theorem of C17 on a platform whose swapchains have three, two and four images:
after `Init` and two rebuilds the vectors have four entries each. -/
theorem C17_per_image_vectors_witness :
    (Renderer.Init 1 (World.start varyingPlatform false)).value = true ∧
    resetsSucceed 2 (Renderer.Init 1 (World.start varyingPlatform false)).world = true ∧
    (worldAfterResets 2
      (Renderer.Init 1 (World.start varyingPlatform false)).world).renderer.sizes
      = { images := 4, imageViews := 4, framebuffers := 4, uniformBuffers := 4,
          uniformBuffersMemory := 4, descriptorSets := 4, commandBuffers := 4 } ∧
    (worldAfterResets 2
      (Renderer.Init 1 (World.start varyingPlatform false)).world).renderer.sizes.Agree :=
  ⟨by decide, by decide, by decide,
    (C17_per_image_vectors_match_image_count_after_each_reset 1
      (World.start varyingPlatform false) 2 (by decide) (by decide) 2 (le_refl 2)).1⟩

/-! ## Calls: what a function can issue -/

section
variable {α β : Type} (P : Call → Prop)

theorem emits_pure (a : α) : Emits P (pure a : M α) := fun _ _ h => by cases h

theorem emits_bind {m : M α} {f : α → M β} (hm : Emits P m) (hf : ∀ a, Emits P (f a)) :
    Emits P (m >>= f) := fun w c hc => by
  rw [bind_apply] at hc
  rcases List.mem_append.1 hc with h | h
  · exact hm w c h
  · exact hf _ _ c h

theorem emits_ite (c : Prop) [Decidable c] {m1 m2 : M α} (h1 : Emits P m1) (h2 : Emits P m2) :
    Emits P (if c then m1 else m2) := by
  split_ifs
  · exact h1
  · exact h2

theorem emits_emit {c : Call} (h : P c) : Emits P (emit c) := fun _ x hx => by
  rw [emit_apply] at hx
  obtain rfl := List.mem_singleton.1 hx
  exact h

theorem emits_cerr {msg : String} (h : P (Call.cerr msg)) : Emits P (cerr msg) :=
  emits_emit P h

theorem emits_vkCall {c : Int → Call} (h : ∀ r, P (c r)) : Emits P (vkCall c) :=
  fun _ x hx => by
    rw [vkCall_apply] at hx
    obtain rfl := List.mem_singleton.1 hx
    exact h _

theorem emits_getR : Emits P getR := fun _ _ h => by cases h

theorem emits_getPlatform : Emits P getPlatform := fun _ _ h => by cases h

theorem emits_getWindow : Emits P getWindow := fun _ _ h => by cases h

theorem emits_answer : Emits P answer := fun _ _ h => by cases h

theorem emits_fresh : Emits P fresh := fun _ _ h => by cases h

theorem emits_freshList (n : Nat) : Emits P (freshList n) := fun _ _ h => by cases h

theorem emits_nextImageCount : Emits P nextImageCount := fun _ _ h => by cases h

theorem emits_nextImageIndex : Emits P nextImageIndex := fun _ _ h => by cases h

theorem emits_nextMemoryTypeBits : Emits P nextMemoryTypeBits := fun _ _ h => by cases h

theorem emits_undefinedBehaviour : Emits P undefinedBehaviour := fun _ _ h => by cases h

theorem emits_modifyR (f : Renderer → Renderer) : Emits P (modifyR f) :=
  fun _ _ h => by cases h

theorem emits_modifyWindow (f : Window → Window) : Emits P (modifyWindow f) :=
  fun _ _ h => by cases h

theorem emits_access (i len : Nat) : Emits P (access i len) := fun w c h => by
  rw [access_apply] at h
  cases h

theorem emits_defined (x : Option α) (fallback : α) : Emits P (defined x fallback) :=
  fun w c h => by
    rw [defined_apply] at h
    cases h

theorem emits_forEach {body : α → M Unit} (h : ∀ a, Emits P (body a)) :
    ∀ l : List α, Emits P (forEach body l)
  | [] => emits_pure P _
  | a :: rest => emits_bind P (h a) fun _ => emits_forEach h rest

theorem emits_forIndex {body : Nat → M Unit} (h : ∀ i, Emits P (body i)) :
    ∀ n i : Nat, Emits P (forIndex body n i)
  | 0, _ => emits_pure P _
  | n + 1, i => emits_bind P (h i) fun _ => emits_forIndex h n (i + 1)

theorem emits_forReturnFalse {body : Nat → M Bool} (h : ∀ i, Emits P (body i)) :
    ∀ n i : Nat, Emits P (forReturnFalse body n i)
  | 0, _ => emits_pure P _
  | n + 1, i => by
      unfold VulkanRenderer.forReturnFalse
      refine emits_bind P (h i) fun ok => ?_
      cases ok
      · exact emits_pure P _
      · exact emits_forReturnFalse h n (i + 1)

end

/-! ## The calls a member function can issue

Each lemma says: when `P` holds of every call that appears in the body of the function (one
hypothesis per kind of call), `P` holds of every call the function issues. -/

theorem BeginSingleTimeCommands_emits (P : Call → Prop)
    (h_vkAllocateCommandBuffers : ∀ (count : Nat) (result : Int), P (Call.vkAllocateCommandBuffers count result))
    (h_vkBeginCommandBuffer : ∀ (result : Int), P (Call.vkBeginCommandBuffer result)) :
    Emits P (Renderer.BeginSingleTimeCommands) := by
  unfold Renderer.BeginSingleTimeCommands
  repeat' first
    | with_reducible apply emits_bind
    | with_reducible apply emits_ite
    | with_reducible apply emits_pure
    | with_reducible apply emits_vkCall
    | with_reducible apply emits_cerr
    | with_reducible apply emits_emit
    | with_reducible apply emits_fresh
    | with_reducible apply emits_freshList
    | with_reducible apply emits_getR
    | with_reducible apply emits_getPlatform
    | with_reducible apply emits_access
    | with_reducible apply emits_defined
    | with_reducible apply emits_nextImageCount
    | with_reducible apply emits_nextMemoryTypeBits
    | with_reducible apply emits_modifyR
    | with_reducible apply emits_forReturnFalse
    | with_reducible apply emits_forIndex
    | with_reducible apply emits_forEach
    | with_reducible exact h_vkAllocateCommandBuffers
    | with_reducible exact h_vkBeginCommandBuffer
    | with_reducible apply h_vkAllocateCommandBuffers
    | with_reducible apply h_vkBeginCommandBuffer
    | intro _

theorem EndSingleTimeCommands_emits (P : Call → Prop)
    (h_vkEndCommandBuffer : ∀ (result : Int), P (Call.vkEndCommandBuffer result))
    (h_vkQueueSubmit : ∀ (fence : Option Nat) (result : Int), P (Call.vkQueueSubmit fence result))
    (h_vkQueueWaitIdle : P Call.vkQueueWaitIdle)
    (h_vkFreeCommandBuffers : P Call.vkFreeCommandBuffers) :
    Emits P (Renderer.EndSingleTimeCommands) := by
  unfold Renderer.EndSingleTimeCommands
  repeat' first
    | with_reducible apply emits_bind
    | with_reducible apply emits_ite
    | with_reducible apply emits_pure
    | with_reducible apply emits_vkCall
    | with_reducible apply emits_cerr
    | with_reducible apply emits_emit
    | with_reducible apply emits_fresh
    | with_reducible apply emits_freshList
    | with_reducible apply emits_getR
    | with_reducible apply emits_getPlatform
    | with_reducible apply emits_access
    | with_reducible apply emits_defined
    | with_reducible apply emits_nextImageCount
    | with_reducible apply emits_nextMemoryTypeBits
    | with_reducible apply emits_modifyR
    | with_reducible apply emits_forReturnFalse
    | with_reducible apply emits_forIndex
    | with_reducible apply emits_forEach
    | with_reducible exact h_vkEndCommandBuffer
    | with_reducible exact h_vkQueueSubmit
    | with_reducible exact h_vkQueueWaitIdle
    | with_reducible exact h_vkFreeCommandBuffers
    | with_reducible apply h_vkEndCommandBuffer
    | with_reducible apply h_vkQueueSubmit
    | with_reducible apply h_vkQueueWaitIdle
    | with_reducible apply h_vkFreeCommandBuffers
    | intro _

theorem memoryTypeIdx_emits (P : Call → Prop) (properties : Nat) :
    Emits P (Renderer.memoryTypeIdx properties) := by
  unfold Renderer.memoryTypeIdx
  repeat' first
    | with_reducible apply emits_bind
    | with_reducible apply emits_ite
    | with_reducible apply emits_pure
    | with_reducible apply emits_vkCall
    | with_reducible apply emits_cerr
    | with_reducible apply emits_emit
    | with_reducible apply emits_fresh
    | with_reducible apply emits_freshList
    | with_reducible apply emits_getR
    | with_reducible apply emits_getPlatform
    | with_reducible apply emits_access
    | with_reducible apply emits_defined
    | with_reducible apply emits_nextImageCount
    | with_reducible apply emits_nextMemoryTypeBits
    | with_reducible apply emits_modifyR
    | with_reducible apply emits_forReturnFalse
    | with_reducible apply emits_forIndex
    | with_reducible apply emits_forEach
    | intro _

theorem InitBuffer_emits (P : Call → Prop) (properties : Nat) (storeBuffer storeMemory : Handle → M Unit)
    (hb : ∀ h, Emits P (storeBuffer h))
    (hm : ∀ h, Emits P (storeMemory h))
    (h_vkCreateBuffer : ∀ (result : Int), P (Call.vkCreateBuffer result))
    (h_vkAllocateMemory : ∀ (memoryTypeIndex : Int) (result : Int), P (Call.vkAllocateMemory memoryTypeIndex result))
    (h_vkBindBufferMemory : P Call.vkBindBufferMemory)
    (h_cerr : ∀ (msg : String), P (Call.cerr msg)) :
    Emits P (Renderer.InitBuffer properties storeBuffer storeMemory) := by
  unfold Renderer.InitBuffer
  repeat' first
    | with_reducible apply emits_bind
    | with_reducible apply emits_ite
    | with_reducible apply emits_pure
    | with_reducible apply emits_vkCall
    | with_reducible apply emits_cerr
    | with_reducible apply emits_emit
    | with_reducible apply emits_fresh
    | with_reducible apply emits_freshList
    | with_reducible apply emits_getR
    | with_reducible apply emits_getPlatform
    | with_reducible apply emits_access
    | with_reducible apply emits_defined
    | with_reducible apply emits_nextImageCount
    | with_reducible apply emits_nextMemoryTypeBits
    | with_reducible apply emits_modifyR
    | with_reducible apply emits_forReturnFalse
    | with_reducible apply emits_forIndex
    | with_reducible apply emits_forEach
    | with_reducible apply memoryTypeIdx_emits
    | with_reducible apply hb
    | with_reducible apply hm
    | with_reducible exact h_vkCreateBuffer
    | with_reducible exact h_vkAllocateMemory
    | with_reducible exact h_vkBindBufferMemory
    | with_reducible exact h_cerr
    | with_reducible apply h_vkCreateBuffer
    | with_reducible apply h_vkAllocateMemory
    | with_reducible apply h_vkBindBufferMemory
    | with_reducible apply h_cerr
    | intro _

theorem InitImage_emits (P : Call → Prop) (properties : Nat)
    (h_vkCreateImage : ∀ (result : Int), P (Call.vkCreateImage result))
    (h_vkAllocateMemory : ∀ (memoryTypeIndex : Int) (result : Int), P (Call.vkAllocateMemory memoryTypeIndex result))
    (h_vkBindImageMemory : P Call.vkBindImageMemory)
    (h_cerr : ∀ (msg : String), P (Call.cerr msg)) :
    Emits P (Renderer.InitImage properties) := by
  unfold Renderer.InitImage
  repeat' first
    | with_reducible apply emits_bind
    | with_reducible apply emits_ite
    | with_reducible apply emits_pure
    | with_reducible apply emits_vkCall
    | with_reducible apply emits_cerr
    | with_reducible apply emits_emit
    | with_reducible apply emits_fresh
    | with_reducible apply emits_freshList
    | with_reducible apply emits_getR
    | with_reducible apply emits_getPlatform
    | with_reducible apply emits_access
    | with_reducible apply emits_defined
    | with_reducible apply emits_nextImageCount
    | with_reducible apply emits_nextMemoryTypeBits
    | with_reducible apply emits_modifyR
    | with_reducible apply emits_forReturnFalse
    | with_reducible apply emits_forIndex
    | with_reducible apply emits_forEach
    | with_reducible apply memoryTypeIdx_emits
    | with_reducible exact h_vkCreateImage
    | with_reducible exact h_vkAllocateMemory
    | with_reducible exact h_vkBindImageMemory
    | with_reducible exact h_cerr
    | with_reducible apply h_vkCreateImage
    | with_reducible apply h_vkAllocateMemory
    | with_reducible apply h_vkBindImageMemory
    | with_reducible apply h_cerr
    | intro _

theorem TransitionImageLayout_emits (P : Call → Prop) (oldLayout newLayout : Nat)
    (h_vkAllocateCommandBuffers : ∀ (count : Nat) (result : Int), P (Call.vkAllocateCommandBuffers count result))
    (h_vkBeginCommandBuffer : ∀ (result : Int), P (Call.vkBeginCommandBuffer result))
    (h_vkEndCommandBuffer : ∀ (result : Int), P (Call.vkEndCommandBuffer result))
    (h_vkCmdPipelineBarrier : P Call.vkCmdPipelineBarrier)
    (h_vkQueueSubmit : ∀ (fence : Option Nat) (result : Int), P (Call.vkQueueSubmit fence result))
    (h_vkQueueWaitIdle : P Call.vkQueueWaitIdle)
    (h_vkFreeCommandBuffers : P Call.vkFreeCommandBuffers)
    (h_cerr : ∀ (msg : String), P (Call.cerr msg)) :
    Emits P (Renderer.TransitionImageLayout oldLayout newLayout) := by
  unfold Renderer.TransitionImageLayout
  repeat' first
    | with_reducible apply emits_bind
    | with_reducible apply emits_ite
    | with_reducible apply emits_pure
    | with_reducible apply emits_vkCall
    | with_reducible apply emits_cerr
    | with_reducible apply emits_emit
    | with_reducible apply emits_fresh
    | with_reducible apply emits_freshList
    | with_reducible apply emits_getR
    | with_reducible apply emits_getPlatform
    | with_reducible apply emits_access
    | with_reducible apply emits_defined
    | with_reducible apply emits_nextImageCount
    | with_reducible apply emits_nextMemoryTypeBits
    | with_reducible apply emits_modifyR
    | with_reducible apply emits_forReturnFalse
    | with_reducible apply emits_forIndex
    | with_reducible apply emits_forEach
    | with_reducible apply BeginSingleTimeCommands_emits
    | with_reducible apply EndSingleTimeCommands_emits
    | with_reducible exact h_vkAllocateCommandBuffers
    | with_reducible exact h_vkBeginCommandBuffer
    | with_reducible exact h_vkEndCommandBuffer
    | with_reducible exact h_vkCmdPipelineBarrier
    | with_reducible exact h_vkQueueSubmit
    | with_reducible exact h_vkQueueWaitIdle
    | with_reducible exact h_vkFreeCommandBuffers
    | with_reducible exact h_cerr
    | with_reducible apply h_vkAllocateCommandBuffers
    | with_reducible apply h_vkBeginCommandBuffer
    | with_reducible apply h_vkEndCommandBuffer
    | with_reducible apply h_vkCmdPipelineBarrier
    | with_reducible apply h_vkQueueSubmit
    | with_reducible apply h_vkQueueWaitIdle
    | with_reducible apply h_vkFreeCommandBuffers
    | with_reducible apply h_cerr
    | intro _

theorem CopyBuffer_emits (P : Call → Prop)
    (h_vkAllocateCommandBuffers : ∀ (count : Nat) (result : Int), P (Call.vkAllocateCommandBuffers count result))
    (h_vkBeginCommandBuffer : ∀ (result : Int), P (Call.vkBeginCommandBuffer result))
    (h_vkEndCommandBuffer : ∀ (result : Int), P (Call.vkEndCommandBuffer result))
    (h_vkCmdCopyBuffer : P Call.vkCmdCopyBuffer)
    (h_vkQueueSubmit : ∀ (fence : Option Nat) (result : Int), P (Call.vkQueueSubmit fence result))
    (h_vkQueueWaitIdle : P Call.vkQueueWaitIdle)
    (h_vkFreeCommandBuffers : P Call.vkFreeCommandBuffers) :
    Emits P (Renderer.CopyBuffer) := by
  unfold Renderer.CopyBuffer
  repeat' first
    | with_reducible apply emits_bind
    | with_reducible apply emits_ite
    | with_reducible apply emits_pure
    | with_reducible apply emits_vkCall
    | with_reducible apply emits_cerr
    | with_reducible apply emits_emit
    | with_reducible apply emits_fresh
    | with_reducible apply emits_freshList
    | with_reducible apply emits_getR
    | with_reducible apply emits_getPlatform
    | with_reducible apply emits_access
    | with_reducible apply emits_defined
    | with_reducible apply emits_nextImageCount
    | with_reducible apply emits_nextMemoryTypeBits
    | with_reducible apply emits_modifyR
    | with_reducible apply emits_forReturnFalse
    | with_reducible apply emits_forIndex
    | with_reducible apply emits_forEach
    | with_reducible apply BeginSingleTimeCommands_emits
    | with_reducible apply EndSingleTimeCommands_emits
    | with_reducible exact h_vkAllocateCommandBuffers
    | with_reducible exact h_vkBeginCommandBuffer
    | with_reducible exact h_vkEndCommandBuffer
    | with_reducible exact h_vkCmdCopyBuffer
    | with_reducible exact h_vkQueueSubmit
    | with_reducible exact h_vkQueueWaitIdle
    | with_reducible exact h_vkFreeCommandBuffers
    | with_reducible apply h_vkAllocateCommandBuffers
    | with_reducible apply h_vkBeginCommandBuffer
    | with_reducible apply h_vkEndCommandBuffer
    | with_reducible apply h_vkCmdCopyBuffer
    | with_reducible apply h_vkQueueSubmit
    | with_reducible apply h_vkQueueWaitIdle
    | with_reducible apply h_vkFreeCommandBuffers
    | intro _

theorem CopyBufferToImage_emits (P : Call → Prop)
    (h_vkAllocateCommandBuffers : ∀ (count : Nat) (result : Int), P (Call.vkAllocateCommandBuffers count result))
    (h_vkBeginCommandBuffer : ∀ (result : Int), P (Call.vkBeginCommandBuffer result))
    (h_vkEndCommandBuffer : ∀ (result : Int), P (Call.vkEndCommandBuffer result))
    (h_vkCmdCopyBufferToImage : P Call.vkCmdCopyBufferToImage)
    (h_vkQueueSubmit : ∀ (fence : Option Nat) (result : Int), P (Call.vkQueueSubmit fence result))
    (h_vkQueueWaitIdle : P Call.vkQueueWaitIdle)
    (h_vkFreeCommandBuffers : P Call.vkFreeCommandBuffers) :
    Emits P (Renderer.CopyBufferToImage) := by
  unfold Renderer.CopyBufferToImage
  repeat' first
    | with_reducible apply emits_bind
    | with_reducible apply emits_ite
    | with_reducible apply emits_pure
    | with_reducible apply emits_vkCall
    | with_reducible apply emits_cerr
    | with_reducible apply emits_emit
    | with_reducible apply emits_fresh
    | with_reducible apply emits_freshList
    | with_reducible apply emits_getR
    | with_reducible apply emits_getPlatform
    | with_reducible apply emits_access
    | with_reducible apply emits_defined
    | with_reducible apply emits_nextImageCount
    | with_reducible apply emits_nextMemoryTypeBits
    | with_reducible apply emits_modifyR
    | with_reducible apply emits_forReturnFalse
    | with_reducible apply emits_forIndex
    | with_reducible apply emits_forEach
    | with_reducible apply BeginSingleTimeCommands_emits
    | with_reducible apply EndSingleTimeCommands_emits
    | with_reducible exact h_vkAllocateCommandBuffers
    | with_reducible exact h_vkBeginCommandBuffer
    | with_reducible exact h_vkEndCommandBuffer
    | with_reducible exact h_vkCmdCopyBufferToImage
    | with_reducible exact h_vkQueueSubmit
    | with_reducible exact h_vkQueueWaitIdle
    | with_reducible exact h_vkFreeCommandBuffers
    | with_reducible apply h_vkAllocateCommandBuffers
    | with_reducible apply h_vkBeginCommandBuffer
    | with_reducible apply h_vkEndCommandBuffer
    | with_reducible apply h_vkCmdCopyBufferToImage
    | with_reducible apply h_vkQueueSubmit
    | with_reducible apply h_vkQueueWaitIdle
    | with_reducible apply h_vkFreeCommandBuffers
    | intro _

theorem copyToMemory_emits (P : Call → Prop) (memory : Handle)
    (h_vkMapMemory : ∀ (memory : Handle), P (Call.vkMapMemory memory))
    (h_memcpy : P Call.memcpy)
    (h_vkUnmapMemory : ∀ (memory : Handle), P (Call.vkUnmapMemory memory)) :
    Emits P (Renderer.copyToMemory memory) := by
  unfold Renderer.copyToMemory
  repeat' first
    | with_reducible apply emits_bind
    | with_reducible apply emits_ite
    | with_reducible apply emits_pure
    | with_reducible apply emits_vkCall
    | with_reducible apply emits_cerr
    | with_reducible apply emits_emit
    | with_reducible apply emits_fresh
    | with_reducible apply emits_freshList
    | with_reducible apply emits_getR
    | with_reducible apply emits_getPlatform
    | with_reducible apply emits_access
    | with_reducible apply emits_defined
    | with_reducible apply emits_nextImageCount
    | with_reducible apply emits_nextMemoryTypeBits
    | with_reducible apply emits_modifyR
    | with_reducible apply emits_forReturnFalse
    | with_reducible apply emits_forIndex
    | with_reducible apply emits_forEach
    | with_reducible exact h_vkMapMemory
    | with_reducible exact h_memcpy
    | with_reducible exact h_vkUnmapMemory
    | with_reducible apply h_vkMapMemory
    | with_reducible apply h_memcpy
    | with_reducible apply h_vkUnmapMemory
    | intro _

theorem InitShader_emits (P : Call → Prop)
    (h_vkCreateShaderModule : ∀ (result : Int), P (Call.vkCreateShaderModule result))
    (h_cerr : ∀ (msg : String), P (Call.cerr msg)) :
    Emits P (Renderer.InitShader) := by
  unfold Renderer.InitShader
  repeat' first
    | with_reducible apply emits_bind
    | with_reducible apply emits_ite
    | with_reducible apply emits_pure
    | with_reducible apply emits_vkCall
    | with_reducible apply emits_cerr
    | with_reducible apply emits_emit
    | with_reducible apply emits_fresh
    | with_reducible apply emits_freshList
    | with_reducible apply emits_getR
    | with_reducible apply emits_getPlatform
    | with_reducible apply emits_access
    | with_reducible apply emits_defined
    | with_reducible apply emits_nextImageCount
    | with_reducible apply emits_nextMemoryTypeBits
    | with_reducible apply emits_modifyR
    | with_reducible apply emits_forReturnFalse
    | with_reducible apply emits_forIndex
    | with_reducible apply emits_forEach
    | with_reducible exact h_vkCreateShaderModule
    | with_reducible exact h_cerr
    | with_reducible apply h_vkCreateShaderModule
    | with_reducible apply h_cerr
    | intro _

theorem InitInstance_emits (P : Call → Prop)
    (h_vkCreateInstance : ∀ (result : Int), P (Call.vkCreateInstance result))
    (h_CreateDebugUtilsMessengerEXT : ∀ (result : Int), P (Call.CreateDebugUtilsMessengerEXT result))
    (h_cerr : ∀ (msg : String), P (Call.cerr msg)) :
    Emits P (Renderer.InitInstance) := by
  unfold Renderer.InitInstance
  repeat' first
    | with_reducible apply emits_bind
    | with_reducible apply emits_ite
    | with_reducible apply emits_pure
    | with_reducible apply emits_vkCall
    | with_reducible apply emits_cerr
    | with_reducible apply emits_emit
    | with_reducible apply emits_fresh
    | with_reducible apply emits_freshList
    | with_reducible apply emits_getR
    | with_reducible apply emits_getPlatform
    | with_reducible apply emits_access
    | with_reducible apply emits_defined
    | with_reducible apply emits_nextImageCount
    | with_reducible apply emits_nextMemoryTypeBits
    | with_reducible apply emits_modifyR
    | with_reducible apply emits_forReturnFalse
    | with_reducible apply emits_forIndex
    | with_reducible apply emits_forEach
    | with_reducible exact h_vkCreateInstance
    | with_reducible exact h_CreateDebugUtilsMessengerEXT
    | with_reducible exact h_cerr
    | with_reducible apply h_vkCreateInstance
    | with_reducible apply h_CreateDebugUtilsMessengerEXT
    | with_reducible apply h_cerr
    | intro _

theorem InitSurface_emits (P : Call → Prop)
    (h_glfwCreateWindowSurface : ∀ (result : Int), P (Call.glfwCreateWindowSurface result))
    (h_cerr : ∀ (msg : String), P (Call.cerr msg)) :
    Emits P (Renderer.InitSurface) := by
  unfold Renderer.InitSurface
  repeat' first
    | with_reducible apply emits_bind
    | with_reducible apply emits_ite
    | with_reducible apply emits_pure
    | with_reducible apply emits_vkCall
    | with_reducible apply emits_cerr
    | with_reducible apply emits_emit
    | with_reducible apply emits_fresh
    | with_reducible apply emits_freshList
    | with_reducible apply emits_getR
    | with_reducible apply emits_getPlatform
    | with_reducible apply emits_access
    | with_reducible apply emits_defined
    | with_reducible apply emits_nextImageCount
    | with_reducible apply emits_nextMemoryTypeBits
    | with_reducible apply emits_modifyR
    | with_reducible apply emits_forReturnFalse
    | with_reducible apply emits_forIndex
    | with_reducible apply emits_forEach
    | with_reducible exact h_glfwCreateWindowSurface
    | with_reducible exact h_cerr
    | with_reducible apply h_glfwCreateWindowSurface
    | with_reducible apply h_cerr
    | intro _

theorem InitLogicalDevice_emits (P : Call → Prop)
    (h_vkCreateDevice : ∀ (queueCount : Nat) (result : Int), P (Call.vkCreateDevice queueCount result))
    (h_vkGetDeviceQueue : ∀ (queueFamilyIndex : Int), P (Call.vkGetDeviceQueue queueFamilyIndex))
    (h_cerr : ∀ (msg : String), P (Call.cerr msg)) :
    Emits P (Renderer.InitLogicalDevice) := by
  unfold Renderer.InitLogicalDevice
  repeat' first
    | with_reducible apply emits_bind
    | with_reducible apply emits_ite
    | with_reducible apply emits_pure
    | with_reducible apply emits_vkCall
    | with_reducible apply emits_cerr
    | with_reducible apply emits_emit
    | with_reducible apply emits_fresh
    | with_reducible apply emits_freshList
    | with_reducible apply emits_getR
    | with_reducible apply emits_getPlatform
    | with_reducible apply emits_access
    | with_reducible apply emits_defined
    | with_reducible apply emits_nextImageCount
    | with_reducible apply emits_nextMemoryTypeBits
    | with_reducible apply emits_modifyR
    | with_reducible apply emits_forReturnFalse
    | with_reducible apply emits_forIndex
    | with_reducible apply emits_forEach
    | with_reducible exact h_vkCreateDevice
    | with_reducible exact h_vkGetDeviceQueue
    | with_reducible exact h_cerr
    | with_reducible apply h_vkCreateDevice
    | with_reducible apply h_vkGetDeviceQueue
    | with_reducible apply h_cerr
    | intro _

theorem InitSwapChain_emits (P : Call → Prop)
    (h_vkCreateSwapchainKHR : ∀ (minImageCount : Nat) (imageFormat : Nat) (presentMode : Nat) (concurrent : Bool) (result : Int), P (Call.vkCreateSwapchainKHR minImageCount imageFormat presentMode concurrent result))
    (h_vkGetSwapchainImagesKHR : ∀ (imageCount : Nat), P (Call.vkGetSwapchainImagesKHR imageCount))
    (h_cerr : ∀ (msg : String), P (Call.cerr msg)) :
    Emits P (Renderer.InitSwapChain) := by
  unfold Renderer.InitSwapChain
  repeat' first
    | with_reducible apply emits_bind
    | with_reducible apply emits_ite
    | with_reducible apply emits_pure
    | with_reducible apply emits_vkCall
    | with_reducible apply emits_cerr
    | with_reducible apply emits_emit
    | with_reducible apply emits_fresh
    | with_reducible apply emits_freshList
    | with_reducible apply emits_getR
    | with_reducible apply emits_getPlatform
    | with_reducible apply emits_access
    | with_reducible apply emits_defined
    | with_reducible apply emits_nextImageCount
    | with_reducible apply emits_nextMemoryTypeBits
    | with_reducible apply emits_modifyR
    | with_reducible apply emits_forReturnFalse
    | with_reducible apply emits_forIndex
    | with_reducible apply emits_forEach
    | with_reducible exact h_vkCreateSwapchainKHR
    | with_reducible exact h_vkGetSwapchainImagesKHR
    | with_reducible exact h_cerr
    | with_reducible apply h_vkCreateSwapchainKHR
    | with_reducible apply h_vkGetSwapchainImagesKHR
    | with_reducible apply h_cerr
    | intro _

theorem InitImageView_swapchain_emits (P : Call → Prop) (i : Nat)
    (h_vkCreateImageView : ∀ (image : Handle) (result : Int), P (Call.vkCreateImageView image result))
    (h_cerr : ∀ (msg : String), P (Call.cerr msg)) :
    Emits P (Renderer.InitImageView_swapchain i) := by
  unfold Renderer.InitImageView_swapchain
  repeat' first
    | with_reducible apply emits_bind
    | with_reducible apply emits_ite
    | with_reducible apply emits_pure
    | with_reducible apply emits_vkCall
    | with_reducible apply emits_cerr
    | with_reducible apply emits_emit
    | with_reducible apply emits_fresh
    | with_reducible apply emits_freshList
    | with_reducible apply emits_getR
    | with_reducible apply emits_getPlatform
    | with_reducible apply emits_access
    | with_reducible apply emits_defined
    | with_reducible apply emits_nextImageCount
    | with_reducible apply emits_nextMemoryTypeBits
    | with_reducible apply emits_modifyR
    | with_reducible apply emits_forReturnFalse
    | with_reducible apply emits_forIndex
    | with_reducible apply emits_forEach
    | with_reducible exact h_vkCreateImageView
    | with_reducible exact h_cerr
    | with_reducible apply h_vkCreateImageView
    | with_reducible apply h_cerr
    | intro _

theorem InitImageViews_emits (P : Call → Prop)
    (h_vkCreateImageView : ∀ (image : Handle) (result : Int), P (Call.vkCreateImageView image result))
    (h_cerr : ∀ (msg : String), P (Call.cerr msg)) :
    Emits P (Renderer.InitImageViews) := by
  unfold Renderer.InitImageViews
  repeat' first
    | with_reducible apply emits_bind
    | with_reducible apply emits_ite
    | with_reducible apply emits_pure
    | with_reducible apply emits_vkCall
    | with_reducible apply emits_cerr
    | with_reducible apply emits_emit
    | with_reducible apply emits_fresh
    | with_reducible apply emits_freshList
    | with_reducible apply emits_getR
    | with_reducible apply emits_getPlatform
    | with_reducible apply emits_access
    | with_reducible apply emits_defined
    | with_reducible apply emits_nextImageCount
    | with_reducible apply emits_nextMemoryTypeBits
    | with_reducible apply emits_modifyR
    | with_reducible apply emits_forReturnFalse
    | with_reducible apply emits_forIndex
    | with_reducible apply emits_forEach
    | with_reducible apply InitImageView_swapchain_emits
    | with_reducible exact h_vkCreateImageView
    | with_reducible exact h_cerr
    | with_reducible apply h_vkCreateImageView
    | with_reducible apply h_cerr
    | intro _

theorem InitRenderPass_emits (P : Call → Prop)
    (h_vkCreateRenderPass : ∀ (result : Int), P (Call.vkCreateRenderPass result))
    (h_cerr : ∀ (msg : String), P (Call.cerr msg)) :
    Emits P (Renderer.InitRenderPass) := by
  unfold Renderer.InitRenderPass
  repeat' first
    | with_reducible apply emits_bind
    | with_reducible apply emits_ite
    | with_reducible apply emits_pure
    | with_reducible apply emits_vkCall
    | with_reducible apply emits_cerr
    | with_reducible apply emits_emit
    | with_reducible apply emits_fresh
    | with_reducible apply emits_freshList
    | with_reducible apply emits_getR
    | with_reducible apply emits_getPlatform
    | with_reducible apply emits_access
    | with_reducible apply emits_defined
    | with_reducible apply emits_nextImageCount
    | with_reducible apply emits_nextMemoryTypeBits
    | with_reducible apply emits_modifyR
    | with_reducible apply emits_forReturnFalse
    | with_reducible apply emits_forIndex
    | with_reducible apply emits_forEach
    | with_reducible exact h_vkCreateRenderPass
    | with_reducible exact h_cerr
    | with_reducible apply h_vkCreateRenderPass
    | with_reducible apply h_cerr
    | intro _

theorem InitDescriptorSetLayout_emits (P : Call → Prop)
    (h_vkCreateDescriptorSetLayout : ∀ (result : Int), P (Call.vkCreateDescriptorSetLayout result))
    (h_cerr : ∀ (msg : String), P (Call.cerr msg)) :
    Emits P (Renderer.InitDescriptorSetLayout) := by
  unfold Renderer.InitDescriptorSetLayout
  repeat' first
    | with_reducible apply emits_bind
    | with_reducible apply emits_ite
    | with_reducible apply emits_pure
    | with_reducible apply emits_vkCall
    | with_reducible apply emits_cerr
    | with_reducible apply emits_emit
    | with_reducible apply emits_fresh
    | with_reducible apply emits_freshList
    | with_reducible apply emits_getR
    | with_reducible apply emits_getPlatform
    | with_reducible apply emits_access
    | with_reducible apply emits_defined
    | with_reducible apply emits_nextImageCount
    | with_reducible apply emits_nextMemoryTypeBits
    | with_reducible apply emits_modifyR
    | with_reducible apply emits_forReturnFalse
    | with_reducible apply emits_forIndex
    | with_reducible apply emits_forEach
    | with_reducible exact h_vkCreateDescriptorSetLayout
    | with_reducible exact h_cerr
    | with_reducible apply h_vkCreateDescriptorSetLayout
    | with_reducible apply h_cerr
    | intro _

theorem InitGraphicsPipeline_emits (P : Call → Prop)
    (h_vkCreateShaderModule : ∀ (result : Int), P (Call.vkCreateShaderModule result))
    (h_vkDestroyShaderModule : P Call.vkDestroyShaderModule)
    (h_vkCreatePipelineLayout : ∀ (result : Int), P (Call.vkCreatePipelineLayout result))
    (h_vkCreateGraphicsPipelines : ∀ (result : Int), P (Call.vkCreateGraphicsPipelines result))
    (h_cerr : ∀ (msg : String), P (Call.cerr msg)) :
    Emits P (Renderer.InitGraphicsPipeline) := by
  unfold Renderer.InitGraphicsPipeline
  repeat' first
    | with_reducible apply emits_bind
    | with_reducible apply emits_ite
    | with_reducible apply emits_pure
    | with_reducible apply emits_vkCall
    | with_reducible apply emits_cerr
    | with_reducible apply emits_emit
    | with_reducible apply emits_fresh
    | with_reducible apply emits_freshList
    | with_reducible apply emits_getR
    | with_reducible apply emits_getPlatform
    | with_reducible apply emits_access
    | with_reducible apply emits_defined
    | with_reducible apply emits_nextImageCount
    | with_reducible apply emits_nextMemoryTypeBits
    | with_reducible apply emits_modifyR
    | with_reducible apply emits_forReturnFalse
    | with_reducible apply emits_forIndex
    | with_reducible apply emits_forEach
    | with_reducible apply InitShader_emits
    | with_reducible exact h_vkCreateShaderModule
    | with_reducible exact h_vkDestroyShaderModule
    | with_reducible exact h_vkCreatePipelineLayout
    | with_reducible exact h_vkCreateGraphicsPipelines
    | with_reducible exact h_cerr
    | with_reducible apply h_vkCreateShaderModule
    | with_reducible apply h_vkDestroyShaderModule
    | with_reducible apply h_vkCreatePipelineLayout
    | with_reducible apply h_vkCreateGraphicsPipelines
    | with_reducible apply h_cerr
    | intro _

theorem InitFramebuffers_body_emits (P : Call → Prop) (i : Nat)
    (h_vkCreateFramebuffer : ∀ (imageView : Handle) (result : Int), P (Call.vkCreateFramebuffer imageView result))
    (h_cerr : ∀ (msg : String), P (Call.cerr msg)) :
    Emits P (Renderer.InitFramebuffers_body i) := by
  unfold Renderer.InitFramebuffers_body
  repeat' first
    | with_reducible apply emits_bind
    | with_reducible apply emits_ite
    | with_reducible apply emits_pure
    | with_reducible apply emits_vkCall
    | with_reducible apply emits_cerr
    | with_reducible apply emits_emit
    | with_reducible apply emits_fresh
    | with_reducible apply emits_freshList
    | with_reducible apply emits_getR
    | with_reducible apply emits_getPlatform
    | with_reducible apply emits_access
    | with_reducible apply emits_defined
    | with_reducible apply emits_nextImageCount
    | with_reducible apply emits_nextMemoryTypeBits
    | with_reducible apply emits_modifyR
    | with_reducible apply emits_forReturnFalse
    | with_reducible apply emits_forIndex
    | with_reducible apply emits_forEach
    | with_reducible exact h_vkCreateFramebuffer
    | with_reducible exact h_cerr
    | with_reducible apply h_vkCreateFramebuffer
    | with_reducible apply h_cerr
    | intro _

theorem InitFramebuffers_emits (P : Call → Prop)
    (h_vkCreateFramebuffer : ∀ (imageView : Handle) (result : Int), P (Call.vkCreateFramebuffer imageView result))
    (h_cerr : ∀ (msg : String), P (Call.cerr msg)) :
    Emits P (Renderer.InitFramebuffers) := by
  unfold Renderer.InitFramebuffers
  repeat' first
    | with_reducible apply emits_bind
    | with_reducible apply emits_ite
    | with_reducible apply emits_pure
    | with_reducible apply emits_vkCall
    | with_reducible apply emits_cerr
    | with_reducible apply emits_emit
    | with_reducible apply emits_fresh
    | with_reducible apply emits_freshList
    | with_reducible apply emits_getR
    | with_reducible apply emits_getPlatform
    | with_reducible apply emits_access
    | with_reducible apply emits_defined
    | with_reducible apply emits_nextImageCount
    | with_reducible apply emits_nextMemoryTypeBits
    | with_reducible apply emits_modifyR
    | with_reducible apply emits_forReturnFalse
    | with_reducible apply emits_forIndex
    | with_reducible apply emits_forEach
    | with_reducible apply InitFramebuffers_body_emits
    | with_reducible exact h_vkCreateFramebuffer
    | with_reducible exact h_cerr
    | with_reducible apply h_vkCreateFramebuffer
    | with_reducible apply h_cerr
    | intro _

theorem InitCommandPool_emits (P : Call → Prop)
    (h_vkCreateCommandPool : ∀ (queueFamilyIndex : Int) (result : Int), P (Call.vkCreateCommandPool queueFamilyIndex result))
    (h_cerr : ∀ (msg : String), P (Call.cerr msg)) :
    Emits P (Renderer.InitCommandPool) := by
  unfold Renderer.InitCommandPool
  repeat' first
    | with_reducible apply emits_bind
    | with_reducible apply emits_ite
    | with_reducible apply emits_pure
    | with_reducible apply emits_vkCall
    | with_reducible apply emits_cerr
    | with_reducible apply emits_emit
    | with_reducible apply emits_fresh
    | with_reducible apply emits_freshList
    | with_reducible apply emits_getR
    | with_reducible apply emits_getPlatform
    | with_reducible apply emits_access
    | with_reducible apply emits_defined
    | with_reducible apply emits_nextImageCount
    | with_reducible apply emits_nextMemoryTypeBits
    | with_reducible apply emits_modifyR
    | with_reducible apply emits_forReturnFalse
    | with_reducible apply emits_forIndex
    | with_reducible apply emits_forEach
    | with_reducible exact h_vkCreateCommandPool
    | with_reducible exact h_cerr
    | with_reducible apply h_vkCreateCommandPool
    | with_reducible apply h_cerr
    | intro _

theorem InitTextureImage_emits (P : Call → Prop)
    (h_stbi_load : ∀ (loaded : Bool), P (Call.stbi_load loaded))
    (h_stbi_image_free : P Call.stbi_image_free)
    (h_vkCreateImage : ∀ (result : Int), P (Call.vkCreateImage result))
    (h_vkCreateBuffer : ∀ (result : Int), P (Call.vkCreateBuffer result))
    (h_vkAllocateMemory : ∀ (memoryTypeIndex : Int) (result : Int), P (Call.vkAllocateMemory memoryTypeIndex result))
    (h_vkBindBufferMemory : P Call.vkBindBufferMemory)
    (h_vkBindImageMemory : P Call.vkBindImageMemory)
    (h_vkMapMemory : ∀ (memory : Handle), P (Call.vkMapMemory memory))
    (h_memcpy : P Call.memcpy)
    (h_vkUnmapMemory : ∀ (memory : Handle), P (Call.vkUnmapMemory memory))
    (h_vkAllocateCommandBuffers : ∀ (count : Nat) (result : Int), P (Call.vkAllocateCommandBuffers count result))
    (h_vkBeginCommandBuffer : ∀ (result : Int), P (Call.vkBeginCommandBuffer result))
    (h_vkEndCommandBuffer : ∀ (result : Int), P (Call.vkEndCommandBuffer result))
    (h_vkCmdPipelineBarrier : P Call.vkCmdPipelineBarrier)
    (h_vkCmdCopyBufferToImage : P Call.vkCmdCopyBufferToImage)
    (h_vkQueueSubmit : ∀ (fence : Option Nat) (result : Int), P (Call.vkQueueSubmit fence result))
    (h_vkQueueWaitIdle : P Call.vkQueueWaitIdle)
    (h_vkFreeCommandBuffers : P Call.vkFreeCommandBuffers)
    (h_vkDestroyBuffer : ∀ (h : Handle), P (Call.vkDestroyBuffer h))
    (h_vkFreeMemory : ∀ (h : Handle), P (Call.vkFreeMemory h))
    (h_cerr : ∀ (msg : String), P (Call.cerr msg)) :
    Emits P (Renderer.InitTextureImage) := by
  unfold Renderer.InitTextureImage
  repeat' first
    | with_reducible apply emits_bind
    | with_reducible apply emits_ite
    | with_reducible apply emits_pure
    | with_reducible apply emits_vkCall
    | with_reducible apply emits_cerr
    | with_reducible apply emits_emit
    | with_reducible apply emits_fresh
    | with_reducible apply emits_freshList
    | with_reducible apply emits_getR
    | with_reducible apply emits_getPlatform
    | with_reducible apply emits_access
    | with_reducible apply emits_defined
    | with_reducible apply emits_nextImageCount
    | with_reducible apply emits_nextMemoryTypeBits
    | with_reducible apply emits_modifyR
    | with_reducible apply emits_forReturnFalse
    | with_reducible apply emits_forIndex
    | with_reducible apply emits_forEach
    | with_reducible apply InitBuffer_emits
    | with_reducible apply InitImage_emits
    | with_reducible apply TransitionImageLayout_emits
    | with_reducible apply CopyBufferToImage_emits
    | with_reducible apply copyToMemory_emits
    | with_reducible exact h_stbi_load
    | with_reducible exact h_stbi_image_free
    | with_reducible exact h_vkCreateImage
    | with_reducible exact h_vkCreateBuffer
    | with_reducible exact h_vkAllocateMemory
    | with_reducible exact h_vkBindBufferMemory
    | with_reducible exact h_vkBindImageMemory
    | with_reducible exact h_vkMapMemory
    | with_reducible exact h_memcpy
    | with_reducible exact h_vkUnmapMemory
    | with_reducible exact h_vkAllocateCommandBuffers
    | with_reducible exact h_vkBeginCommandBuffer
    | with_reducible exact h_vkEndCommandBuffer
    | with_reducible exact h_vkCmdPipelineBarrier
    | with_reducible exact h_vkCmdCopyBufferToImage
    | with_reducible exact h_vkQueueSubmit
    | with_reducible exact h_vkQueueWaitIdle
    | with_reducible exact h_vkFreeCommandBuffers
    | with_reducible exact h_vkDestroyBuffer
    | with_reducible exact h_vkFreeMemory
    | with_reducible exact h_cerr
    | with_reducible apply h_stbi_load
    | with_reducible apply h_stbi_image_free
    | with_reducible apply h_vkCreateImage
    | with_reducible apply h_vkCreateBuffer
    | with_reducible apply h_vkAllocateMemory
    | with_reducible apply h_vkBindBufferMemory
    | with_reducible apply h_vkBindImageMemory
    | with_reducible apply h_vkMapMemory
    | with_reducible apply h_memcpy
    | with_reducible apply h_vkUnmapMemory
    | with_reducible apply h_vkAllocateCommandBuffers
    | with_reducible apply h_vkBeginCommandBuffer
    | with_reducible apply h_vkEndCommandBuffer
    | with_reducible apply h_vkCmdPipelineBarrier
    | with_reducible apply h_vkCmdCopyBufferToImage
    | with_reducible apply h_vkQueueSubmit
    | with_reducible apply h_vkQueueWaitIdle
    | with_reducible apply h_vkFreeCommandBuffers
    | with_reducible apply h_vkDestroyBuffer
    | with_reducible apply h_vkFreeMemory
    | with_reducible apply h_cerr
    | intro _

theorem InitTextureImageView_emits (P : Call → Prop)
    (h_vkCreateImageView : ∀ (image : Handle) (result : Int), P (Call.vkCreateImageView image result))
    (h_cerr : ∀ (msg : String), P (Call.cerr msg)) :
    Emits P (Renderer.InitTextureImageView) := by
  unfold Renderer.InitTextureImageView
  repeat' first
    | with_reducible apply emits_bind
    | with_reducible apply emits_ite
    | with_reducible apply emits_pure
    | with_reducible apply emits_vkCall
    | with_reducible apply emits_cerr
    | with_reducible apply emits_emit
    | with_reducible apply emits_fresh
    | with_reducible apply emits_freshList
    | with_reducible apply emits_getR
    | with_reducible apply emits_getPlatform
    | with_reducible apply emits_access
    | with_reducible apply emits_defined
    | with_reducible apply emits_nextImageCount
    | with_reducible apply emits_nextMemoryTypeBits
    | with_reducible apply emits_modifyR
    | with_reducible apply emits_forReturnFalse
    | with_reducible apply emits_forIndex
    | with_reducible apply emits_forEach
    | with_reducible exact h_vkCreateImageView
    | with_reducible exact h_cerr
    | with_reducible apply h_vkCreateImageView
    | with_reducible apply h_cerr
    | intro _

theorem InitTextureSampler_emits (P : Call → Prop)
    (h_vkCreateSampler : ∀ (result : Int), P (Call.vkCreateSampler result))
    (h_cerr : ∀ (msg : String), P (Call.cerr msg)) :
    Emits P (Renderer.InitTextureSampler) := by
  unfold Renderer.InitTextureSampler
  repeat' first
    | with_reducible apply emits_bind
    | with_reducible apply emits_ite
    | with_reducible apply emits_pure
    | with_reducible apply emits_vkCall
    | with_reducible apply emits_cerr
    | with_reducible apply emits_emit
    | with_reducible apply emits_fresh
    | with_reducible apply emits_freshList
    | with_reducible apply emits_getR
    | with_reducible apply emits_getPlatform
    | with_reducible apply emits_access
    | with_reducible apply emits_defined
    | with_reducible apply emits_nextImageCount
    | with_reducible apply emits_nextMemoryTypeBits
    | with_reducible apply emits_modifyR
    | with_reducible apply emits_forReturnFalse
    | with_reducible apply emits_forIndex
    | with_reducible apply emits_forEach
    | with_reducible exact h_vkCreateSampler
    | with_reducible exact h_cerr
    | with_reducible apply h_vkCreateSampler
    | with_reducible apply h_cerr
    | intro _

theorem InitVertexBuffer_emits (P : Call → Prop)
    (h_vkCreateBuffer : ∀ (result : Int), P (Call.vkCreateBuffer result))
    (h_vkAllocateMemory : ∀ (memoryTypeIndex : Int) (result : Int), P (Call.vkAllocateMemory memoryTypeIndex result))
    (h_vkBindBufferMemory : P Call.vkBindBufferMemory)
    (h_vkMapMemory : ∀ (memory : Handle), P (Call.vkMapMemory memory))
    (h_memcpy : P Call.memcpy)
    (h_vkUnmapMemory : ∀ (memory : Handle), P (Call.vkUnmapMemory memory))
    (h_vkAllocateCommandBuffers : ∀ (count : Nat) (result : Int), P (Call.vkAllocateCommandBuffers count result))
    (h_vkBeginCommandBuffer : ∀ (result : Int), P (Call.vkBeginCommandBuffer result))
    (h_vkEndCommandBuffer : ∀ (result : Int), P (Call.vkEndCommandBuffer result))
    (h_vkCmdCopyBuffer : P Call.vkCmdCopyBuffer)
    (h_vkQueueSubmit : ∀ (fence : Option Nat) (result : Int), P (Call.vkQueueSubmit fence result))
    (h_vkQueueWaitIdle : P Call.vkQueueWaitIdle)
    (h_vkFreeCommandBuffers : P Call.vkFreeCommandBuffers)
    (h_vkDestroyBuffer : ∀ (h : Handle), P (Call.vkDestroyBuffer h))
    (h_vkFreeMemory : ∀ (h : Handle), P (Call.vkFreeMemory h))
    (h_cerr : ∀ (msg : String), P (Call.cerr msg)) :
    Emits P (Renderer.InitVertexBuffer) := by
  unfold Renderer.InitVertexBuffer
  repeat' first
    | with_reducible apply emits_bind
    | with_reducible apply emits_ite
    | with_reducible apply emits_pure
    | with_reducible apply emits_vkCall
    | with_reducible apply emits_cerr
    | with_reducible apply emits_emit
    | with_reducible apply emits_fresh
    | with_reducible apply emits_freshList
    | with_reducible apply emits_getR
    | with_reducible apply emits_getPlatform
    | with_reducible apply emits_access
    | with_reducible apply emits_defined
    | with_reducible apply emits_nextImageCount
    | with_reducible apply emits_nextMemoryTypeBits
    | with_reducible apply emits_modifyR
    | with_reducible apply emits_forReturnFalse
    | with_reducible apply emits_forIndex
    | with_reducible apply emits_forEach
    | with_reducible apply InitBuffer_emits
    | with_reducible apply CopyBuffer_emits
    | with_reducible apply copyToMemory_emits
    | with_reducible exact h_vkCreateBuffer
    | with_reducible exact h_vkAllocateMemory
    | with_reducible exact h_vkBindBufferMemory
    | with_reducible exact h_vkMapMemory
    | with_reducible exact h_memcpy
    | with_reducible exact h_vkUnmapMemory
    | with_reducible exact h_vkAllocateCommandBuffers
    | with_reducible exact h_vkBeginCommandBuffer
    | with_reducible exact h_vkEndCommandBuffer
    | with_reducible exact h_vkCmdCopyBuffer
    | with_reducible exact h_vkQueueSubmit
    | with_reducible exact h_vkQueueWaitIdle
    | with_reducible exact h_vkFreeCommandBuffers
    | with_reducible exact h_vkDestroyBuffer
    | with_reducible exact h_vkFreeMemory
    | with_reducible exact h_cerr
    | with_reducible apply h_vkCreateBuffer
    | with_reducible apply h_vkAllocateMemory
    | with_reducible apply h_vkBindBufferMemory
    | with_reducible apply h_vkMapMemory
    | with_reducible apply h_memcpy
    | with_reducible apply h_vkUnmapMemory
    | with_reducible apply h_vkAllocateCommandBuffers
    | with_reducible apply h_vkBeginCommandBuffer
    | with_reducible apply h_vkEndCommandBuffer
    | with_reducible apply h_vkCmdCopyBuffer
    | with_reducible apply h_vkQueueSubmit
    | with_reducible apply h_vkQueueWaitIdle
    | with_reducible apply h_vkFreeCommandBuffers
    | with_reducible apply h_vkDestroyBuffer
    | with_reducible apply h_vkFreeMemory
    | with_reducible apply h_cerr
    | intro _

theorem InitIndexBuffer_emits (P : Call → Prop)
    (h_vkCreateBuffer : ∀ (result : Int), P (Call.vkCreateBuffer result))
    (h_vkAllocateMemory : ∀ (memoryTypeIndex : Int) (result : Int), P (Call.vkAllocateMemory memoryTypeIndex result))
    (h_vkBindBufferMemory : P Call.vkBindBufferMemory)
    (h_vkMapMemory : ∀ (memory : Handle), P (Call.vkMapMemory memory))
    (h_memcpy : P Call.memcpy)
    (h_vkUnmapMemory : ∀ (memory : Handle), P (Call.vkUnmapMemory memory))
    (h_vkAllocateCommandBuffers : ∀ (count : Nat) (result : Int), P (Call.vkAllocateCommandBuffers count result))
    (h_vkBeginCommandBuffer : ∀ (result : Int), P (Call.vkBeginCommandBuffer result))
    (h_vkEndCommandBuffer : ∀ (result : Int), P (Call.vkEndCommandBuffer result))
    (h_vkCmdCopyBuffer : P Call.vkCmdCopyBuffer)
    (h_vkQueueSubmit : ∀ (fence : Option Nat) (result : Int), P (Call.vkQueueSubmit fence result))
    (h_vkQueueWaitIdle : P Call.vkQueueWaitIdle)
    (h_vkFreeCommandBuffers : P Call.vkFreeCommandBuffers)
    (h_vkDestroyBuffer : ∀ (h : Handle), P (Call.vkDestroyBuffer h))
    (h_vkFreeMemory : ∀ (h : Handle), P (Call.vkFreeMemory h))
    (h_cerr : ∀ (msg : String), P (Call.cerr msg)) :
    Emits P (Renderer.InitIndexBuffer) := by
  unfold Renderer.InitIndexBuffer
  repeat' first
    | with_reducible apply emits_bind
    | with_reducible apply emits_ite
    | with_reducible apply emits_pure
    | with_reducible apply emits_vkCall
    | with_reducible apply emits_cerr
    | with_reducible apply emits_emit
    | with_reducible apply emits_fresh
    | with_reducible apply emits_freshList
    | with_reducible apply emits_getR
    | with_reducible apply emits_getPlatform
    | with_reducible apply emits_access
    | with_reducible apply emits_defined
    | with_reducible apply emits_nextImageCount
    | with_reducible apply emits_nextMemoryTypeBits
    | with_reducible apply emits_modifyR
    | with_reducible apply emits_forReturnFalse
    | with_reducible apply emits_forIndex
    | with_reducible apply emits_forEach
    | with_reducible apply InitBuffer_emits
    | with_reducible apply CopyBuffer_emits
    | with_reducible apply copyToMemory_emits
    | with_reducible exact h_vkCreateBuffer
    | with_reducible exact h_vkAllocateMemory
    | with_reducible exact h_vkBindBufferMemory
    | with_reducible exact h_vkMapMemory
    | with_reducible exact h_memcpy
    | with_reducible exact h_vkUnmapMemory
    | with_reducible exact h_vkAllocateCommandBuffers
    | with_reducible exact h_vkBeginCommandBuffer
    | with_reducible exact h_vkEndCommandBuffer
    | with_reducible exact h_vkCmdCopyBuffer
    | with_reducible exact h_vkQueueSubmit
    | with_reducible exact h_vkQueueWaitIdle
    | with_reducible exact h_vkFreeCommandBuffers
    | with_reducible exact h_vkDestroyBuffer
    | with_reducible exact h_vkFreeMemory
    | with_reducible exact h_cerr
    | with_reducible apply h_vkCreateBuffer
    | with_reducible apply h_vkAllocateMemory
    | with_reducible apply h_vkBindBufferMemory
    | with_reducible apply h_vkMapMemory
    | with_reducible apply h_memcpy
    | with_reducible apply h_vkUnmapMemory
    | with_reducible apply h_vkAllocateCommandBuffers
    | with_reducible apply h_vkBeginCommandBuffer
    | with_reducible apply h_vkEndCommandBuffer
    | with_reducible apply h_vkCmdCopyBuffer
    | with_reducible apply h_vkQueueSubmit
    | with_reducible apply h_vkQueueWaitIdle
    | with_reducible apply h_vkFreeCommandBuffers
    | with_reducible apply h_vkDestroyBuffer
    | with_reducible apply h_vkFreeMemory
    | with_reducible apply h_cerr
    | intro _

theorem InitUniformBuffers_body_emits (P : Call → Prop) (i : Nat)
    (h_vkCreateBuffer : ∀ (result : Int), P (Call.vkCreateBuffer result))
    (h_vkAllocateMemory : ∀ (memoryTypeIndex : Int) (result : Int), P (Call.vkAllocateMemory memoryTypeIndex result))
    (h_vkBindBufferMemory : P Call.vkBindBufferMemory)
    (h_cerr : ∀ (msg : String), P (Call.cerr msg)) :
    Emits P (Renderer.InitUniformBuffers_body i) := by
  unfold Renderer.InitUniformBuffers_body
  repeat' first
    | with_reducible apply emits_bind
    | with_reducible apply emits_ite
    | with_reducible apply emits_pure
    | with_reducible apply emits_vkCall
    | with_reducible apply emits_cerr
    | with_reducible apply emits_emit
    | with_reducible apply emits_fresh
    | with_reducible apply emits_freshList
    | with_reducible apply emits_getR
    | with_reducible apply emits_getPlatform
    | with_reducible apply emits_access
    | with_reducible apply emits_defined
    | with_reducible apply emits_nextImageCount
    | with_reducible apply emits_nextMemoryTypeBits
    | with_reducible apply emits_modifyR
    | with_reducible apply emits_forReturnFalse
    | with_reducible apply emits_forIndex
    | with_reducible apply emits_forEach
    | with_reducible apply InitBuffer_emits
    | with_reducible exact h_vkCreateBuffer
    | with_reducible exact h_vkAllocateMemory
    | with_reducible exact h_vkBindBufferMemory
    | with_reducible exact h_cerr
    | with_reducible apply h_vkCreateBuffer
    | with_reducible apply h_vkAllocateMemory
    | with_reducible apply h_vkBindBufferMemory
    | with_reducible apply h_cerr
    | intro _

theorem InitUniformBuffers_emits (P : Call → Prop)
    (h_vkCreateBuffer : ∀ (result : Int), P (Call.vkCreateBuffer result))
    (h_vkAllocateMemory : ∀ (memoryTypeIndex : Int) (result : Int), P (Call.vkAllocateMemory memoryTypeIndex result))
    (h_vkBindBufferMemory : P Call.vkBindBufferMemory)
    (h_cerr : ∀ (msg : String), P (Call.cerr msg)) :
    Emits P (Renderer.InitUniformBuffers) := by
  unfold Renderer.InitUniformBuffers
  repeat' first
    | with_reducible apply emits_bind
    | with_reducible apply emits_ite
    | with_reducible apply emits_pure
    | with_reducible apply emits_vkCall
    | with_reducible apply emits_cerr
    | with_reducible apply emits_emit
    | with_reducible apply emits_fresh
    | with_reducible apply emits_freshList
    | with_reducible apply emits_getR
    | with_reducible apply emits_getPlatform
    | with_reducible apply emits_access
    | with_reducible apply emits_defined
    | with_reducible apply emits_nextImageCount
    | with_reducible apply emits_nextMemoryTypeBits
    | with_reducible apply emits_modifyR
    | with_reducible apply emits_forReturnFalse
    | with_reducible apply emits_forIndex
    | with_reducible apply emits_forEach
    | with_reducible apply InitUniformBuffers_body_emits
    | with_reducible exact h_vkCreateBuffer
    | with_reducible exact h_vkAllocateMemory
    | with_reducible exact h_vkBindBufferMemory
    | with_reducible exact h_cerr
    | with_reducible apply h_vkCreateBuffer
    | with_reducible apply h_vkAllocateMemory
    | with_reducible apply h_vkBindBufferMemory
    | with_reducible apply h_cerr
    | intro _

theorem InitDescriptorPool_emits (P : Call → Prop)
    (h_vkCreateDescriptorPool : ∀ (maxSets : Nat) (result : Int), P (Call.vkCreateDescriptorPool maxSets result))
    (h_cerr : ∀ (msg : String), P (Call.cerr msg)) :
    Emits P (Renderer.InitDescriptorPool) := by
  unfold Renderer.InitDescriptorPool
  repeat' first
    | with_reducible apply emits_bind
    | with_reducible apply emits_ite
    | with_reducible apply emits_pure
    | with_reducible apply emits_vkCall
    | with_reducible apply emits_cerr
    | with_reducible apply emits_emit
    | with_reducible apply emits_fresh
    | with_reducible apply emits_freshList
    | with_reducible apply emits_getR
    | with_reducible apply emits_getPlatform
    | with_reducible apply emits_access
    | with_reducible apply emits_defined
    | with_reducible apply emits_nextImageCount
    | with_reducible apply emits_nextMemoryTypeBits
    | with_reducible apply emits_modifyR
    | with_reducible apply emits_forReturnFalse
    | with_reducible apply emits_forIndex
    | with_reducible apply emits_forEach
    | with_reducible exact h_vkCreateDescriptorPool
    | with_reducible exact h_cerr
    | with_reducible apply h_vkCreateDescriptorPool
    | with_reducible apply h_cerr
    | intro _

theorem InitDescriptorSets_body_emits (P : Call → Prop) (i : Nat)
    (h_vkUpdateDescriptorSets : ∀ (i : Nat), P (Call.vkUpdateDescriptorSets i)) :
    Emits P (Renderer.InitDescriptorSets_body i) := by
  unfold Renderer.InitDescriptorSets_body
  repeat' first
    | with_reducible apply emits_bind
    | with_reducible apply emits_ite
    | with_reducible apply emits_pure
    | with_reducible apply emits_vkCall
    | with_reducible apply emits_cerr
    | with_reducible apply emits_emit
    | with_reducible apply emits_fresh
    | with_reducible apply emits_freshList
    | with_reducible apply emits_getR
    | with_reducible apply emits_getPlatform
    | with_reducible apply emits_access
    | with_reducible apply emits_defined
    | with_reducible apply emits_nextImageCount
    | with_reducible apply emits_nextMemoryTypeBits
    | with_reducible apply emits_modifyR
    | with_reducible apply emits_forReturnFalse
    | with_reducible apply emits_forIndex
    | with_reducible apply emits_forEach
    | with_reducible exact h_vkUpdateDescriptorSets
    | with_reducible apply h_vkUpdateDescriptorSets
    | intro _

theorem InitDescriptorSets_emits (P : Call → Prop)
    (h_vkAllocateDescriptorSets : ∀ (count : Nat) (result : Int), P (Call.vkAllocateDescriptorSets count result))
    (h_vkUpdateDescriptorSets : ∀ (i : Nat), P (Call.vkUpdateDescriptorSets i))
    (h_cerr : ∀ (msg : String), P (Call.cerr msg)) :
    Emits P (Renderer.InitDescriptorSets) := by
  unfold Renderer.InitDescriptorSets
  repeat' first
    | with_reducible apply emits_bind
    | with_reducible apply emits_ite
    | with_reducible apply emits_pure
    | with_reducible apply emits_vkCall
    | with_reducible apply emits_cerr
    | with_reducible apply emits_emit
    | with_reducible apply emits_fresh
    | with_reducible apply emits_freshList
    | with_reducible apply emits_getR
    | with_reducible apply emits_getPlatform
    | with_reducible apply emits_access
    | with_reducible apply emits_defined
    | with_reducible apply emits_nextImageCount
    | with_reducible apply emits_nextMemoryTypeBits
    | with_reducible apply emits_modifyR
    | with_reducible apply emits_forReturnFalse
    | with_reducible apply emits_forIndex
    | with_reducible apply emits_forEach
    | with_reducible apply InitDescriptorSets_body_emits
    | with_reducible exact h_vkAllocateDescriptorSets
    | with_reducible exact h_vkUpdateDescriptorSets
    | with_reducible exact h_cerr
    | with_reducible apply h_vkAllocateDescriptorSets
    | with_reducible apply h_vkUpdateDescriptorSets
    | with_reducible apply h_cerr
    | intro _

theorem InitCommandBuffers_body_emits (P : Call → Prop) (i : Nat)
    (h_vkBeginCommandBuffer : ∀ (result : Int), P (Call.vkBeginCommandBuffer result))
    (h_vkEndCommandBuffer : ∀ (result : Int), P (Call.vkEndCommandBuffer result))
    (h_recordDrawCommands : ∀ (i : Nat), P (Call.recordDrawCommands i))
    (h_cerr : ∀ (msg : String), P (Call.cerr msg)) :
    Emits P (Renderer.InitCommandBuffers_body i) := by
  unfold Renderer.InitCommandBuffers_body
  repeat' first
    | with_reducible apply emits_bind
    | with_reducible apply emits_ite
    | with_reducible apply emits_pure
    | with_reducible apply emits_vkCall
    | with_reducible apply emits_cerr
    | with_reducible apply emits_emit
    | with_reducible apply emits_fresh
    | with_reducible apply emits_freshList
    | with_reducible apply emits_getR
    | with_reducible apply emits_getPlatform
    | with_reducible apply emits_access
    | with_reducible apply emits_defined
    | with_reducible apply emits_nextImageCount
    | with_reducible apply emits_nextMemoryTypeBits
    | with_reducible apply emits_modifyR
    | with_reducible apply emits_forReturnFalse
    | with_reducible apply emits_forIndex
    | with_reducible apply emits_forEach
    | with_reducible exact h_vkBeginCommandBuffer
    | with_reducible exact h_vkEndCommandBuffer
    | with_reducible exact h_recordDrawCommands
    | with_reducible exact h_cerr
    | with_reducible apply h_vkBeginCommandBuffer
    | with_reducible apply h_vkEndCommandBuffer
    | with_reducible apply h_recordDrawCommands
    | with_reducible apply h_cerr
    | intro _

theorem InitCommandBuffers_emits (P : Call → Prop)
    (h_vkAllocateCommandBuffers : ∀ (count : Nat) (result : Int), P (Call.vkAllocateCommandBuffers count result))
    (h_vkBeginCommandBuffer : ∀ (result : Int), P (Call.vkBeginCommandBuffer result))
    (h_vkEndCommandBuffer : ∀ (result : Int), P (Call.vkEndCommandBuffer result))
    (h_recordDrawCommands : ∀ (i : Nat), P (Call.recordDrawCommands i))
    (h_cerr : ∀ (msg : String), P (Call.cerr msg)) :
    Emits P (Renderer.InitCommandBuffers) := by
  unfold Renderer.InitCommandBuffers
  repeat' first
    | with_reducible apply emits_bind
    | with_reducible apply emits_ite
    | with_reducible apply emits_pure
    | with_reducible apply emits_vkCall
    | with_reducible apply emits_cerr
    | with_reducible apply emits_emit
    | with_reducible apply emits_fresh
    | with_reducible apply emits_freshList
    | with_reducible apply emits_getR
    | with_reducible apply emits_getPlatform
    | with_reducible apply emits_access
    | with_reducible apply emits_defined
    | with_reducible apply emits_nextImageCount
    | with_reducible apply emits_nextMemoryTypeBits
    | with_reducible apply emits_modifyR
    | with_reducible apply emits_forReturnFalse
    | with_reducible apply emits_forIndex
    | with_reducible apply emits_forEach
    | with_reducible apply InitCommandBuffers_body_emits
    | with_reducible exact h_vkAllocateCommandBuffers
    | with_reducible exact h_vkBeginCommandBuffer
    | with_reducible exact h_vkEndCommandBuffer
    | with_reducible exact h_recordDrawCommands
    | with_reducible exact h_cerr
    | with_reducible apply h_vkAllocateCommandBuffers
    | with_reducible apply h_vkBeginCommandBuffer
    | with_reducible apply h_vkEndCommandBuffer
    | with_reducible apply h_recordDrawCommands
    | with_reducible apply h_cerr
    | intro _

theorem InitSyncObjects_body_emits (P : Call → Prop) (i : Nat)
    (h_vkCreateSemaphore : ∀ (result : Int), P (Call.vkCreateSemaphore result))
    (h_vkCreateFence : ∀ (result : Int), P (Call.vkCreateFence result))
    (h_cerr : ∀ (msg : String), P (Call.cerr msg)) :
    Emits P (Renderer.InitSyncObjects_body i) := by
  unfold Renderer.InitSyncObjects_body
  repeat' first
    | with_reducible apply emits_bind
    | with_reducible apply emits_ite
    | with_reducible apply emits_pure
    | with_reducible apply emits_vkCall
    | with_reducible apply emits_cerr
    | with_reducible apply emits_emit
    | with_reducible apply emits_fresh
    | with_reducible apply emits_freshList
    | with_reducible apply emits_getR
    | with_reducible apply emits_getPlatform
    | with_reducible apply emits_access
    | with_reducible apply emits_defined
    | with_reducible apply emits_nextImageCount
    | with_reducible apply emits_nextMemoryTypeBits
    | with_reducible apply emits_modifyR
    | with_reducible apply emits_forReturnFalse
    | with_reducible apply emits_forIndex
    | with_reducible apply emits_forEach
    | with_reducible exact h_vkCreateSemaphore
    | with_reducible exact h_vkCreateFence
    | with_reducible exact h_cerr
    | with_reducible apply h_vkCreateSemaphore
    | with_reducible apply h_vkCreateFence
    | with_reducible apply h_cerr
    | intro _

theorem InitSyncObjects_emits (P : Call → Prop)
    (h_vkCreateSemaphore : ∀ (result : Int), P (Call.vkCreateSemaphore result))
    (h_vkCreateFence : ∀ (result : Int), P (Call.vkCreateFence result))
    (h_cerr : ∀ (msg : String), P (Call.cerr msg)) :
    Emits P (Renderer.InitSyncObjects) := by
  unfold Renderer.InitSyncObjects
  repeat' first
    | with_reducible apply emits_bind
    | with_reducible apply emits_ite
    | with_reducible apply emits_pure
    | with_reducible apply emits_vkCall
    | with_reducible apply emits_cerr
    | with_reducible apply emits_emit
    | with_reducible apply emits_fresh
    | with_reducible apply emits_freshList
    | with_reducible apply emits_getR
    | with_reducible apply emits_getPlatform
    | with_reducible apply emits_access
    | with_reducible apply emits_defined
    | with_reducible apply emits_nextImageCount
    | with_reducible apply emits_nextMemoryTypeBits
    | with_reducible apply emits_modifyR
    | with_reducible apply emits_forReturnFalse
    | with_reducible apply emits_forIndex
    | with_reducible apply emits_forEach
    | with_reducible apply InitSyncObjects_body_emits
    | with_reducible exact h_vkCreateSemaphore
    | with_reducible exact h_vkCreateFence
    | with_reducible exact h_cerr
    | with_reducible apply h_vkCreateSemaphore
    | with_reducible apply h_vkCreateFence
    | with_reducible apply h_cerr
    | intro _

theorem DestroySwapChain_body_emits (P : Call → Prop) (i : Nat)
    (h_vkDestroyBuffer : ∀ (h : Handle), P (Call.vkDestroyBuffer h))
    (h_vkFreeMemory : ∀ (h : Handle), P (Call.vkFreeMemory h)) :
    Emits P (Renderer.DestroySwapChain_body i) := by
  unfold Renderer.DestroySwapChain_body
  repeat' first
    | with_reducible apply emits_bind
    | with_reducible apply emits_ite
    | with_reducible apply emits_pure
    | with_reducible apply emits_vkCall
    | with_reducible apply emits_cerr
    | with_reducible apply emits_emit
    | with_reducible apply emits_fresh
    | with_reducible apply emits_freshList
    | with_reducible apply emits_getR
    | with_reducible apply emits_getPlatform
    | with_reducible apply emits_access
    | with_reducible apply emits_defined
    | with_reducible apply emits_nextImageCount
    | with_reducible apply emits_nextMemoryTypeBits
    | with_reducible apply emits_modifyR
    | with_reducible apply emits_forReturnFalse
    | with_reducible apply emits_forIndex
    | with_reducible apply emits_forEach
    | with_reducible exact h_vkDestroyBuffer
    | with_reducible exact h_vkFreeMemory
    | with_reducible apply h_vkDestroyBuffer
    | with_reducible apply h_vkFreeMemory
    | intro _

theorem DestroySwapChain_emits (P : Call → Prop)
    (h_vkDeviceWaitIdle : P Call.vkDeviceWaitIdle)
    (h_vkDestroyFramebuffer : ∀ (h : Handle), P (Call.vkDestroyFramebuffer h))
    (h_vkDestroyPipeline : ∀ (h : Handle), P (Call.vkDestroyPipeline h))
    (h_vkDestroyPipelineLayout : ∀ (h : Handle), P (Call.vkDestroyPipelineLayout h))
    (h_vkDestroyRenderPass : ∀ (h : Handle), P (Call.vkDestroyRenderPass h))
    (h_vkDestroyImageView : ∀ (h : Handle), P (Call.vkDestroyImageView h))
    (h_vkDestroySwapchainKHR : ∀ (h : Handle), P (Call.vkDestroySwapchainKHR h))
    (h_vkDestroyBuffer : ∀ (h : Handle), P (Call.vkDestroyBuffer h))
    (h_vkFreeMemory : ∀ (h : Handle), P (Call.vkFreeMemory h))
    (h_vkDestroyDescriptorPool : ∀ (h : Handle), P (Call.vkDestroyDescriptorPool h)) :
    Emits P (Renderer.DestroySwapChain) := by
  unfold Renderer.DestroySwapChain
  repeat' first
    | with_reducible apply emits_bind
    | with_reducible apply emits_ite
    | with_reducible apply emits_pure
    | with_reducible apply emits_vkCall
    | with_reducible apply emits_cerr
    | with_reducible apply emits_emit
    | with_reducible apply emits_fresh
    | with_reducible apply emits_freshList
    | with_reducible apply emits_getR
    | with_reducible apply emits_getPlatform
    | with_reducible apply emits_access
    | with_reducible apply emits_defined
    | with_reducible apply emits_nextImageCount
    | with_reducible apply emits_nextMemoryTypeBits
    | with_reducible apply emits_modifyR
    | with_reducible apply emits_forReturnFalse
    | with_reducible apply emits_forIndex
    | with_reducible apply emits_forEach
    | with_reducible apply DestroySwapChain_body_emits
    | with_reducible exact h_vkDeviceWaitIdle
    | with_reducible exact h_vkDestroyFramebuffer
    | with_reducible exact h_vkDestroyPipeline
    | with_reducible exact h_vkDestroyPipelineLayout
    | with_reducible exact h_vkDestroyRenderPass
    | with_reducible exact h_vkDestroyImageView
    | with_reducible exact h_vkDestroySwapchainKHR
    | with_reducible exact h_vkDestroyBuffer
    | with_reducible exact h_vkFreeMemory
    | with_reducible exact h_vkDestroyDescriptorPool
    | with_reducible apply h_vkDeviceWaitIdle
    | with_reducible apply h_vkDestroyFramebuffer
    | with_reducible apply h_vkDestroyPipeline
    | with_reducible apply h_vkDestroyPipelineLayout
    | with_reducible apply h_vkDestroyRenderPass
    | with_reducible apply h_vkDestroyImageView
    | with_reducible apply h_vkDestroySwapchainKHR
    | with_reducible apply h_vkDestroyBuffer
    | with_reducible apply h_vkFreeMemory
    | with_reducible apply h_vkDestroyDescriptorPool
    | intro _

theorem UpdateUniformBuffer_emits (P : Call → Prop) (currentImage : Nat)
    (h_vkMapMemory : ∀ (memory : Handle), P (Call.vkMapMemory memory))
    (h_memcpy : P Call.memcpy)
    (h_vkUnmapMemory : ∀ (memory : Handle), P (Call.vkUnmapMemory memory)) :
    Emits P (Renderer.UpdateUniformBuffer currentImage) := by
  unfold Renderer.UpdateUniformBuffer
  repeat' first
    | with_reducible apply emits_bind
    | with_reducible apply emits_ite
    | with_reducible apply emits_pure
    | with_reducible apply emits_vkCall
    | with_reducible apply emits_cerr
    | with_reducible apply emits_emit
    | with_reducible apply emits_fresh
    | with_reducible apply emits_freshList
    | with_reducible apply emits_getR
    | with_reducible apply emits_getPlatform
    | with_reducible apply emits_access
    | with_reducible apply emits_defined
    | with_reducible apply emits_nextImageCount
    | with_reducible apply emits_nextMemoryTypeBits
    | with_reducible apply emits_modifyR
    | with_reducible apply emits_forReturnFalse
    | with_reducible apply emits_forIndex
    | with_reducible apply emits_forEach
    | with_reducible apply copyToMemory_emits
    | with_reducible exact h_vkMapMemory
    | with_reducible exact h_memcpy
    | with_reducible exact h_vkUnmapMemory
    | with_reducible apply h_vkMapMemory
    | with_reducible apply h_memcpy
    | with_reducible apply h_vkUnmapMemory
    | intro _


/-! ## The order of destruction and the order of creation -/

theorem forEach_emit_apply {α : Type} (f : α → Call) : ∀ (l : List α) (w : World),
    forEach (fun a => emit (f a)) l w = { value := (), world := w, calls := l.map f }
  | [], _ => rfl
  | a :: rest, w => by
      simp only [forEach, bind_apply, emit_apply, forEach_emit_apply f rest, List.map_cons,
        List.singleton_append]

theorem DestroySwapChain_body_apply (i : Nat) (w : World) :
    (Renderer.DestroySwapChain_body i w).calls
        = [Call.vkDestroyBuffer (w.renderer._vk_uniform_buffers.getD i 0),
           Call.vkFreeMemory (w.renderer._vk_uniform_buffers_memory.getD i 0)] ∧
      (Renderer.DestroySwapChain_body i w).world.renderer = w.renderer := by
  refine ⟨?_, DestroySwapChain_body_preserves id i w⟩
  simp only [Renderer.DestroySwapChain_body, bind_apply, getR_apply, access_apply, emit_apply,
    List.nil_append, List.singleton_append]

/-- The third loop of `DestroySwapChain` destroys, index by index, the uniform buffer and
then its memory. -/
theorem forIndex_DestroySwapChain_body : ∀ (n i : Nat) (w : World),
    (forIndex Renderer.DestroySwapChain_body n i w).calls
      = (List.range' i n).flatMap fun j =>
          [Call.vkDestroyBuffer (w.renderer._vk_uniform_buffers.getD j 0),
           Call.vkFreeMemory (w.renderer._vk_uniform_buffers_memory.getD j 0)]
  | 0, _, _ => rfl
  | n + 1, i, w => by
      obtain ⟨hc, hr⟩ := DestroySwapChain_body_apply i w
      simp only [forIndex, bind_apply, hc, forIndex_DestroySwapChain_body n (i + 1), hr,
        List.range'_succ, List.flatMap_cons]

/-- The calls of `DestroySwapChain`, in order, for every state of the renderer. -/
theorem DestroySwapChain_calls (w : World) :
    (Renderer.DestroySwapChain w).calls
      = Call.vkDeviceWaitIdle ::
          (w.renderer._vk_swapchain_framebuffers.map Call.vkDestroyFramebuffer ++
            [Call.vkDestroyPipeline w.renderer._vk_graphics_pipeline,
             Call.vkDestroyPipelineLayout w.renderer._vk_pipeline_layout,
             Call.vkDestroyRenderPass w.renderer._vk_render_pass] ++
            w.renderer._vk_swapchain_image_views.map Call.vkDestroyImageView ++
            [Call.vkDestroySwapchainKHR w.renderer._vk_swapchain] ++
            ((List.range' 0 w.renderer._vk_swapchain_images.length).flatMap fun j =>
              [Call.vkDestroyBuffer (w.renderer._vk_uniform_buffers.getD j 0),
               Call.vkFreeMemory (w.renderer._vk_uniform_buffers_memory.getD j 0)]) ++
            [Call.vkDestroyDescriptorPool w.renderer._vk_descriptor_pool]) := by
  simp only [Renderer.DestroySwapChain, bind_apply, emit_apply, getR_apply,
    forEach_emit_apply, forIndex_DestroySwapChain_body, List.nil_append, List.singleton_append,
    List.append_assoc, List.cons_append]

theorem destroyedKinds_append (l1 l2 : List Call) :
    destroyedKinds (l1 ++ l2) = destroyedKinds l1 ++ destroyedKinds l2 :=
  List.filterMap_append _ _ _

theorem destroyedKinds_map (f : Handle → Call) (k : SwapchainObject)
    (hf : ∀ h, (f h).destroys = some k) :
    ∀ l : List Handle, destroyedKinds (l.map f) = List.replicate l.length k
  | [] => rfl
  | h :: rest => by
      have ih := destroyedKinds_map f k hf rest
      simp only [destroyedKinds] at ih
      simp only [destroyedKinds, List.map_cons, List.filterMap_cons, hf, ih, List.length_cons,
        List.replicate_succ]

theorem destroyedKinds_uniformBuffers (ub ubm : List Handle) :
    ∀ l : List Nat,
      destroyedKinds (l.flatMap fun j =>
          [Call.vkDestroyBuffer (ub.getD j 0), Call.vkFreeMemory (ubm.getD j 0)])
        = List.replicate (2 * l.length) SwapchainObject.uniformBuffer
  | [] => rfl
  | j :: rest => by
      have ih := destroyedKinds_uniformBuffers ub ubm rest
      simp only [destroyedKinds] at ih
      simp only [destroyedKinds, List.flatMap_cons, List.cons_append, List.nil_append,
        List.filterMap_cons, Call.destroys, ih, List.length_cons]
      rw [show 2 * (rest.length + 1) = 2 * rest.length + 1 + 1 by omega]
      rfl

theorem pairwise_of_forall_mem {β : Type} {R : β → β → Prop} :
    ∀ l : List β, (∀ a ∈ l, ∀ b ∈ l, R a b) → l.Pairwise R
  | [], _ => List.Pairwise.nil
  | x :: l, h =>
      List.pairwise_cons.2
        ⟨fun b hb => h x (List.mem_cons_self _ _) b (List.mem_cons_of_mem _ hb),
          pairwise_of_forall_mem l fun a ha b hb =>
            h a (List.mem_cons_of_mem _ ha) b (List.mem_cons_of_mem _ hb)⟩

theorem createsInOrder_of_emits {α : Type} {m : M α} (a : Nat)
    (h : Emits (fun c => c.createsWithin a a = true) m) : CreatesInOrder a a m := by
  intro w
  have hall : ∀ k ∈ createdKinds (m w).calls, a ≤ k.creationRank ∧ k.creationRank ≤ a := by
    intro k hk
    obtain ⟨c, hc, hck⟩ := List.mem_filterMap.1 hk
    have hw := h w c hc
    simp only [Call.createsWithin, hck, Bool.and_eq_true, decide_eq_true_eq] at hw
    exact hw
  refine ⟨pairwise_of_forall_mem _ fun x hx y hy => ?_, hall⟩
  have := hall x hx
  have := hall y hy
  omega

theorem createsInOrder_mono {α : Type} {m : M α} {a b a1 b1 : Nat} (h : CreatesInOrder a b m)
    (ha : a1 ≤ a) (hb : b ≤ b1) : CreatesInOrder a1 b1 m := fun w =>
  ⟨(h w).1, fun k hk => ⟨le_trans ha ((h w).2 k hk).1, le_trans ((h w).2 k hk).2 hb⟩⟩

theorem createsInOrder_pure {α : Type} (a : Nat) (x : α) : CreatesInOrder a a (pure x : M α) :=
  fun _ => ⟨List.Pairwise.nil, fun _ hk => by cases hk⟩

theorem createsInOrder_bind {α β : Type} {m : M α} {f : α → M β} (a b c : Nat)
    (hab : a ≤ b) (hbc : b ≤ c) (hm : CreatesInOrder a b m)
    (hf : ∀ x, CreatesInOrder b c (f x)) : CreatesInOrder a c (m >>= f) := by
  intro w
  obtain ⟨hm1, hm2⟩ := hm w
  obtain ⟨hf1, hf2⟩ := hf (m w).value (m w).world
  simp only [bind_apply, createdKinds, List.filterMap_append] at hm1 hm2 hf1 hf2 ⊢
  refine ⟨List.pairwise_append.2 ⟨hm1, hf1, fun x hx y hy => ?_⟩, fun k hk => ?_⟩
  · have := hm2 x hx
    have := hf2 y hy
    omega
  · rcases List.mem_append.1 hk with h | h
    · have := hm2 k h
      omega
    · have := hf2 k h
      omega

theorem createsInOrder_firstFailure_nil (a : Nat) : CreatesInOrder a a (firstFailure []) :=
  createsInOrder_pure a _

theorem createsInOrder_firstFailure_cons (s : Step) (rest : List Step) (a b b1 c : Nat)
    (hab : a ≤ b) (hb : b ≤ b1) (hbc : b1 ≤ c) (hs : CreatesInOrder a b s.run)
    (hr : CreatesInOrder b1 c (firstFailure rest)) :
    CreatesInOrder a c (firstFailure (s :: rest)) := by
  unfold firstFailure
  refine createsInOrder_bind a b c hab (le_trans hb hbc) hs fun ok => ?_
  cases ok
  · exact createsInOrder_mono (createsInOrder_pure b _) (le_refl _) (le_trans hb hbc)
  · exact createsInOrder_bind b c c (le_trans hb hbc) (le_refl _) (createsInOrder_mono hr hb (le_refl _))
      fun _ => createsInOrder_pure c _

theorem createsInOrder_ite {α : Type} (c : Prop) [Decidable c] {m1 m2 : M α} (a b : Nat)
    (h1 : CreatesInOrder a b m1) (h2 : CreatesInOrder a b m2) :
    CreatesInOrder a b (if c then m1 else m2) := by
  split_ifs
  · exact h1
  · exact h2

/-- `InitGraphicsPipeline` creates the pipeline layout before the pipeline. -/
theorem InitGraphicsPipeline_createsInOrder :
    CreatesInOrder 3 4 Renderer.InitGraphicsPipeline := by
  unfold Renderer.InitGraphicsPipeline
  repeat' first
    | (refine createsInOrder_mono (createsInOrder_of_emits 3 ?_) (le_refl _) (by omega)
       · repeat' first
           | with_reducible apply emits_bind
           | with_reducible apply emits_ite
           | with_reducible apply emits_pure
           | with_reducible apply emits_fresh
           | with_reducible apply emits_modifyR
           | (apply InitShader_emits <;> intros <;> rfl)
           | ((with_reducible apply emits_vkCall); intro _; rfl)
           | ((with_reducible apply emits_cerr); rfl)
           | ((with_reducible apply emits_emit); rfl)
           | with_reducible intro _)
    | (refine createsInOrder_mono (createsInOrder_of_emits 4 ?_) (by omega) (le_refl _)
       · repeat' first
           | with_reducible apply emits_bind
           | with_reducible apply emits_ite
           | with_reducible apply emits_pure
           | with_reducible apply emits_fresh
           | with_reducible apply emits_modifyR
           | (apply InitShader_emits <;> intros <;> rfl)
           | ((with_reducible apply emits_vkCall); intro _; rfl)
           | ((with_reducible apply emits_cerr); rfl)
           | ((with_reducible apply emits_emit); rfl)
           | with_reducible intro _)
    | with_reducible apply createsInOrder_ite
    | (refine createsInOrder_bind 3 3 4 (by omega) (by omega) (createsInOrder_of_emits 3 ?_) ?_
       · repeat' first
           | with_reducible apply emits_bind
           | with_reducible apply emits_ite
           | with_reducible apply emits_pure
           | with_reducible apply emits_fresh
           | with_reducible apply emits_modifyR
           | (apply InitShader_emits <;> intros <;> rfl)
           | ((with_reducible apply emits_vkCall); intro _; rfl)
           | ((with_reducible apply emits_cerr); rfl)
           | ((with_reducible apply emits_emit); rfl)
           | with_reducible intro _)
    | with_reducible intro _

/-- The steps of a rebuild create their objects in the order swapchain, image views, render
pass, pipeline layout, pipeline, framebuffers, uniform buffers, descriptor pool, however
far the chain gets. -/
theorem resetSteps_createsInOrder : CreatesInOrder 0 7 (firstFailure Renderer.resetSteps) := by
  have h1 : CreatesInOrder 0 0 Renderer.InitSwapChain :=
    createsInOrder_of_emits 0 (by apply InitSwapChain_emits <;> intros <;> rfl)
  have h2 : CreatesInOrder 1 1 Renderer.InitImageViews :=
    createsInOrder_of_emits 1 (by apply InitImageViews_emits <;> intros <;> rfl)
  have h3 : CreatesInOrder 2 2 Renderer.InitRenderPass :=
    createsInOrder_of_emits 2 (by apply InitRenderPass_emits <;> intros <;> rfl)
  have h5 : CreatesInOrder 5 5 Renderer.InitFramebuffers :=
    createsInOrder_of_emits 5 (by apply InitFramebuffers_emits <;> intros <;> rfl)
  have h6 : CreatesInOrder 6 6 Renderer.InitUniformBuffers :=
    createsInOrder_of_emits 6 (by apply InitUniformBuffers_emits <;> intros <;> rfl)
  have h7 : CreatesInOrder 7 7 Renderer.InitDescriptorPool :=
    createsInOrder_of_emits 7 (by apply InitDescriptorPool_emits <;> intros <;> rfl)
  have h8 : CreatesInOrder 7 7 Renderer.InitDescriptorSets :=
    createsInOrder_of_emits 7 (by apply InitDescriptorSets_emits <;> intros <;> rfl)
  have h9 : CreatesInOrder 7 7 Renderer.InitCommandBuffers :=
    createsInOrder_of_emits 7 (by apply InitCommandBuffers_emits <;> intros <;> rfl)
  unfold Renderer.resetSteps
  refine createsInOrder_firstFailure_cons _ _ 0 0 1 7 (by omega) (by omega) (by omega) h1 ?_
  refine createsInOrder_firstFailure_cons _ _ 1 1 2 7 (by omega) (by omega) (by omega) h2 ?_
  refine createsInOrder_firstFailure_cons _ _ 2 2 3 7 (by omega) (by omega) (by omega) h3 ?_
  refine createsInOrder_firstFailure_cons _ _ 3 4 5 7 (by omega) (by omega) (by omega)
    InitGraphicsPipeline_createsInOrder ?_
  refine createsInOrder_firstFailure_cons _ _ 5 5 6 7 (by omega) (by omega) (by omega) h5 ?_
  refine createsInOrder_firstFailure_cons _ _ 6 6 7 7 (by omega) (by omega) (by omega) h6 ?_
  refine createsInOrder_firstFailure_cons _ _ 7 7 7 7 (by omega) (by omega) (by omega) h7 ?_
  refine createsInOrder_firstFailure_cons _ _ 7 7 7 7 (by omega) (by omega) (by omega) h8 ?_
  exact createsInOrder_firstFailure_cons _ _ 7 7 7 7 (by omega) (by omega) (by omega) h9
    (createsInOrder_firstFailure_nil 7)

/-- C15, as the code has it on the friendly platform with three swapchain images: a rebuild
after `Init` succeeds; `DestroySwapChain` destroys framebuffers, pipeline, pipeline layout,
render pass, image views, swapchain, uniform buffers (buffer and memory each) and
descriptor pool in this order; the steps create swapchain, image views, render pass,
pipeline layout, pipeline, framebuffers, uniform buffers and descriptor pool in this
order. The destruction order is not the reverse of the creation order: the uniform buffers
and the descriptor pool are created last and destroyed last. -/
theorem C15_destruction_order_is_not_reverse_of_creation_order :
    (Renderer.ResetSwapChain initialisedWorld).value = true ∧
    destroyedKinds (Renderer.DestroySwapChain initialisedWorld).calls
      = [SwapchainObject.framebuffer, SwapchainObject.framebuffer, SwapchainObject.framebuffer,
         SwapchainObject.pipeline, SwapchainObject.pipelineLayout, SwapchainObject.renderPass,
         SwapchainObject.imageView, SwapchainObject.imageView, SwapchainObject.imageView,
         SwapchainObject.swapchain,
         SwapchainObject.uniformBuffer, SwapchainObject.uniformBuffer,
         SwapchainObject.uniformBuffer, SwapchainObject.uniformBuffer,
         SwapchainObject.uniformBuffer, SwapchainObject.uniformBuffer,
         SwapchainObject.descriptorPool] ∧
    createdKinds (firstFailure Renderer.resetSteps
        (Renderer.DestroySwapChain initialisedWorld).world).calls
      = [SwapchainObject.swapchain,
         SwapchainObject.imageView, SwapchainObject.imageView, SwapchainObject.imageView,
         SwapchainObject.renderPass, SwapchainObject.pipelineLayout, SwapchainObject.pipeline,
         SwapchainObject.framebuffer, SwapchainObject.framebuffer, SwapchainObject.framebuffer,
         SwapchainObject.uniformBuffer, SwapchainObject.uniformBuffer,
         SwapchainObject.uniformBuffer, SwapchainObject.uniformBuffer,
         SwapchainObject.uniformBuffer, SwapchainObject.uniformBuffer,
         SwapchainObject.descriptorPool] ∧
    destroyedKinds (Renderer.DestroySwapChain initialisedWorld).calls
      ≠ (createdKinds (firstFailure Renderer.resetSteps
          (Renderer.DestroySwapChain initialisedWorld).world).calls).reverse := by
  refine ⟨by decide, by decide, by decide, by decide⟩

/-- C15, amended: for every state, `DestroySwapChain` waits for the device and then
destroys all framebuffers, the pipeline, the pipeline layout, the render pass, all image
views, the swapchain, then for each swapchain image its uniform buffer and the memory of
it, and last the descriptor pool. The steps of `ResetSwapChain` never create an object of an
earlier kind after one of a later kind, in the order swapchain, image views, render pass,
pipeline layout, pipeline, framebuffers, uniform buffers, descriptor pool; `Init` calls the
same steps in the same relative order. So the six kinds from framebuffers to swapchain are
destroyed in the reverse of their creation order, and the uniform buffers and the
descriptor pool, created after them, are destroyed after them as well. -/
theorem C15_destruction_order_and_creation_order (w : World) :
    (Renderer.DestroySwapChain w).calls
      = Call.vkDeviceWaitIdle ::
          (w.renderer._vk_swapchain_framebuffers.map Call.vkDestroyFramebuffer ++
            [Call.vkDestroyPipeline w.renderer._vk_graphics_pipeline,
             Call.vkDestroyPipelineLayout w.renderer._vk_pipeline_layout,
             Call.vkDestroyRenderPass w.renderer._vk_render_pass] ++
            w.renderer._vk_swapchain_image_views.map Call.vkDestroyImageView ++
            [Call.vkDestroySwapchainKHR w.renderer._vk_swapchain] ++
            ((List.range' 0 w.renderer._vk_swapchain_images.length).flatMap fun j =>
              [Call.vkDestroyBuffer (w.renderer._vk_uniform_buffers.getD j 0),
               Call.vkFreeMemory (w.renderer._vk_uniform_buffers_memory.getD j 0)]) ++
            [Call.vkDestroyDescriptorPool w.renderer._vk_descriptor_pool]) ∧
    destroyedKinds (Renderer.DestroySwapChain w).calls
      = List.replicate w.renderer._vk_swapchain_framebuffers.length SwapchainObject.framebuffer
          ++ [SwapchainObject.pipeline, SwapchainObject.pipelineLayout,
              SwapchainObject.renderPass]
          ++ List.replicate w.renderer._vk_swapchain_image_views.length
              SwapchainObject.imageView
          ++ [SwapchainObject.swapchain]
          ++ List.replicate (2 * w.renderer._vk_swapchain_images.length)
              SwapchainObject.uniformBuffer
          ++ [SwapchainObject.descriptorPool] ∧
    InCreationOrder (createdKinds (firstFailure Renderer.resetSteps w).calls) ∧
    Renderer.initSteps.filter (fun s => decide (s ∈ Renderer.resetSteps))
      = Renderer.resetSteps := by
  refine ⟨DestroySwapChain_calls w, ?_, (resetSteps_createsInOrder w).1, by decide⟩
  rw [DestroySwapChain_calls]
  have hcons : ∀ l, destroyedKinds (Call.vkDeviceWaitIdle :: l) = destroyedKinds l :=
    fun _ => rfl
  rw [hcons, destroyedKinds_append, destroyedKinds_append, destroyedKinds_append,
    destroyedKinds_append, destroyedKinds_append,
    destroyedKinds_map Call.vkDestroyFramebuffer SwapchainObject.framebuffer (fun _ => rfl),
    destroyedKinds_map Call.vkDestroyImageView SwapchainObject.imageView (fun _ => rfl),
    destroyedKinds_uniformBuffers, List.length_range']
  rfl

/-! ## `DrawFrame`: the acquisition and what follows it -/

theorem DrawFrame_acquire_apply (w : World) :
    (Renderer.DrawFrame_acquire w).value
        = (w.platform.results.headD VK_SUCCESS, w.platform.imageIndices.headD 0) ∧
      (Renderer.DrawFrame_acquire w).calls
        = [Call.vkWaitForFences w.renderer._current_frame,
           Call.vkAcquireNextImageKHR w.renderer._current_frame
             (w.platform.results.headD VK_SUCCESS) (w.platform.imageIndices.headD 0)] ∧
      (Renderer.DrawFrame_acquire w).world.renderer = w.renderer := by
  simp only [Renderer.DrawFrame_acquire, bind_apply, getR_apply, access_apply, emit_apply,
    answer_apply, nextImageIndex_apply, pure_apply, List.nil_append, List.append_nil,
    List.singleton_append]
  split_ifs <;> exact ⟨rfl, rfl, rfl⟩

/-- When the acquisition reports `VK_ERROR_OUT_OF_DATE_KHR`, `DrawFrame` is the acquisition
followed by one `ResetSwapChain`. -/
theorem drawFrame_of_out_of_date (w : World)
    (h : (Renderer.DrawFrame_acquire w).value.1 = VK_ERROR_OUT_OF_DATE_KHR) :
    (Renderer.DrawFrame w).calls
        = (Renderer.DrawFrame_acquire w).calls ++
            (Renderer.ResetSwapChain (Renderer.DrawFrame_acquire w).world).calls ∧
      (Renderer.DrawFrame w).world
        = (Renderer.ResetSwapChain (Renderer.DrawFrame_acquire w).world).world := by
  simp only [Renderer.DrawFrame, bind_apply, ite_apply_world, h, if_true, pure_apply,
    List.append_nil, and_self]

/-- When the acquisition reports anything but success, suboptimal and out-of-date,
`DrawFrame` writes the error line and goes on with the rest of the frame. -/
theorem drawFrame_of_failed_acquisition (w : World)
    (h1 : (Renderer.DrawFrame_acquire w).value.1 ≠ VK_ERROR_OUT_OF_DATE_KHR)
    (h2 : (Renderer.DrawFrame_acquire w).value.1 ≠ VK_SUCCESS)
    (h3 : (Renderer.DrawFrame_acquire w).value.1 ≠ VK_SUBOPTIMAL_KHR) :
    (Renderer.DrawFrame w).calls
        = (Renderer.DrawFrame_acquire w).calls ++
            Call.cerr "Failed to acquire swap chain image" ::
              (Renderer.DrawFrame_submitAndPresent (Renderer.DrawFrame_acquire w).value.2
                (Renderer.DrawFrame_acquire w).world).calls ∧
      (Renderer.DrawFrame w).world
        = (Renderer.DrawFrame_submitAndPresent (Renderer.DrawFrame_acquire w).value.2
            (Renderer.DrawFrame_acquire w).world).world := by
  simp only [Renderer.DrawFrame, bind_apply, ite_apply_world, h1, h2, h3, if_false, ne_eq,
    not_false_eq_true, and_self, if_true, cerr_apply, List.singleton_append]

/-- The rest of the frame starts with the update of the uniform buffer of the image, the
reset of the fence of the slot and the submission. -/
theorem submitAndPresent_calls (imageIndex : Nat) (w : World) :
    ∃ submitResult rest, (Renderer.DrawFrame_submitAndPresent imageIndex w).calls
      = [Call.vkMapMemory (w.renderer._vk_uniform_buffers_memory.getD imageIndex 0),
         Call.memcpy,
         Call.vkUnmapMemory (w.renderer._vk_uniform_buffers_memory.getD imageIndex 0),
         Call.vkResetFences w.renderer._current_frame,
         Call.vkQueueSubmit (some w.renderer._current_frame) submitResult]
        ++ rest := by
  have hu : (Renderer.UpdateUniformBuffer imageIndex w).calls
      = [Call.vkMapMemory (w.renderer._vk_uniform_buffers_memory.getD imageIndex 0),
         Call.memcpy,
         Call.vkUnmapMemory (w.renderer._vk_uniform_buffers_memory.getD imageIndex 0)] := by
    simp only [Renderer.UpdateUniformBuffer, Renderer.copyToMemory, bind_apply, getR_apply,
      access_apply, emit_apply, List.nil_append, List.singleton_append]
  have hr : (Renderer.UpdateUniformBuffer imageIndex w).world.renderer = w.renderer :=
    UpdateUniformBuffer_preserves id imageIndex w
  unfold Renderer.DrawFrame_submitAndPresent
  simp only [bind_apply, getR_apply, access_apply, emit_apply, vkCall_apply, hu, hr,
    List.nil_append, List.singleton_append, List.cons_append, List.append_assoc]
  exact ⟨_, _, rfl⟩

theorem advancesSlot_bind {α β : Type} {m : M α} {f : α → M β}
    (hm : PreservesR (fun r => r._current_frame) m) (hf : ∀ a, AdvancesSlot (f a)) :
    AdvancesSlot (m >>= f) := fun w => by
  have h1 := hf (m w).value (m w).world
  have h2 : (m w).world.renderer._current_frame = w.renderer._current_frame := hm w
  simp only [bind_apply] at h1 ⊢
  rw [h1, h2]

theorem advancesSlot_ite {α : Type} (c : Prop) [Decidable c] {m1 m2 : M α}
    (h1 : AdvancesSlot m1) (h2 : AdvancesSlot m2) : AdvancesSlot (if c then m1 else m2) := by
  split_ifs
  · exact h1
  · exact h2

theorem advancesSlot_advance :
    AdvancesSlot (modifyR fun r =>
      { r with _current_frame := (r._current_frame + 1) % MAX_FRAMES_IN_FLIGHT }) :=
  fun _ => rfl

/-- Once past the acquisition branch, `DrawFrame` moves `_current_frame` to the next slot,
whatever submission and presentation report and whether or not the swapchain is rebuilt. -/
theorem submitAndPresent_advancesSlot (imageIndex : Nat) :
    AdvancesSlot (Renderer.DrawFrame_submitAndPresent imageIndex) := by
  have hReset : PreservesR (fun r => r._current_frame) Renderer.ResetSwapChain :=
    fun w => ResetSwapChain_current_frame w
  unfold Renderer.DrawFrame_submitAndPresent
  repeat' first
    | with_reducible exact advancesSlot_advance
    | with_reducible apply advancesSlot_ite
    | (refine advancesSlot_bind ?_ ?_
       · repeat' first
           | with_reducible apply preservesR_bind
           | with_reducible apply preservesR_ite
           | with_reducible apply preservesR_pure
           | with_reducible apply preservesR_vkCall
           | with_reducible apply preservesR_cerr
           | with_reducible apply preservesR_emit
           | with_reducible apply preservesR_getR
           | with_reducible apply preservesR_access
           | with_reducible apply UpdateUniformBuffer_preserves
           | with_reducible exact hReset
           | ((with_reducible apply preservesR_modifyR); intro r; rfl)
           | with_reducible intro _)
    | with_reducible intro _

/-- The slot after a `DrawFrame`: unchanged when the acquisition reported
`VK_ERROR_OUT_OF_DATE_KHR`, the next slot for every other result of the acquisition. -/
theorem drawFrame_current_frame (w : World) :
    (Renderer.DrawFrame w).world.renderer._current_frame
      = if (Renderer.DrawFrame_acquire w).value.1 = VK_ERROR_OUT_OF_DATE_KHR
        then w.renderer._current_frame
        else (w.renderer._current_frame + 1) % MAX_FRAMES_IN_FLIGHT := by
  have hacq := (DrawFrame_acquire_apply w).2.2
  simp only [Renderer.DrawFrame, bind_apply, ite_apply_world]
  split_ifs with h1 h2
  · simp only [bind_apply, pure_apply]
    rw [ResetSwapChain_current_frame, hacq]
  · simp only [bind_apply, cerr_apply]
    rw [submitAndPresent_advancesSlot, hacq]
  · simp only [bind_apply, pure_apply]
    rw [submitAndPresent_advancesSlot, hacq]

theorem firstFailure_emits (P : Call → Prop) :
    ∀ steps : List Step, (∀ s ∈ steps, Emits P s.run) → Emits P (firstFailure steps)
  | [], _ => emits_pure P _
  | s :: rest, h => by
      unfold firstFailure
      refine emits_bind P (h s (List.mem_cons_self _ _)) fun ok => ?_
      cases ok
      · exact emits_pure P _
      · exact emits_bind P
          (firstFailure_emits P rest fun x hx => h x (List.mem_cons_of_mem _ hx))
          fun _ => emits_pure P _

theorem ResetSwapChain_emits (P : Call → Prop) (hwait : P Call.vkDeviceWaitIdle)
    (hd : Emits P Renderer.DestroySwapChain)
    (hs : ∀ s ∈ Renderer.resetSteps, Emits P s.run) : Emits P Renderer.ResetSwapChain := by
  unfold Renderer.ResetSwapChain Renderer.ResetSwapChainTraced
  refine emits_bind P ?_ fun _ => emits_pure P _
  refine emits_bind P (emits_emit P hwait) fun _ => ?_
  refine emits_bind P hd fun _ => ?_
  refine emits_bind P (firstFailure_emits P _ hs) fun chain => ?_
  exact emits_ite P _ (emits_pure P _) (emits_pure P _)

/-- A rebuild of the swapchain updates no uniform buffer, resets no fence, submits nothing
and presents nothing. -/
theorem ResetSwapChain_noFrameWork :
    Emits (fun c => c.isFrameWork = false) Renderer.ResetSwapChain := by
  refine ResetSwapChain_emits _ rfl (by apply DestroySwapChain_emits <;> intros <;> rfl) ?_
  intro s hs
  simp only [Renderer.resetSteps, List.mem_cons, List.mem_singleton, List.not_mem_nil,
    or_false] at hs
  rcases hs with rfl | rfl | rfl | rfl | rfl | rfl | rfl | rfl | rfl
  · apply InitSwapChain_emits <;> intros <;> rfl
  · apply InitImageViews_emits <;> intros <;> rfl
  · apply InitRenderPass_emits <;> intros <;> rfl
  · apply InitGraphicsPipeline_emits <;> intros <;> rfl
  · apply InitFramebuffers_emits <;> intros <;> rfl
  · apply InitUniformBuffers_emits <;> intros <;> rfl
  · apply InitDescriptorPool_emits <;> intros <;> rfl
  · apply InitDescriptorSets_emits <;> intros <;> rfl
  · apply InitCommandBuffers_emits <;> intros <;> rfl

/-- C18, as the code has it: in the world after `Init` the slot is 0; the acquisition of
the next frame fails with `VK_ERROR_DEVICE_LOST`, which is neither `VK_SUCCESS` nor
`VK_SUBOPTIMAL_KHR`; after this `DrawFrame` the slot is 1 although no acquisition has
succeeded. -/
theorem C18_slot_advances_after_failed_acquisition :
    (worldWithNextResult VK_ERROR_DEVICE_LOST).renderer._current_frame = 0 ∧
    (Renderer.DrawFrame_acquire (worldWithNextResult VK_ERROR_DEVICE_LOST)).value.1
      = VK_ERROR_DEVICE_LOST ∧
    VK_ERROR_DEVICE_LOST ≠ VK_SUCCESS ∧ VK_ERROR_DEVICE_LOST ≠ VK_SUBOPTIMAL_KHR ∧
    (Renderer.DrawFrame (worldWithNextResult VK_ERROR_DEVICE_LOST)).world.renderer._current_frame
      = 1 ∧
    (Renderer.DrawFrame (worldWithNextResult VK_ERROR_DEVICE_LOST)).world.renderer._current_frame
      ≠ 0 % MAX_FRAMES_IN_FLIGHT := by
  refine ⟨by decide, by decide, by decide, by decide, ?_, ?_⟩
  · rw [drawFrame_current_frame]
    decide
  · rw [drawFrame_current_frame]
    decide

/-- C19: when the acquisition reports `VK_ERROR_OUT_OF_DATE_KHR`, the calls of `DrawFrame`
are the wait for the fence and the acquisition, followed by the calls of one
`ResetSwapChain`, and the state it leaves is the state that `ResetSwapChain` leaves. None
of its calls updates a uniform buffer, resets a fence, submits to a queue or presents, and
`_current_frame` and `framebuffer_resized` are as before. -/
theorem C19_out_of_date_acquisition_rebuilds_once_and_returns (w : World)
    (h : (Renderer.DrawFrame_acquire w).value.1 = VK_ERROR_OUT_OF_DATE_KHR) :
    (Renderer.DrawFrame_acquire w).calls
      = [Call.vkWaitForFences w.renderer._current_frame,
         Call.vkAcquireNextImageKHR w.renderer._current_frame VK_ERROR_OUT_OF_DATE_KHR
           (w.platform.imageIndices.headD 0)] ∧
    (Renderer.DrawFrame w).calls
      = (Renderer.DrawFrame_acquire w).calls ++
          (Renderer.ResetSwapChain (Renderer.DrawFrame_acquire w).world).calls ∧
    (Renderer.DrawFrame w).world
      = (Renderer.ResetSwapChain (Renderer.DrawFrame_acquire w).world).world ∧
    (∀ c ∈ (Renderer.DrawFrame w).calls, c.isFrameWork = false) ∧
    (Renderer.DrawFrame w).world.renderer._current_frame = w.renderer._current_frame ∧
    (Renderer.DrawFrame w).world.renderer.framebuffer_resized
      = w.renderer.framebuffer_resized := by
  obtain ⟨hval, hcalls, hren⟩ := DrawFrame_acquire_apply w
  obtain ⟨hc, hw⟩ := drawFrame_of_out_of_date w h
  have hres : w.platform.results.headD VK_SUCCESS = VK_ERROR_OUT_OF_DATE_KHR := by
    rw [hval] at h
    exact h
  refine ⟨by rw [hcalls, hres], hc, hw, ?_, ?_, ?_⟩
  · intro c hmem
    rw [hc, hcalls] at hmem
    rcases List.mem_append.1 hmem with hm | hm
    · simp only [List.mem_cons, List.mem_singleton, List.not_mem_nil, or_false] at hm
      rcases hm with rfl | rfl <;> rfl
    · exact ResetSwapChain_noFrameWork _ c hm
  · rw [hw, ResetSwapChain_current_frame, hren]
  · rw [hw, ResetSwapChain_framebuffer_resized, hren]

/-- The theorem of C19 in the world after `Init` on the friendly platform, when the next
acquisition is out of date. -/
theorem C19_out_of_date_acquisition_witness :
    (Renderer.DrawFrame_acquire (worldWithNextResult VK_ERROR_OUT_OF_DATE_KHR)).value.1
        = VK_ERROR_OUT_OF_DATE_KHR ∧
    (Renderer.DrawFrame
        (worldWithNextResult VK_ERROR_OUT_OF_DATE_KHR)).world.renderer._current_frame
      = (worldWithNextResult VK_ERROR_OUT_OF_DATE_KHR).renderer._current_frame ∧
    (worldWithNextResult VK_ERROR_OUT_OF_DATE_KHR).renderer._current_frame = 0 :=
  ⟨by decide,
    (C19_out_of_date_acquisition_rebuilds_once_and_returns
      (worldWithNextResult VK_ERROR_OUT_OF_DATE_KHR) (by decide)).2.2.2.2.1,
    by decide⟩

/-- C20, as the code has it: in the world after `Init` the acquisition fails with
`VK_ERROR_DEVICE_LOST`; `DrawFrame` writes the error line and then updates the uniform
buffer of image 0, resets the fence of slot 0, submits and presents. -/
theorem C20_failed_acquisition_still_updates_submits_and_presents :
    (Renderer.DrawFrame_acquire (worldWithNextResult VK_ERROR_DEVICE_LOST)).value.1
      = VK_ERROR_DEVICE_LOST ∧
    VK_ERROR_DEVICE_LOST ≠ VK_SUCCESS ∧ VK_ERROR_DEVICE_LOST ≠ VK_SUBOPTIMAL_KHR ∧
    VK_ERROR_DEVICE_LOST ≠ VK_ERROR_OUT_OF_DATE_KHR ∧
    (Renderer.DrawFrame (worldWithNextResult VK_ERROR_DEVICE_LOST)).calls
      = [Call.vkWaitForFences 0,
         Call.vkAcquireNextImageKHR 0 VK_ERROR_DEVICE_LOST 0,
         Call.cerr "Failed to acquire swap chain image",
         Call.vkMapMemory 35, Call.memcpy, Call.vkUnmapMemory 35,
         Call.vkResetFences 0,
         Call.vkQueueSubmit (some 0) VK_SUCCESS,
         Call.vkQueuePresentKHR 0 VK_SUCCESS] ∧
    (Renderer.DrawFrame (worldWithNextResult VK_ERROR_DEVICE_LOST)).calls.any Call.isFrameWork
      = true := by
  refine ⟨by decide, by decide, by decide, by decide, by rfl, by decide⟩

/-! ## `GuessBestDevice`: which device the loop keeps -/

theorem ratedAt_cons_zero (re : List String) (d : RenderDevice) (rest : List RenderDevice)
    (r : Nat) : RatedAt re (d :: rest) 0 r ↔ RateDevice re d = some r := by
  simp [RatedAt]

theorem ratedAt_cons_succ (re : List String) (d : RenderDevice) (rest : List RenderDevice)
    (k r : Nat) : RatedAt re (d :: rest) (k + 1) r ↔ RatedAt re rest k r := by
  simp [RatedAt]

/-- The loop of `GuessBestDevice` once `maxscore` is 1: it returns the `bestDevice` it has
when no device to come is rated above 1, and otherwise the last device rated above 1. -/
theorem guessBestDeviceLoop_from_one (re : List String) :
    ∀ (ds : List RenderDevice) (i : Nat) (best : Option Nat),
      (∀ d ∈ ds, ∃ r, RateDevice re d = some r) →
      ∃ res, guessBestDeviceLoop re ds i 1 best = some res ∧
        ((res = best ∧ ∀ k r, RatedAt re ds k r → r ≤ 1) ∨
         (∃ j r, res = some (i + j) ∧ RatedAt re ds j r ∧ 1 < r ∧
            ∀ k r1, j < k → RatedAt re ds k r1 → r1 ≤ 1))
  | [], _, best, _ => ⟨best, rfl, Or.inl ⟨rfl, by simp [RatedAt]⟩⟩
  | d :: rest, i, best, hall => by
      obtain ⟨r, hr⟩ := hall d (List.mem_cons_self _ _)
      have hrest : ∀ x ∈ rest, ∃ r, RateDevice re x = some r :=
        fun x hx => hall x (List.mem_cons_of_mem _ hx)
      by_cases hgt : r > 1
      · obtain ⟨res, hres, hcase⟩ := guessBestDeviceLoop_from_one re rest (i + 1) (some i) hrest
        refine ⟨res, by simp [guessBestDeviceLoop, hr, hgt, hres], Or.inr ?_⟩
        rcases hcase with ⟨hb, hle⟩ | ⟨j, rj, hj, hrj, hgtj, hlater⟩
        · refine ⟨0, r, by simpa using hb, (ratedAt_cons_zero re d rest r).2 hr, hgt, ?_⟩
          intro k r1 hk hk1
          obtain ⟨k, rfl⟩ : ∃ k0, k = k0 + 1 := ⟨k - 1, by omega⟩
          exact hle k r1 ((ratedAt_cons_succ re d rest k r1).1 hk1)
        · refine ⟨j + 1, rj, by rw [hj]; congr 1; omega,
            (ratedAt_cons_succ re d rest j rj).2 hrj, hgtj, ?_⟩
          intro k r1 hk hk1
          obtain ⟨k, rfl⟩ : ∃ k0, k = k0 + 1 := ⟨k - 1, by omega⟩
          exact hlater k r1 (by omega) ((ratedAt_cons_succ re d rest k r1).1 hk1)
      · obtain ⟨res, hres, hcase⟩ := guessBestDeviceLoop_from_one re rest (i + 1) best hrest
        refine ⟨res, by simp [guessBestDeviceLoop, hr, hgt, hres], ?_⟩
        rcases hcase with ⟨hb, hle⟩ | ⟨j, rj, hj, hrj, hgtj, hlater⟩
        · refine Or.inl ⟨hb, ?_⟩
          intro k r1 hk1
          cases k with
          | zero =>
              have := (ratedAt_cons_zero re d rest r1).1 hk1
              rw [hr] at this
              cases this
              omega
          | succ k => exact hle k r1 ((ratedAt_cons_succ re d rest k r1).1 hk1)
        · refine Or.inr ⟨j + 1, rj, by rw [hj]; congr 1; omega,
            (ratedAt_cons_succ re d rest j rj).2 hrj, hgtj, ?_⟩
          intro k r1 hk hk1
          obtain ⟨k, rfl⟩ : ∃ k0, k = k0 + 1 := ⟨k - 1, by omega⟩
          exact hlater k r1 (by omega) ((ratedAt_cons_succ re d rest k r1).1 hk1)

/-- The loop of `GuessBestDevice` from its start (`maxscore` 0, no device kept): it returns
no device when every device is rated 0, and otherwise a device rated above 0 after which no
device is rated above 1 and which is itself rated above 1 or is the first device rated above
0. -/
theorem guessBestDeviceLoop_from_zero (re : List String) :
    ∀ (ds : List RenderDevice) (i : Nat),
      (∀ d ∈ ds, ∃ r, RateDevice re d = some r) →
      ∃ res, guessBestDeviceLoop re ds i 0 none = some res ∧
        ((res = none ∧ ∀ k r, RatedAt re ds k r → r = 0) ∨
         (∃ j r, res = some (i + j) ∧ RatedAt re ds j r ∧ 0 < r ∧
            (∀ k r1, j < k → RatedAt re ds k r1 → r1 ≤ 1) ∧
            (1 < r ∨ ∀ k r1, k < j → RatedAt re ds k r1 → r1 = 0)))
  | [], _, _ => ⟨none, rfl, Or.inl ⟨rfl, by simp [RatedAt]⟩⟩
  | d :: rest, i, hall => by
      obtain ⟨r, hr⟩ := hall d (List.mem_cons_self _ _)
      have hrest : ∀ x ∈ rest, ∃ r, RateDevice re x = some r :=
        fun x hx => hall x (List.mem_cons_of_mem _ hx)
      by_cases hgt : r > 0
      · obtain ⟨res, hres, hcase⟩ := guessBestDeviceLoop_from_one re rest (i + 1) (some i) hrest
        refine ⟨res, by simp [guessBestDeviceLoop, hr, hgt, hres], Or.inr ?_⟩
        rcases hcase with ⟨hb, hle⟩ | ⟨j, rj, hj, hrj, hgtj, hlater⟩
        · refine ⟨0, r, by simpa using hb, (ratedAt_cons_zero re d rest r).2 hr, hgt, ?_,
            Or.inr fun k r1 hk _ => absurd hk (by omega)⟩
          intro k r1 hk hk1
          obtain ⟨k, rfl⟩ : ∃ k0, k = k0 + 1 := ⟨k - 1, by omega⟩
          exact hle k r1 ((ratedAt_cons_succ re d rest k r1).1 hk1)
        · refine ⟨j + 1, rj, by rw [hj]; congr 1; omega,
            (ratedAt_cons_succ re d rest j rj).2 hrj, by omega, ?_, Or.inl hgtj⟩
          intro k r1 hk hk1
          obtain ⟨k, rfl⟩ : ∃ k0, k = k0 + 1 := ⟨k - 1, by omega⟩
          exact hlater k r1 (by omega) ((ratedAt_cons_succ re d rest k r1).1 hk1)
      · have hr0 : r = 0 := by omega
        subst hr0
        obtain ⟨res, hres, hcase⟩ := guessBestDeviceLoop_from_zero re rest (i + 1) hrest
        refine ⟨res, by simp [guessBestDeviceLoop, hr, hres], ?_⟩
        rcases hcase with ⟨hb, hz⟩ | ⟨j, rj, hj, hrj, hpos, hlater, hfirst⟩
        · refine Or.inl ⟨hb, ?_⟩
          intro k r1 hk1
          cases k with
          | zero =>
              have := (ratedAt_cons_zero re d rest r1).1 hk1
              rw [hr] at this
              cases this
              rfl
          | succ k => exact hz k r1 ((ratedAt_cons_succ re d rest k r1).1 hk1)
        · refine Or.inr ⟨j + 1, rj, by rw [hj]; congr 1; omega,
            (ratedAt_cons_succ re d rest j rj).2 hrj, hpos, ?_, ?_⟩
          · intro k r1 hk hk1
            obtain ⟨k, rfl⟩ : ∃ k0, k = k0 + 1 := ⟨k - 1, by omega⟩
            exact hlater k r1 (by omega) ((ratedAt_cons_succ re d rest k r1).1 hk1)
          · rcases hfirst with h1 | h0
            · exact Or.inl h1
            · refine Or.inr ?_
              intro k r1 hk hk1
              cases k with
              | zero =>
                  have := (ratedAt_cons_zero re d rest r1).1 hk1
                  rw [hr] at this
                  cases this
                  rfl
              | succ k => exact h0 k r1 (by omega) ((ratedAt_cons_succ re d rest k r1).1 hk1)

/-- C26 as stated fails when a qualifying device is rated exactly 1: on the list of the
integrated device (rated 8192) followed by the device with texture limit 1 (rated 1) the
last device with a nonzero score is at position 1, and `GuessBestDevice` returns
position 0. -/
theorem C26_guessBestDevice_skips_last_device_rated_one :
    RateDevice rendererRequiredExtensions integratedDevice = some 8192 ∧
    RateDevice rendererRequiredExtensions tinyTextureDevice = some 1 ∧
    GuessBestDevice rendererRequiredExtensions [integratedDevice, tinyTextureDevice]
      = some (some 0) := by
  decide

/-- C26, amended: on a list of constructor-built devices of which one is rated above 0,
`GuessBestDevice` returns a position `i` whose device is rated above 0 and after which no
device is rated above 1; the device at `i` is rated above 1, or it is the first device
rated above 0. So the result is the last device rated above 1 when there is one, and the
first device with a nonzero score otherwise; it is the last device with a nonzero score
whenever no device is rated exactly 1. -/
theorem C26_guessBestDevice_last_above_one_or_first_nonzero
    (requiredExtensions : List String) (ds : List RenderDevice)
    (hwf : ∀ d ∈ ds, d.WellFormed)
    (hsome : ∃ k r, RatedAt requiredExtensions ds k r ∧ 0 < r) :
    ∃ i r, GuessBestDevice requiredExtensions ds = some (some i) ∧
      RatedAt requiredExtensions ds i r ∧ 0 < r ∧
      (∀ k r1, i < k → RatedAt requiredExtensions ds k r1 → r1 ≤ 1) ∧
      (1 < r ∨ ∀ k r1, k < i → RatedAt requiredExtensions ds k r1 → r1 = 0) ∧
      ((∀ k r1, RatedAt requiredExtensions ds k r1 → r1 ≠ 1) →
        ∀ k r1, i < k → RatedAt requiredExtensions ds k r1 → r1 = 0) := by
  obtain ⟨res, hres, hcase⟩ := guessBestDeviceLoop_from_zero requiredExtensions ds 0
    (fun x hx => rateDevice_defined requiredExtensions x (hwf x hx))
  rcases hcase with ⟨_, hz⟩ | ⟨j, r, hj, hrj, hpos, hlater, hfirst⟩
  · obtain ⟨k, r, hk, hpos⟩ := hsome
    have := hz k r hk
    omega
  · refine ⟨j, r, ?_, hrj, hpos, hlater, hfirst, ?_⟩
    · rw [GuessBestDevice, hres, hj]
      simp
    · intro hne k r1 hk hk1
      have h1 := hlater k r1 hk hk1
      have h2 := hne k r1 hk1
      omega

/-- C26, amended, on the list of the integrated device followed by the device rated 1. -/
theorem C26_guessBestDevice_witness :
    ∃ i r, GuessBestDevice rendererRequiredExtensions [integratedDevice, tinyTextureDevice]
        = some (some i) ∧
      RatedAt rendererRequiredExtensions [integratedDevice, tinyTextureDevice] i r ∧ 0 < r ∧
      (∀ k r1, i < k →
        RatedAt rendererRequiredExtensions [integratedDevice, tinyTextureDevice] k r1 →
          r1 ≤ 1) ∧
      (1 < r ∨ ∀ k r1, k < i →
        RatedAt rendererRequiredExtensions [integratedDevice, tinyTextureDevice] k r1 →
          r1 = 0) ∧
      ((∀ k r1,
          RatedAt rendererRequiredExtensions [integratedDevice, tinyTextureDevice] k r1 →
            r1 ≠ 1) →
        ∀ k r1, i < k →
          RatedAt rendererRequiredExtensions [integratedDevice, tinyTextureDevice] k r1 →
            r1 = 0) :=
  C26_guessBestDevice_last_above_one_or_first_nonzero rendererRequiredExtensions
    [integratedDevice, tinyTextureDevice] (by decide)
    ⟨0, 8192, ⟨integratedDevice, rfl, by decide⟩, by decide⟩

/-! ## The queues of the selected device -/

/-- A positive score is only given to a device that supports graphics and has a present
index other than `-1`. -/
theorem rateDevice_pos_imp (re : List String) (d : RenderDevice) (r : Nat)
    (h : RateDevice re d = some r) (hpos : 0 < r) :
    d.hasGraphicsFamily = true ∧ ∃ v, d.GetPresentQueueIndex = some v ∧ v ≠ -1 := by
  unfold RateDevice at h
  rw [supportsOperation_eq_hasGraphicsFamily] at h
  cases hg : d.hasGraphicsFamily with
  | false =>
      rw [hg] at h
      simp only [Bool.not_false, if_true, Option.some.injEq] at h
      omega
  | true =>
      rw [hg] at h
      simp only [Bool.not_true, Bool.false_eq_true, if_false] at h
      cases hv : d.GetPresentQueueIndex with
      | none => rw [hv] at h; cases h
      | some v =>
          refine ⟨rfl, v, rfl, ?_⟩
          rw [hv] at h
          intro hneg
          simp only [hneg, if_true, Option.some.injEq] at h
          omega

/-- The element at the position `findIdx` returns, when that position is inside the list,
satisfies the predicate. -/
theorem get?_findIdx_of_lt {α : Type} (p : α → Bool) (l : List α)
    (h : l.findIdx p < l.length) : ∃ a, l.get? (l.findIdx p) = some a ∧ p a = true := by
  have hf := find?_eq_get?_findIdx p l
  cases hfind : l.find? p with
  | none =>
      rw [hfind] at hf
      have := List.get?_eq_none.1 hf.symm
      omega
  | some a =>
      rw [hfind] at hf
      exact ⟨a, hf.symm, List.find?_some hfind⟩

/-- On a well-formed device with a graphics-capable family and a present index other than
`-1`, both indices are positions in the queue list, of a graphics-capable and of a
present-capable family. -/
theorem queue_indices_valid (d : RenderDevice) (hwf : d.WellFormed)
    (hg : d.hasGraphicsFamily = true) (v : Int) (hv : d.GetPresentQueueIndex = some v)
    (hne : v ≠ -1) :
    ∃ (g p : Nat) (qg qp : QueueProperties),
      d.GetOperationQueueIndex VK_QUEUE_GRAPHICS_BIT = (g : Int) ∧ v = (p : Int) ∧
      d._queue_proprties.get? g = some qg ∧ hasFlag VK_QUEUE_GRAPHICS_BIT qg = true ∧
      d._queue_proprties.get? p = some qp ∧ canPresent qp = true := by
  obtain ⟨hq, hqlt⟩ := getOperationQueueIndex_of_hasGraphicsFamily d hwf hg
  obtain ⟨qg, hqg, hflag⟩ := get?_findIdx_of_lt (hasFlag VK_QUEUE_GRAPHICS_BIT) _ hqlt
  have hfind : d._queue_proprties.find? (hasFlag VK_QUEUE_GRAPHICS_BIT) = some qg := by
    rw [find?_eq_get?_findIdx, hqg]
  have hloop := presentQueueLoop_findIdx d._queue_proprties 0 hwf.1 (by have := hwf.2; omega)
  rw [getPresentQueueIndex_eq d hwf, hfind] at hv
  simp only [Option.some.injEq] at hv
  by_cases hpp : qg.presentation_support = true
  · rw [if_pos hpp, hq] at hv
    exact ⟨_, _, qg, qg, hq, hv.symm, hqg, hflag, hqg, hpp⟩
  · rw [if_neg hpp, hloop] at hv
    by_cases hlt : d._queue_proprties.findIdx canPresent < d._queue_proprties.length
    · rw [if_pos hlt] at hv
      obtain ⟨qp, hqp, hcan⟩ := get?_findIdx_of_lt canPresent _ hlt
      exact ⟨_, _, qg, qp, hq, by rw [← hv]; simp, hqg, hflag, hqp, hcan⟩
    · rw [if_neg hlt] at hv
      exact absurd hv.symm hne

/-- When `InitDevices` returns true the manager points to a constructor-built device of its
list that is rated above 0. -/
theorem initDevices_true_selected (m m1 : RenderDeviceManager)
    (platform : List PhysicalDevice)
    (hm : ∀ d ∈ m._devices, d.WellFormed)
    (hp : ∀ pd ∈ platform, pd.queueFamilies.length < 2 ^ 31)
    (h : m.InitDevices platform = some (true, m1)) :
    ∃ d r, m1.GetCurrentDevice = some d ∧ d.WellFormed ∧
      RateDevice m.requiredExtensions d = some r ∧ 0 < r := by
  obtain ⟨-, hsel⟩ := initDevices_defined_spec m m1 platform true hm hp h
  obtain ⟨hdev, i, d, r, hcur, hget, hr, hpos⟩ := hsel rfl
  refine ⟨d, r, by simp only [RenderDeviceManager.GetCurrentDevice, hcur, hget], ?_, hr, hpos⟩
  have hmem : d ∈ m1._devices := List.get?_mem hget
  rw [hdev] at hmem
  rcases List.mem_append.mp hmem with h1 | h2
  · exact hm d h1
  · obtain ⟨pd, hpd, rfl⟩ := List.mem_map.mp h2
    exact construct_idsArePositions pd (hp pd hpd)

/-- C29: when `InitDevices` returns true, on adapters with fewer than `2 ^ 31` queue
families, the selected device has a graphics index and a present index that are not `-1`;
both are positions in its queue-family list, of a family that advertises graphics and of a
family that can present. `InitLogicalDevice`, called in the state `InitDevices` leaves,
starts with `vkCreateDevice` and never writes the line
"Failed to find suitable graphics queue(s)". -/
theorem C29_selected_device_has_graphics_and_present_queue (w : World)
    (hm : ∀ d ∈ w.renderer._device_manager._devices, d.WellFormed)
    (hp : ∀ pd ∈ w.platform.adapters, pd.queueFamilies.length < 2 ^ 31)
    (hok : (Renderer.InitDevices w).value = true) :
    (∃ (d : RenderDevice) (g p : Nat) (qg qp : QueueProperties),
      (Renderer.InitDevices w).world.renderer._device_manager.GetCurrentDevice = some d ∧
      (Renderer.InitDevices w).world.renderer._device_manager.GetOperationQueueIndex
          VK_QUEUE_GRAPHICS_BIT = some (g : Int) ∧
      (Renderer.InitDevices w).world.renderer._device_manager.GetPresentQueueIndex
          = some (p : Int) ∧
      (g : Int) ≠ -1 ∧ (p : Int) ≠ -1 ∧
      d._queue_proprties.get? g = some qg ∧ hasFlag VK_QUEUE_GRAPHICS_BIT qg = true ∧
      d._queue_proprties.get? p = some qp ∧ canPresent qp = true) ∧
    (∃ queueCount result rest,
      (Renderer.InitLogicalDevice (Renderer.InitDevices w).world).calls
        = Call.vkCreateDevice queueCount result :: rest) ∧
    (∀ c ∈ (Renderer.InitLogicalDevice (Renderer.InitDevices w).world).calls,
      c.isLine "Failed to find suitable graphics queue(s)" = false) := by
  -- the manager after `InitDevices`
  have hsel : ∃ m1, w.renderer._device_manager.InitDevices w.platform.adapters
        = some (true, m1) ∧
      (Renderer.InitDevices w).world.renderer._device_manager = m1 := by
    simp only [Renderer.InitDevices, bind_apply, getPlatform_apply, getR_apply, emit_apply]
      at hok ⊢
    cases h : w.renderer._device_manager.InitDevices w.platform.adapters with
    | none => rw [h] at hok; simp at hok
    | some res =>
        obtain ⟨ok, m1⟩ := res
        rw [h] at hok
        cases ok with
        | false => simp at hok
        | true => exact ⟨m1, rfl, by simp⟩
  obtain ⟨m1, hinit, hm1⟩ := hsel
  obtain ⟨d, r, hcur, hwf, hr, hpos⟩ :=
    initDevices_true_selected _ m1 _ hm hp hinit
  obtain ⟨hg, v, hv, hne⟩ := rateDevice_pos_imp _ d r hr hpos
  obtain ⟨g, p, qg, qp, hgi, hpi, hqg, hfg, hqp, hcp⟩ := queue_indices_valid d hwf hg v hv hne
  have hG : m1.GetOperationQueueIndex VK_QUEUE_GRAPHICS_BIT = some (g : Int) := by
    simp [RenderDeviceManager.GetOperationQueueIndex, hcur, hgi]
  have hP : m1.GetPresentQueueIndex = some (p : Int) := by
    simp [RenderDeviceManager.GetPresentQueueIndex, hcur, hv, hpi]
  have hgne : (g : Int) ≠ -1 := by omega
  have hpne : (p : Int) ≠ -1 := by omega
  have hcalls : ∃ queueCount result rest,
      (Renderer.InitLogicalDevice (Renderer.InitDevices w).world).calls
        = Call.vkCreateDevice queueCount result :: rest := by
    simp only [Renderer.InitLogicalDevice, bind_apply, getR_apply, hm1, hG, hP, defined_apply,
      Option.getD_some, Option.isSome_some, if_true, ite_apply_world, hgne, hpne, or_self,
      if_false, vkCall_apply, List.nil_append, List.singleton_append]
    exact ⟨_, _, _, rfl⟩
  refine ⟨⟨d, g, p, qg, qp, by rw [hm1, hcur], by rw [hm1, hG], by rw [hm1, hP], hgne, hpne,
    hqg, hfg, hqp, hcp⟩, hcalls, ?_⟩
  intro c hc
  simp only [Renderer.InitLogicalDevice, bind_apply, getR_apply, hm1, hG, hP, defined_apply,
    Option.getD_some, Option.isSome_some, if_true, ite_apply_world, hgne, hpne, or_self,
    if_false, vkCall_apply, cerr_apply, pure_apply, fresh_apply, modifyR_apply, emit_apply,
    List.nil_append, List.singleton_append, List.append_nil] at hc
  split_ifs at hc <;>
    simp only [List.mem_cons, List.mem_singleton, List.not_mem_nil, or_false] at hc <;>
    (rcases hc with rfl | rfl | rfl) <;> rfl

/-- C29 at program start on the friendly platform. -/
theorem C29_selected_device_witness :
    (Renderer.InitDevices (World.start friendlyPlatform false)).value = true ∧
    ∃ queueCount result rest,
      (Renderer.InitLogicalDevice
          (Renderer.InitDevices (World.start friendlyPlatform false)).world).calls
        = Call.vkCreateDevice queueCount result :: rest :=
  ⟨by decide,
    (C29_selected_device_has_graphics_and_present_queue (World.start friendlyPlatform false)
      (by decide) (by decide) (by decide)).2.1⟩

/-! ## Scores of qualified devices and the outcome of the selection -/

/-- The score of a device that has a graphics-capable family, a present-capable family and
all required extensions. -/
theorem rateDevice_of_qualified (requiredExtensions : List String) (d : RenderDevice)
    (hwf : d.WellFormed) (hg : d.hasGraphicsFamily = true) (hp : d.hasPresentFamily = true)
    (hext : ∀ re ∈ requiredExtensions, re ∈ d._device_extensions)
    (hdim : d.maxImageDimension2D < 2 ^ 32) :
    RateDevice requiredExtensions d
      = some (if d.DiscreteGPU then (1000 + d.maxImageDimension2D) % 2 ^ 32
              else d.maxImageDimension2D) := by
  obtain ⟨v, hv, hne⟩ := getPresentQueueIndex_ne_neg_one d hwf hp
  have hsup := supportsRequiredExtensions_of_all_mem d requiredExtensions hext
  have hmod : d.maxImageDimension2D % 2 ^ 32 = d.maxImageDimension2D := Nat.mod_eq_of_lt hdim
  unfold RateDevice
  rw [supportsOperation_eq_hasGraphicsFamily, hg, hv, hsup]
  simp only [Bool.not_true, Bool.false_eq_true, if_false, hne, RenderDevice.MaxTextureSize,
    hmod]
  cases d.DiscreteGPU
  · simpa using hdim
  · simp

/-- A list of constructor-built devices that contains a device rated above 0 makes
`GuessBestDevice` return a device. -/
theorem guessBestDevice_some_of_positive (requiredExtensions : List String)
    (ds : List RenderDevice) (hwf : ∀ x ∈ ds, x.WellFormed) (d : RenderDevice) (hd : d ∈ ds)
    (r : Nat) (hr : RateDevice requiredExtensions d = some r) (hpos : 0 < r) :
    ∃ i, GuessBestDevice requiredExtensions ds = some (some i) := by
  obtain ⟨res, hres, hcase⟩ := guessBestDeviceLoop_spec requiredExtensions ds 0 0 none
    (fun x hx => rateDevice_defined requiredExtensions x (hwf x hx))
  rcases hcase with ⟨-, hle⟩ | ⟨j, x, rx, hj, -, -, -⟩
  · obtain ⟨r2, hr2, hle2⟩ := hle d hd
    rw [hr] at hr2
    cases hr2
    omega
  · exact ⟨0 + j, by rw [← hj]; exact hres⟩

/-- C30 as stated fails at two 32-bit texture dimensions. The integrated device with
dimension 0 and the discrete device with dimension `2 ^ 32 - 1000` both have a graphics
family, a present family and the required extension, and both are rated 0; a platform that
reports only the first makes `InitDevices` return false. -/
theorem C30_qualified_devices_rated_zero :
    zeroTextureDevice.hasGraphicsFamily = true ∧
    zeroTextureDevice.hasPresentFamily = true ∧
    (∀ re ∈ rendererRequiredExtensions, re ∈ zeroTextureDevice._device_extensions) ∧
    RateDevice rendererRequiredExtensions zeroTextureDevice = some 0 ∧
    wrappingTextureDevice.hasGraphicsFamily = true ∧
    wrappingTextureDevice.hasPresentFamily = true ∧
    (∀ re ∈ rendererRequiredExtensions, re ∈ wrappingTextureDevice._device_extensions) ∧
    wrappingTextureDevice.maxImageDimension2D < 2 ^ 32 ∧
    RateDevice rendererRequiredExtensions wrappingTextureDevice = some 0 ∧
    GuessBestDevice rendererRequiredExtensions [zeroTextureDevice] = some none ∧
    ((RenderDeviceManager.fresh rendererRequiredExtensions).InitDevices
      [zeroTextureAdapter]).map Prod.fst = some false := by
  decide

/-- C30, amended: a constructor-built device with a graphics-capable family, a
present-capable family, all required extensions and a 32-bit maximum 2D texture dimension
is rated above 0 exactly when the dimension is not `2 ^ 32 - 1000` for a discrete device
and not 0 for any other device; a list of constructor-built devices that contains a device
rated above 0 makes `GuessBestDevice` return a device. -/
theorem C30_qualified_device_positive_score_iff
    (requiredExtensions : List String) (d : RenderDevice) (hwf : d.WellFormed)
    (hg : d.hasGraphicsFamily = true) (hp : d.hasPresentFamily = true)
    (hext : ∀ re ∈ requiredExtensions, re ∈ d._device_extensions)
    (hdim : d.maxImageDimension2D < 2 ^ 32) :
    ∃ s, RateDevice requiredExtensions d = some s ∧
      (0 < s ↔
        (if d.DiscreteGPU then d.maxImageDimension2D ≠ 2 ^ 32 - 1000
         else d.maxImageDimension2D ≠ 0)) ∧
      (0 < s → ∀ ds : List RenderDevice, (∀ x ∈ ds, x.WellFormed) → d ∈ ds →
        ∃ i, GuessBestDevice requiredExtensions ds = some (some i)) := by
  have hrate := rateDevice_of_qualified requiredExtensions d hwf hg hp hext hdim
  refine ⟨_, hrate, ?_, ?_⟩
  · cases d.DiscreteGPU
    · simp only [Bool.false_eq_true, if_false]
      omega
    · simp only [if_true]
      omega
  · intro hpos ds hds hmem
    exact guessBestDevice_some_of_positive requiredExtensions ds hds d hmem _ hrate hpos

/-- C30, amended, on the integrated device of the end-to-end scenario. -/
theorem C30_qualified_device_witness :
    ∃ s, RateDevice rendererRequiredExtensions integratedDevice = some s ∧
      (0 < s ↔
        (if integratedDevice.DiscreteGPU
         then integratedDevice.maxImageDimension2D ≠ 2 ^ 32 - 1000
         else integratedDevice.maxImageDimension2D ≠ 0)) ∧
      (0 < s → ∀ ds : List RenderDevice, (∀ x ∈ ds, x.WellFormed) → integratedDevice ∈ ds →
        ∃ i, GuessBestDevice rendererRequiredExtensions ds = some (some i)) :=
  C30_qualified_device_positive_score_iff rendererRequiredExtensions integratedDevice
    (by decide) (by decide) (by decide) (by decide) (by decide)

/-! ## `ResetSwapChain`: what it leaves alone -/

/-- The nine steps of a rebuild issue no call that concerns state outside the swapchain. -/
theorem resetSteps_emit_inside (s : Step) (hs : s ∈ Renderer.resetSteps) :
    Emits (fun c => c.isOutsideSwapchainState = false) s.run := by
  simp only [Renderer.resetSteps, List.mem_cons, List.mem_singleton, List.not_mem_nil,
    or_false] at hs
  rcases hs with rfl | rfl | rfl | rfl | rfl | rfl | rfl | rfl | rfl
  · apply InitSwapChain_emits <;> intros <;> rfl
  · apply InitImageViews_emits <;> intros <;> rfl
  · apply InitRenderPass_emits <;> intros <;> rfl
  · apply InitGraphicsPipeline_emits <;> intros <;> rfl
  · apply InitFramebuffers_emits <;> intros <;> rfl
  · apply InitUniformBuffers_emits <;> intros <;> rfl
  · apply InitDescriptorPool_emits <;> intros <;> rfl
  · apply InitDescriptorSets_emits <;> intros <;> rfl
  · apply InitCommandBuffers_emits <;> intros <;> rfl

/-- C25: whatever its steps return, `ResetSwapChain` leaves every member of the renderer
that is not bound to the swapchain as it was: the device manager with the selected
physical device, the logical device and both queues, the command pool, the descriptor-set
layout, the texture image with its memory, view and sampler, the vertex and index buffers
with their memory, the semaphores and fences of the frames and `_current_frame`; and it
issues no call that creates or destroys a device, a queue, a command pool, a descriptor-set
layout, an image, a sampler, a semaphore or a fence. -/
theorem C25_resetSwapChain_changes_only_swapchain_state (w : World) :
    (Renderer.ResetSwapChain w).world.renderer.withoutSwapchainState
      = w.renderer.withoutSwapchainState ∧
    (Renderer.ResetSwapChain w).world.renderer._device_manager = w.renderer._device_manager ∧
    (Renderer.ResetSwapChain w).world.renderer._vk_logical_device
      = w.renderer._vk_logical_device ∧
    (Renderer.ResetSwapChain w).world.renderer._vk_graphics_queue
      = w.renderer._vk_graphics_queue ∧
    (Renderer.ResetSwapChain w).world.renderer._vk_present_queue
      = w.renderer._vk_present_queue ∧
    (Renderer.ResetSwapChain w).world.renderer._vk_command_pool
      = w.renderer._vk_command_pool ∧
    (Renderer.ResetSwapChain w).world.renderer._vk_descriptor_set_layout
      = w.renderer._vk_descriptor_set_layout ∧
    (Renderer.ResetSwapChain w).world.renderer._vk_texture_image
      = w.renderer._vk_texture_image ∧
    (Renderer.ResetSwapChain w).world.renderer._vk_texture_image_memory
      = w.renderer._vk_texture_image_memory ∧
    (Renderer.ResetSwapChain w).world.renderer._vk_texture_image_view
      = w.renderer._vk_texture_image_view ∧
    (Renderer.ResetSwapChain w).world.renderer._vk_texture_sampler
      = w.renderer._vk_texture_sampler ∧
    (Renderer.ResetSwapChain w).world.renderer._vk_vertex_buffer
      = w.renderer._vk_vertex_buffer ∧
    (Renderer.ResetSwapChain w).world.renderer._vk_vertex_buffer_memory
      = w.renderer._vk_vertex_buffer_memory ∧
    (Renderer.ResetSwapChain w).world.renderer._vk_index_buffer
      = w.renderer._vk_index_buffer ∧
    (Renderer.ResetSwapChain w).world.renderer._vk_index_buffer_memory
      = w.renderer._vk_index_buffer_memory ∧
    (Renderer.ResetSwapChain w).world.renderer._vk_image_available_semaphores
      = w.renderer._vk_image_available_semaphores ∧
    (Renderer.ResetSwapChain w).world.renderer._vk_render_finished_semaphores
      = w.renderer._vk_render_finished_semaphores ∧
    (Renderer.ResetSwapChain w).world.renderer._vk_in_flight_fences
      = w.renderer._vk_in_flight_fences ∧
    (Renderer.ResetSwapChain w).world.renderer._current_frame = w.renderer._current_frame ∧
    (∀ c ∈ (Renderer.ResetSwapChain w).calls, c.isOutsideSwapchainState = false) := by
  have h := ResetSwapChain_preserves_withoutSwapchainState w
  have hcalls : Emits (fun c => c.isOutsideSwapchainState = false) Renderer.ResetSwapChain :=
    ResetSwapChain_emits _ rfl (by apply DestroySwapChain_emits <;> intros <;> rfl)
      resetSteps_emit_inside
  refine ⟨h, ?_, ?_, ?_, ?_, ?_, ?_, ?_, ?_, ?_, ?_, ?_, ?_, ?_, ?_, ?_, ?_, ?_, ?_,
    hcalls w⟩
  · have hx := congrArg Renderer._device_manager h
    exact hx
  · have hx := congrArg Renderer._vk_logical_device h
    exact hx
  · have hx := congrArg Renderer._vk_graphics_queue h
    exact hx
  · have hx := congrArg Renderer._vk_present_queue h
    exact hx
  · have hx := congrArg Renderer._vk_command_pool h
    exact hx
  · have hx := congrArg Renderer._vk_descriptor_set_layout h
    exact hx
  · have hx := congrArg Renderer._vk_texture_image h
    exact hx
  · have hx := congrArg Renderer._vk_texture_image_memory h
    exact hx
  · have hx := congrArg Renderer._vk_texture_image_view h
    exact hx
  · have hx := congrArg Renderer._vk_texture_sampler h
    exact hx
  · have hx := congrArg Renderer._vk_vertex_buffer h
    exact hx
  · have hx := congrArg Renderer._vk_vertex_buffer_memory h
    exact hx
  · have hx := congrArg Renderer._vk_index_buffer h
    exact hx
  · have hx := congrArg Renderer._vk_index_buffer_memory h
    exact hx
  · have hx := congrArg Renderer._vk_image_available_semaphores h
    exact hx
  · have hx := congrArg Renderer._vk_render_finished_semaphores h
    exact hx
  · have hx := congrArg Renderer._vk_in_flight_fences h
    exact hx
  · have hx := congrArg Renderer._current_frame h
    exact hx

/-! ## Memory types, ignored results and missing clean-up: the claims -/

/-- The `idx` of `InitBuffer` and `InitImage` is the value of the comparison
`GetMemoryTypeIndex(...) >= 0`: 1 when a memory type was found, 0 when none was. -/
theorem memoryTypeIdx_value (properties : Nat) (w : World) :
    (Renderer.memoryTypeIdx properties w).value
      = if (GetMemoryTypeIndex w.platform.memoryTypes (w.platform.memoryTypeBits.headD 0)
              properties).getD (-1) ≥ 0 then 1 else 0 := by
  simp only [Renderer.memoryTypeIdx, bind_apply, getPlatform_apply, nextMemoryTypeBits_apply,
    defined_apply, pure_apply]

/-- When `vkCreateImage` succeeds and `GetMemoryTypeIndex` returns `-1`, `InitImage` writes
the error line and returns false without a call of `vkAllocateMemory`. -/
theorem InitImage_of_no_memory_type (properties : Nat) (w : World)
    (hcreate : w.platform.results.headD VK_SUCCESS = VK_SUCCESS)
    (hnone : GetMemoryTypeIndex w.platform.memoryTypes (w.platform.memoryTypeBits.headD 0)
      properties = some (-1)) :
    (Renderer.InitImage properties w).value = false ∧
    (Renderer.InitImage properties w).calls
      = [Call.vkCreateImage VK_SUCCESS, Call.cerr "Failed to find suitable memory type"] := by
  have h2 : ¬ ((-1 : Int) ≥ 0) := by decide
  simp only [Renderer.InitImage, Renderer.memoryTypeIdx, bind_apply, vkCall_apply, hcreate,
    ite_apply_world, fresh_apply, modifyR_apply, getPlatform_apply, nextMemoryTypeBits_apply,
    defined_apply, hnone, pure_apply, cerr_apply, Option.getD_some, h2, if_false, ne_eq,
    not_true_eq_false, List.append_nil, List.nil_append, List.singleton_append, and_self]

/-- When `vkCreateBuffer` succeeds and `GetMemoryTypeIndex` returns `-1`, `InitBuffer`
writes the error line and returns false without a call of `vkAllocateMemory`; the buffer
handle is stored in a member of the renderer. -/
theorem InitBuffer_of_no_memory_type (properties : Nat) (store : Handle → Renderer → Renderer)
    (storeMemory : Handle → M Unit) (w : World)
    (hcreate : w.platform.results.headD VK_SUCCESS = VK_SUCCESS)
    (hnone : GetMemoryTypeIndex w.platform.memoryTypes (w.platform.memoryTypeBits.headD 0)
      properties = some (-1)) :
    (Renderer.InitBuffer properties (fun h => modifyR (store h)) storeMemory w).value.1
      = false ∧
    (Renderer.InitBuffer properties (fun h => modifyR (store h)) storeMemory w).calls
      = [Call.vkCreateBuffer VK_SUCCESS, Call.cerr "Failed to find suitable memory type"] := by
  have h2 : ¬ ((-1 : Int) ≥ 0) := by decide
  simp only [Renderer.InitBuffer, Renderer.memoryTypeIdx, bind_apply, vkCall_apply, hcreate,
    ite_apply_world, fresh_apply, modifyR_apply, getPlatform_apply, nextMemoryTypeBits_apply,
    defined_apply, hnone, pure_apply, cerr_apply, Option.getD_some, h2, if_false, ne_eq,
    not_true_eq_false, List.append_nil, List.nil_append, List.singleton_append, and_self]

/-- C27, as the code has it: on a platform with three memory types of which only type 2 is
host visible and host coherent, `GetMemoryTypeIndex` returns 2 for a staging buffer, and
`InitBuffer` asks `vkAllocateMemory` for memory type 1; for the device-local texture image
`GetMemoryTypeIndex` returns 0 and `InitImage` asks for memory type 1 as well. Both return
true. On a platform whose only memory type is device local, `GetMemoryTypeIndex` returns
`-1` for host-visible memory, and `InitBuffer` and `InitImage` write the error line and
return false without a call of `vkAllocateMemory`. -/
theorem C27_allocation_uses_comparison_result_as_memory_type :
    GetMemoryTypeIndex threeMemoryTypesPlatform.memoryTypes 7
      (VK_MEMORY_PROPERTY_HOST_VISIBLE_BIT ||| VK_MEMORY_PROPERTY_HOST_COHERENT_BIT) = some 2 ∧
    (Renderer.InitBuffer
        (VK_MEMORY_PROPERTY_HOST_VISIBLE_BIT ||| VK_MEMORY_PROPERTY_HOST_COHERENT_BIT)
        (fun _ => pure ()) (fun _ => pure ())
        (World.start threeMemoryTypesPlatform false)).calls
      = [Call.vkCreateBuffer VK_SUCCESS, Call.vkAllocateMemory 1 VK_SUCCESS,
         Call.vkBindBufferMemory] ∧
    (Renderer.InitBuffer
        (VK_MEMORY_PROPERTY_HOST_VISIBLE_BIT ||| VK_MEMORY_PROPERTY_HOST_COHERENT_BIT)
        (fun _ => pure ()) (fun _ => pure ())
        (World.start threeMemoryTypesPlatform false)).value.1 = true ∧
    GetMemoryTypeIndex threeMemoryTypesPlatform.memoryTypes 7
      VK_MEMORY_PROPERTY_DEVICE_LOCAL_BIT = some 0 ∧
    (Renderer.InitImage VK_MEMORY_PROPERTY_DEVICE_LOCAL_BIT
        (World.start threeMemoryTypesPlatform false)).calls
      = [Call.vkCreateImage VK_SUCCESS, Call.vkAllocateMemory 1 VK_SUCCESS,
         Call.vkBindImageMemory] ∧
    (Renderer.InitImage VK_MEMORY_PROPERTY_DEVICE_LOCAL_BIT
        (World.start threeMemoryTypesPlatform false)).value = true ∧
    GetMemoryTypeIndex deviceLocalOnlyPlatform.memoryTypes 1
      (VK_MEMORY_PROPERTY_HOST_VISIBLE_BIT ||| VK_MEMORY_PROPERTY_HOST_COHERENT_BIT)
      = some (-1) ∧
    (Renderer.InitBuffer
        (VK_MEMORY_PROPERTY_HOST_VISIBLE_BIT ||| VK_MEMORY_PROPERTY_HOST_COHERENT_BIT)
        (fun _ => pure ()) (fun _ => pure ())
        (World.start deviceLocalOnlyPlatform false)).calls
      = [Call.vkCreateBuffer VK_SUCCESS, Call.cerr "Failed to find suitable memory type"] ∧
    (Renderer.InitBuffer
        (VK_MEMORY_PROPERTY_HOST_VISIBLE_BIT ||| VK_MEMORY_PROPERTY_HOST_COHERENT_BIT)
        (fun _ => pure ()) (fun _ => pure ())
        (World.start deviceLocalOnlyPlatform false)).value.1 = false ∧
    (Renderer.InitImage VK_MEMORY_PROPERTY_HOST_VISIBLE_BIT
        (World.start deviceLocalOnlyPlatform false)).calls
      = [Call.vkCreateImage VK_SUCCESS, Call.cerr "Failed to find suitable memory type"] ∧
    (Renderer.InitImage VK_MEMORY_PROPERTY_HOST_VISIBLE_BIT
        (World.start deviceLocalOnlyPlatform false)).value = false := by
  refine ⟨by decide, by rfl, by decide, by decide, by rfl, by decide,
    by decide, by rfl, by decide, by rfl, by decide⟩

/-- `InitIndexBuffer` returns true whatever its two `InitBuffer` calls return. -/
theorem InitIndexBuffer_value (w : World) : (Renderer.InitIndexBuffer w).value = true := by
  simp only [Renderer.InitIndexBuffer, bind_apply, pure_apply]

/-- C24, as the code has it. On the platform whose answer number 44 is an error, the
`vkCreateBuffer` of the staging buffer of `InitIndexBuffer` fails and that `InitBuffer`
call returns false, yet `InitIndexBuffer` and `Init` return true. On the platform whose
answer number 18 is an error the same happens with the staging buffer of
`InitTextureImage`. -/
theorem C24_init_true_although_initBuffer_failed :
    Renderer.initSteps.get? 15 = some Step.InitIndexBuffer ∧
    (Renderer.InitBuffer
        (VK_MEMORY_PROPERTY_HOST_VISIBLE_BIT ||| VK_MEMORY_PROPERTY_HOST_COHERENT_BIT)
        (fun _ => pure ()) (fun _ => pure ())
        (worldBeforeStep 15 (World.start (failingPlatform 43) false))).value.1 = false ∧
    (Renderer.InitIndexBuffer
        (worldBeforeStep 15 (World.start (failingPlatform 43) false))).value = true ∧
    (Renderer.Init 1 (World.start (failingPlatform 43) false)).value = true ∧
    (Renderer.Init 1 (World.start (failingPlatform 43) false)).calls.any
      (Call.isLine "Failed to create buffer") = true ∧
    Renderer.initSteps.get? 11 = some Step.InitTextureImage ∧
    (Renderer.InitBuffer
        (VK_MEMORY_PROPERTY_HOST_VISIBLE_BIT ||| VK_MEMORY_PROPERTY_HOST_COHERENT_BIT)
        (fun _ => pure ()) (fun _ => pure ())
        ((emit (Call.stbi_load true))
          (worldBeforeStep 11 (World.start (failingPlatform 17) false))).world).value.1
      = false ∧
    (Renderer.InitTextureImage
        (worldBeforeStep 11 (World.start (failingPlatform 17) false))).value = true ∧
    (Renderer.Init 1 (World.start (failingPlatform 17) false)).value = true ∧
    (Renderer.Init 1 (World.start (failingPlatform 17) false)).calls.any
      (Call.isLine "Failed to create buffer") = true := by
  refine ⟨by decide, by decide, by decide, by decide, by decide, by decide, by decide,
    by decide, by decide, by decide⟩

/-- No step of a rebuild destroys a swapchain-bound object, whatever the steps return. -/
theorem resetSteps_destroy_nothing (w : World) :
    ∀ c ∈ (firstFailure Renderer.resetSteps w).calls, c.destroys = none := by
  refine firstFailure_emits (fun c => c.destroys = none) _ ?_ w
  intro s hs
  simp only [Renderer.resetSteps, List.mem_cons, List.mem_singleton, List.not_mem_nil,
    or_false] at hs
  rcases hs with rfl | rfl | rfl | rfl | rfl | rfl | rfl | rfl | rfl
  · apply InitSwapChain_emits <;> intros <;> rfl
  · apply InitImageViews_emits <;> intros <;> rfl
  · apply InitRenderPass_emits <;> intros <;> rfl
  · apply InitGraphicsPipeline_emits <;> intros <;> rfl
  · apply InitFramebuffers_emits <;> intros <;> rfl
  · apply InitUniformBuffers_emits <;> intros <;> rfl
  · apply InitDescriptorPool_emits <;> intros <;> rfl
  · apply InitDescriptorSets_emits <;> intros <;> rfl
  · apply InitCommandBuffers_emits <;> intros <;> rfl

/-- C23, as the code has it. Whatever the steps of a rebuild return, none of their calls
destroys anything. In the world after `Init`, a `ResetSwapChain` whose first image view
cannot be created returns false after it has created the new swapchain, which it does not
destroy. An `InitVertexBuffer` whose second buffer cannot be created returns false with
the staging buffer and its memory still allocated, and so does an `InitTextureImage` whose
image cannot be created. An `Init` that fails at the render pass has issued the creation
calls of the swapchain, of three image views and of the render pass, the last of which
failed, and has destroyed nothing when it returns false. -/
theorem C23_failed_step_destroys_nothing :
    (∀ w, ∀ c ∈ (firstFailure Renderer.resetSteps w).calls, c.destroys = none) ∧
    (Renderer.ResetSwapChain
      (initialisedWorldOn friendlyPlatform
        [VK_SUCCESS, VK_ERROR_OUT_OF_DEVICE_MEMORY])).value = false ∧
    (firstFailure Renderer.resetSteps
      (Renderer.DestroySwapChain (initialisedWorldOn friendlyPlatform
        [VK_SUCCESS, VK_ERROR_OUT_OF_DEVICE_MEMORY])).world).calls
      = [Call.vkCreateSwapchainKHR 3 44 1 false VK_SUCCESS, Call.vkGetSwapchainImagesKHR 3,
         Call.vkGetSwapchainImagesKHR 3,
         Call.vkCreateImageView 54 VK_ERROR_OUT_OF_DEVICE_MEMORY,
         Call.cerr "Failed to create texture image view"] ∧
    destroyedKinds (firstFailure Renderer.resetSteps
      (Renderer.DestroySwapChain (initialisedWorldOn friendlyPlatform
        [VK_SUCCESS, VK_ERROR_OUT_OF_DEVICE_MEMORY])).world).calls = [] ∧
    (Renderer.InitVertexBuffer (initialisedWorldOn friendlyPlatform
        [VK_SUCCESS, VK_SUCCESS, VK_ERROR_OUT_OF_DEVICE_MEMORY])).value = false ∧
    (Renderer.InitVertexBuffer (initialisedWorldOn friendlyPlatform
        [VK_SUCCESS, VK_SUCCESS, VK_ERROR_OUT_OF_DEVICE_MEMORY])).calls
      = [Call.vkCreateBuffer VK_SUCCESS, Call.vkAllocateMemory 1 VK_SUCCESS,
         Call.vkBindBufferMemory, Call.vkMapMemory 54, Call.memcpy, Call.vkUnmapMemory 54,
         Call.vkCreateBuffer VK_ERROR_OUT_OF_DEVICE_MEMORY,
         Call.cerr "Failed to create buffer"] ∧
    (Renderer.InitTextureImage (initialisedWorldOn friendlyPlatform
        [VK_SUCCESS, VK_SUCCESS, VK_ERROR_OUT_OF_DEVICE_MEMORY])).value = false ∧
    (Renderer.InitTextureImage (initialisedWorldOn friendlyPlatform
        [VK_SUCCESS, VK_SUCCESS, VK_ERROR_OUT_OF_DEVICE_MEMORY])).calls
      = [Call.stbi_load true, Call.vkCreateBuffer VK_SUCCESS,
         Call.vkAllocateMemory 1 VK_SUCCESS, Call.vkBindBufferMemory, Call.vkMapMemory 54,
         Call.memcpy, Call.vkUnmapMemory 54, Call.stbi_image_free,
         Call.vkCreateImage VK_ERROR_OUT_OF_DEVICE_MEMORY, Call.cerr "Failed to create image"] ∧
    (Renderer.Init 1 (World.start (failingPlatform 7) false)).value = false ∧
    createdKinds (Renderer.Init 1 (World.start (failingPlatform 7) false)).calls
      = [SwapchainObject.swapchain, SwapchainObject.imageView, SwapchainObject.imageView,
         SwapchainObject.imageView, SwapchainObject.renderPass] ∧
    destroyedKinds (Renderer.Init 1 (World.start (failingPlatform 7) false)).calls = [] := by
  refine ⟨resetSteps_destroy_nothing, by decide, by rfl, by decide, by decide, by rfl,
    by decide, by rfl, by decide, by decide, by decide⟩

/-- C28, as the code has it. An `Init` that fails at the render pass leaves three swapchain
images and no uniform buffer, with every access so far inside its vector; the
`DestroySwapChain` of the destructor then reads `_vk_uniform_buffers[0]` outside the
vector, and so does `main` on that platform. After a successful `Init` with three images,
a `ResetSwapChain` that creates a swapchain of four images and fails at its first image
view leaves four images and three uniform buffers, and the next `DestroySwapChain` reads
`_vk_uniform_buffers[3]` outside the vector. -/
theorem C28_destroySwapChain_reads_outside_uniform_buffers :
    (Renderer.Init 1 (World.start (failingPlatform 7) false)).value = false ∧
    (Renderer.Init 1 (World.start (failingPlatform 7) false)).world.undefinedAccess = false ∧
    (Renderer.Init 1
      (World.start (failingPlatform 7) false)).world.renderer._vk_swapchain_images.length = 3 ∧
    (Renderer.Init 1
      (World.start (failingPlatform 7) false)).world.renderer._vk_uniform_buffers.length = 0 ∧
    (Renderer.DestroySwapChain
      (Renderer.Init 1 (World.start (failingPlatform 7) false)).world).world.undefinedAccess
      = true ∧
    (main (World.start (failingPlatform 7) false)).world.undefinedAccess = true ∧
    (initialisedWorldOn growingPlatform
      [VK_SUCCESS, VK_ERROR_OUT_OF_DEVICE_MEMORY]).renderer.sizes.Agree ∧
    (Renderer.ResetSwapChain (initialisedWorldOn growingPlatform
      [VK_SUCCESS, VK_ERROR_OUT_OF_DEVICE_MEMORY])).value = false ∧
    (Renderer.ResetSwapChain (initialisedWorldOn growingPlatform
      [VK_SUCCESS, VK_ERROR_OUT_OF_DEVICE_MEMORY])).world.undefinedAccess = false ∧
    (Renderer.ResetSwapChain (initialisedWorldOn growingPlatform
      [VK_SUCCESS, VK_ERROR_OUT_OF_DEVICE_MEMORY])).world.renderer._vk_swapchain_images.length
      = 4 ∧
    (Renderer.ResetSwapChain (initialisedWorldOn growingPlatform
      [VK_SUCCESS, VK_ERROR_OUT_OF_DEVICE_MEMORY])).world.renderer._vk_uniform_buffers.length
      = 3 ∧
    (Renderer.DestroySwapChain (Renderer.ResetSwapChain (initialisedWorldOn growingPlatform
      [VK_SUCCESS, VK_ERROR_OUT_OF_DEVICE_MEMORY])).world).world.undefinedAccess = true := by
  refine ⟨by decide, by decide, by decide, by decide, by decide, by decide, by decide,
    by decide, by decide, by decide, by decide, by decide⟩

/-! ## The rebuild after the presentation -/

theorem UpdateUniformBuffer_calls (imageIndex : Nat) (w : World) :
    (Renderer.UpdateUniformBuffer imageIndex w).calls
      = [Call.vkMapMemory (w.renderer._vk_uniform_buffers_memory.getD imageIndex 0),
         Call.memcpy,
         Call.vkUnmapMemory (w.renderer._vk_uniform_buffers_memory.getD imageIndex 0)] := by
  simp only [Renderer.UpdateUniformBuffer, Renderer.copyToMemory, bind_apply, getR_apply,
    access_apply, emit_apply, List.nil_append, List.singleton_append]

theorem access_calls (i len : Nat) (w : World) : (access i len w).calls = [] := by
  simp only [access_apply]

theorem access_renderer (i len : Nat) (w : World) :
    (access i len w).world.renderer = w.renderer := preservesR_access (g := id) i len w

theorem access_platform (i len : Nat) (w : World) :
    (access i len w).world.platform = w.platform := by
  simp only [access_apply]
  split_ifs <;> rfl

theorem UpdateUniformBuffer_platform (imageIndex : Nat) (w : World) :
    (Renderer.UpdateUniformBuffer imageIndex w).world.platform = w.platform := by
  simp only [Renderer.UpdateUniformBuffer, Renderer.copyToMemory, bind_apply, getR_apply,
    emit_apply, access_platform]

/-- The calls of `DrawFrame` from the update of the uniform buffer to the presentation, the
result of the presentation and the renderer after them: the submission takes the next
answer of the platform and the presentation the one after it. -/
theorem upToPresent_apply (imageIndex : Nat) (w : World) :
    (Renderer.DrawFrame_upToPresent imageIndex w).calls
        = [Call.vkMapMemory (w.renderer._vk_uniform_buffers_memory.getD imageIndex 0),
           Call.memcpy,
           Call.vkUnmapMemory (w.renderer._vk_uniform_buffers_memory.getD imageIndex 0),
           Call.vkResetFences w.renderer._current_frame,
           Call.vkQueueSubmit (some w.renderer._current_frame)
             (w.platform.results.headD VK_SUCCESS)]
          ++ (if w.platform.results.headD VK_SUCCESS ≠ VK_SUCCESS
                then [Call.cerr "Failed to submit draw command buffer"] else [])
          ++ [Call.vkQueuePresentKHR imageIndex (w.platform.results.tail.headD VK_SUCCESS)] ∧
      (Renderer.DrawFrame_upToPresent imageIndex w).value
        = w.platform.results.tail.headD VK_SUCCESS ∧
      (Renderer.DrawFrame_upToPresent imageIndex w).world.renderer = w.renderer := by
  have hu := UpdateUniformBuffer_calls imageIndex w
  have hr : (Renderer.UpdateUniformBuffer imageIndex w).world.renderer = w.renderer :=
    UpdateUniformBuffer_preserves id imageIndex w
  have hp := UpdateUniformBuffer_platform imageIndex w
  unfold Renderer.DrawFrame_upToPresent
  simp only [bind_apply, getR_apply, access_calls, access_renderer, access_platform,
    emit_apply, vkCall_apply, hu, hr, hp, List.nil_append, List.singleton_append,
    List.cons_append, List.append_assoc, ite_apply_world, cerr_apply, pure_apply]
  split_ifs <;> exact ⟨rfl, rfl, rfl⟩
/-- The rest of the frame is the part up to the presentation followed by the decision on
its result: a rebuild with the resize flag cleared, or the error line, or nothing. -/
theorem submitAndPresent_after_present (imageIndex : Nat) (w : World) :
    (Renderer.DrawFrame_submitAndPresent imageIndex w).calls
        = (Renderer.DrawFrame_upToPresent imageIndex w).calls ++
            (if (Renderer.DrawFrame_upToPresent imageIndex w).value = VK_ERROR_OUT_OF_DATE_KHR ∨
                (Renderer.DrawFrame_upToPresent imageIndex w).value = VK_SUBOPTIMAL_KHR ∨
                w.renderer.framebuffer_resized = true
              then (Renderer.ResetSwapChain
                (Renderer.DrawFrame_upToPresent imageIndex w).world.withResizeFlagCleared).calls
              else if (Renderer.DrawFrame_upToPresent imageIndex w).value ≠ VK_SUCCESS
                then [Call.cerr "Failed to present swap chain image"] else []) ∧
      (Renderer.DrawFrame_submitAndPresent imageIndex w).world.renderer.framebuffer_resized
        = false := by
  have hr : (Renderer.UpdateUniformBuffer imageIndex w).world.renderer = w.renderer :=
    UpdateUniformBuffer_preserves id imageIndex w
  unfold Renderer.DrawFrame_submitAndPresent Renderer.DrawFrame_upToPresent
    World.withResizeFlagCleared
  simp only [bind_apply, getR_apply, access_calls, access_renderer,
    emit_apply, vkCall_apply, hr, List.nil_append, List.singleton_append,
    List.cons_append, List.append_assoc, ite_apply_world, cerr_apply, pure_apply,
    modifyR_apply, List.append_nil]
  split_ifs <;>
    simp only [bind_apply, getR_apply, access_calls, access_renderer,
      emit_apply, vkCall_apply, hr, List.nil_append, List.singleton_append,
      List.cons_append, List.append_assoc, ite_apply_world, cerr_apply, pure_apply,
      modifyR_apply, List.append_nil, ResetSwapChain_framebuffer_resized, and_self,
      List.append_cancel_left_eq, List.cons.injEq, true_and]
  all_goals
    rename_i h _
    exact Bool.eq_false_iff.mpr (fun hf => h (Or.inr (Or.inr hf)))
theorem DrawFrame_acquire_results (w : World) :
    (Renderer.DrawFrame_acquire w).world.platform.results = w.platform.results.tail := by
  simp only [Renderer.DrawFrame_acquire, bind_apply, getR_apply, access_platform, emit_apply,
    answer_apply, nextImageIndex_apply, pure_apply]

/-- Every `ResetSwapChain` begins with `vkDeviceWaitIdle`. -/
theorem ResetSwapChain_calls_head (w : World) :
    (Renderer.ResetSwapChain w).calls.head? = some Call.vkDeviceWaitIdle := by
  simp only [Renderer.ResetSwapChain, Renderer.ResetSwapChainTraced, bind_apply, emit_apply,
    List.singleton_append, List.cons_append, List.head?_cons]

/-- C21: a `DrawFrame` whose acquisition is not out of date reaches the presentation. Its
calls are, in this order: the fence wait and the acquisition; the acquisition error line if
the acquisition failed; the update of the uniform buffer, the fence reset and the
submission (with its error line if it failed); `vkQueuePresentKHR`; and then the calls of
one `ResetSwapChain`, run with the resize flag cleared, exactly when the present result is
`VK_ERROR_OUT_OF_DATE_KHR` or `VK_SUBOPTIMAL_KHR` or `framebuffer_resized` was set, and
otherwise nothing but the present error line if the presentation failed. Every
`ResetSwapChain` begins with `vkDeviceWaitIdle`, which is none of the calls before, and
`framebuffer_resized` is false when `DrawFrame` returns. The submission takes the second
and the presentation the third pending answer of the platform. -/
theorem C21_rebuild_after_present_exactly_when_stale_or_resized (w : World)
    (hreach : (Renderer.DrawFrame_acquire w).value.1 ≠ VK_ERROR_OUT_OF_DATE_KHR) :
    (Renderer.DrawFrame w).calls
      = [Call.vkWaitForFences w.renderer._current_frame,
         Call.vkAcquireNextImageKHR w.renderer._current_frame
           (w.platform.results.headD VK_SUCCESS) (w.platform.imageIndices.headD 0)]
        ++ (if w.platform.results.headD VK_SUCCESS ≠ VK_SUCCESS ∧
              w.platform.results.headD VK_SUCCESS ≠ VK_SUBOPTIMAL_KHR
            then [Call.cerr "Failed to acquire swap chain image"] else [])
        ++ [Call.vkMapMemory
              (w.renderer._vk_uniform_buffers_memory.getD (w.platform.imageIndices.headD 0) 0),
            Call.memcpy,
            Call.vkUnmapMemory
              (w.renderer._vk_uniform_buffers_memory.getD (w.platform.imageIndices.headD 0) 0),
            Call.vkResetFences w.renderer._current_frame,
            Call.vkQueueSubmit (some w.renderer._current_frame)
              (w.platform.results.tail.headD VK_SUCCESS)]
        ++ (if w.platform.results.tail.headD VK_SUCCESS ≠ VK_SUCCESS
            then [Call.cerr "Failed to submit draw command buffer"] else [])
        ++ [Call.vkQueuePresentKHR (w.platform.imageIndices.headD 0)
              (w.platform.results.tail.tail.headD VK_SUCCESS)]
        ++ (if w.platform.results.tail.tail.headD VK_SUCCESS = VK_ERROR_OUT_OF_DATE_KHR ∨
              w.platform.results.tail.tail.headD VK_SUCCESS = VK_SUBOPTIMAL_KHR ∨
              w.renderer.framebuffer_resized = true
            then (Renderer.ResetSwapChain
              (Renderer.DrawFrame_upToPresent (Renderer.DrawFrame_acquire w).value.2
                (Renderer.DrawFrame_acquire w).world).world.withResizeFlagCleared).calls
            else if w.platform.results.tail.tail.headD VK_SUCCESS ≠ VK_SUCCESS
              then [Call.cerr "Failed to present swap chain image"] else []) ∧
    (∀ w1, (Renderer.ResetSwapChain w1).calls.head? = some Call.vkDeviceWaitIdle) ∧
    (Renderer.DrawFrame_upToPresent (Renderer.DrawFrame_acquire w).value.2
      (Renderer.DrawFrame_acquire w).world).value
        = w.platform.results.tail.tail.headD VK_SUCCESS ∧
    (Renderer.DrawFrame w).world.renderer.framebuffer_resized = false := by
  obtain ⟨hval, hcalls, hren⟩ := DrawFrame_acquire_apply w
  have hres := DrawFrame_acquire_results w
  obtain ⟨hpc, hpv, hpr⟩ := upToPresent_apply (Renderer.DrawFrame_acquire w).value.2
    (Renderer.DrawFrame_acquire w).world
  obtain ⟨hsc, hsf⟩ := submitAndPresent_after_present (Renderer.DrawFrame_acquire w).value.2
    (Renderer.DrawFrame_acquire w).world
  have h1 : (Renderer.DrawFrame_acquire w).value.1 = w.platform.results.headD VK_SUCCESS := by
    rw [hval]
  have h2 : (Renderer.DrawFrame_acquire w).value.2 = w.platform.imageIndices.headD 0 := by
    rw [hval]
  rw [hres, hren] at hpc
  rw [hres] at hpv
  rw [hpv, hren, hpc] at hsc
  rw [h1] at hreach
  refine ⟨?_, ResetSwapChain_calls_head, hpv, ?_⟩
  · have hd : (Renderer.DrawFrame w).calls
        = (Renderer.DrawFrame_acquire w).calls
          ++ (if w.platform.results.headD VK_SUCCESS ≠ VK_SUCCESS ∧
                w.platform.results.headD VK_SUCCESS ≠ VK_SUBOPTIMAL_KHR
              then [Call.cerr "Failed to acquire swap chain image"] else [])
          ++ (Renderer.DrawFrame_submitAndPresent (Renderer.DrawFrame_acquire w).value.2
                (Renderer.DrawFrame_acquire w).world).calls := by
      simp only [Renderer.DrawFrame, bind_apply, ite_apply_world, h1, hreach, if_false]
      split_ifs
      · simp only [bind_apply, cerr_apply, List.append_assoc]
      · simp only [bind_apply, pure_apply, List.append_nil, List.nil_append]
    rw [hd, hsc, hcalls, h2]
    simp only [List.append_assoc]
  · simp only [Renderer.DrawFrame, bind_apply, ite_apply_world, h1, hreach, if_false]
    split_ifs
    · simp only [bind_apply, cerr_apply]
      exact hsf
    · simp only [bind_apply, pure_apply]
      exact hsf
/-- The theorem of C21 in the world after `Init` and a resize of the window: the frame
reaches the presentation, the presentation succeeds, and the flag is false on return. -/
theorem C21_rebuild_after_present_witness :
    (Renderer.DrawFrame_acquire resizedWorld).value.1 ≠ VK_ERROR_OUT_OF_DATE_KHR ∧
    resizedWorld.renderer.framebuffer_resized = true ∧
    resizedWorld.platform.results.tail.tail.headD VK_SUCCESS = VK_SUCCESS ∧
    (Renderer.DrawFrame resizedWorld).world.renderer.framebuffer_resized = false :=
  ⟨by decide, by decide, by decide,
    (C21_rebuild_after_present_exactly_when_stale_or_resized resizedWorld
      (by decide)).2.2.2⟩

/-! ## The fences through a sequence of frames -/

/-- C22, as the code has it. In the world after `Init`, the first frame acquires image 0
and its `vkQueueSubmit` fails: `DrawFrame` has reset the fence of slot 0 just before, only
writes the error line, and goes on, so that the fence of slot 0 is stuck after the frame.
The second frame uses slot 1, and the third frame starts with `vkWaitForFences` on the
stuck fence of slot 0. When every submission succeeds, the same three frames never wait on
a stuck fence. -/
theorem C22_failed_submission_leaves_fence_stuck :
    (Renderer.DrawFrame
      (initialisedWorldOn friendlyPlatform [VK_SUCCESS, VK_ERROR_OUT_OF_DEVICE_MEMORY])).calls
      = [Call.vkWaitForFences 0, Call.vkAcquireNextImageKHR 0 VK_SUCCESS 0,
         Call.vkMapMemory 35, Call.memcpy, Call.vkUnmapMemory 35,
         Call.vkResetFences 0,
         Call.vkQueueSubmit (some 0) VK_ERROR_OUT_OF_DEVICE_MEMORY,
         Call.cerr "Failed to submit draw command buffer",
         Call.vkQueuePresentKHR 0 VK_SUCCESS] ∧
    fenceStates fencesAfterInit (Renderer.DrawFrame
      (initialisedWorldOn friendlyPlatform [VK_SUCCESS, VK_ERROR_OUT_OF_DEVICE_MEMORY])).calls
      = [FenceState.stuck, FenceState.signaled] ∧
    (Window.Poll_loop [false, false]
      (initialisedWorldOn friendlyPlatform
        [VK_SUCCESS, VK_ERROR_OUT_OF_DEVICE_MEMORY])).world.renderer._current_frame = 0 ∧
    fenceStates fencesAfterInit (Window.Poll_loop [false, false]
      (initialisedWorldOn friendlyPlatform [VK_SUCCESS, VK_ERROR_OUT_OF_DEVICE_MEMORY])).calls
      = [FenceState.stuck, FenceState.pending] ∧
    (Renderer.DrawFrame (Window.Poll_loop [false, false]
      (initialisedWorldOn friendlyPlatform
        [VK_SUCCESS, VK_ERROR_OUT_OF_DEVICE_MEMORY])).world).calls.head?
      = some (Call.vkWaitForFences 0) ∧
    waitsOnStuck fencesAfterInit (Window.Poll_loop [false, false, false]
      (initialisedWorldOn friendlyPlatform [VK_SUCCESS, VK_ERROR_OUT_OF_DEVICE_MEMORY])).calls
      = true ∧
    waitsOnStuck fencesAfterInit (Window.Poll_loop [false, false, false]
      (initialisedWorldOn friendlyPlatform [])).calls = false := by
  refine ⟨by rfl, by decide, by decide, by decide, by rfl, by decide, by decide⟩

end VulkanRenderer
